import Mathlib

/-! # VideoPresenterVulkan: descriptor registry, rendering pipeline and presenter

A shallow embedding of `VideoPresenterVulkan.h` / `VideoPresenterVulkan.cpp`
(AMF C++ samples).  C++ objects are records, member functions are pure functions
from the old object to an `AMF_RESULT`, the new object and the list of the calls
issued to collaborators that live outside these two files (the Vulkan driver,
the swapchain, the surfaces).  Handles and `amf_uint32` values are natural
numbers; the value `0` of a handle is `NULL`, and 32-bit arithmetic is written
with an explicit `% 2 ^ 32`.  Undefined behaviour of the C++ code (a null
dereference, an out-of-bounds vector access) is the result `none`.
-/

namespace AMF

/-! ## Result codes and plain Vulkan records -/

/-- The result codes of `AMF_RESULT` that the two files name; every other code
of the enumeration is `other n`. -/
inductive AMF_RESULT where
  | AMF_OK
  | AMF_FAIL
  | AMF_UNEXPECTED
  | AMF_INVALID_ARG
  | AMF_OUT_OF_RANGE
  | AMF_INVALID_POINTER
  | AMF_ALREADY_INITIALIZED
  | AMF_NOT_INITIALIZED
  | AMF_INVALID_FORMAT
  | AMF_NOT_FOUND
  | AMF_INPUT_FULL
  | AMF_RESOLUTION_UPDATED
  | AMF_NOT_IMPLEMENTED
  | AMF_VULKAN_FAILED
  | AMF_FILE_NOT_OPEN
  | AMF_REPEAT
  | other (code : Nat)
  deriving DecidableEq, Repr

open AMF_RESULT

/-- A Vulkan or AMF handle; `0` is `NULL` / `VK_NULL_HANDLE`. -/
abbrev Handle := Nat

/-- The null handle. -/
abbrev NULL : Handle := 0

/-- `UINT32_MAX`, the marker of a slot without a descriptor set. -/
abbrev UINT32_MAX : Nat := 2 ^ 32 - 1

/-- A `VkResult`; `VK_SUCCESS` is `0`. -/
abbrev VkResult := Int

/-- `VK_SUCCESS`. -/
abbrev VK_SUCCESS : VkResult := 0

/-- `VK_STRUCTURE_TYPE_WRITE_DESCRIPTOR_SET`. -/
abbrev VK_STRUCTURE_TYPE_WRITE_DESCRIPTOR_SET : Nat := 35

/-- `VK_DESCRIPTOR_POOL_CREATE_FREE_DESCRIPTOR_SET_BIT`. -/
abbrev VK_DESCRIPTOR_POOL_CREATE_FREE_DESCRIPTOR_SET_BIT : Nat := 1

/-- The pointee of `m_pVulkanDevice`. -/
structure AMFVulkanDevice where
  hDevice : Handle
  deriving DecidableEq, Repr

/-- The base class `VulkanContext` as far as the two files read it: the device
pointer (`none` is `nullptr`).  The import table returned by `GetVulkan()` is
taken to be valid. -/
structure VulkanContext where
  m_pVulkanDevice : Option AMFVulkanDevice
  deriving DecidableEq, Repr

/-- `VkDescriptorSetLayoutBinding`. -/
structure VkDescriptorSetLayoutBinding where
  binding : Nat
  descriptorType : Nat
  descriptorCount : Nat
  stageFlags : Nat
  deriving DecidableEq, Repr

/-- `struct DescriptorVulkan`. -/
structure DescriptorVulkan where
  layoutBinding : VkDescriptorSetLayoutBinding
  setIndex : Nat
  deriving DecidableEq, Repr

/-- `VkDescriptorPoolSize`. -/
structure VkDescriptorPoolSize where
  type : Nat
  descriptorCount : Nat
  deriving DecidableEq, Repr

/-- `VkDescriptorBufferInfo`. -/
structure VkDescriptorBufferInfo where
  buffer : Handle
  offset : Nat
  range : Nat
  deriving DecidableEq, Repr

/-- `VkDescriptorImageInfo`. -/
structure VkDescriptorImageInfo where
  sampler : Handle
  imageView : Handle
  imageLayout : Nat
  deriving DecidableEq, Repr

/-- A pointer to an array of resource infos: null, an address in the caller's
memory, or the array owned by the `block`-th smart pointer of the registry's
info heap. -/
inductive InfoPtr where
  | null
  | caller (addr : Nat)
  | heap (block : Nat)
  deriving DecidableEq, Repr

/-- `VkWriteDescriptorSet` (the fields the code touches). -/
structure VkWriteDescriptorSet where
  sType : Nat
  dstSet : Handle
  dstBinding : Nat
  dstArrayElement : Nat
  descriptorCount : Nat
  descriptorType : Nat
  pImageInfo : InfoPtr
  pBufferInfo : InfoPtr
  deriving DecidableEq, Repr

/-- The value-initialised `VkWriteDescriptorSet writeInfo = {}`. -/
def VkWriteDescriptorSet.zero : VkWriteDescriptorSet :=
  { sType := 0, dstSet := NULL, dstBinding := 0, dstArrayElement := 0, descriptorCount := 0,
    descriptorType := 0, pImageInfo := InfoPtr.null, pBufferInfo := InfoPtr.null }

/-- The caller's memory as the registry sees it: the resource infos stored at
each address. -/
structure CallerMem where
  buffers : Nat → VkDescriptorBufferInfo
  images : Nat → VkDescriptorImageInfo

/-- The `count` array elements that start at address `p`. -/
def readArray {T : Type} (mem : Nat → T) (p count : Nat) : List T :=
  (List.range count).map (fun i => mem (p + i))

/-- A descriptor write as the driver reads it during `vkUpdateDescriptorSets`:
the two info pointers are replaced by the arrays they point to at that moment
(`none` for a null or dangling pointer). -/
structure ResolvedWrite where
  sType : Nat
  dstSet : Handle
  dstBinding : Nat
  dstArrayElement : Nat
  descriptorCount : Nat
  descriptorType : Nat
  imageInfos : Option (List VkDescriptorImageInfo)
  bufferInfos : Option (List VkDescriptorBufferInfo)
  deriving DecidableEq, Repr

/-- `VkPipelineShaderStageCreateInfo`. -/
structure VkPipelineShaderStageCreateInfo where
  stage : Nat
  module : Handle
  entryPoint : Nat
  deriving DecidableEq, Repr

/-- `VkVertexInputBindingDescription`. -/
structure VkVertexInputBindingDescription where
  binding : Nat
  stride : Nat
  inputRate : Nat
  deriving DecidableEq, Repr

/-- `VkVertexInputAttributeDescription`. -/
structure VkVertexInputAttributeDescription where
  location : Nat
  binding : Nat
  format : Nat
  offset : Nat
  deriving DecidableEq, Repr

/-- A fixed-function state record of `PipelineCreateInfo`: its `sType` and the
rest of its fields, which `CreatePipeline` passes on untouched. -/
structure VkStateInfo where
  sType : Nat
  body : List Nat
  deriving DecidableEq, Repr

/-- `VkPipelineColorBlendStateCreateInfo`: `sType`, the attachment count and
array that `CreatePipeline` fills in, and the remaining fields. -/
structure VkPipelineColorBlendStateCreateInfo where
  sType : Nat
  attachmentCount : Nat
  pAttachments : Option (List (List Nat))
  body : List Nat
  deriving DecidableEq, Repr

/-- `RenderingPipelineVulkan::PipelineCreateInfo`. -/
structure PipelineCreateInfo where
  shaderStages : List VkPipelineShaderStageCreateInfo
  vertexBindingDescs : List VkVertexInputBindingDescription
  vertexAttributeDescs : List VkVertexInputAttributeDescription
  inputAssemblyInfo : VkStateInfo
  viewports : List (List Nat)
  scissors : List (List Nat)
  rasterizationStateInfo : VkStateInfo
  multiSamplingInfo : VkStateInfo
  colorBlendAttachments : List (List Nat)
  colorBlendInfo : VkPipelineColorBlendStateCreateInfo
  depthStencilState : VkStateInfo
  dynamicStates : List Nat
  deriving DecidableEq, Repr

/-- The calls into the Vulkan import table that the two files make, with the
arguments the driver reads. -/
inductive VkCall where
  | vkCreateDescriptorSetLayout (hDevice : Handle) (bindings : List VkDescriptorSetLayoutBinding)
  | vkCreateDescriptorPool (hDevice : Handle) (poolSizes : List VkDescriptorPoolSize)
      (maxSets : Nat) (flags : Nat)
  | vkAllocateDescriptorSets (hDevice : Handle) (pool : Handle) (setLayouts : List Handle)
  | vkFreeDescriptorSets (hDevice : Handle) (pool : Handle) (count : Nat) (sets : List Handle)
  | vkDestroyDescriptorPool (hDevice : Handle) (pool : Handle)
  | vkDestroyDescriptorSetLayout (hDevice : Handle) (layout : Handle)
  | vkUpdateDescriptorSets (hDevice : Handle) (writes : List ResolvedWrite)
  | vkCreatePipelineLayout (hDevice : Handle) (setLayouts : List Handle)
  | vkCreateGraphicsPipelines (hDevice : Handle) (createInfo : PipelineCreateInfo)
      (layout : Handle) (renderPass : Handle) (subpass : Nat)
  | vkDestroyPipeline (hDevice : Handle) (pipeline : Handle)
  | vkDestroyPipelineLayout (hDevice : Handle) (layout : Handle)
  | vkCmdBindPipeline (hCommandBuffer : Handle) (pipeline : Handle)
  | vkCmdBindDescriptorSets (hCommandBuffer : Handle) (layout : Handle) (firstSet : Nat)
      (sets : List Handle)
  | vkCmdBindVertexBuffers (hCommandBuffer : Handle) (buffers : List Handle)
  | vkCmdSetViewport (hCommandBuffer : Handle) (width height : Int)
  | vkCmdSetScissor (hCommandBuffer : Handle) (width height : Int)
  | vkCmdBeginRenderPass (hCommandBuffer : Handle) (renderPass : Handle) (framebuffer : Handle)
      (width height : Int)
  | vkCmdEndRenderPass (hCommandBuffer : Handle)
  | vkCmdDraw (hCommandBuffer : Handle) (vertexCount : Nat)
  | vkDeviceWaitIdle (hDevice : Handle)
  | vkDestroySampler (hDevice : Handle) (sampler : Handle)
  | vkCreateShaderModule (hDevice : Handle) (code : List Nat)
  | vkDestroyShaderModule (hDevice : Handle) (module : Handle)
  | vkCreateSampler (hDevice : Handle)
  deriving DecidableEq, Repr

/-! ## DescriptorHeapVulkan -/

/-- `class DescriptorHeapVulkan : public VulkanContext`. -/
structure DescriptorHeapVulkan extends VulkanContext where
  m_hDescriptorPool : Handle
  m_hDescriptorSets : List Handle
  m_hDescriptorSetLayouts : List Handle
  m_descriptorPoolSizes : List VkDescriptorPoolSize
  m_pendingDescriptorUpdates : List VkWriteDescriptorSet
  m_descriptorBufferInfoHeap : List (List VkDescriptorBufferInfo)
  m_descriptorImageInfoHeap : List (List VkDescriptorImageInfo)
  deriving DecidableEq, Repr

/-- The outcome of a registry member function: the returned code, the registry
afterwards and the Vulkan calls issued, in order. -/
structure HeapOut where
  res : AMF_RESULT
  heap : DescriptorHeapVulkan
  calls : List VkCall
  deriving DecidableEq, Repr

/-- The constructor `DescriptorHeapVulkan()` followed by `VulkanContext::Init`
with the given device. -/
def DescriptorHeapVulkan.init (dev : Option AMFVulkanDevice) : DescriptorHeapVulkan :=
  { m_pVulkanDevice := dev, m_hDescriptorPool := NULL, m_hDescriptorSets := [],
    m_hDescriptorSetLayouts := [], m_descriptorPoolSizes := [],
    m_pendingDescriptorUpdates := [], m_descriptorBufferInfoHeap := [],
    m_descriptorImageInfoHeap := [] }

/-- `DescriptorHeapVulkan::GetDescriptorCount`. -/
def DescriptorHeapVulkan.GetDescriptorCount (h : DescriptorHeapVulkan) : Nat :=
  h.m_hDescriptorSets.length % 2 ^ 32

/-- The common body of `GetDescriptorSet` and `GetDescriptorSetLayout`: `NULL`
when `setIndex >= v.size()`, else `v[setIndex]`. -/
def handleAt (v : List Handle) (setIndex : Nat) : Handle :=
  if setIndex ≥ v.length then NULL else v.getD setIndex NULL

/-- `DescriptorHeapVulkan::GetDescriptorSet`. -/
def DescriptorHeapVulkan.GetDescriptorSet (h : DescriptorHeapVulkan) (setIndex : Nat) : Handle :=
  handleAt h.m_hDescriptorSets setIndex

/-- `DescriptorHeapVulkan::GetDescriptorSetLayout`. -/
def DescriptorHeapVulkan.GetDescriptorSetLayout (h : DescriptorHeapVulkan) (setIndex : Nat) :
    Handle :=
  handleAt h.m_hDescriptorSetLayouts setIndex

/-- The array an info pointer designates when the driver reads `count` elements
through it: caller memory as it is now, or the block of the registry's heap. -/
def derefInfo {T : Type} (mem : Nat → T) (infoHeap : List (List T)) (count : Nat) :
    InfoPtr → Option (List T)
  | InfoPtr.null => none
  | InfoPtr.caller p => some (readArray mem p count)
  | InfoPtr.heap b => infoHeap[b]?.map (fun blk => blk.take count)

/-- What the driver reads from a `VkWriteDescriptorSet` at the time of the call. -/
def resolveWrite (h : DescriptorHeapVulkan) (mem : CallerMem) (w : VkWriteDescriptorSet) :
    ResolvedWrite :=
  { sType := w.sType, dstSet := w.dstSet, dstBinding := w.dstBinding,
    dstArrayElement := w.dstArrayElement, descriptorCount := w.descriptorCount,
    descriptorType := w.descriptorType,
    imageInfos := derefInfo mem.images h.m_descriptorImageInfoHeap w.descriptorCount w.pImageInfo,
    bufferInfos :=
      derefInfo mem.buffers h.m_descriptorBufferInfoHeap w.descriptorCount w.pBufferInfo }

/-- `DescriptorHeapVulkan::ProcessUpdateInfo<UpdateInfo_T>`.  `pUpdateInfos` is
an address in the caller's memory `mem`, readable for `count` elements;
`ppOut` is the value of `*ppOutUpdateInfos` on entry.  Returns the code, the
info heap and `*ppOutUpdateInfos` on exit. -/
def ProcessUpdateInfo {T : Type} (count : Nat) (pUpdateInfos : Nat) (mem : Nat → T)
    (immediate : Bool) (infoHeap : List (List T)) (ppOut : InfoPtr) :
    AMF_RESULT × List (List T) × InfoPtr :=
  -- if (immediate == true) { *ppOutUpdateInfos = pUpdateInfos; }
  let _ppOut1 : InfoPtr := if immediate = true then InfoPtr.caller pUpdateInfos else ppOut
  -- spBufferInfo(new UpdateInfo_T[count]); memcpy(...)
  let spBufferInfo : List T := readArray mem pUpdateInfos count
  -- *ppOutUpdateInfos = spBufferInfo.get(); infoHeap.push_back(std::move(spBufferInfo));
  let ppOut2 : InfoPtr := InfoPtr.heap infoHeap.length
  (AMF_OK, infoHeap ++ [spBufferInfo], ppOut2)

/-- The outcome of the `VkWriteDescriptorSet&` overload of `UpdateDescriptorSet`:
as `HeapOut`, with the write record the caller gets back by reference. -/
structure UpdateOut where
  res : AMF_RESULT
  heap : DescriptorHeapVulkan
  calls : List VkCall
  writeInfo : VkWriteDescriptorSet
  deriving DecidableEq, Repr

/-- `DescriptorHeapVulkan::UpdateDescriptorSet(pDescriptor, arrayIndex, count,
VkWriteDescriptorSet& writeInfo, immediate)`; `mem` is the caller's memory at
the time of the call. -/
def DescriptorHeapVulkan.UpdateDescriptorSetWrite (h : DescriptorHeapVulkan) (mem : CallerMem)
    (pDescriptor : Option DescriptorVulkan) (arrayIndex count : Nat)
    (writeInfo : VkWriteDescriptorSet) (immediate : Bool) : UpdateOut :=
  match pDescriptor with
  | none => { res := AMF_INVALID_ARG, heap := h, calls := [], writeInfo := writeInfo }
  | some d =>
    match h.m_pVulkanDevice with
    | none => { res := AMF_NOT_INITIALIZED, heap := h, calls := [], writeInfo := writeInfo }
    | some dev =>
      if dev.hDevice = NULL then
        { res := AMF_NOT_INITIALIZED, heap := h, calls := [], writeInfo := writeInfo }
      else
        let descriptorSet := h.GetDescriptorSet d.setIndex
        if descriptorSet = NULL then
          { res := AMF_NOT_INITIALIZED, heap := h, calls := [], writeInfo := writeInfo }
        else
          let w : VkWriteDescriptorSet :=
            { writeInfo with
              sType := VK_STRUCTURE_TYPE_WRITE_DESCRIPTOR_SET
              dstSet := descriptorSet
              dstBinding := d.layoutBinding.binding
              dstArrayElement := arrayIndex
              descriptorType := d.layoutBinding.descriptorType
              descriptorCount := count }
          if immediate = true then
            { res := AMF_OK, heap := h,
              calls := [VkCall.vkUpdateDescriptorSets dev.hDevice [resolveWrite h mem w]],
              writeInfo := w }
          else
            { res := AMF_OK,
              heap := { h with m_pendingDescriptorUpdates := h.m_pendingDescriptorUpdates ++ [w] },
              calls := [], writeInfo := w }

/-- `DescriptorHeapVulkan::UpdateDescriptorSet(pDescriptor, arrayIndex, count,
const VkDescriptorBufferInfo* pBufferInfos, immediate)`. -/
def DescriptorHeapVulkan.UpdateDescriptorSetBuffer (h : DescriptorHeapVulkan) (mem : CallerMem)
    (pDescriptor : Option DescriptorVulkan) (arrayIndex count : Nat) (pBufferInfos : Nat)
    (immediate : Bool) : HeapOut :=
  if pDescriptor = none then { res := AMF_INVALID_ARG, heap := h, calls := [] }
  else if ¬ (count > 0) then { res := AMF_INVALID_ARG, heap := h, calls := [] }
  else
    let writeInfo := VkWriteDescriptorSet.zero
    let p := ProcessUpdateInfo count pBufferInfos mem.buffers immediate
      h.m_descriptorBufferInfoHeap writeInfo.pBufferInfo
    let h1 := { h with m_descriptorBufferInfoHeap := p.2.1 }
    let writeInfo1 := { writeInfo with pBufferInfo := p.2.2 }
    let r := h1.UpdateDescriptorSetWrite mem pDescriptor arrayIndex count writeInfo1 immediate
    { res := r.res, heap := r.heap, calls := r.calls }

/-- `DescriptorHeapVulkan::UpdateDescriptorSet(pDescriptor, arrayIndex, count,
const VkDescriptorImageInfo* pImageInfos, immediate)`. -/
def DescriptorHeapVulkan.UpdateDescriptorSetImage (h : DescriptorHeapVulkan) (mem : CallerMem)
    (pDescriptor : Option DescriptorVulkan) (arrayIndex count : Nat) (pImageInfos : Nat)
    (immediate : Bool) : HeapOut :=
  if pDescriptor = none then { res := AMF_INVALID_ARG, heap := h, calls := [] }
  else if ¬ (count > 0) then { res := AMF_INVALID_ARG, heap := h, calls := [] }
  else
    let writeInfo := VkWriteDescriptorSet.zero
    let p := ProcessUpdateInfo count pImageInfos mem.images immediate
      h.m_descriptorImageInfoHeap writeInfo.pImageInfo
    let h1 := { h with m_descriptorImageInfoHeap := p.2.1 }
    let writeInfo1 := { writeInfo with pImageInfo := p.2.2 }
    let r := h1.UpdateDescriptorSetWrite mem pDescriptor arrayIndex count writeInfo1 immediate
    { res := r.res, heap := r.heap, calls := r.calls }

/-- `DescriptorHeapVulkan::UpdatePendingDescriptorSets`; `mem` is the caller's
memory at the time of the call.  The source passes the count
`(amf_uint32)m_pendingDescriptorUpdates.size()` with the array; the call is
recorded with the whole list, which is what the driver reads as long as the
list has fewer than 2^32 entries. -/
def DescriptorHeapVulkan.UpdatePendingDescriptorSets (h : DescriptorHeapVulkan) (mem : CallerMem) :
    HeapOut :=
  match h.m_pVulkanDevice with
  | none => { res := AMF_NOT_INITIALIZED, heap := h, calls := [] }
  | some dev =>
    if dev.hDevice = NULL then { res := AMF_NOT_INITIALIZED, heap := h, calls := [] }
    else if h.m_pendingDescriptorUpdates.isEmpty then { res := AMF_OK, heap := h, calls := [] }
    else
      { res := AMF_OK,
        heap := { h with m_pendingDescriptorUpdates := [], m_descriptorBufferInfoHeap := [],
                         m_descriptorImageInfoHeap := [] },
        calls := [VkCall.vkUpdateDescriptorSets dev.hDevice
                    (h.m_pendingDescriptorUpdates.map (resolveWrite h mem))] }

/-- The outcome of `DescriptorHeapVulkan::RegisterDescriptorSet`: as `HeapOut`,
with the descriptors behind `ppDescriptors` as the call leaves them. -/
structure RegisterOut where
  res : AMF_RESULT
  heap : DescriptorHeapVulkan
  descriptors : List (Option DescriptorVulkan)
  calls : List VkCall
  deriving DecidableEq, Repr

/-- The loop of `AMF_RETURN_IF_INVALID_POINTER(ppDescriptors[i], ...)` over
`i < count`: `some true` when all `count` pointers are non-null, `some false`
at the first null pointer, `none` when the loop reads past the array. -/
def checkDescriptorPointers : List (Option DescriptorVulkan) → Nat → Option Bool
  | _, 0 => some true
  | [], _ + 1 => none
  | none :: _, _ + 1 => some false
  | some _ :: ds, n + 1 => checkDescriptorPointers ds n

/-- The second loop of `RegisterDescriptorSet` on the descriptors: the first
`count` of them get `setIndex`. -/
def assignSetIndex (setIndex : Nat) : List (Option DescriptorVulkan) → Nat →
    List (Option DescriptorVulkan)
  | ds, 0 => ds
  | [], _ + 1 => []
  | d :: ds, n + 1 =>
    (d.map (fun x => { x with setIndex := setIndex })) :: assignSetIndex setIndex ds n

/-- The layout bindings of the first `count` descriptors, in order. -/
def collectBindings : List (Option DescriptorVulkan) → Nat → List VkDescriptorSetLayoutBinding
  | _, 0 => []
  | [], _ + 1 => []
  | none :: ds, n + 1 => collectBindings ds n
  | some d :: ds, n + 1 => d.layoutBinding :: collectBindings ds n

/-- `DescriptorHeapVulkan::RegisterDescriptorSet(ppDescriptors, count)`.
`ppDescriptors` is `none` for a null array, else the pointed-to descriptors
(`none` entries are null pointers).  `layoutResp` is the driver's answer to
`vkCreateDescriptorSetLayout`: the `VkResult` and the handle it stores.
`ASSERT_RETURN_IF_VK_FAILED(vkres, err, ...)` returns `err` unless `vkres` is
`VK_SUCCESS`.  The result is `none` when the call reads past the array or
dereferences a null `m_pVulkanDevice`. -/
def DescriptorHeapVulkan.RegisterDescriptorSet (h : DescriptorHeapVulkan)
    (ppDescriptors : Option (List (Option DescriptorVulkan))) (count : Nat)
    (layoutResp : VkResult × Handle) : Option RegisterOut :=
  if h.m_hDescriptorPool ≠ NULL then
    some { res := AMF_FAIL, heap := h, descriptors := ppDescriptors.getD [], calls := [] }
  else
    match ppDescriptors with
    | none => some { res := AMF_INVALID_ARG, heap := h, descriptors := [], calls := [] }
    | some ds =>
      if ¬ (count > 0) then
        some { res := AMF_INVALID_ARG, heap := h, descriptors := ds, calls := [] }
      else
        match checkDescriptorPointers ds count with
        | none => none
        | some false =>
          some { res := AMF_INVALID_POINTER, heap := h, descriptors := ds, calls := [] }
        | some true =>
          let setIndex := h.m_hDescriptorSetLayouts.length % 2 ^ 32
          let bindings := collectBindings ds count
          let ds1 := assignSetIndex setIndex ds count
          let poolSizes := h.m_descriptorPoolSizes ++
            bindings.map (fun b => { type := b.descriptorType,
                                     descriptorCount := b.descriptorCount })
          match h.m_pVulkanDevice with
          | none => none
          | some dev =>
            -- m_hDescriptorSetLayouts.push_back(NULL); the driver writes into back()
            let h1 := { h with m_descriptorPoolSizes := poolSizes,
                               m_hDescriptorSetLayouts := h.m_hDescriptorSetLayouts ++ [layoutResp.2] }
            let calls := [VkCall.vkCreateDescriptorSetLayout dev.hDevice bindings]
            if layoutResp.1 ≠ VK_SUCCESS then
              some { res := AMF_VULKAN_FAILED, heap := h1, descriptors := ds1, calls := calls }
            else
              some { res := AMF_OK, heap := h1, descriptors := ds1, calls := calls }

/-- `DescriptorHeapVulkan::CreateDescriptors`.  `poolResp` and `allocResp` are
the driver's answers to `vkCreateDescriptorPool` (result, pool handle stored)
and `vkAllocateDescriptorSets` (result, set handles stored).  The pool sizes
are passed with the count `(amf_uint32)m_descriptorPoolSizes.size()`; the call
is recorded with the whole list, which is what the driver reads as long as the
list has fewer than 2^32 entries. -/
def DescriptorHeapVulkan.CreateDescriptors (h : DescriptorHeapVulkan)
    (poolResp : VkResult × Handle) (allocResp : VkResult × List Handle) : HeapOut :=
  match h.m_pVulkanDevice with
  | none => { res := AMF_NOT_INITIALIZED, heap := h, calls := [] }
  | some dev =>
    if dev.hDevice = NULL then { res := AMF_NOT_INITIALIZED, heap := h, calls := [] }
    else if h.m_hDescriptorPool ≠ NULL then
      { res := AMF_ALREADY_INITIALIZED, heap := h, calls := [] }
    else if h.m_hDescriptorSets.length ≠ 0 then
      { res := AMF_ALREADY_INITIALIZED, heap := h, calls := [] }
    else if h.m_hDescriptorSetLayouts.length = 0 then
      if h.m_descriptorPoolSizes.length ≠ 0 then
        { res := AMF_UNEXPECTED, heap := h, calls := [] }
      else { res := AMF_OK, heap := h, calls := [] }
    else
      let n := h.m_hDescriptorSetLayouts.length
      let c1 := VkCall.vkCreateDescriptorPool dev.hDevice h.m_descriptorPoolSizes (n % 2 ^ 32)
        VK_DESCRIPTOR_POOL_CREATE_FREE_DESCRIPTOR_SET_BIT
      let h1 := { h with m_hDescriptorPool := poolResp.2 }
      if poolResp.1 ≠ VK_SUCCESS then
        { res := AMF_VULKAN_FAILED, heap := h1, calls := [c1] }
      else
        -- m_hDescriptorSets.resize(n, NULL); the driver writes the first n % 2^32 handles
        let sets := (List.range n).map
          (fun i => if i < n % 2 ^ 32 then allocResp.2.getD i NULL else NULL)
        let c2 := VkCall.vkAllocateDescriptorSets dev.hDevice poolResp.2
          (h.m_hDescriptorSetLayouts.take (n % 2 ^ 32))
        let h2 := { h1 with m_hDescriptorSets := sets }
        if allocResp.1 ≠ VK_SUCCESS then
          { res := AMF_VULKAN_FAILED, heap := h2, calls := [c1, c2] }
        else
          { res := AMF_OK, heap := h2, calls := [c1, c2] }

/-- `DescriptorHeapVulkan::Terminate`.  `ctxTerminate` is the base class's
`VulkanContext::Terminate`, which is not part of the two files. -/
def DescriptorHeapVulkan.Terminate (ctxTerminate : VulkanContext → AMF_RESULT × VulkanContext)
    (h : DescriptorHeapVulkan) : HeapOut :=
  match h.m_pVulkanDevice with
  | none => { res := AMF_OK, heap := h, calls := [] }
  | some dev =>
    let c1 := if h.m_hDescriptorSets.isEmpty = false then
        [VkCall.vkFreeDescriptorSets dev.hDevice h.m_hDescriptorPool 1 (h.m_hDescriptorSets.take 1)]
      else []
    let c2 := if h.m_hDescriptorPool ≠ NULL then
        [VkCall.vkDestroyDescriptorPool dev.hDevice h.m_hDescriptorPool]
      else []
    let c3 := h.m_hDescriptorSetLayouts.map (fun l => VkCall.vkDestroyDescriptorSetLayout dev.hDevice l)
    let t := ctxTerminate h.toVulkanContext
    { res := t.1,
      heap := { toVulkanContext := t.2, m_hDescriptorPool := NULL, m_hDescriptorSets := [],
                m_hDescriptorSetLayouts := [], m_descriptorPoolSizes := [],
                m_pendingDescriptorUpdates := [], m_descriptorBufferInfoHeap := [],
                m_descriptorImageInfoHeap := [] },
      calls := c1 ++ c2 ++ c3 }

/-! ### The driver's descriptor tables

The bindings a shader sees are state of the Vulkan driver, outside the two
files.  They are modelled from the Vulkan rules for `vkUpdateDescriptorSets`:
a write of `descriptorCount` elements replaces the array elements
`dstArrayElement ..` of binding `dstBinding` of set `dstSet`; image-class
descriptor types take their elements from `pImageInfo`, buffer-class types from
`pBufferInfo`. -/

/-- What is bound to one array element of one binding. -/
inductive BoundResource where
  | image (info : VkDescriptorImageInfo)
  | buffer (info : VkDescriptorBufferInfo)
  deriving DecidableEq, Repr

/-- The GPU-visible bindings: for a set handle, a binding number and an array
element, the bound resource if any. -/
abbrev GpuBindings := Handle → Nat → Nat → Option BoundResource

/-- Sampler, combined image sampler, sampled image, storage image, input
attachment. -/
def isImageDescriptorType (t : Nat) : Bool :=
  t = 0 ∨ t = 1 ∨ t = 2 ∨ t = 3 ∨ t = 10

/-- Uniform buffer, storage buffer and their dynamic variants. -/
def isBufferDescriptorType (t : Nat) : Bool :=
  t = 6 ∨ t = 7 ∨ t = 8 ∨ t = 9

/-- The resource a write puts into its `i`-th element, if it has one. -/
def ResolvedWrite.element (w : ResolvedWrite) (i : Nat) : Option BoundResource :=
  if isImageDescriptorType w.descriptorType then
    (w.imageInfos.bind (fun l => l[i]?)).map BoundResource.image
  else if isBufferDescriptorType w.descriptorType then
    (w.bufferInfos.bind (fun l => l[i]?)).map BoundResource.buffer
  else none

/-- One descriptor write applied to the bindings. -/
def applyWrite (g : GpuBindings) (w : ResolvedWrite) : GpuBindings :=
  fun set binding elem =>
    if set = w.dstSet ∧ binding = w.dstBinding ∧ w.dstArrayElement ≤ elem ∧
        elem < w.dstArrayElement + w.descriptorCount then
      match w.element (elem - w.dstArrayElement) with
      | some r => some r
      | none => g set binding elem
    else g set binding elem

/-- The effect of one Vulkan call on the bindings. -/
def gpuStep (g : GpuBindings) : VkCall → GpuBindings
  | VkCall.vkUpdateDescriptorSets _ writes => writes.foldl applyWrite g
  | _ => g

/-- The bindings after a sequence of Vulkan calls. -/
def gpuRun (g : GpuBindings) (calls : List VkCall) : GpuBindings :=
  calls.foldl gpuStep g

/-- One call of `DescriptorHeapVulkan::RegisterDescriptorSet`: its arguments
and the driver's answer to the `vkCreateDescriptorSetLayout` it may issue. -/
structure RegisterCall where
  ppDescriptors : Option (List (Option DescriptorVulkan))
  count : Nat
  layoutResp : VkResult × Handle

/-- The registry after a sequence of `RegisterDescriptorSet` calls, whatever
each of them returns; `none` when one of them has undefined behaviour. -/
def DescriptorHeapVulkan.registerAll (h : DescriptorHeapVulkan) :
    List RegisterCall → Option DescriptorHeapVulkan
  | [] => some h
  | c :: cs =>
    match h.RegisterDescriptorSet c.ppDescriptors c.count c.layoutResp with
    | none => none
    | some r => r.heap.registerAll cs

/-! ## RenderingPipelineVulkan -/

/-- `RenderingPipelineVulkan::DescriptorSetGroup`. -/
structure DescriptorSetGroup where
  descriptorSetIndices : List Nat
  descriptorSetHandles : List Handle
  deriving DecidableEq, Repr

/-- The value-initialised group that `operator[]` inserts. -/
def DescriptorSetGroup.empty : DescriptorSetGroup :=
  { descriptorSetIndices := [], descriptorSetHandles := [] }

/-- `DescriptorSetGroupMap`, a `std::unordered_map<amf_uint32, DescriptorSetGroup>`:
its entries, each key at most once.  The order of the list has no counterpart
in the C++ object: lookups go by key, and the order in which a loop visits the
entries is that of `MapOrder`. -/
abbrev DescriptorSetGroupMap := List (Nat × DescriptorSetGroup)

/-- The order in which `for (auto& entry : map)` visits the entries of a
`std::unordered_map`.  C++ leaves it to the implementation; all that is known
is that every entry is visited once. -/
structure MapOrder where
  iterate : DescriptorSetGroupMap → DescriptorSetGroupMap
  perm : ∀ m : DescriptorSetGroupMap, (iterate m).Perm m

/-- `m.find(groupNum)`: the group stored under the key, if any. -/
def groupFind : DescriptorSetGroupMap → Nat → Option DescriptorSetGroup
  | [], _ => none
  | (k, v) :: rest, groupNum => if k = groupNum then some v else groupFind rest groupNum

/-- Storing a group under a key: in place when the key is present, as a new
entry otherwise. -/
def groupStore : DescriptorSetGroupMap → Nat → DescriptorSetGroup → DescriptorSetGroupMap
  | [], groupNum, grp => [(groupNum, grp)]
  | (k, v) :: rest, groupNum, grp =>
    if k = groupNum then (k, grp) :: rest else (k, v) :: groupStore rest groupNum grp

/-- `std::vector::resize(n, value)`. -/
def vectorResize (v : List Nat) (n : Nat) (value : Nat) : List Nat :=
  if n ≤ v.length then v.take n else v ++ List.replicate (n - v.length) value

/-- `class RenderingPipelineVulkan : public VulkanContext`.  `m_pDescriptorHeap`
is `true` when the pointer is non-null; the registry it points to is passed to
the member functions that dereference it. -/
structure RenderingPipelineVulkan extends VulkanContext where
  m_pDescriptorHeap : Bool
  m_hRenderPass : Handle
  m_hPipeline : Handle
  m_hPipelineLayout : Handle
  m_descriptorSetGroupMap : DescriptorSetGroupMap
  m_hDescriptorSetLayouts : List Handle
  deriving DecidableEq, Repr

/-- The outcome of a pipeline member function. -/
structure PipelineOut where
  res : AMF_RESULT
  pipeline : RenderingPipelineVulkan
  calls : List VkCall
  deriving DecidableEq, Repr

/-- The constructor `RenderingPipelineVulkan()`. -/
def RenderingPipelineVulkan.new : RenderingPipelineVulkan :=
  { m_pVulkanDevice := none, m_pDescriptorHeap := false, m_hRenderPass := NULL,
    m_hPipeline := NULL, m_hPipelineLayout := NULL, m_descriptorSetGroupMap := [],
    m_hDescriptorSetLayouts := [] }

/-- The loop of `RenderingPipelineVulkan::RegisterDescriptorSet` over
`pGroups[0 .. groupCount)`.  `none` when it reads past `pGroups` or indexes
`descriptorSetIndices` out of bounds. -/
def registerGroups (setIndex setNum : Nat) :
    DescriptorSetGroupMap → List Nat → Nat → Option (AMF_RESULT × DescriptorSetGroupMap)
  | m, _, 0 => some (AMF_OK, m)
  | _, [], _ + 1 => none
  | m, groupNum :: gs, n + 1 =>
    -- DescriptorSetGroup& setGroup = m_descriptorSetGroupMap[groupNum];
    let setGroup := (groupFind m groupNum).getD DescriptorSetGroup.empty
    let indices :=
      if setNum ≥ setGroup.descriptorSetIndices.length then
        vectorResize setGroup.descriptorSetIndices ((setNum + 1) % 2 ^ 32) UINT32_MAX
      else setGroup.descriptorSetIndices
    match indices[setNum]? with
    | none => none
    | some cur =>
      if cur ≠ UINT32_MAX then
        some (AMF_INVALID_ARG,
          groupStore m groupNum { setGroup with descriptorSetIndices := indices })
      else
        registerGroups setIndex setNum
          (groupStore m groupNum
            { setGroup with descriptorSetIndices := indices.set setNum setIndex }) gs n

/-- `RenderingPipelineVulkan::RegisterDescriptorSet(setIndex, setNum, pGroups,
groupCount)`.  `heap` is the registry behind `m_pDescriptorHeap`; `pGroups` is
`none` for a null pointer.  `none` is undefined behaviour. -/
def RenderingPipelineVulkan.RegisterDescriptorSet (p : RenderingPipelineVulkan)
    (heap : DescriptorHeapVulkan) (setIndex setNum : Nat) (pGroups : Option (List Nat))
    (groupCount : Nat) : Option PipelineOut :=
  if p.m_hPipeline ≠ NULL then some { res := AMF_FAIL, pipeline := p, calls := [] }
  else
    match pGroups with
    | none => some { res := AMF_INVALID_ARG, pipeline := p, calls := [] }
    | some groups =>
      if ¬ (groupCount > 0) then some { res := AMF_INVALID_ARG, pipeline := p, calls := [] }
      else if p.m_pDescriptorHeap = false then none
      else
        let hLayout := heap.GetDescriptorSetLayout setIndex
        if hLayout = NULL then some { res := AMF_UNEXPECTED, pipeline := p, calls := [] }
        else
          let p1 := { p with m_hDescriptorSetLayouts := p.m_hDescriptorSetLayouts ++ [hLayout] }
          match registerGroups setIndex setNum p1.m_descriptorSetGroupMap groups groupCount with
          | none => none
          | some r =>
            some { res := r.1, pipeline := { p1 with m_descriptorSetGroupMap := r.2 },
                   calls := [] }

/-- The inner loop of `CreatePipeline` over one group's `descriptorSetIndices`;
`handles` is `descriptorSetHandles` so far. -/
def resolveGroup (heap : DescriptorHeapVulkan) (descriptorCount : Nat) :
    List Nat → List Handle → AMF_RESULT × List Handle
  | [], handles => (AMF_OK, handles)
  | setIndex :: rest, handles =>
    if ¬ (setIndex < descriptorCount) then (AMF_OUT_OF_RANGE, handles)
    else
      let hDescriptorSet := heap.GetDescriptorSet setIndex
      if hDescriptorSet = NULL then (AMF_UNEXPECTED, handles)
      else resolveGroup heap descriptorCount rest (handles ++ [hDescriptorSet])

/-- The outer loop of `CreatePipeline` over the entries of the group map, in the
order in which the loop visits them. -/
def resolveGroups (heap : DescriptorHeapVulkan) (descriptorCount : Nat) :
    DescriptorSetGroupMap → AMF_RESULT × DescriptorSetGroupMap
  | [] => (AMF_OK, [])
  | (groupNum, group) :: rest =>
    -- group.descriptorSetHandles.clear();
    let r := resolveGroup heap descriptorCount group.descriptorSetIndices []
    let group1 := { group with descriptorSetHandles := r.2 }
    if r.1 ≠ AMF_OK then (r.1, (groupNum, group1) :: rest)
    else
      let rr := resolveGroups heap descriptorCount rest
      (rr.1, (groupNum, group1) :: rr.2)

/-- The outcome of `CreatePipeline`: as `PipelineOut`, with `createInfo` as the
caller gets it back by reference. -/
structure CreatePipelineOut where
  res : AMF_RESULT
  pipeline : RenderingPipelineVulkan
  calls : List VkCall
  createInfo : PipelineCreateInfo
  deriving DecidableEq, Repr

/-- `RenderingPipelineVulkan::CreatePipeline(createInfo, hRenderPass, subpass)`.
`ord` is the iteration order of the group map; `heap` is the registry behind
`m_pDescriptorHeap`; `layoutResp` and `pipelineResp` are the driver's answers to
`vkCreatePipelineLayout` and `vkCreateGraphicsPipelines` (result, handle
stored).  `none` is the dereference of a null `m_pDescriptorHeap`. -/
def RenderingPipelineVulkan.CreatePipeline (p : RenderingPipelineVulkan) (ord : MapOrder)
    (heap : DescriptorHeapVulkan) (createInfo : PipelineCreateInfo) (hRenderPass : Handle)
    (subpass : Nat) (layoutResp pipelineResp : VkResult × Handle) : Option CreatePipelineOut :=
  match p.m_pVulkanDevice with
  | none => some { res := AMF_NOT_INITIALIZED, pipeline := p, calls := [], createInfo := createInfo }
  | some dev =>
    if dev.hDevice = NULL then
      some { res := AMF_NOT_INITIALIZED, pipeline := p, calls := [], createInfo := createInfo }
    else if hRenderPass = NULL then
      some { res := AMF_NOT_INITIALIZED, pipeline := p, calls := [], createInfo := createInfo }
    else if p.m_hRenderPass ≠ NULL then
      some { res := AMF_ALREADY_INITIALIZED, pipeline := p, calls := [], createInfo := createInfo }
    else if p.m_hPipelineLayout ≠ NULL then
      some { res := AMF_ALREADY_INITIALIZED, pipeline := p, calls := [], createInfo := createInfo }
    else if p.m_hPipeline ≠ NULL then
      some { res := AMF_ALREADY_INITIALIZED, pipeline := p, calls := [], createInfo := createInfo }
    else
      let p1 := { p with m_hRenderPass := hRenderPass }
      let ci : PipelineCreateInfo :=
        { createInfo with
          inputAssemblyInfo := { createInfo.inputAssemblyInfo with sType := 20 }
          rasterizationStateInfo := { createInfo.rasterizationStateInfo with sType := 23 }
          multiSamplingInfo := { createInfo.multiSamplingInfo with sType := 24 }
          depthStencilState := { createInfo.depthStencilState with sType := 25 }
          colorBlendInfo :=
            { createInfo.colorBlendInfo with
              sType := 26
              attachmentCount := createInfo.colorBlendAttachments.length % 2 ^ 32
              pAttachments :=
                if createInfo.colorBlendAttachments.isEmpty then none
                else some createInfo.colorBlendAttachments } }
      let c1 := VkCall.vkCreatePipelineLayout dev.hDevice
        (p.m_hDescriptorSetLayouts.take (p.m_hDescriptorSetLayouts.length % 2 ^ 32))
      let p2 := { p1 with m_hPipelineLayout := layoutResp.2 }
      if layoutResp.1 ≠ VK_SUCCESS then
        some { res := AMF_VULKAN_FAILED, pipeline := p2, calls := [c1], createInfo := ci }
      else
        let c2 := VkCall.vkCreateGraphicsPipelines dev.hDevice ci layoutResp.2 hRenderPass subpass
        let p3 := { p2 with m_hPipeline := pipelineResp.2 }
        if pipelineResp.1 ≠ VK_SUCCESS then
          some { res := AMF_VULKAN_FAILED, pipeline := p3, calls := [c1, c2], createInfo := ci }
        else if p.m_pDescriptorHeap = false then none
        else
          let descriptorCount := heap.GetDescriptorCount
          let r := resolveGroups heap descriptorCount (ord.iterate p.m_descriptorSetGroupMap)
          some { res := r.1, pipeline := { p3 with m_descriptorSetGroupMap := r.2 },
                 calls := [c1, c2], createInfo := ci }

/-- `RenderingPipelineVulkan::Terminate`.  `ctxTerminate` is the base class's
`VulkanContext::Terminate`. -/
def RenderingPipelineVulkan.Terminate
    (ctxTerminate : VulkanContext → AMF_RESULT × VulkanContext) (p : RenderingPipelineVulkan) :
    PipelineOut :=
  match p.m_pVulkanDevice with
  | none => { res := AMF_OK, pipeline := p, calls := [] }
  | some dev =>
    let c1 := if p.m_hPipeline ≠ NULL then [VkCall.vkDestroyPipeline dev.hDevice p.m_hPipeline]
      else []
    let c2 := if p.m_hPipelineLayout ≠ NULL then
        [VkCall.vkDestroyPipelineLayout dev.hDevice p.m_hPipelineLayout]
      else []
    let t := ctxTerminate p.toVulkanContext
    { res := t.1,
      pipeline := { toVulkanContext := t.2, m_pDescriptorHeap := p.m_pDescriptorHeap,
                    m_hRenderPass := NULL, m_hPipeline := NULL, m_hPipelineLayout := NULL,
                    m_descriptorSetGroupMap := [], m_hDescriptorSetLayouts := [] },
      calls := c1 ++ c2 }

/-- The set index stored in slot `setNum` of group `groupNum`, if the group and
the slot exist. -/
def RenderingPipelineVulkan.slot (p : RenderingPipelineVulkan) (groupNum setNum : Nat) :
    Option Nat :=
  (groupFind p.m_descriptorSetGroupMap groupNum).bind
    (fun g => g.descriptorSetIndices[setNum]?)

/-- One call of `RenderingPipelineVulkan::RegisterDescriptorSet`, with the
registry as it is at the time of the call. -/
structure PipelineRegisterCall where
  heap : DescriptorHeapVulkan
  setIndex : Nat
  setNum : Nat
  pGroups : Option (List Nat)
  groupCount : Nat

/-- The pipeline after a sequence of `RegisterDescriptorSet` calls, whatever
each of them returns; `none` when one of them has undefined behaviour. -/
def RenderingPipelineVulkan.registerAll (p : RenderingPipelineVulkan) :
    List PipelineRegisterCall → Option RenderingPipelineVulkan
  | [] => some p
  | c :: cs =>
    match p.RegisterDescriptorSet c.heap c.setIndex c.setNum c.pGroups c.groupCount with
    | none => none
    | some r => r.pipeline.registerAll cs

/-! ## VideoPresenterVulkan

The presenter talks to objects that are defined outside the two files: the
surfaces it is handed, the swapchain `m_swapChain`, the command buffer
`m_cmdBuffer` and its base classes.  Their state is a value of an arbitrary type
`W`, and what they do is a record `Env W` of functions on `W`; the theorems hold
for every `W` and every `Env W`.  A member function of the presenter returns,
besides its result and the new presenter, the new `W` and the list of the calls
it made, in order. -/

/-- `AMFRect`. -/
structure AMFRect where
  left : Int
  top : Int
  right : Int
  bottom : Int
  deriving DecidableEq, Repr

/-- `AMFRect::Width`. -/
def AMFRect.Width (r : AMFRect) : Int := r.right - r.left

/-- `AMFRect::Height`. -/
def AMFRect.Height (r : AMFRect) : Int := r.bottom - r.top

/-- `AMFSize`. -/
structure AMFSize where
  width : Int
  height : Int
  deriving DecidableEq, Repr

/-- `amf::AMF_SURFACE_FORMAT`, by enumeration value. -/
abbrev AMF_SURFACE_FORMAT := Nat

/-- `AMF_SURFACE_BGRA`. -/
abbrev AMF_SURFACE_BGRA : AMF_SURFACE_FORMAT := 3

/-- `AMF_SURFACE_RGBA`. -/
abbrev AMF_SURFACE_RGBA : AMF_SURFACE_FORMAT := 5

/-- `amf::AMF_MEMORY_TYPE`, by enumeration value. -/
abbrev AMF_MEMORY_TYPE := Nat

/-- `AMF_MEMORY_VULKAN`. -/
abbrev AMF_MEMORY_VULKAN : AMF_MEMORY_TYPE := 10

/-- `VK_IMAGE_LAYOUT_SHADER_READ_ONLY_OPTIMAL`. -/
abbrev VK_IMAGE_LAYOUT_SHADER_READ_ONLY_OPTIMAL : Nat := 5

/-- `VK_PIPELINE_STAGE_COLOR_ATTACHMENT_OUTPUT_BIT`. -/
abbrev VK_PIPELINE_STAGE_COLOR_ATTACHMENT_OUTPUT_BIT : Nat := 1024

/-- `DSG_PRESENT_SURFACE`. -/
abbrev DSG_PRESENT_SURFACE : Nat := 0

/-- `sizeof(Vertex)`: three position floats and two texture floats. -/
abbrev sizeofVertex : Nat := 20

/-- `amf::AMFVulkanBuffer` (the fields the code reads). -/
structure AMFVulkanBuffer where
  hBuffer : Handle
  hMemory : Handle
  iSize : Nat
  deriving DecidableEq, Repr

/-- `amf::AMFVulkanView`: the image view and the pointer to its
`AMFVulkanSurface` (`none` is null). -/
structure AMFVulkanView where
  hView : Handle
  pSurface : Option Nat
  deriving DecidableEq, Repr

/-- `SwapChainVulkan::BackBuffer`, the `RenderTarget` of the presenter: the size
of its surface and its framebuffer. -/
structure RenderTarget where
  iWidth : Int
  iHeight : Int
  m_hFrameBuffer : Handle
  deriving DecidableEq, Repr

/-- The build the preprocessor selects: `_WIN32`, `__linux`, or neither. -/
inductive Platform where
  | win32
  | linux
  | other
  deriving DecidableEq, Repr

/-- The `AMFVulkanSync` object handed to `SyncResource`: the one of a back
buffer's surface or the one of a source surface. -/
inductive SyncRef where
  | renderTarget (buffer : Nat)
  | vulkanSurface (surface : Nat)
  deriving DecidableEq, Repr

/-- `RenderViewSizeInfo` of the base class, which the presenter only passes on. -/
abbrev RenderViewSizeInfo := List Int

/-- The objects derived from `VulkanContext` on which `Init` calls
`VulkanContext::Init`. -/
inductive ContextObject where
  | presenter
  | registry
  | pipeline
  deriving DecidableEq, Repr

/-- The calls the presenter makes, with their arguments and, for the calls that
return an `AMF_RESULT`, the result.  `renderSurface res` marks the return of
`RenderSurface` with `res`. -/
inductive Event where
  | vk (call : VkCall)
  | surfaceConvert (surface : Nat) (type : AMF_MEMORY_TYPE) (res : AMF_RESULT)
  | surfaceAddObserver (surface : Nat)
  | surfaceRemoveObserver (surface : Nat)
  | swapGetBackBufferIndex (surface : Nat) (res : AMF_RESULT)
  | swapAcquireNextBackBuffer (res : AMF_RESULT) (buffer : Option Nat)
  | swapAcquireNextBackBufferSurface (res : AMF_RESULT) (surface : Option Nat)
  | swapDropBackBuffer (buffer : Option Nat) (res : AMF_RESULT)
  | swapDropBackBufferSurface (surface : Nat) (res : AMF_RESULT)
  | swapPresent (waitForVSync : Bool) (res : AMF_RESULT)
  | swapResize (width height : Int) (fullscreen : Bool) (res : AMF_RESULT)
  | swapTerminate (res : AMF_RESULT)
  | contextTerminate (res : AMF_RESULT)
  | presenterTerminate (res : AMF_RESULT)
  | cmdStartRecording (res : AMF_RESULT)
  | cmdSyncResource (sync : SyncRef) (stage : Nat) (res : AMF_RESULT)
  | cmdExecute (queue : Handle) (res : AMF_RESULT)
  | cmdTerminate (res : AMF_RESULT)
  | resizeRenderView (res : AMF_RESULT)
  | transitionSurface (surface : Nat) (layout : Nat) (res : AMF_RESULT)
  | updateProcessor
  | waitForPTS (pts : Int)
  | destroyBuffer (buffer : AMFVulkanBuffer) (res : AMF_RESULT)
  | xFlush
  | sleep (ms : Nat)
  | renderSurface (res : AMF_RESULT)
  | makeBuffer (size usage memoryProperties : Nat) (res : AMF_RESULT) (buffer : AMFVulkanBuffer)
  | presenterInit (width height : Int) (res : AMF_RESULT)
  | swapInit (width height : Int) (format : AMF_SURFACE_FORMAT) (res : AMF_RESULT)
  | contextInit (object : ContextObject) (res : AMF_RESULT)
  | cmdInit (res : AMF_RESULT)
  | readFile (fileName : String) (opened : Bool)
  deriving DecidableEq, Repr

/-- The collaborators of the presenter.  `AMFSucceeded` is the test that
`AMF_RETURN_IF_FAILED` applies to a result (the macro is defined outside the two
files); the theorems only assume that it accepts `AMF_OK`.  `staleStack` is what
a pointer into the frame of a call that has returned reads. -/
structure Env (W : Type) where
  AMFSucceeded : AMF_RESULT → Bool
  staleStack : CallerMem
  surfaceGetFormat : W → Nat → AMF_SURFACE_FORMAT
  surfaceConvert : W → Nat → AMF_MEMORY_TYPE → AMF_RESULT × W
  surfaceGetPts : W → Nat → Int
  surfaceGetPackedPlane : W → Nat → Option Nat
  planeGetNative : W → Nat → Option AMFVulkanView
  surfaceAddObserver : W → Nat → W
  surfaceRemoveObserver : W → Nat → W
  swapGetBackBufferIndex : W → Nat → AMF_RESULT × Nat
  swapAcquireNextBackBuffer : W → AMF_RESULT × Option Nat × W
  swapAcquireNextBackBufferSurface : W → AMF_RESULT × Option Nat × W
  swapDropBackBuffer : W → Option Nat → AMF_RESULT × W
  swapDropBackBufferSurface : W → Nat → AMF_RESULT × W
  swapPresent : W → Bool → AMF_RESULT × W
  swapResize : W → Int → Int → Bool → AMF_RESULT × W
  swapGetBackBuffersAvailable : W → Nat
  swapGetBackBuffersAcquired : W → Nat
  swapFullscreenEnabled : W → Bool
  swapGetSize : W → AMFSize
  swapGetRenderPass : W → Handle
  swapGetQueue : W → Handle
  swapTerminate : W → AMF_RESULT × W
  renderTarget : W → Nat → RenderTarget
  cmdGetBuffer : W → Handle
  cmdStartRecording : W → AMF_RESULT × W
  cmdSyncResource : W → SyncRef → Nat → AMF_RESULT × W
  cmdExecute : W → Handle → AMF_RESULT × W
  cmdTerminate : W → AMF_RESULT × W
  getClientRect : W → AMFRect
  getPlaneRect : W → Option Nat → AMFRect
  getRenderViewSizeInfo : W → AMFRect → AMFSize → AMFRect → AMF_RESULT × RenderViewSizeInfo
  resizeRenderView : W → RenderViewSizeInfo → AMF_RESULT × W
  updateProcessor : W → W
  waitForPTS : W → Int → W
  transitionSurface : W → Nat → Nat → AMF_RESULT × W
  destroyBuffer : W → AMFVulkanBuffer → AMF_RESULT × AMFVulkanBuffer × W
  contextTerminate : VulkanContext → AMF_RESULT × VulkanContext
  presenterTerminate : W → AMF_RESULT × W
  sleep : W → Nat → W
  xFlush : W → W

/-- `class VideoPresenterVulkan`: its own members, the device pointer of its
base `VulkanContext`, and the members of `BackBufferPresenter` that the two
files read or write (`m_bRenderToBackBuffer`, `m_bFrozen`, `m_bFullScreen`,
`m_bWaitForVSync`, `m_rectClient`).  `m_swapChain`, `m_cmdBuffer` and
`m_pContext1` are part of `W`. -/
structure VideoPresenterVulkan extends VulkanContext where
  m_bRenderToBackBuffer : Bool
  m_bFrozen : Bool
  m_bFullScreen : Bool
  m_bWaitForVSync : Bool
  m_rectClient : AMFRect
  m_descriptorHeap : DescriptorHeapVulkan
  m_viewProjectionBuffer : AMFVulkanBuffer
  m_eInputFormat : AMF_SURFACE_FORMAT
  m_pipeline : RenderingPipelineVulkan
  m_VertexBuffer : AMFVulkanBuffer
  m_viewProjectionDescriptor : DescriptorVulkan
  m_samplerDescriptor : DescriptorVulkan
  m_hSampler : Handle
  m_TrackSurfaces : List Nat
  m_bResizeSwapChain : Bool
  deriving DecidableEq, Repr

/-- The outcome of a presenter member function. -/
structure PresenterOut (W : Type) where
  res : AMF_RESULT
  st : VideoPresenterVulkan
  w : W
  trace : List Event
  deriving Repr

/-- The value-initialised `DescriptorVulkan` (`m_samplerDescriptor = {}`). -/
def DescriptorVulkan.zero : DescriptorVulkan :=
  { layoutBinding := { binding := 0, descriptorType := 0, descriptorCount := 0, stageFlags := 0 },
    setIndex := 0 }

/-- `VideoPresenterVulkan::GetInputFormat`. -/
def VideoPresenterVulkan.GetInputFormat (s : VideoPresenterVulkan) : AMF_SURFACE_FORMAT :=
  s.m_eInputFormat

/-- `VideoPresenterVulkan::GetMemoryType`. -/
def VideoPresenterVulkan.GetMemoryType (_s : VideoPresenterVulkan) : AMF_MEMORY_TYPE :=
  AMF_MEMORY_VULKAN

/-- `VideoPresenterVulkan::CheckForResize(force)`. -/
def VideoPresenterVulkan.CheckForResize {W : Type} (env : Env W) (s : VideoPresenterVulkan)
    (w : W) (force : Bool) : AMF_RESULT × VideoPresenterVulkan :=
  if force = true ∨ s.m_bFullScreen ≠ env.swapFullscreenEnabled w then
    (AMF_OK, { s with m_bResizeSwapChain := true })
  else
    let client := env.getClientRect w
    let width := client.Width
    let height := client.Height
    let size := env.swapGetSize w
    if (width = size.width ∧ height = size.height) ∨ width = 0 ∨ height = 0 then (AMF_OK, s)
    else (AMF_OK, { s with m_bResizeSwapChain := true })

/-- `VideoPresenterVulkan::ResizeSwapChain`. -/
def VideoPresenterVulkan.ResizeSwapChain {W : Type} (env : Env W) (s : VideoPresenterVulkan)
    (w : W) : PresenterOut W :=
  let s1 := { s with m_rectClient := env.getClientRect w }
  let r := env.swapResize w s1.m_rectClient.Width s1.m_rectClient.Height s1.m_bFullScreen
  let e := Event.swapResize s1.m_rectClient.Width s1.m_rectClient.Height s1.m_bFullScreen r.1
  if env.AMFSucceeded r.1 = false then { res := r.1, st := s1, w := r.2, trace := [e] }
  else
    { res := AMF_OK, st := { s1 with m_bResizeSwapChain := false },
      w := env.updateProcessor r.2, trace := [e, Event.updateProcessor] }

/-- `RenderingPipelineVulkan::SetStates(hCommandBuffer, groupNum)`. -/
def RenderingPipelineVulkan.SetStates (p : RenderingPipelineVulkan) (hCommandBuffer : Handle)
    (groupNum : Nat) : PipelineOut :=
  if hCommandBuffer = NULL then { res := AMF_INVALID_ARG, pipeline := p, calls := [] }
  else
    match groupFind p.m_descriptorSetGroupMap groupNum with
    | none => { res := AMF_INVALID_ARG, pipeline := p, calls := [] }
    | some group =>
      if p.m_hPipeline = NULL then { res := AMF_NOT_INITIALIZED, pipeline := p, calls := [] }
      else if p.m_hPipelineLayout = NULL then
        { res := AMF_NOT_INITIALIZED, pipeline := p, calls := [] }
      else
        { res := AMF_OK, pipeline := p,
          calls := [VkCall.vkCmdBindPipeline hCommandBuffer p.m_hPipeline,
            VkCall.vkCmdBindDescriptorSets hCommandBuffer p.m_hPipelineLayout 0
              (group.descriptorSetHandles.take (group.descriptorSetHandles.length % 2 ^ 32))] }

/-- `VideoPresenterVulkan::UpdateTextureDescriptorSet(pDescriptor, pSurface,
hSampler)`.  `none` is the call of `GetNative` through a null plane pointer. -/
def VideoPresenterVulkan.UpdateTextureDescriptorSetWith {W : Type} (env : Env W)
    (s : VideoPresenterVulkan) (w : W) (pDescriptor : Option DescriptorVulkan)
    (pSurface : Option Nat) (hSampler : Handle) : Option (PresenterOut W) :=
  if pDescriptor = none then some { res := AMF_INVALID_ARG, st := s, w := w, trace := [] }
  else if hSampler = NULL then some { res := AMF_INVALID_ARG, st := s, w := w, trace := [] }
  else
    match pSurface with
    | none => some { res := AMF_INVALID_ARG, st := s, w := w, trace := [] }
    | some surface =>
      match env.surfaceGetPackedPlane w surface with
      | none => none
      | some plane =>
        match env.planeGetNative w plane with
        | none => some { res := AMF_INVALID_ARG, st := s, w := w, trace := [] }
        | some view =>
          if view.hView = NULL then some { res := AMF_INVALID_ARG, st := s, w := w, trace := [] }
          else
            let imageInfo : VkDescriptorImageInfo :=
              { sampler := hSampler, imageView := view.hView,
                imageLayout := VK_IMAGE_LAYOUT_SHADER_READ_ONLY_OPTIMAL }
            let stack : CallerMem := { env.staleStack with images := fun _ => imageInfo }
            let r := s.m_descriptorHeap.UpdateDescriptorSetImage stack pDescriptor 0 1 0 false
            let s1 := { s with m_descriptorHeap := r.heap }
            if env.AMFSucceeded r.res = false then
              some { res := r.res, st := s1, w := w, trace := r.calls.map Event.vk }
            else some { res := AMF_OK, st := s1, w := w, trace := r.calls.map Event.vk }

/-- `VideoPresenterVulkan::UpdateTextureDescriptorSet(pSurface)`. -/
def VideoPresenterVulkan.UpdateTextureDescriptorSet {W : Type} (env : Env W)
    (s : VideoPresenterVulkan) (w : W) (pSurface : Option Nat) : Option (PresenterOut W) :=
  s.UpdateTextureDescriptorSetWith env w (some s.m_samplerDescriptor) pSurface s.m_hSampler

/-- `VideoPresenterVulkan::StartRendering(pRenderTarget)`. -/
def VideoPresenterVulkan.StartRendering {W : Type} (env : Env W) (s : VideoPresenterVulkan)
    (w : W) (pRenderTarget : Option Nat) : PresenterOut W :=
  match pRenderTarget with
  | none => { res := AMF_INVALID_ARG, st := s, w := w, trace := [] }
  | some buffer =>
    let target := env.renderTarget w buffer
    if target.m_hFrameBuffer = NULL then { res := AMF_INVALID_ARG, st := s, w := w, trace := [] }
    else if env.cmdGetBuffer w = NULL then
      { res := AMF_NOT_INITIALIZED, st := s, w := w, trace := [] }
    else if env.swapGetRenderPass w = NULL then
      { res := AMF_NOT_INITIALIZED, st := s, w := w, trace := [] }
    else
      let width := target.iWidth
      let height := target.iHeight
      let r := env.cmdStartRecording w
      if env.AMFSucceeded r.1 = false then
        { res := r.1, st := s, w := r.2, trace := [Event.cmdStartRecording r.1] }
      else
        { res := AMF_OK, st := s, w := r.2,
          trace := [Event.cmdStartRecording r.1,
            Event.vk (VkCall.vkCmdSetViewport (env.cmdGetBuffer r.2) width height),
            Event.vk (VkCall.vkCmdSetScissor (env.cmdGetBuffer r.2) width height),
            Event.vk (VkCall.vkCmdBeginRenderPass (env.cmdGetBuffer r.2)
              (env.swapGetRenderPass r.2) target.m_hFrameBuffer width height)] }

/-- `VideoPresenterVulkan::DrawBackground`. -/
def VideoPresenterVulkan.DrawBackground (_s : VideoPresenterVulkan) : AMF_RESULT := AMF_OK

/-- `VideoPresenterVulkan::DrawOverlay`. -/
def VideoPresenterVulkan.DrawOverlay (_s : VideoPresenterVulkan) (_pSurface : Option Nat) :
    AMF_RESULT := AMF_OK

/-- `VideoPresenterVulkan::SetStates(descriptorGroupNum)`. -/
def VideoPresenterVulkan.SetStates {W : Type} (env : Env W) (s : VideoPresenterVulkan) (w : W)
    (descriptorGroupNum : Nat) : PresenterOut W :=
  if env.cmdGetBuffer w = NULL then { res := AMF_NOT_INITIALIZED, st := s, w := w, trace := [] }
  else if s.m_VertexBuffer.hBuffer = NULL then
    { res := AMF_NOT_INITIALIZED, st := s, w := w, trace := [] }
  else
    let r := s.m_pipeline.SetStates (env.cmdGetBuffer w) descriptorGroupNum
    let s1 := { s with m_pipeline := r.pipeline }
    if env.AMFSucceeded r.res = false then
      { res := r.res, st := s1, w := w, trace := r.calls.map Event.vk }
    else
      { res := AMF_OK, st := s1, w := w,
        trace := r.calls.map Event.vk ++
          [Event.vk (VkCall.vkCmdBindVertexBuffers (env.cmdGetBuffer w)
            [s.m_VertexBuffer.hBuffer])] }

/-- `VideoPresenterVulkan::DrawFrame(pSurface)`; `pSurface` points to an
`AMFVulkanSurface`. -/
def VideoPresenterVulkan.DrawFrame {W : Type} (env : Env W) (s : VideoPresenterVulkan) (w : W)
    (pSurface : Option Nat) : PresenterOut W :=
  match pSurface with
  | none => { res := AMF_INVALID_ARG, st := s, w := w, trace := [] }
  | some surface =>
    let t := env.transitionSurface w surface VK_IMAGE_LAYOUT_SHADER_READ_ONLY_OPTIMAL
    let e1 := Event.transitionSurface surface VK_IMAGE_LAYOUT_SHADER_READ_ONLY_OPTIMAL t.1
    if env.AMFSucceeded t.1 = false then { res := t.1, st := s, w := t.2, trace := [e1] }
    else
      let y := env.cmdSyncResource t.2 (SyncRef.vulkanSurface surface)
        VK_PIPELINE_STAGE_COLOR_ATTACHMENT_OUTPUT_BIT
      let e2 := Event.cmdSyncResource (SyncRef.vulkanSurface surface)
        VK_PIPELINE_STAGE_COLOR_ATTACHMENT_OUTPUT_BIT y.1
      if env.AMFSucceeded y.1 = false then { res := y.1, st := s, w := y.2, trace := [e1, e2] }
      else
        { res := AMF_OK, st := s, w := y.2,
          trace := [e1, e2, Event.vk (VkCall.vkCmdDraw (env.cmdGetBuffer y.2)
            ((s.m_VertexBuffer.iSize / sizeofVertex) % 2 ^ 32))] }

/-- `VideoPresenterVulkan::StopRendering`. -/
def VideoPresenterVulkan.StopRendering {W : Type} (env : Env W) (s : VideoPresenterVulkan)
    (w : W) : PresenterOut W :=
  if env.cmdGetBuffer w = NULL then { res := AMF_NOT_INITIALIZED, st := s, w := w, trace := [] }
  else if env.swapGetQueue w = NULL then
    { res := AMF_NOT_INITIALIZED, st := s, w := w, trace := [] }
  else
    let e1 := Event.vk (VkCall.vkCmdEndRenderPass (env.cmdGetBuffer w))
    let x := env.cmdExecute w (env.swapGetQueue w)
    let e2 := Event.cmdExecute (env.swapGetQueue w) x.1
    if env.AMFSucceeded x.1 = false then { res := x.1, st := s, w := x.2, trace := [e1, e2] }
    else { res := AMF_OK, st := s, w := x.2, trace := [e1, e2] }

/-- One statement `res = f(...); AMF_RETURN_IF_FAILED(res, ...);` of a member
function: from the presenter and the collaborators to the outcome of `f`
(`none` for undefined behaviour). -/
abbrev Step (W : Type) := VideoPresenterVulkan → W → Option (PresenterOut W)

/-- A sequence of statements `res = f(...); AMF_RETURN_IF_FAILED(res, ...);`
followed by `return AMF_OK;`: the steps run in order, the first result that
`AMF_RETURN_IF_FAILED` rejects is returned at once, and the calls made add up. -/
def runSteps {W : Type} (env : Env W) :
    List (Step W) → VideoPresenterVulkan → W → Option (PresenterOut W)
  | [], s, w => some { res := AMF_OK, st := s, w := w, trace := [] }
  | f :: fs, s, w =>
    match f s w with
    | none => none
    | some r =>
      if env.AMFSucceeded r.res = false then some r
      else
        match runSteps env fs r.st r.w with
        | none => none
        | some r' => some { r' with trace := r.trace ++ r'.trace }

/-- The statements of `BitBltRender` from `ResizeRenderView` on, in order;
`srcView` is `pSrcView`. -/
def VideoPresenterVulkan.BitBltRenderSteps {W : Type} (env : Env W) (surface buffer : Nat)
    (srcView : AMFVulkanView) (renderView : RenderViewSizeInfo) : List (Step W) :=
  [ -- res = ResizeRenderView(renderView);
    fun s w =>
      let r := env.resizeRenderView w renderView
      some { res := r.1, st := s, w := r.2, trace := [Event.resizeRenderView r.1] },
    -- res = UpdateTextureDescriptorSet(pSrcSurface);
    fun s w => s.UpdateTextureDescriptorSet env w (some surface),
    -- res = m_descriptorHeap.UpdatePendingDescriptorSets();
    fun s w =>
      let r := s.m_descriptorHeap.UpdatePendingDescriptorSets env.staleStack
      some { res := r.res, st := { s with m_descriptorHeap := r.heap }, w := w,
             trace := r.calls.map Event.vk },
    -- res = StartRendering(pRenderTarget);
    fun s w => some (s.StartRendering env w (some buffer)),
    -- res = m_cmdBuffer.SyncResource(&pRenderTarget->m_surface.Sync, ...);
    fun s w =>
      let r := env.cmdSyncResource w (SyncRef.renderTarget buffer)
        VK_PIPELINE_STAGE_COLOR_ATTACHMENT_OUTPUT_BIT
      some { res := r.1, st := s, w := r.2,
             trace := [Event.cmdSyncResource (SyncRef.renderTarget buffer)
               VK_PIPELINE_STAGE_COLOR_ATTACHMENT_OUTPUT_BIT r.1] },
    -- res = DrawBackground();
    fun s w => some { res := s.DrawBackground, st := s, w := w, trace := [] },
    -- res = SetStates(DSG_PRESENT_SURFACE);
    fun s w => some (s.SetStates env w DSG_PRESENT_SURFACE),
    -- res = DrawFrame(pSrcView->pSurface);
    fun s w => some (s.DrawFrame env w srcView.pSurface),
    -- res = DrawOverlay(pSrcSurface);
    fun s w => some { res := s.DrawOverlay (some surface), st := s, w := w, trace := [] },
    -- res = StopRendering();
    fun s w => some (s.StopRendering env w) ]

/-- `VideoPresenterVulkan::BitBltRender(pSrcSurface, pRenderTarget, renderView)`.
`none` is the call of `GetNative` through a null plane pointer. -/
def VideoPresenterVulkan.BitBltRender {W : Type} (env : Env W) (s : VideoPresenterVulkan)
    (w : W) (pSrcSurface : Option Nat) (pRenderTarget : Option Nat)
    (renderView : RenderViewSizeInfo) : Option (PresenterOut W) :=
  match pSrcSurface, pRenderTarget with
  | none, _ => some { res := AMF_INVALID_ARG, st := s, w := w, trace := [] }
  | some _, none => some { res := AMF_INVALID_ARG, st := s, w := w, trace := [] }
  | some surface, some buffer =>
    match env.surfaceGetPackedPlane w surface with
    | none => none
    | some plane =>
      match env.planeGetNative w plane with
      | none => some { res := AMF_INVALID_ARG, st := s, w := w, trace := [] }
      | some srcView =>
        runSteps env (VideoPresenterVulkan.BitBltRenderSteps env surface buffer srcView renderView)
          s w

/-- `VideoPresenterVulkan::RenderSurface(pSurface, pRenderTarget)`.  `none` is a
null dereference (`pRenderTarget->m_surface`, or the one in `BitBltRender`). -/
def VideoPresenterVulkan.RenderSurface {W : Type} (env : Env W) (s : VideoPresenterVulkan)
    (w : W) (pSurface : Option Nat) (pRenderTarget : Option Nat) : Option (PresenterOut W) :=
  match pSurface with
  | none => some { res := AMF_INVALID_ARG, st := s, w := w, trace := [] }
  | some surface =>
    if env.surfaceGetFormat w surface ≠ s.GetInputFormat then
      some { res := AMF_INVALID_FORMAT, st := s, w := w, trace := [] }
    else
      let srcSurfaceRect := env.getPlaneRect w (env.surfaceGetPackedPlane w surface)
      let dstSurfaceRect := env.getClientRect w
      match pRenderTarget with
      | none => none
      | some buffer =>
        let target := env.renderTarget w buffer
        let dstSurfaceSize : AMFSize := { width := target.iWidth, height := target.iHeight }
        let v := env.getRenderViewSizeInfo w srcSurfaceRect dstSurfaceSize dstSurfaceRect
        if env.AMFSucceeded v.1 = false then some { res := v.1, st := s, w := w, trace := [] }
        else
          match s.BitBltRender env w (some surface) (some buffer) v.2 with
          | none => none
          | some r =>
            if env.AMFSucceeded r.res = false then some r
            else some { r with res := AMF_OK }

/-- The block of `Present` that runs when the frame is not one of the
presenter's back buffers: resize if flagged (`_WIN32` only), acquire, render,
drop on failure.  The Boolean is `true` when `Present` goes on after the block
and `false` when the block has returned from `Present`. -/
def VideoPresenterVulkan.PresentRender {W : Type} (env : Env W) (platform : Platform)
    (s : VideoPresenterVulkan) (w : W) (surface : Nat) : Option (PresenterOut W × Bool) :=
  let rz : PresenterOut W :=
    if platform = Platform.win32 ∧ s.m_bResizeSwapChain = true then s.ResizeSwapChain env w
    else { res := AMF_OK, st := s, w := w, trace := [] }
  if env.AMFSucceeded rz.res = false then some (rz, false)
  else
    let a := env.swapAcquireNextBackBuffer rz.w
    let pBuffer := a.2.1
    let t1 := rz.trace ++ [Event.swapAcquireNextBackBuffer a.1 pBuffer]
    if env.AMFSucceeded a.1 = false then
      some ({ res := a.1, st := rz.st, w := a.2.2, trace := t1 }, false)
    else
      match rz.st.RenderSurface env a.2.2 (some surface) pBuffer with
      | none => none
      | some r =>
        let t2 := t1 ++ r.trace ++ [Event.renderSurface r.res]
        if r.res ≠ AMF_OK then
          let d := env.swapDropBackBuffer r.w pBuffer
          let t3 := t2 ++ [Event.swapDropBackBuffer pBuffer d.1]
          if env.AMFSucceeded d.1 = false then
            some ({ res := d.1, st := r.st, w := d.2, trace := t3 }, false)
          else if env.AMFSucceeded r.res = false then
            some ({ res := r.res, st := r.st, w := d.2, trace := t3 }, false)
          else some ({ res := r.res, st := r.st, w := d.2, trace := t3 }, true)
        else if env.AMFSucceeded r.res = false then
          some ({ res := r.res, st := r.st, w := r.w, trace := t2 }, false)
        else some ({ res := r.res, st := r.st, w := r.w, trace := t2 }, true)

/-- The end of `Present`: wait for the presentation time, present, flush the
display connection (`__linux` only) and report a pending resize. -/
def VideoPresenterVulkan.PresentFinish {W : Type} (env : Env W) (platform : Platform)
    (s : VideoPresenterVulkan) (w : W) (surface : Nat) : PresenterOut W :=
  let pts := env.surfaceGetPts w surface
  let w1 := env.waitForPTS w pts
  let p := env.swapPresent w1 s.m_bWaitForVSync
  let t := [Event.waitForPTS pts, Event.swapPresent s.m_bWaitForVSync p.1]
  if env.AMFSucceeded p.1 = false then { res := p.1, st := s, w := p.2, trace := t }
  else
    let x : W × List Event :=
      if platform = Platform.linux then (env.xFlush p.2, [Event.xFlush]) else (p.2, [])
    if s.m_bResizeSwapChain = true then
      { res := AMF_RESOLUTION_UPDATED, st := s, w := x.1, trace := t ++ x.2 }
    else { res := AMF_OK, st := s, w := x.1, trace := t ++ x.2 }

/-- `VideoPresenterVulkan::Present(pSurface)` as built for `platform`.  `none` is
undefined behaviour inside `RenderSurface`. -/
def VideoPresenterVulkan.Present {W : Type} (env : Env W) (platform : Platform)
    (s : VideoPresenterVulkan) (w : W) (pSurface : Option Nat) : Option (PresenterOut W) :=
  match s.m_pVulkanDevice with
  | none => some { res := AMF_NOT_INITIALIZED, st := s, w := w, trace := [] }
  | some _ =>
    match pSurface with
    | none => some { res := AMF_INVALID_ARG, st := s, w := w, trace := [] }
    | some surface =>
      if env.surfaceGetFormat w surface ≠ s.GetInputFormat then
        some { res := AMF_INVALID_FORMAT, st := s, w := w, trace := [] }
      else
        let c := env.surfaceConvert w surface s.GetMemoryType
        let t1 := [Event.surfaceConvert surface s.GetMemoryType c.1]
        if env.AMFSucceeded c.1 = false then some { res := c.1, st := s, w := c.2, trace := t1 }
        else
          -- res = CheckForResize(false), under _WIN32 only
          let k : AMF_RESULT × VideoPresenterVulkan :=
            if platform = Platform.win32 then s.CheckForResize env c.2 false else (c.1, s)
          if env.AMFSucceeded k.1 = false then
            some { res := k.1, st := k.2, w := c.2, trace := t1 }
          else
            -- res = m_swapChain.GetBackBufferIndex(pSurface, imageIndex), if rendering to
            -- back buffers
            let res : AMF_RESULT :=
              if k.2.m_bRenderToBackBuffer = true then (env.swapGetBackBufferIndex c.2 surface).1
              else k.1
            let t2 := t1 ++
              (if k.2.m_bRenderToBackBuffer = true then [Event.swapGetBackBufferIndex surface res]
               else [])
            if k.2.m_bRenderToBackBuffer = true ∧ ¬ (res = AMF_OK ∨ res = AMF_NOT_FOUND) then
              some { res := res, st := k.2, w := c.2, trace := t2 }
            else if k.2.m_bRenderToBackBuffer = false ∨ res = AMF_NOT_FOUND then
              match k.2.PresentRender env platform c.2 surface with
              | none => none
              | some (r, false) => some { r with trace := t2 ++ r.trace }
              | some (r, true) =>
                let f := r.st.PresentFinish env platform r.w surface
                some { f with trace := t2 ++ r.trace ++ f.trace }
            else
              let f := k.2.PresentFinish env platform c.2 surface
              some { f with trace := t2 ++ f.trace }

/-- The first loop of `AllocSurface`, `while (GetBackBuffersAvailable() == 0)`:
`some (true, ..)` when the loop ends, `some (false, ..)` when it returns
`AMF_INPUT_FULL`, `none` when it is still running after `fuel` iterations. -/
def waitBuffersAvailable {W : Type} (env : Env W) (frozen : Bool) :
    Nat → W → Option (Bool × W × List Event)
  | 0, _ => none
  | fuel + 1, w =>
    if env.swapGetBackBuffersAvailable w = 0 then
      if frozen = true then some (false, w, [])
      else
        match waitBuffersAvailable env frozen fuel (env.sleep w 1) with
        | none => none
        | some r => some (r.1, r.2.1, Event.sleep 1 :: r.2.2)
    else some (true, w, [])

/-- The second loop of `AllocSurface`, `while (GetBackBuffersAcquired() > 0 ||
m_TrackSurfaces.empty() == false)`; `none` when it is still running after `fuel`
iterations. -/
def waitBuffersReleased {W : Type} (env : Env W) (tracked : List Nat) :
    Nat → W → Option (W × List Event)
  | 0, _ => none
  | fuel + 1, w =>
    if env.swapGetBackBuffersAcquired w > 0 ∨ tracked.isEmpty = false then
      match waitBuffersReleased env tracked fuel (env.sleep w 1) with
      | none => none
      | some r => some (r.1, Event.sleep 1 :: r.2)
    else some (w, [])

/-- The outcome of `AllocSurface`: as `PresenterOut`, with `*ppSurface`. -/
structure AllocOut (W : Type) where
  res : AMF_RESULT
  st : VideoPresenterVulkan
  w : W
  trace : List Event
  surface : Option Nat

/-- `VideoPresenterVulkan::AllocSurface(type, format, ..., ppSurface)`.  Each of
the two waiting loops may run `fuel` iterations; `none` is a loop that has not
ended by then, or the use of a null `*ppSurface`. -/
def VideoPresenterVulkan.AllocSurface {W : Type} (env : Env W) (fuel : Nat)
    (s : VideoPresenterVulkan) (w : W) (type : AMF_MEMORY_TYPE) (format : AMF_SURFACE_FORMAT)
    (ppSurface : Option Nat) : Option (AllocOut W) :=
  if s.m_bRenderToBackBuffer = false then
    some { res := AMF_NOT_IMPLEMENTED, st := s, w := w, trace := [], surface := ppSurface }
  else if format ≠ s.m_eInputFormat then
    some { res := AMF_INVALID_ARG, st := s, w := w, trace := [], surface := ppSurface }
  else
    match waitBuffersAvailable env s.m_bFrozen fuel w with
    | none => none
    | some (false, w1, t1) =>
      some { res := AMF_INPUT_FULL, st := s, w := w1, trace := t1, surface := ppSurface }
    | some (true, w1, t1) =>
      let rz : Option (PresenterOut W) :=
        if s.m_bResizeSwapChain = true then
          match waitBuffersReleased env s.m_TrackSurfaces fuel w1 with
          | none => none
          | some (w2, t2) =>
            let r := s.ResizeSwapChain env w2
            some { r with trace := t1 ++ t2 ++ r.trace }
        else some { res := AMF_OK, st := s, w := w1, trace := t1 }
      match rz with
      | none => none
      | some r =>
        if env.AMFSucceeded r.res = false then
          some { res := r.res, st := r.st, w := r.w, trace := r.trace, surface := ppSurface }
        else
          let a := env.swapAcquireNextBackBufferSurface r.w
          let t3 := r.trace ++ [Event.swapAcquireNextBackBufferSurface a.1 a.2.1]
          if env.AMFSucceeded a.1 = false then
            some { res := a.1, st := r.st, w := a.2.2, trace := t3, surface := a.2.1 }
          else
            match a.2.1 with
            | none => none
            | some surface =>
              let w4 := env.surfaceAddObserver a.2.2 surface
              let s4 := { r.st with m_TrackSurfaces := r.st.m_TrackSurfaces ++ [surface] }
              let c := env.surfaceConvert w4 surface type
              some { res := c.1, st := s4, w := c.2,
                     trace := t3 ++ [Event.surfaceAddObserver surface,
                       Event.surfaceConvert surface type c.1],
                     surface := some surface }

/-- `VideoPresenterVulkan::OnSurfaceDataRelease(pSurface)`: the presenter, the
collaborators and the calls made. -/
def VideoPresenterVulkan.OnSurfaceDataRelease {W : Type} (env : Env W)
    (s : VideoPresenterVulkan) (w : W) (pSurface : Option Nat) :
    VideoPresenterVulkan × W × List Event :=
  match pSurface with
  | none => (s, w, [])
  | some surface =>
    if surface ∈ s.m_TrackSurfaces then
      let w1 := env.surfaceRemoveObserver w surface
      let d := env.swapDropBackBufferSurface w1 surface
      ({ s with m_TrackSurfaces := s.m_TrackSurfaces.erase surface }, d.2,
        [Event.surfaceRemoveObserver surface, Event.swapDropBackBufferSurface surface d.1])
    else (s, w, [])

/-- `VideoPresenterVulkan::Terminate`. -/
def VideoPresenterVulkan.Terminate {W : Type} (env : Env W) (s : VideoPresenterVulkan) (w : W) :
    PresenterOut W :=
  match s.m_pVulkanDevice with
  | none => { res := AMF_OK, st := s, w := w, trace := [] }
  | some dev =>
    let e0 := [Event.vk (VkCall.vkDeviceWaitIdle dev.hDevice)]
    let h := s.m_descriptorHeap.Terminate env.contextTerminate
    let p := s.m_pipeline.Terminate env.contextTerminate
    let e1 := if s.m_hSampler ≠ NULL then [Event.vk (VkCall.vkDestroySampler dev.hDevice s.m_hSampler)]
      else []
    let b1 := env.destroyBuffer w s.m_viewProjectionBuffer
    let b2 := env.destroyBuffer b1.2.2 s.m_VertexBuffer
    let c := env.cmdTerminate b2.2.2
    let x := env.swapTerminate c.2
    let v := env.contextTerminate s.toVulkanContext
    let t := env.presenterTerminate x.2
    { res := t.1,
      st := { s with
        toVulkanContext := v.2
        m_descriptorHeap := h.heap
        m_pipeline := p.pipeline
        m_samplerDescriptor := DescriptorVulkan.zero
        m_hSampler := NULL
        m_viewProjectionBuffer := b1.2.1
        m_viewProjectionDescriptor := DescriptorVulkan.zero
        m_VertexBuffer := b2.2.1
        m_bResizeSwapChain := false },
      w := t.2,
      trace := e0 ++ h.calls.map Event.vk ++ p.calls.map Event.vk ++ e1 ++
        [Event.destroyBuffer s.m_viewProjectionBuffer b1.1,
         Event.destroyBuffer s.m_VertexBuffer b2.1,
         Event.cmdTerminate c.1, Event.swapTerminate x.1, Event.contextTerminate v.1,
         Event.presenterTerminate t.1] }

/-- The calls that rendering a frame can make: Vulkan commands and calls on the
command buffer, the render view and the source surface's layout. -/
def Event.isRenderEvent : Event → Bool
  | Event.vk _ => true
  | Event.resizeRenderView _ => true
  | Event.cmdStartRecording _ => true
  | Event.cmdSyncResource _ _ _ => true
  | Event.cmdExecute _ _ => true
  | Event.transitionSurface _ _ _ => true
  | _ => false

/-- The presenter `s'` differs from `s` at most in its descriptor registry. -/
def VideoPresenterVulkan.sameButHeap (s s' : VideoPresenterVulkan) : Prop :=
  s' = { s with m_descriptorHeap := s'.m_descriptorHeap }

/-- The calls that concern the back-buffer pool during `Present`: acquire, drop,
present, and the return of `RenderSurface`. -/
def Event.isPoolEvent : Event → Bool
  | Event.swapAcquireNextBackBuffer _ _ => true
  | Event.swapDropBackBuffer _ _ => true
  | Event.swapPresent _ _ => true
  | Event.renderSurface _ => true
  | _ => false

/-- The `AMF_RESULT` a call returned, for the calls that return one. -/
def Event.result : Event → Option AMF_RESULT
  | Event.surfaceConvert _ _ r => some r
  | Event.swapGetBackBufferIndex _ r => some r
  | Event.swapAcquireNextBackBuffer r _ => some r
  | Event.swapAcquireNextBackBufferSurface r _ => some r
  | Event.swapDropBackBuffer _ r => some r
  | Event.swapDropBackBufferSurface _ r => some r
  | Event.swapPresent _ r => some r
  | Event.swapResize _ _ _ r => some r
  | Event.swapTerminate r => some r
  | Event.contextTerminate r => some r
  | Event.presenterTerminate r => some r
  | Event.cmdStartRecording r => some r
  | Event.cmdSyncResource _ _ r => some r
  | Event.cmdExecute _ r => some r
  | Event.cmdTerminate r => some r
  | Event.resizeRenderView r => some r
  | Event.transitionSurface _ _ r => some r
  | Event.destroyBuffer _ r => some r
  | Event.renderSurface r => some r
  | _ => none

/-- `VideoPresenterVulkan::ResizeIfNeeded`: the presenter, the collaborators and
the calls made.  The results of `CheckForResize` and `ResizeSwapChain` are
discarded. -/
def VideoPresenterVulkan.ResizeIfNeeded {W : Type} (env : Env W) (s : VideoPresenterVulkan)
    (w : W) : VideoPresenterVulkan × W × List Event :=
  let c := s.CheckForResize env w false
  if c.2.m_bRenderToBackBuffer = false then
    if c.2.m_bResizeSwapChain = true then
      let r := c.2.ResizeSwapChain env w
      (r.st, r.w, r.trace)
    else (c.2, w, [])
  else (c.2, w, [])

/-- The resize flag is set in `s` and clear in `s'` only if the calls `trace`
made in between contain a swapchain `Resize` whose result passes
`AMF_RETURN_IF_FAILED`. -/
def clearedOnlyByResize {W : Type} (env : Env W) (s s' : VideoPresenterVulkan)
    (trace : List Event) : Prop :=
  s.m_bResizeSwapChain = true → s'.m_bResizeSwapChain = false →
    ∃ width height fullscreen res,
      Event.swapResize width height fullscreen res ∈ trace ∧ env.AMFSucceeded res = true

/-- The outcomes of a sequence of `RegisterDescriptorSet` calls, each made on
the registry the one before left; `none` when one of them has undefined
behaviour. -/
def DescriptorHeapVulkan.registerRun (h : DescriptorHeapVulkan) :
    List RegisterCall → Option (List RegisterOut)
  | [] => some []
  | c :: cs =>
    match h.RegisterDescriptorSet c.ppDescriptors c.count c.layoutResp with
    | none => none
    | some r =>
      match r.heap.registerRun cs with
      | none => none
      | some rs => some (r :: rs)

/-- The bindings a registration call hands to the driver: those of its first
`count` descriptors when the call gets past argument validation, none
otherwise. -/
def RegisterCall.bindings (c : RegisterCall) : List VkDescriptorSetLayoutBinding :=
  match c.ppDescriptors with
  | none => []
  | some ds =>
    if c.count > 0 ∧ checkDescriptorPointers ds c.count = some true then
      collectBindings ds c.count
    else []

/-- The bindings of a sequence of registration calls, in order. -/
def registeredBindings : List RegisterCall → List VkDescriptorSetLayoutBinding
  | [] => []
  | c :: cs => c.bindings ++ registeredBindings cs

/-- The pool-size entry `RegisterDescriptorSet` makes for a binding. -/
def poolSizeOf (b : VkDescriptorSetLayoutBinding) : VkDescriptorPoolSize :=
  { type := b.descriptorType, descriptorCount := b.descriptorCount }

/-- `VideoPresenterVulkan::PipelineGroupBindingInfo`.  `pPipeline` is `none` for
a null pointer, `some 0` for `&m_pipeline` and `some (k + 1)` for the `k`-th of
the pipelines that live outside the presenter. -/
structure PipelineGroupBindingInfo where
  pPipeline : Option Nat
  setNum : Nat
  pGroups : Option (List Nat)
  groupCount : Nat
  deriving DecidableEq, Repr

/-- The pipeline object a `RenderingPipelineVulkan*` points to, if any. -/
def pipelineAt (s : VideoPresenterVulkan) (pipes : List RenderingPipelineVulkan) :
    Nat → Option RenderingPipelineVulkan
  | 0 => some s.m_pipeline
  | k + 1 => pipes[k]?

/-- The presenter and the outside pipelines after the object behind a
`RenderingPipelineVulkan*` has been written. -/
def pipelineStore (s : VideoPresenterVulkan) (pipes : List RenderingPipelineVulkan)
    (p : RenderingPipelineVulkan) : Nat → VideoPresenterVulkan × List RenderingPipelineVulkan
  | 0 => ({ s with m_pipeline := p }, pipes)
  | k + 1 => (s, pipes.set k p)

/-- The outcome of the presenter's `RegisterDescriptorSet`: the result, the
presenter, the pipelines outside it, the descriptors behind `ppDescriptors` and
the Vulkan calls issued. -/
structure PresenterRegisterOut where
  res : AMF_RESULT
  st : VideoPresenterVulkan
  pipelines : List RenderingPipelineVulkan
  descriptors : List (Option DescriptorVulkan)
  calls : List VkCall
  deriving Repr

/-- The loop of the presenter's `RegisterDescriptorSet` over
`pPipelineBindings[0 .. piplineBindingCount)`.  `pFirst` is `ppDescriptors[0]`.
Every pipeline is one that was initialised with `&m_descriptorHeap`, as `Init`
does for `m_pipeline`.  `none` when the loop reads past the array or
dereferences a dangling or null pointer. -/
def registerPipelineBindings {W : Type} (env : Env W) (pFirst : Option DescriptorVulkan) :
    VideoPresenterVulkan → List RenderingPipelineVulkan → List PipelineGroupBindingInfo → Nat →
    Option (AMF_RESULT × VideoPresenterVulkan × List RenderingPipelineVulkan)
  | s, pipes, _, 0 => some (AMF_OK, s, pipes)
  | _, _, [], _ + 1 => none
  | s, pipes, bindingInfo :: rest, n + 1 =>
    match bindingInfo.pPipeline with
    | none => some (AMF_INVALID_ARG, s, pipes)
    | some address =>
      match pipelineAt s pipes address, pFirst with
      | some p, some first =>
        match p.RegisterDescriptorSet s.m_descriptorHeap first.setIndex bindingInfo.setNum
            bindingInfo.pGroups bindingInfo.groupCount with
        | none => none
        | some r =>
          let sp := pipelineStore s pipes r.pipeline address
          if env.AMFSucceeded r.res = false then some (r.res, sp.1, sp.2)
          else registerPipelineBindings env pFirst sp.1 sp.2 rest n
      | _, _ => none

/-- `VideoPresenterVulkan::RegisterDescriptorSet(ppDescriptors, count,
pPipelineBindings, piplineBindingCount)`.  `pipes` are the pipelines outside the
presenter; `layoutResp` is the driver's answer to the
`vkCreateDescriptorSetLayout` the registry may issue. -/
def VideoPresenterVulkan.RegisterDescriptorSet {W : Type} (env : Env W)
    (s : VideoPresenterVulkan) (pipes : List RenderingPipelineVulkan)
    (ppDescriptors : Option (List (Option DescriptorVulkan))) (count : Nat)
    (pPipelineBindings : Option (List PipelineGroupBindingInfo)) (piplineBindingCount : Nat)
    (layoutResp : VkResult × Handle) : Option PresenterRegisterOut :=
  match ppDescriptors with
  | none =>
    some { res := AMF_INVALID_ARG, st := s, pipelines := pipes, descriptors := [], calls := [] }
  | some ds =>
    if ¬ (count > 0) then
      some { res := AMF_INVALID_ARG, st := s, pipelines := pipes, descriptors := ds, calls := [] }
    else
      match s.m_descriptorHeap.RegisterDescriptorSet (some ds) count layoutResp with
      | none => none
      | some r =>
        let s1 := { s with m_descriptorHeap := r.heap }
        if env.AMFSucceeded r.res = false then
          some { res := r.res, st := s1, pipelines := pipes, descriptors := r.descriptors,
                 calls := r.calls }
        else
          match pPipelineBindings with
          | none =>
            some { res := AMF_OK, st := s1, pipelines := pipes, descriptors := r.descriptors,
                   calls := r.calls }
          | some bindings =>
            match registerPipelineBindings env (r.descriptors[0]?.join) s1 pipes bindings
                piplineBindingCount with
            | none => none
            | some b =>
              some { res := b.1, st := b.2.1, pipelines := b.2.2, descriptors := r.descriptors,
                     calls := r.calls }

/-- `VideoPresenterVulkan::RegisterDescriptorSet(ppDescriptors, count, pPipeline,
setNum, pGroups, groupCount)`. -/
def VideoPresenterVulkan.RegisterDescriptorSetFor {W : Type} (env : Env W)
    (s : VideoPresenterVulkan) (pipes : List RenderingPipelineVulkan)
    (ppDescriptors : Option (List (Option DescriptorVulkan))) (count : Nat)
    (pPipeline : Option Nat) (setNum : Nat) (pGroups : Option (List Nat)) (groupCount : Nat)
    (layoutResp : VkResult × Handle) : Option PresenterRegisterOut :=
  s.RegisterDescriptorSet env pipes ppDescriptors count
    (some [{ pPipeline := pPipeline, setNum := setNum, pGroups := pGroups,
             groupCount := groupCount }]) 1 layoutResp

/-- The group as a successful `CreatePipeline` leaves it: the same slot list,
and the descriptor-set handle of every slot. -/
def DescriptorSetGroup.resolved (heap : DescriptorHeapVulkan) (group : DescriptorSetGroup) :
    DescriptorSetGroup :=
  { group with descriptorSetHandles := group.descriptorSetIndices.map heap.GetDescriptorSet }

/-- The pipeline after a sequence of `RegisterDescriptorSet` calls that all
return `AMF_OK`; `none` when one of them fails or has undefined behaviour. -/
def RenderingPipelineVulkan.registerAllOk (p : RenderingPipelineVulkan) :
    List PipelineRegisterCall → Option RenderingPipelineVulkan
  | [] => some p
  | c :: cs =>
    match p.RegisterDescriptorSet c.heap c.setIndex c.setNum c.pGroups c.groupCount with
    | none => none
    | some r => if r.res = AMF_OK then r.pipeline.registerAllOk cs else none

/-- A call of a member function of the registry, with its arguments and the
driver's answers. -/
inductive RegistryOp where
  | register (c : RegisterCall)
  | finalize (poolResp : VkResult × Handle) (allocResp : VkResult × List Handle)
  | updateWrite (mem : CallerMem) (pDescriptor : Option DescriptorVulkan)
      (arrayIndex count : Nat) (writeInfo : VkWriteDescriptorSet) (immediate : Bool)
  | updateBuffer (mem : CallerMem) (pDescriptor : Option DescriptorVulkan)
      (arrayIndex count pBufferInfos : Nat) (immediate : Bool)
  | updateImage (mem : CallerMem) (pDescriptor : Option DescriptorVulkan)
      (arrayIndex count pImageInfos : Nat) (immediate : Bool)
  | flush (mem : CallerMem)
  | terminate

/-- The registry after one call, whatever the call returns; `none` for
undefined behaviour. -/
def DescriptorHeapVulkan.step (ctxTerminate : VulkanContext → AMF_RESULT × VulkanContext)
    (h : DescriptorHeapVulkan) : RegistryOp → Option DescriptorHeapVulkan
  | RegistryOp.register c =>
    (h.RegisterDescriptorSet c.ppDescriptors c.count c.layoutResp).map (fun r => r.heap)
  | RegistryOp.finalize poolResp allocResp => some (h.CreateDescriptors poolResp allocResp).heap
  | RegistryOp.updateWrite mem d a count w immediate =>
    some (h.UpdateDescriptorSetWrite mem d a count w immediate).heap
  | RegistryOp.updateBuffer mem d a count p immediate =>
    some (h.UpdateDescriptorSetBuffer mem d a count p immediate).heap
  | RegistryOp.updateImage mem d a count p immediate =>
    some (h.UpdateDescriptorSetImage mem d a count p immediate).heap
  | RegistryOp.flush mem => some (h.UpdatePendingDescriptorSets mem).heap
  | RegistryOp.terminate => some (h.Terminate ctxTerminate).heap

/-- A tally of the bindings passed to the `RegisterDescriptorSet` calls that got
past validation (the pool check and the argument checks): `total` over all the
calls made so far, `sinceTerminate` over the calls made since the registry was
last emptied by `Terminate`. -/
structure RegisterTally where
  total : List VkDescriptorSetLayoutBinding
  sinceTerminate : List VkDescriptorSetLayoutBinding
  deriving DecidableEq, Repr

/-- The tally after one more call on the registry `h`. -/
def RegisterTally.step (h : DescriptorHeapVulkan) (t : RegisterTally) : RegistryOp → RegisterTally
  | RegistryOp.register c =>
    if h.m_hDescriptorPool = NULL then
      { total := t.total ++ c.bindings, sinceTerminate := t.sinceTerminate ++ c.bindings }
    else t
  | RegistryOp.terminate =>
    if h.m_pVulkanDevice = none then t else { t with sinceTerminate := [] }
  | _ => t

/-- The registry after a sequence of calls, with the tally of the bindings
registered; `none` when one of the calls has undefined behaviour. -/
def DescriptorHeapVulkan.runOps (ctxTerminate : VulkanContext → AMF_RESULT × VulkanContext) :
    DescriptorHeapVulkan → RegisterTally → List RegistryOp →
    Option (DescriptorHeapVulkan × RegisterTally)
  | h, t, [] => some (h, t)
  | h, t, op :: ops =>
    match h.step ctxTerminate op with
    | none => none
    | some h1 => DescriptorHeapVulkan.runOps ctxTerminate h1 (t.step h op) ops

/-- A call of a member function of the pipeline other than `Init` and
`Terminate`, with its arguments and the driver's answers. -/
inductive PipelineOp where
  | register (c : PipelineRegisterCall)
  | setStates (hCommandBuffer : Handle) (groupNum : Nat)
  | createPipeline (ord : MapOrder) (heap : DescriptorHeapVulkan)
      (createInfo : PipelineCreateInfo) (hRenderPass : Handle) (subpass : Nat)
      (layoutResp pipelineResp : VkResult × Handle)

/-- The pipeline after one call, whatever the call returns; `none` for
undefined behaviour. -/
def RenderingPipelineVulkan.step (p : RenderingPipelineVulkan) :
    PipelineOp → Option RenderingPipelineVulkan
  | PipelineOp.register c =>
    (p.RegisterDescriptorSet c.heap c.setIndex c.setNum c.pGroups c.groupCount).map
      (fun r => r.pipeline)
  | PipelineOp.setStates hCommandBuffer groupNum =>
    some (p.SetStates hCommandBuffer groupNum).pipeline
  | PipelineOp.createPipeline ord heap createInfo hRenderPass subpass layoutResp pipelineResp =>
    (p.CreatePipeline ord heap createInfo hRenderPass subpass layoutResp pipelineResp).map
      (fun r => r.pipeline)

/-- The pipeline after a sequence of calls; `none` when one of them has
undefined behaviour. -/
def RenderingPipelineVulkan.runOps :
    RenderingPipelineVulkan → List PipelineOp → Option RenderingPipelineVulkan
  | p, [] => some p
  | p, op :: ops =>
    match p.step op with
    | none => none
    | some p1 => p1.runOps ops

/-- The registry invariant: the pool sizes are those of the bindings tallied
since the last `Terminate`, and there is no pool size without a layout. -/
def DescriptorHeapVulkan.poolSizesTallied (h : DescriptorHeapVulkan) (t : RegisterTally) : Prop :=
  h.m_descriptorPoolSizes = t.sinceTerminate.map poolSizeOf ∧
  (h.m_hDescriptorSetLayouts = [] → h.m_descriptorPoolSizes = [])

/-! ## Buffers and initialisation -/

/-- `VK_BUFFER_USAGE_UNIFORM_BUFFER_BIT`. -/
abbrev VK_BUFFER_USAGE_UNIFORM_BUFFER_BIT : Nat := 16

/-- `VK_BUFFER_USAGE_VERTEX_BUFFER_BIT`. -/
abbrev VK_BUFFER_USAGE_VERTEX_BUFFER_BIT : Nat := 128

/-- `VK_MEMORY_PROPERTY_HOST_VISIBLE_BIT`. -/
abbrev VK_MEMORY_PROPERTY_HOST_VISIBLE_BIT : Nat := 2

/-- `VK_MEMORY_PROPERTY_HOST_COHERENT_BIT`. -/
abbrev VK_MEMORY_PROPERTY_HOST_COHERENT_BIT : Nat := 4

/-- `VK_DESCRIPTOR_TYPE_COMBINED_IMAGE_SAMPLER`. -/
abbrev VK_DESCRIPTOR_TYPE_COMBINED_IMAGE_SAMPLER : Nat := 1

/-- `VK_DESCRIPTOR_TYPE_UNIFORM_BUFFER`. -/
abbrev VK_DESCRIPTOR_TYPE_UNIFORM_BUFFER : Nat := 6

/-- `VK_DESCRIPTOR_TYPE_UNIFORM_BUFFER_DYNAMIC`. -/
abbrev VK_DESCRIPTOR_TYPE_UNIFORM_BUFFER_DYNAMIC : Nat := 8

/-- `VK_SHADER_STAGE_VERTEX_BIT`. -/
abbrev VK_SHADER_STAGE_VERTEX_BIT : Nat := 1

/-- `VK_SHADER_STAGE_FRAGMENT_BIT`. -/
abbrev VK_SHADER_STAGE_FRAGMENT_BIT : Nat := 16

/-- The collaborators of `Init` and of the buffer functions, on top of those of
the render path: `VideoPresenter::Init`, `SwapChainVulkan::Init`, the two
overloads of `VulkanContext::Init`, `CommandBufferVulkan::Init`,
`VulkanContext::MakeBuffer`, the file system that `LoadShaderFile` reads, and
the iteration order of `std::unordered_map`.  None of them is part of the two
files.  `contextInit` gets the object it is called on. -/
structure InitEnv (W : Type) extends Env W where
  presenterInit : W → Int → Int → AMF_RESULT × W
  swapInit : W → Int → Int → AMF_SURFACE_FORMAT → AMF_RESULT × W
  contextInitFromSwapChain : W → VulkanContext → AMF_RESULT × VulkanContext × W
  contextInit : W → ContextObject → VulkanContext → Option AMFVulkanDevice →
    AMF_RESULT × VulkanContext × W
  cmdInit : W → Option AMFVulkanDevice → AMF_RESULT × W
  makeBuffer : W → Nat → Nat → Nat → Nat → AMFVulkanBuffer → AMF_RESULT × AMFVulkanBuffer × W
  readFile : W → String → Option (List Nat)
  mapOrder : MapOrder

/-- The outcome of a presenter member function that fills in a buffer passed by
reference. -/
structure BufferOut (W : Type) where
  res : AMF_RESULT
  st : VideoPresenterVulkan
  buffer : AMFVulkanBuffer
  w : W
  trace : List Event
  deriving Repr

/-- `VideoPresenterVulkan::CreateVertexBuffer(pData, size, buffer)`; `pData` is
the address of the data. -/
def VideoPresenterVulkan.CreateVertexBuffer {W : Type} (env : InitEnv W)
    (s : VideoPresenterVulkan) (w : W) (pData size : Nat) (buffer : AMFVulkanBuffer) :
    BufferOut W :=
  let m := env.makeBuffer w pData size VK_BUFFER_USAGE_VERTEX_BUFFER_BIT
    (VK_MEMORY_PROPERTY_HOST_VISIBLE_BIT ||| VK_MEMORY_PROPERTY_HOST_COHERENT_BIT) buffer
  let e := Event.makeBuffer size VK_BUFFER_USAGE_VERTEX_BUFFER_BIT
    (VK_MEMORY_PROPERTY_HOST_VISIBLE_BIT ||| VK_MEMORY_PROPERTY_HOST_COHERENT_BIT) m.1 m.2.1
  if env.AMFSucceeded m.1 = false then
    { res := m.1, st := s, buffer := m.2.1, w := m.2.2, trace := [e] }
  else { res := AMF_OK, st := s, buffer := m.2.1, w := m.2.2, trace := [e] }

/-- `VideoPresenterVulkan::CreateBufferForDescriptor(pDescriptor, pData,
bufferSize, bindingOffset, bindingSize, arrayIndex, buffer)`.  The three sizes
are `amf_size` values (below `2 ^ 64`), and their sum is taken in `amf_size`. -/
def VideoPresenterVulkan.CreateBufferForDescriptor {W : Type} (env : InitEnv W)
    (s : VideoPresenterVulkan) (w : W) (pDescriptor : Option DescriptorVulkan)
    (pData bufferSize bindingOffset bindingSize arrayIndex : Nat) (buffer : AMFVulkanBuffer) :
    BufferOut W :=
  match pDescriptor with
  | none => { res := AMF_INVALID_ARG, st := s, buffer := buffer, w := w, trace := [] }
  | some d =>
    if ¬ (d.layoutBinding.descriptorCount > 0) then
      { res := AMF_INVALID_ARG, st := s, buffer := buffer, w := w, trace := [] }
    else if ¬ (d.layoutBinding.descriptorType = VK_DESCRIPTOR_TYPE_UNIFORM_BUFFER ∨
        d.layoutBinding.descriptorType = VK_DESCRIPTOR_TYPE_UNIFORM_BUFFER_DYNAMIC) then
      { res := AMF_INVALID_ARG, st := s, buffer := buffer, w := w, trace := [] }
    else if ¬ (bindingSize > 0) then
      { res := AMF_INVALID_ARG, st := s, buffer := buffer, w := w, trace := [] }
    else if ¬ ((bindingSize + bindingOffset) % 2 ^ 64 ≤ bufferSize) then
      { res := AMF_OUT_OF_RANGE, st := s, buffer := buffer, w := w, trace := [] }
    else
      let m := env.makeBuffer w pData bufferSize VK_BUFFER_USAGE_UNIFORM_BUFFER_BIT
        (VK_MEMORY_PROPERTY_HOST_VISIBLE_BIT ||| VK_MEMORY_PROPERTY_HOST_COHERENT_BIT) buffer
      let e1 := Event.makeBuffer bufferSize VK_BUFFER_USAGE_UNIFORM_BUFFER_BIT
        (VK_MEMORY_PROPERTY_HOST_VISIBLE_BIT ||| VK_MEMORY_PROPERTY_HOST_COHERENT_BIT) m.1 m.2.1
      if env.AMFSucceeded m.1 = false then
        { res := m.1, st := s, buffer := m.2.1, w := m.2.2, trace := [e1] }
      else
        let bufferInfo : VkDescriptorBufferInfo :=
          { buffer := m.2.1.hBuffer, offset := bindingOffset, range := bindingSize }
        let stack : CallerMem := { env.staleStack with buffers := fun _ => bufferInfo }
        let r := s.m_descriptorHeap.UpdateDescriptorSetBuffer stack (some d) arrayIndex 1 0 false
        let s1 := { s with m_descriptorHeap := r.heap }
        -- if (res != AMF_OK) { DestroyBuffer(buffer); }
        let x := env.destroyBuffer m.2.2 m.2.1
        let b : BufferOut W :=
          if r.res ≠ AMF_OK then
            { res := r.res, st := s1, buffer := x.2.1, w := x.2.2,
              trace := [e1] ++ r.calls.map Event.vk ++ [Event.destroyBuffer m.2.1 x.1] }
          else
            { res := r.res, st := s1, buffer := m.2.1, w := m.2.2,
              trace := [e1] ++ r.calls.map Event.vk }
        if env.AMFSucceeded r.res = false then b else { b with res := AMF_OK }

/-- `VideoPresenterVulkan::CreateBufferForDescriptor(pDescriptor, pData,
bufferSize, arrayIndex, buffer)`: the whole buffer is bound. -/
def VideoPresenterVulkan.CreateBufferForDescriptorWhole {W : Type} (env : InitEnv W)
    (s : VideoPresenterVulkan) (w : W) (pDescriptor : Option DescriptorVulkan)
    (pData bufferSize arrayIndex : Nat) (buffer : AMFVulkanBuffer) : BufferOut W :=
  s.CreateBufferForDescriptor env w pDescriptor pData bufferSize 0 bufferSize arrayIndex buffer

/-- The event is the recording of a draw (`vkCmdDraw`). -/
def Event.isDraw : Event → Bool
  | Event.vk (VkCall.vkCmdDraw _ _) => true
  | _ => false

/-- The outcome of `RenderingPipelineVulkan::Init`. -/
structure PipelineInitOut (W : Type) where
  res : AMF_RESULT
  pipeline : RenderingPipelineVulkan
  w : W
  trace : List Event
  deriving Repr

/-- `RenderingPipelineVulkan::Init(pDevice, pImportTable, pDescriptorHeap)`;
`pDescriptorHeap` is `true` for a non-null pointer. -/
def RenderingPipelineVulkan.Init {W : Type} (env : InitEnv W) (p : RenderingPipelineVulkan)
    (w : W) (pDevice : Option AMFVulkanDevice) (pDescriptorHeap : Bool) : PipelineInitOut W :=
  if pDescriptorHeap = false then { res := AMF_INVALID_ARG, pipeline := p, w := w, trace := [] }
  else
    let r := env.contextInit w ContextObject.pipeline p.toVulkanContext pDevice
    let p1 := { p with toVulkanContext := r.2.1 }
    let e := Event.contextInit ContextObject.pipeline r.1
    if env.AMFSucceeded r.1 = false then { res := r.1, pipeline := p1, w := r.2.2, trace := [e] }
    else
      { res := AMF_OK, pipeline := { p1 with m_pDescriptorHeap := true }, w := r.2.2,
        trace := [e] }

/-- `RenderingPipelineVulkan::SetDefaultInfo`: the value of `createInfo` on
return.  The body of a state record lists the fields that follow `flags`, in
the order of their declaration, floats by their bit pattern. -/
def RenderingPipelineVulkan.SetDefaultInfo : PipelineCreateInfo :=
  { shaderStages := [],
    vertexBindingDescs := [],
    vertexAttributeDescs := [],
    -- topology = TRIANGLE_STRIP, primitiveRestartEnable = VK_FALSE
    inputAssemblyInfo := { sType := 20, body := [4, 0] },
    viewports := [], scissors := [],
    -- polygonMode = FILL, cullMode = NONE, frontFace = CLOCKWISE, lineWidth = 1.0f
    rasterizationStateInfo := { sType := 23, body := [0, 0, 0, 0, 1, 0, 0, 0, 0, 1065353216] },
    -- rasterizationSamples = VK_SAMPLE_COUNT_1_BIT, sampleShadingEnable = VK_FALSE
    multiSamplingInfo := { sType := 24, body := [1, 0, 0, 0, 0, 0] },
    -- blendEnable = VK_FALSE, colorWriteMask = R | G | B | A
    colorBlendAttachments := [[0, 0, 0, 0, 0, 0, 0, 15]],
    -- logicOpEnable = VK_FALSE, logicOp = COPY
    colorBlendInfo := { sType := 26, attachmentCount := 0, pAttachments := none,
                        body := [0, 3, 0, 0, 0, 0] },
    -- depthCompareOp = LESS_OR_EQUAL, front = back = { KEEP, KEEP, KEEP, ALWAYS, 0, 0, 0 }
    depthStencilState :=
      { sType := 25, body := [0, 0, 3, 0, 0, 0, 0, 0, 7, 0, 0, 0, 0, 0, 0, 7, 0, 0, 0, 0, 0] },
    -- VK_DYNAMIC_STATE_VIEWPORT, VK_DYNAMIC_STATE_SCISSOR
    dynamicStates := [0, 1] }

/-- `VideoPresenterVulkan::InitDescriptors`. -/
def VideoPresenterVulkan.InitDescriptors (s : VideoPresenterVulkan) :
    AMF_RESULT × VideoPresenterVulkan :=
  (AMF_OK,
   { s with
     m_viewProjectionDescriptor :=
       { DescriptorVulkan.zero with
         layoutBinding := { binding := 0, descriptorType := VK_DESCRIPTOR_TYPE_UNIFORM_BUFFER,
                            descriptorCount := 1, stageFlags := VK_SHADER_STAGE_VERTEX_BIT } }
     m_samplerDescriptor :=
       { DescriptorVulkan.zero with
         layoutBinding := { binding := 1,
                            descriptorType := VK_DESCRIPTOR_TYPE_COMBINED_IMAGE_SAMPLER,
                            descriptorCount := 1, stageFlags := VK_SHADER_STAGE_FRAGMENT_BIT } } })

/-- `VideoPresenterVulkan::RegisterDescriptorSets(viewProjectionDescriptor,
samplerDescriptor, pipeline)`, as `Init` calls it: on the two member
descriptors and `m_pipeline`.  The set index that the registry writes through
`pDescriptors` lands in the members. -/
def VideoPresenterVulkan.RegisterDescriptorSets {W : Type} (env : Env W)
    (s : VideoPresenterVulkan) (layoutResp : VkResult × Handle) : Option PresenterRegisterOut :=
  match s.RegisterDescriptorSetFor env []
      (some [some s.m_viewProjectionDescriptor, some s.m_samplerDescriptor]) 2
      (some 0) 0 (some [DSG_PRESENT_SURFACE]) 1 layoutResp with
  | none => none
  | some r =>
    let s1 := { r.st with
      m_viewProjectionDescriptor :=
        (r.descriptors[0]?.join).getD r.st.m_viewProjectionDescriptor
      m_samplerDescriptor := (r.descriptors[1]?.join).getD r.st.m_samplerDescriptor }
    if env.AMFSucceeded r.res = false then some { r with st := s1 }
    else some { r with st := s1, res := AMF_OK }

/-- `LoadShaderFile(pFileName, data)`: the result and the bytes read.  The path
of the executable and the file system are behind `readFile`. -/
def LoadShaderFile {W : Type} (env : InitEnv W) (w : W) (pFileName : Option String) :
    AMF_RESULT × List Nat × List Event :=
  match pFileName with
  | none => (AMF_INVALID_ARG, [], [])
  | some fileName =>
    if fileName.isEmpty then (AMF_INVALID_ARG, [], [])
    else
      match env.readFile w fileName with
      | none => (AMF_FILE_NOT_OPEN, [], [Event.readFile fileName false])
      | some data => (AMF_OK, data, [Event.readFile fileName true])

/-- `VideoPresenterVulkan::CreateShaderFromFile(pFileName, pShaderModule)`:
the result, `*pShaderModule` on return and the calls made.  `pShaderModule` is
`none` for a null pointer; `resp` is the driver's answer to
`vkCreateShaderModule`. -/
def VideoPresenterVulkan.CreateShaderFromFile {W : Type} (env : InitEnv W)
    (s : VideoPresenterVulkan) (w : W) (pFileName : Option String)
    (pShaderModule : Option Handle) (resp : VkResult × Handle) :
    AMF_RESULT × Option Handle × List Event :=
  match pShaderModule with
  | none => (AMF_INVALID_ARG, none, [])
  | some shaderModule =>
    if shaderModule ≠ NULL then (AMF_ALREADY_INITIALIZED, pShaderModule, [])
    else
      match s.m_pVulkanDevice with
      | none => (AMF_NOT_INITIALIZED, pShaderModule, [])
      | some dev =>
        if dev.hDevice = NULL then (AMF_NOT_INITIALIZED, pShaderModule, [])
        else
          let l := LoadShaderFile env w pFileName
          if env.AMFSucceeded l.1 = false then (l.1, pShaderModule, l.2.2)
          else
            let calls := l.2.2 ++ [Event.vk (VkCall.vkCreateShaderModule dev.hDevice l.2.1)]
            if resp.1 ≠ VK_SUCCESS then (AMF_VULKAN_FAILED, some resp.2, calls)
            else (AMF_OK, some resp.2, calls)

/-- `VideoPresenterVulkan::GetShaderStageInfoFromFile(pFileName, stage,
pEntryPoint, stageCreateInfo)`: the result, `stageCreateInfo` on return and the
calls made.  Entry point 0 stands for `"main"`. -/
def VideoPresenterVulkan.GetShaderStageInfoFromFile {W : Type} (env : InitEnv W)
    (s : VideoPresenterVulkan) (w : W) (pFileName : Option String) (stage : Nat)
    (pEntryPoint : Nat) (stageCreateInfo : VkPipelineShaderStageCreateInfo)
    (resp : VkResult × Handle) : AMF_RESULT × VkPipelineShaderStageCreateInfo × List Event :=
  let r := s.CreateShaderFromFile env w pFileName (some NULL) resp
  if env.AMFSucceeded r.1 = false then (r.1, stageCreateInfo, r.2.2)
  else
    (AMF_OK, { stage := stage, module := r.2.1.getD NULL, entryPoint := pEntryPoint }, r.2.2)

/-- `VideoPresenterVulkan::GetShaderStages(shaderStages)`: the result,
`shaderStages` on return and the calls made. -/
def VideoPresenterVulkan.GetShaderStages {W : Type} (env : InitEnv W)
    (s : VideoPresenterVulkan) (w : W) (shaderStages : List VkPipelineShaderStageCreateInfo)
    (vertexResp fragmentResp : VkResult × Handle) :
    AMF_RESULT × List VkPipelineShaderStageCreateInfo × List Event :=
  let zero : VkPipelineShaderStageCreateInfo := { stage := 0, module := NULL, entryPoint := 0 }
  -- shaderStages.resize(2);
  let stage0 := (shaderStages[0]?).getD zero
  let stage1 := (shaderStages[1]?).getD zero
  let v := s.GetShaderStageInfoFromFile env w (some "quad.vert.spv")
    VK_SHADER_STAGE_VERTEX_BIT 0 stage0 vertexResp
  if env.AMFSucceeded v.1 = false then (v.1, [v.2.1, stage1], v.2.2)
  else
    let f := s.GetShaderStageInfoFromFile env w (some "quad.frag.spv")
      VK_SHADER_STAGE_FRAGMENT_BIT 0 stage1 fragmentResp
    if env.AMFSucceeded f.1 = false then (f.1, [v.2.1, f.2.1], v.2.2 ++ f.2.2)
    else (AMF_OK, [v.2.1, f.2.1], v.2.2 ++ f.2.2)

/-- `VideoPresenterVulkan::DestroyShaderStages(shaderStages)`: the result,
`shaderStages` on return and the calls made. -/
def VideoPresenterVulkan.DestroyShaderStages (s : VideoPresenterVulkan)
    (shaderStages : List VkPipelineShaderStageCreateInfo) :
    AMF_RESULT × List VkPipelineShaderStageCreateInfo × List Event :=
  match s.m_pVulkanDevice with
  | none => (AMF_NOT_INITIALIZED, shaderStages, [])
  | some dev =>
    if dev.hDevice = NULL then (AMF_NOT_INITIALIZED, shaderStages, [])
    else
      (AMF_OK, [],
       (shaderStages.filter (fun stage => decide (stage.module ≠ NULL))).map
         (fun stage => Event.vk (VkCall.vkDestroyShaderModule dev.hDevice stage.module)))

/-- The driver's answers to the Vulkan calls that create an object during
`Init`: the result and the handle stored. -/
structure InitResponses where
  setLayout : VkResult × Handle
  descriptorPool : VkResult × Handle
  descriptorSets : VkResult × List Handle
  vertexShader : VkResult × Handle
  fragmentShader : VkResult × Handle
  pipelineLayout : VkResult × Handle
  graphicsPipeline : VkResult × Handle
  sampler : VkResult × Handle
  deriving DecidableEq, Repr

/-- `VideoPresenterVulkan::CreatePipeline()`.  `none` is the dereference of a
null `m_pDescriptorHeap` in the pipeline. -/
def VideoPresenterVulkan.CreatePipeline {W : Type} (env : InitEnv W) (s : VideoPresenterVulkan)
    (w : W) (resp : InitResponses) : Option (PresenterOut W) :=
  match s.m_pVulkanDevice with
  | none => some { res := AMF_NOT_INITIALIZED, st := s, w := w, trace := [] }
  | some dev =>
    if dev.hDevice = NULL then some { res := AMF_NOT_INITIALIZED, st := s, w := w, trace := [] }
    else if env.swapGetRenderPass w = NULL then
      some { res := AMF_NOT_INITIALIZED, st := s, w := w, trace := [] }
    else
      let createInfo := RenderingPipelineVulkan.SetDefaultInfo
      let g := s.GetShaderStages env w createInfo.shaderStages resp.vertexShader
        resp.fragmentShader
      if env.AMFSucceeded g.1 = false then some { res := g.1, st := s, w := w, trace := g.2.2 }
      else
        let createInfo1 : PipelineCreateInfo :=
          { createInfo with
            shaderStages := g.2.1
            vertexBindingDescs := [{ binding := 0, stride := sizeofVertex, inputRate := 0 }]
            vertexAttributeDescs :=
              [{ location := 0, binding := 0, format := 106, offset := 0 },
               { location := 1, binding := 0, format := 103, offset := 12 }] }
        match s.m_pipeline.CreatePipeline env.mapOrder s.m_descriptorHeap createInfo1
            (env.swapGetRenderPass w) 0 resp.pipelineLayout resp.graphicsPipeline with
        | none => none
        | some c =>
          let s1 := { s with m_pipeline := c.pipeline }
          -- Destroy shader stages regardless of pipeline creation result
          let d := s1.DestroyShaderStages c.createInfo.shaderStages
          let trace := g.2.2 ++ c.calls.map Event.vk ++ d.2.2
          if env.AMFSucceeded d.1 = false then some { res := d.1, st := s1, w := w, trace := trace }
          else if env.AMFSucceeded c.res = false then
            some { res := c.res, st := s1, w := w, trace := trace }
          else some { res := AMF_OK, st := s1, w := w, trace := trace }

/-- Stands for the address of the local array `vertices` of `PrepareStates`. -/
abbrev addressOfVertices : Nat := 1

/-- Stands for the address of the local constant `mvp` of `PrepareStates`. -/
abbrev addressOfMvp : Nat := 2

/-- The size of `ViewProjection`: two 4 x 4 matrices of `amf_float`. -/
abbrev sizeofViewProjection : Nat := 128

/-- `VideoPresenterVulkan::PrepareStates`; `samplerResp` is the driver's answer
to `vkCreateSampler`. -/
def VideoPresenterVulkan.PrepareStates {W : Type} (env : InitEnv W) (s : VideoPresenterVulkan)
    (w : W) (samplerResp : VkResult × Handle) : PresenterOut W :=
  match s.m_pVulkanDevice with
  | none => { res := AMF_NOT_INITIALIZED, st := s, w := w, trace := [] }
  | some dev =>
    if dev.hDevice = NULL then { res := AMF_NOT_INITIALIZED, st := s, w := w, trace := [] }
    else if s.m_hSampler ≠ NULL then
      { res := AMF_ALREADY_INITIALIZED, st := s, w := w, trace := [] }
    else
      let v := s.CreateVertexBuffer env w addressOfVertices (4 * sizeofVertex) s.m_VertexBuffer
      let s1 := { v.st with m_VertexBuffer := v.buffer }
      if env.AMFSucceeded v.res = false then { res := v.res, st := s1, w := v.w, trace := v.trace }
      else
        let b := s1.CreateBufferForDescriptorWhole env v.w (some s1.m_viewProjectionDescriptor)
          addressOfMvp sizeofViewProjection 0 s1.m_viewProjectionBuffer
        let s2 := { b.st with m_viewProjectionBuffer := b.buffer }
        if env.AMFSucceeded b.res = false then
          { res := b.res, st := s2, w := b.w, trace := v.trace ++ b.trace }
        else
          let trace := v.trace ++ b.trace ++ [Event.vk (VkCall.vkCreateSampler dev.hDevice)]
          let s3 := { s2 with m_hSampler := samplerResp.2 }
          if samplerResp.1 ≠ VK_SUCCESS then
            { res := AMF_VULKAN_FAILED, st := s3, w := b.w, trace := trace }
          else { res := AMF_OK, st := s3, w := b.w, trace := trace }

/-- The statements of `Init` after the check of `width` and `height`, in order.
The result of `m_pipeline.Init` is assigned to `res` and overwritten by the
next statement without being tested, so the two make one step. -/
def VideoPresenterVulkan.InitSteps {W : Type} (env : InitEnv W) (width height : Int)
    (resp : InitResponses) : List (Step W) :=
  [ -- res = VideoPresenter::Init(width, height);
    fun s w =>
      let r := env.presenterInit w width height
      some { res := r.1, st := s, w := r.2, trace := [Event.presenterInit width height r.1] },
    -- res = m_swapChain.Init(m_hwnd, m_hDisplay, nullptr, width, height, GetInputFormat());
    fun s w =>
      let r := env.swapInit w width height s.GetInputFormat
      some { res := r.1, st := s, w := r.2,
             trace := [Event.swapInit width height s.GetInputFormat r.1] },
    -- res = VulkanContext::Init((VulkanContext*)&m_swapChain);
    fun s w =>
      let r := env.contextInitFromSwapChain w s.toVulkanContext
      some { res := r.1, st := { s with toVulkanContext := r.2.1 }, w := r.2.2,
             trace := [Event.contextInit ContextObject.presenter r.1] },
    -- res = m_descriptorHeap.Init(m_pVulkanDevice, GetVulkan());
    fun s w =>
      let r := env.contextInit w ContextObject.registry s.m_descriptorHeap.toVulkanContext
        s.m_pVulkanDevice
      some { res := r.1,
             st := { s with m_descriptorHeap :=
                       { s.m_descriptorHeap with toVulkanContext := r.2.1 } },
             w := r.2.2, trace := [Event.contextInit ContextObject.registry r.1] },
    -- res = m_pipeline.Init(m_pVulkanDevice, GetVulkan(), &m_descriptorHeap);
    -- res = InitDescriptors();
    fun s w =>
      let p := s.m_pipeline.Init env w s.m_pVulkanDevice true
      let d := VideoPresenterVulkan.InitDescriptors { s with m_pipeline := p.pipeline }
      some { res := d.1, st := d.2, w := p.w, trace := p.trace },
    -- res = RegisterDescriptorSets(m_viewProjectionDescriptor, m_samplerDescriptor, m_pipeline);
    fun s w =>
      match s.RegisterDescriptorSets env.toEnv resp.setLayout with
      | none => none
      | some r => some { res := r.res, st := r.st, w := w, trace := r.calls.map Event.vk },
    -- res = m_descriptorHeap.CreateDescriptors();
    fun s w =>
      let r := s.m_descriptorHeap.CreateDescriptors resp.descriptorPool resp.descriptorSets
      some { res := r.res, st := { s with m_descriptorHeap := r.heap }, w := w,
             trace := r.calls.map Event.vk },
    -- res = CreatePipeline();
    fun s w => s.CreatePipeline env w resp,
    -- res = m_cmdBuffer.Init(m_pVulkanDevice, GetVulkan(), m_swapChain.GetCmdPool());
    fun s w =>
      let r := env.cmdInit w s.m_pVulkanDevice
      some { res := r.1, st := s, w := r.2, trace := [Event.cmdInit r.1] },
    -- res = PrepareStates();
    fun s w => some (s.PrepareStates env w resp.sampler) ]

/-- `VideoPresenterVulkan::Init(width, height, pSurface)`.  `none` is the
dereference of a null `m_pDescriptorHeap` in the pipeline. -/
def VideoPresenterVulkan.Init {W : Type} (env : InitEnv W) (s : VideoPresenterVulkan) (w : W)
    (width height : Int) (resp : InitResponses) : Option (PresenterOut W) :=
  if ¬ (width > 0 ∧ height > 0) then some { res := AMF_INVALID_ARG, st := s, w := w, trace := [] }
  else runSteps env.toEnv (VideoPresenterVulkan.InitSteps env width height resp) s w

/-! ## Concrete instances -/

/-- An iteration order of the group map: the entry stored last is visited
first. -/
def exMapOrder : MapOrder :=
  { iterate := fun m => m.reverse, perm := fun m => List.reverse_perm m }

/-- A device with a non-null handle. -/
def exDevice : AMFVulkanDevice := { hDevice := 7 }

/-- The view-projection descriptor of `InitDescriptors`: binding 0, uniform
buffer, one descriptor, vertex stage. -/
def exViewProjectionDescriptor : DescriptorVulkan :=
  { layoutBinding := { binding := 0, descriptorType := 6, descriptorCount := 1, stageFlags := 1 },
    setIndex := 0 }

/-- The sampler descriptor of `InitDescriptors`: binding 1, combined image
sampler, one descriptor, fragment stage. -/
def exSamplerDescriptor : DescriptorVulkan :=
  { layoutBinding := { binding := 1, descriptorType := 1, descriptorCount := 1, stageFlags := 16 },
    setIndex := 0 }

/-- The registration of both descriptors as one set; the driver answers
`VK_SUCCESS` and layout handle 21. -/
def exRegisterCall : RegisterCall :=
  { ppDescriptors := some [some exViewProjectionDescriptor, some exSamplerDescriptor],
    count := 2, layoutResp := (VK_SUCCESS, 21) }

/-- The registry after initialisation and `exRegisterCall`. -/
def exRegisteredHeap : DescriptorHeapVulkan :=
  { m_pVulkanDevice := some exDevice, m_hDescriptorPool := NULL, m_hDescriptorSets := [],
    m_hDescriptorSetLayouts := [21],
    m_descriptorPoolSizes := [{ type := 6, descriptorCount := 1 }, { type := 1, descriptorCount := 1 }],
    m_pendingDescriptorUpdates := [], m_descriptorBufferInfoHeap := [],
    m_descriptorImageInfoHeap := [] }

/-- The registry `exRegisteredHeap` after a successful `CreateDescriptors` to
which the driver answered pool handle 5 and set handle 11. -/
def exFinalizedHeap : DescriptorHeapVulkan :=
  { exRegisteredHeap with m_hDescriptorPool := 5, m_hDescriptorSets := [11] }

/-- Caller memory holding one buffer info and one image info everywhere. -/
def exMemQueued : CallerMem :=
  { buffers := fun _ => { buffer := 100, offset := 0, range := 128 },
    images := fun _ => { sampler := 200, imageView := 300, imageLayout := 5 } }

/-- Caller memory after the infos have been overwritten with zeroes. -/
def exMemOverwritten : CallerMem :=
  { buffers := fun _ => { buffer := 0, offset := 0, range := 0 },
    images := fun _ => { sampler := 0, imageView := 0, imageLayout := 0 } }

/-- Bindings of a GPU to which nothing has been bound. -/
def exNoBindings : GpuBindings := fun _ _ _ => none

/-- An initialised pipeline on which nothing has been registered. -/
def exPipeline : RenderingPipelineVulkan :=
  { RenderingPipelineVulkan.new with m_pVulkanDevice := some exDevice, m_pDescriptorHeap := true }

/-- The registration `RegisterDescriptorSets` makes: set 0 into slot 0 of the
group `DSG_PRESENT_SURFACE` (0). -/
def exPipelineRegisterCall : PipelineRegisterCall :=
  { heap := exRegisteredHeap, setIndex := 0, setNum := 0, pGroups := some [0], groupCount := 1 }

/-- The pipeline `exPipeline` after `exPipelineRegisterCall`. -/
def exPipelineRegistered : RenderingPipelineVulkan :=
  { exPipeline with
    m_descriptorSetGroupMap := [(0, { descriptorSetIndices := [0], descriptorSetHandles := [] })],
    m_hDescriptorSetLayouts := [21] }

/-- The pipeline `exPipeline` after set 0 has been registered into slot 1 of
group 0: slot 0 of the group has no descriptor set. -/
def exPipelineFreeSlot : RenderingPipelineVulkan :=
  { exPipeline with
    m_descriptorSetGroupMap :=
      [(0, { descriptorSetIndices := [UINT32_MAX, 0], descriptorSetHandles := [] })],
    m_hDescriptorSetLayouts := [21] }

/-- The pipeline `exPipeline` after set 0 has been registered into slot 0 of
group 0 and set 1 into slot 0 of group 1. -/
def exPipelineTwoGroups : RenderingPipelineVulkan :=
  { exPipeline with
    m_descriptorSetGroupMap :=
      [(0, { descriptorSetIndices := [0], descriptorSetHandles := [] }),
       (1, { descriptorSetIndices := [1], descriptorSetHandles := [] })],
    m_hDescriptorSetLayouts := [21, 22] }

/-- A `PipelineCreateInfo` with two shader stages, one vertex binding and two
vertex attributes. -/
def exCreateInfo : PipelineCreateInfo :=
  { shaderStages := [{ stage := 1, module := 41, entryPoint := 0 },
                     { stage := 16, module := 42, entryPoint := 0 }],
    vertexBindingDescs := [{ binding := 0, stride := 20, inputRate := 0 }],
    vertexAttributeDescs := [{ location := 0, binding := 0, format := 106, offset := 0 },
                             { location := 1, binding := 0, format := 103, offset := 12 }],
    inputAssemblyInfo := { sType := 20, body := [4, 0] },
    viewports := [], scissors := [],
    rasterizationStateInfo := { sType := 23, body := [] },
    multiSamplingInfo := { sType := 24, body := [] },
    colorBlendAttachments := [[15, 0]],
    colorBlendInfo := { sType := 26, attachmentCount := 0, pAttachments := none, body := [] },
    depthStencilState := { sType := 25, body := [] },
    dynamicStates := [0, 1] }

/-- Modelled from the spec: the swapchain, which is outside the two files.  A
pool of `poolSize` back buffers, numbered from 1, of which `acquired` are
acquired and not yet presented or dropped; the swapchain's size and fullscreen
state; the window's client rectangle.  `viewResult`, `dropResult` and
`presentResult` are the results the render-view resize, a drop and a present
will return. -/
structure PoolWorld where
  poolSize : Nat
  acquired : List Nat
  size : AMFSize
  fullscreen : Bool
  clientRect : AMFRect
  viewResult : AMF_RESULT
  dropResult : AMF_RESULT
  presentResult : AMF_RESULT
  deriving DecidableEq, Repr

/-- Modelled from the spec: acquire-next-buffer.  The lowest-numbered buffer
that is not acquired becomes acquired; with none available the call fails. -/
def PoolWorld.acquire (w : PoolWorld) : AMF_RESULT × Option Nat × PoolWorld :=
  match ((List.range w.poolSize).map (fun i => i + 1)).find? (fun b => decide (b ∉ w.acquired)) with
  | none => (AMF_FAIL, none, w)
  | some b => (AMF_OK, some b, { w with acquired := w.acquired ++ [b] })

/-- Modelled from the spec: drop-buffer (release back without presenting). -/
def PoolWorld.drop (w : PoolWorld) (b : Nat) : AMF_RESULT × PoolWorld :=
  if w.dropResult = AMF_OK then (AMF_OK, { w with acquired := w.acquired.erase b })
  else (w.dropResult, w)

/-- Modelled from the spec: present.  The buffer acquired last is handed to the
display and becomes available again. -/
def PoolWorld.present (w : PoolWorld) : AMF_RESULT × PoolWorld :=
  if w.presentResult = AMF_OK then (AMF_OK, { w with acquired := w.acquired.dropLast })
  else (w.presentResult, w)

/-- Modelled from the spec: resize.  The swapchain takes the new size and
fullscreen state. -/
def PoolWorld.resize (w : PoolWorld) (width height : Int) (fullscreen : Bool) :
    AMF_RESULT × PoolWorld :=
  (AMF_OK, { w with size := { width := width, height := height }, fullscreen := fullscreen })

/-- An environment over `PoolWorld`: the swapchain as modelled above, surfaces
of format BGRA whose number is that of their back buffer, `AMF_RETURN_IF_FAILED`
returning on every result but `AMF_OK`, and every other collaborator
succeeding. -/
def exEnv : Env PoolWorld :=
  { AMFSucceeded := fun r => decide (r = AMF_OK),
    staleStack := { buffers := fun _ => { buffer := 0, offset := 0, range := 0 },
                    images := fun _ => { sampler := 0, imageView := 0, imageLayout := 0 } },
    surfaceGetFormat := fun _ surface => if surface = 99 then AMF_SURFACE_RGBA else AMF_SURFACE_BGRA,
    surfaceConvert := fun w _ _ => (AMF_OK, w),
    surfaceGetPts := fun _ _ => 1000,
    surfaceGetPackedPlane := fun _ surface => some surface,
    planeGetNative := fun _ plane => some { hView := 300 + plane, pSurface := some plane },
    surfaceAddObserver := fun w _ => w,
    surfaceRemoveObserver := fun w _ => w,
    swapGetBackBufferIndex := fun w surface =>
      if surface ∈ w.acquired then (AMF_OK, surface - 1) else (AMF_NOT_FOUND, 0),
    swapAcquireNextBackBuffer := fun w => w.acquire,
    swapAcquireNextBackBufferSurface := fun w => w.acquire,
    swapDropBackBuffer := fun w b =>
      match b with
      | none => (AMF_INVALID_ARG, w)
      | some x => w.drop x,
    swapDropBackBufferSurface := fun w surface => w.drop surface,
    swapPresent := fun w _ => w.present,
    swapResize := fun w width height fullscreen => w.resize width height fullscreen,
    swapGetBackBuffersAvailable := fun w => w.poolSize - w.acquired.length,
    swapGetBackBuffersAcquired := fun w => w.acquired.length,
    swapFullscreenEnabled := fun w => w.fullscreen,
    swapGetSize := fun w => w.size,
    swapGetRenderPass := fun _ => 9,
    swapGetQueue := fun _ => 8,
    swapTerminate := fun w => (AMF_OK, w),
    renderTarget := fun w b => { iWidth := w.size.width, iHeight := w.size.height,
                                 m_hFrameBuffer := 500 + b },
    cmdGetBuffer := fun _ => 6,
    cmdStartRecording := fun w => (AMF_OK, w),
    cmdSyncResource := fun w _ _ => (AMF_OK, w),
    cmdExecute := fun w _ => (AMF_OK, w),
    cmdTerminate := fun w => (AMF_OK, w),
    getClientRect := fun w => w.clientRect,
    getPlaneRect := fun _ _ => { left := 0, top := 0, right := 1920, bottom := 1080 },
    getRenderViewSizeInfo := fun _ _ _ _ => (AMF_OK, []),
    resizeRenderView := fun w _ => (w.viewResult, w),
    updateProcessor := fun w => w,
    waitForPTS := fun w _ => w,
    transitionSurface := fun w _ _ => (AMF_OK, w),
    destroyBuffer := fun w _ => (AMF_OK, { hBuffer := NULL, hMemory := NULL, iSize := 0 }, w),
    contextTerminate := fun _ => (AMF_OK, { m_pVulkanDevice := none }),
    presenterTerminate := fun w => (AMF_OK, w),
    sleep := fun w _ => w,
    xFlush := fun w => w }

/-- The pipeline `exPipelineRegistered` after a successful `CreatePipeline`. -/
def exPipelineBuilt : RenderingPipelineVulkan :=
  { exPipelineRegistered with
    m_hRenderPass := 9, m_hPipeline := 32, m_hPipelineLayout := 31,
    m_descriptorSetGroupMap := [(0, { descriptorSetIndices := [0], descriptorSetHandles := [11] })] }

/-- A presenter after `Init(1920, 1080)` with input format BGRA, not rendering
into back buffers, with no resize pending. -/
def exPresenter : VideoPresenterVulkan :=
  { m_pVulkanDevice := some exDevice,
    m_bRenderToBackBuffer := false, m_bFrozen := false, m_bFullScreen := false,
    m_bWaitForVSync := false,
    m_rectClient := { left := 0, top := 0, right := 1920, bottom := 1080 },
    m_descriptorHeap := exFinalizedHeap,
    m_viewProjectionBuffer := { hBuffer := 61, hMemory := 62, iSize := 128 },
    m_eInputFormat := AMF_SURFACE_BGRA,
    m_pipeline := exPipelineBuilt,
    m_VertexBuffer := { hBuffer := 63, hMemory := 64, iSize := 80 },
    m_viewProjectionDescriptor := exViewProjectionDescriptor,
    m_samplerDescriptor := exSamplerDescriptor,
    m_hSampler := 200,
    m_TrackSurfaces := [],
    m_bResizeSwapChain := false }

/-- A swapchain of two back buffers at 1920 x 1080, none acquired, in a window
whose client area is 1920 x 1080. -/
def exWorld : PoolWorld :=
  { poolSize := 2, acquired := [], size := { width := 1920, height := 1080 },
    fullscreen := false, clientRect := { left := 0, top := 0, right := 1920, bottom := 1080 },
    viewResult := AMF_OK, dropResult := AMF_OK, presentResult := AMF_OK }

/-- The example swapchain with a render view whose resize fails with `AMF_FAIL`
and a drop that fails with `AMF_INVALID_ARG`. -/
def exWorldDropFails : PoolWorld :=
  { exWorld with viewResult := AMF_FAIL, dropResult := AMF_INVALID_ARG }

/-- The calls `Present` makes on `exWorldDropFails`. -/
def exDropFailsTrace : List Event :=
  [Event.surfaceConvert 50 AMF_MEMORY_VULKAN AMF_OK,
   Event.swapAcquireNextBackBuffer AMF_OK (some 1),
   Event.resizeRenderView AMF_FAIL, Event.renderSurface AMF_FAIL,
   Event.swapDropBackBuffer (some 1) AMF_INVALID_ARG]

/-- The example presenter after the application has asked for fullscreen while
the swapchain is still windowed: a fullscreen toggle is pending. -/
def exPresenterTogglePending : VideoPresenterVulkan :=
  { exPresenter with m_bFullScreen := true }

/-- The calls of the render step of the example presenter on surface 50 into
back buffer 1, each returning `AMF_OK`. -/
def exRenderTrace : List Event :=
  [Event.resizeRenderView AMF_OK,
   Event.vk (VkCall.vkUpdateDescriptorSets 7
     [{ sType := 35, dstSet := 11, dstBinding := 1, dstArrayElement := 0, descriptorCount := 1,
        descriptorType := 1,
        imageInfos := some [{ sampler := 200, imageView := 350, imageLayout := 5 }],
        bufferInfos := none }]),
   Event.cmdStartRecording AMF_OK,
   Event.vk (VkCall.vkCmdSetViewport 6 1920 1080),
   Event.vk (VkCall.vkCmdSetScissor 6 1920 1080),
   Event.vk (VkCall.vkCmdBeginRenderPass 6 9 501 1920 1080),
   Event.cmdSyncResource (SyncRef.renderTarget 1) 1024 AMF_OK,
   Event.vk (VkCall.vkCmdBindPipeline 6 32),
   Event.vk (VkCall.vkCmdBindDescriptorSets 6 31 0 [11]),
   Event.vk (VkCall.vkCmdBindVertexBuffers 6 [63]),
   Event.transitionSurface 50 5 AMF_OK,
   Event.cmdSyncResource (SyncRef.vulkanSurface 50) 1024 AMF_OK,
   Event.vk (VkCall.vkCmdDraw 6 4),
   Event.vk (VkCall.vkCmdEndRenderPass 6),
   Event.cmdExecute 8 AMF_OK,
   Event.renderSurface AMF_OK]

/-- The calls of `Present` of surface 50 on the `_WIN32` build with a
fullscreen toggle pending. -/
def exToggleTrace : List Event :=
  [Event.surfaceConvert 50 AMF_MEMORY_VULKAN AMF_OK,
   Event.swapResize 1920 1080 true AMF_OK, Event.updateProcessor,
   Event.swapAcquireNextBackBuffer AMF_OK (some 1)] ++ exRenderTrace ++
  [Event.waitForPTS 1000, Event.swapPresent false AMF_OK]

/-- The example presenter rendering into back buffers, frozen, with the
surfaces of both back buffers handed out and tracked. -/
def exPresenterFrozen : VideoPresenterVulkan :=
  { exPresenter with m_bRenderToBackBuffer := true, m_bFrozen := true, m_TrackSurfaces := [1, 2] }

/-- The presenter `exPresenterFrozen` with a swapchain resize pending. -/
def exPresenterFrozenResize : VideoPresenterVulkan :=
  { exPresenterFrozen with m_bResizeSwapChain := true }

/-- The example swapchain with both back buffers acquired. -/
def exWorldFull : PoolWorld := { exWorld with acquired := [1, 2] }

/-- The outcome of `Present` of surface 50 on `exWorldDropFails`. -/
def exDropFailsOut : PresenterOut PoolWorld :=
  { res := AMF_INVALID_ARG, st := exPresenter,
    w := { exWorldDropFails with acquired := [1] }, trace := exDropFailsTrace }

/-- The outcome of `Present` of surface 50 on the `_WIN32` build with a
fullscreen toggle pending. -/
def exToggleOut : PresenterOut PoolWorld :=
  { res := AMF_OK, st := exPresenterTogglePending,
    w := { exWorld with fullscreen := true }, trace := exToggleTrace }

/-- The example presenter with the resize flag set. -/
def exPresenterResizePending : VideoPresenterVulkan :=
  { exPresenter with m_bResizeSwapChain := true }

/-- The example swapchain after the window's client area has become
1280 x 720. -/
def exWorldWindowResized : PoolWorld :=
  { exWorld with clientRect := { left := 0, top := 0, right := 1280, bottom := 720 } }

/-- A registration of the view-projection descriptor alone to which the driver
answers `VK_ERROR_OUT_OF_HOST_MEMORY` and no layout handle. -/
def exRegisterCallFails : RegisterCall :=
  { ppDescriptors := some [some exViewProjectionDescriptor], count := 1, layoutResp := (-1, NULL) }

/-- A registration of the sampler descriptor alone; the driver answers
`VK_SUCCESS` and layout handle 22. -/
def exRegisterCallSampler : RegisterCall :=
  { ppDescriptors := some [some exSamplerDescriptor], count := 1, layoutResp := (VK_SUCCESS, 22) }

/-- The outcome of `exRegisterCallFails` on a fresh registry: the layout list
and the pool sizes have grown and the descriptor has set index 0. -/
def exRegisterFailedOut : RegisterOut :=
  { res := AMF_VULKAN_FAILED,
    heap := { DescriptorHeapVulkan.init (some exDevice) with
      m_hDescriptorSetLayouts := [NULL],
      m_descriptorPoolSizes := [{ type := 6, descriptorCount := 1 }] },
    descriptors := [some exViewProjectionDescriptor],
    calls := [VkCall.vkCreateDescriptorSetLayout 7 [exViewProjectionDescriptor.layoutBinding]] }

/-- The outcome of `exRegisterCallSampler` after `exRegisterCallFails`. -/
def exRegisterSecondOut : RegisterOut :=
  { res := AMF_OK,
    heap := { DescriptorHeapVulkan.init (some exDevice) with
      m_hDescriptorSetLayouts := [NULL, 22],
      m_descriptorPoolSizes := [{ type := 6, descriptorCount := 1 },
                                { type := 1, descriptorCount := 1 }] },
    descriptors := [some { exSamplerDescriptor with setIndex := 1 }],
    calls := [VkCall.vkCreateDescriptorSetLayout 7 [exSamplerDescriptor.layoutBinding]] }

/-- The outcomes of `exRegisterCall` and then `exRegisterCallSampler` on a fresh
registry. -/
def exRegisterRunOuts : List RegisterOut :=
  [{ res := AMF_OK, heap := exRegisteredHeap,
     descriptors := [some exViewProjectionDescriptor, some exSamplerDescriptor],
     calls := [VkCall.vkCreateDescriptorSetLayout 7
       [exViewProjectionDescriptor.layoutBinding, exSamplerDescriptor.layoutBinding]] },
   { res := AMF_OK,
     heap := { exRegisteredHeap with
       m_hDescriptorSetLayouts := [21, 22],
       m_descriptorPoolSizes := [{ type := 6, descriptorCount := 1 },
         { type := 1, descriptorCount := 1 }, { type := 1, descriptorCount := 1 }] },
     descriptors := [some { exSamplerDescriptor with setIndex := 1 }],
     calls := [VkCall.vkCreateDescriptorSetLayout 7 [exSamplerDescriptor.layoutBinding]] }]

/-- The example presenter before `CreateDescriptors`: its registry is
`exRegisteredHeap`. -/
def exPresenterRegistering : VideoPresenterVulkan :=
  { exPresenter with m_descriptorHeap := exRegisteredHeap }

/-- The registry `exRegisteredHeap` holding a copy of one buffer info that backs
no pending write: what a deferred update that fails with `AMF_NOT_INITIALIZED`
leaves behind. -/
def exHeapOrphanCopy : DescriptorHeapVulkan :=
  { exRegisteredHeap with
    m_descriptorBufferInfoHeap := [[{ buffer := 100, offset := 0, range := 128 }]] }

/-- A finalised registry with two layouts, 21 and 22, and two descriptor sets,
11 and 12, allocated from pool 5. -/
def exTwoSetHeap : DescriptorHeapVulkan :=
  { m_pVulkanDevice := some exDevice, m_hDescriptorPool := 5, m_hDescriptorSets := [11, 12],
    m_hDescriptorSetLayouts := [21, 22],
    m_descriptorPoolSizes := [{ type := 6, descriptorCount := 1 }, { type := 1, descriptorCount := 1 }],
    m_pendingDescriptorUpdates := [], m_descriptorBufferInfoHeap := [],
    m_descriptorImageInfoHeap := [] }

/-- A registry, not yet finalised, with two layouts: 21 for set 0 and 22 for
set 1. -/
def exTwoLayoutHeap : DescriptorHeapVulkan :=
  { exRegisteredHeap with
    m_hDescriptorSetLayouts := [21, 22],
    m_descriptorPoolSizes := [{ type := 6, descriptorCount := 1 }, { type := 1, descriptorCount := 1 }] }

/-- Two registrations on the example pipeline: set 1 into slot 0 of group 0,
then set 0 into slot 1 of group 0. -/
def exPipelineCallsDescending : List PipelineRegisterCall :=
  [{ heap := exTwoLayoutHeap, setIndex := 1, setNum := 0, pGroups := some [0], groupCount := 1 },
   { heap := exTwoLayoutHeap, setIndex := 0, setNum := 1, pGroups := some [0], groupCount := 1 }]

/-- Two registrations on the example pipeline: set 0 into slot 0 of group 0,
then set 0 into slot 0 of group 1. -/
def exPipelineCallsRepeated : List PipelineRegisterCall :=
  [{ heap := exTwoLayoutHeap, setIndex := 0, setNum := 0, pGroups := some [0], groupCount := 1 },
   { heap := exTwoLayoutHeap, setIndex := 0, setNum := 0, pGroups := some [1], groupCount := 1 }]

/-- A registration that gets past validation, followed by `Terminate`. -/
def exOpsRegisterTerminate : List RegistryOp :=
  [RegistryOp.register exRegisterCall, RegistryOp.terminate]

/-- A registration, a successful `CreateDescriptors`, a registration rejected
because the pool exists, a queued update and a flush. -/
def exOpsRegisterFinalize : List RegistryOp :=
  [RegistryOp.register exRegisterCall,
   RegistryOp.finalize (VK_SUCCESS, 5) (VK_SUCCESS, [11]),
   RegistryOp.register exRegisterCall,
   RegistryOp.updateBuffer exMemQueued (some exViewProjectionDescriptor) 0 1 0 false,
   RegistryOp.flush exMemQueued]

/-- Collaborators of `Init` that succeed, on top of `exEnv`.  The context of an
object takes the device it is given; buffer creation answers with handles
derived from the address of the data; both shader files exist. -/
def exInitEnv : InitEnv PoolWorld :=
  { exEnv with
    presenterInit := fun w _ _ => (AMF_OK, w),
    swapInit := fun w width height _ =>
      (AMF_OK, { w with size := { width := width, height := height } }),
    contextInitFromSwapChain := fun w _ => (AMF_OK, { m_pVulkanDevice := some exDevice }, w),
    contextInit := fun w _ _ dev => (AMF_OK, { m_pVulkanDevice := dev }, w),
    cmdInit := fun w _ => (AMF_OK, w),
    makeBuffer := fun w pData size _ _ _ =>
      (AMF_OK, { hBuffer := pData + 1, hMemory := pData + 2, iSize := size }, w),
    readFile := fun _ name =>
      if name = "quad.vert.spv" then some [1, 2, 3]
      else if name = "quad.frag.spv" then some [4, 5] else none,
    mapOrder := exMapOrder }

/-- The example presenter before `PrepareStates`: no buffers and no sampler. -/
def exPresenterNoBuffers : VideoPresenterVulkan :=
  { exPresenter with
    m_viewProjectionBuffer := { hBuffer := NULL, hMemory := NULL, iSize := 0 },
    m_VertexBuffer := { hBuffer := NULL, hMemory := NULL, iSize := 0 },
    m_hSampler := NULL }

/-- The example presenter before `CreateDescriptors`: the view-projection
descriptor is registered and has no descriptor set yet. -/
def exPresenterNotFinalized : VideoPresenterVulkan :=
  { exPresenterNoBuffers with m_descriptorHeap := exRegisteredHeap }

/-- The presenter as its constructor leaves it: input format BGRA, no device,
an empty registry and pipeline, no buffers, no sampler. -/
def exPresenterNew : VideoPresenterVulkan :=
  { m_pVulkanDevice := none,
    m_bRenderToBackBuffer := false, m_bFrozen := false, m_bFullScreen := false,
    m_bWaitForVSync := false,
    m_rectClient := { left := 0, top := 0, right := 0, bottom := 0 },
    m_descriptorHeap := DescriptorHeapVulkan.init none,
    m_viewProjectionBuffer := { hBuffer := NULL, hMemory := NULL, iSize := 0 },
    m_eInputFormat := AMF_SURFACE_BGRA,
    m_pipeline := RenderingPipelineVulkan.new,
    m_VertexBuffer := { hBuffer := NULL, hMemory := NULL, iSize := 0 },
    m_viewProjectionDescriptor := DescriptorVulkan.zero,
    m_samplerDescriptor := DescriptorVulkan.zero,
    m_hSampler := NULL,
    m_TrackSurfaces := [],
    m_bResizeSwapChain := false }

/-- The driver creates every object of `Init`. -/
def exInitResponses : InitResponses :=
  { setLayout := (VK_SUCCESS, 21), descriptorPool := (VK_SUCCESS, 5),
    descriptorSets := (VK_SUCCESS, [11]), vertexShader := (VK_SUCCESS, 41),
    fragmentShader := (VK_SUCCESS, 42), pipelineLayout := (VK_SUCCESS, 31),
    graphicsPipeline := (VK_SUCCESS, 32), sampler := (VK_SUCCESS, 200) }

/-- The collaborators of `exInitEnv`, except that `VulkanContext::Init` fails
with `AMF_FAIL` on the pipeline and leaves it without a device. -/
def exInitEnvPipelineFails : InitEnv PoolWorld :=
  { exInitEnv with
    contextInit := fun w object ctx dev =>
      if object = ContextObject.pipeline then (AMF_FAIL, ctx, w)
      else (AMF_OK, { m_pVulkanDevice := dev }, w) }

/-! ## Theorems -/

/-! ### Registry: deferred and immediate updates -/

theorem readArray_take {T : Type} (mem : Nat → T) (p count : Nat) :
    (readArray mem p count).take count = readArray mem p count := by
  apply List.take_of_length_le
  simp [readArray]

theorem readArray_get {T : Type} (mem : Nat → T) (p count j : Nat) (hj : j < count) :
    (readArray mem p count)[j]? = some (mem (p + j)) := by
  simp [readArray, List.getElem?_range, hj]

/-- A buffer update that passes every check: the infos are copied into a new
heap block, and the write (pointing at that block) is issued or queued. -/
theorem UpdateDescriptorSetBuffer_ok (h : DescriptorHeapVulkan) (mem : CallerMem)
    (d : DescriptorVulkan) (a count p : Nat) (immediate : Bool) (dev : AMFVulkanDevice)
    (hdev : h.m_pVulkanDevice = some dev) (hnull : dev.hDevice ≠ NULL)
    (hset : h.GetDescriptorSet d.setIndex ≠ NULL) (hc : 0 < count) :
    h.UpdateDescriptorSetBuffer mem (some d) a count p immediate =
      if immediate = true then
        { res := AMF_OK,
          heap := { h with m_descriptorBufferInfoHeap :=
                      h.m_descriptorBufferInfoHeap ++ [readArray mem.buffers p count] },
          calls := [VkCall.vkUpdateDescriptorSets dev.hDevice
            [{ sType := VK_STRUCTURE_TYPE_WRITE_DESCRIPTOR_SET,
               dstSet := h.GetDescriptorSet d.setIndex,
               dstBinding := d.layoutBinding.binding, dstArrayElement := a,
               descriptorCount := count, descriptorType := d.layoutBinding.descriptorType,
               imageInfos := none, bufferInfos := some (readArray mem.buffers p count) }]] }
      else
        { res := AMF_OK,
          heap := { h with
            m_descriptorBufferInfoHeap :=
              h.m_descriptorBufferInfoHeap ++ [readArray mem.buffers p count],
            m_pendingDescriptorUpdates := h.m_pendingDescriptorUpdates ++
              [{ sType := VK_STRUCTURE_TYPE_WRITE_DESCRIPTOR_SET,
                 dstSet := h.GetDescriptorSet d.setIndex,
                 dstBinding := d.layoutBinding.binding, dstArrayElement := a,
                 descriptorCount := count, descriptorType := d.layoutBinding.descriptorType,
                 pImageInfo := InfoPtr.null,
                 pBufferInfo := InfoPtr.heap h.m_descriptorBufferInfoHeap.length }] },
          calls := [] } := by
  simp only [DescriptorHeapVulkan.GetDescriptorSet] at hset
  cases immediate <;>
  simp [DescriptorHeapVulkan.UpdateDescriptorSetBuffer,
    DescriptorHeapVulkan.UpdateDescriptorSetWrite, ProcessUpdateInfo, hdev, hnull, hset, hc,
    Nat.pos_iff_ne_zero.mp hc,
    DescriptorHeapVulkan.GetDescriptorSet, resolveWrite, derefInfo, VkWriteDescriptorSet.zero,
    readArray_take]

/-- An image update that passes every check: the infos are copied into a new
heap block, and the write (pointing at that block) is issued or queued. -/
theorem UpdateDescriptorSetImage_ok (h : DescriptorHeapVulkan) (mem : CallerMem)
    (d : DescriptorVulkan) (a count p : Nat) (immediate : Bool) (dev : AMFVulkanDevice)
    (hdev : h.m_pVulkanDevice = some dev) (hnull : dev.hDevice ≠ NULL)
    (hset : h.GetDescriptorSet d.setIndex ≠ NULL) (hc : 0 < count) :
    h.UpdateDescriptorSetImage mem (some d) a count p immediate =
      if immediate = true then
        { res := AMF_OK,
          heap := { h with m_descriptorImageInfoHeap :=
                      h.m_descriptorImageInfoHeap ++ [readArray mem.images p count] },
          calls := [VkCall.vkUpdateDescriptorSets dev.hDevice
            [{ sType := VK_STRUCTURE_TYPE_WRITE_DESCRIPTOR_SET,
               dstSet := h.GetDescriptorSet d.setIndex,
               dstBinding := d.layoutBinding.binding, dstArrayElement := a,
               descriptorCount := count, descriptorType := d.layoutBinding.descriptorType,
               imageInfos := some (readArray mem.images p count), bufferInfos := none }]] }
      else
        { res := AMF_OK,
          heap := { h with
            m_descriptorImageInfoHeap :=
              h.m_descriptorImageInfoHeap ++ [readArray mem.images p count],
            m_pendingDescriptorUpdates := h.m_pendingDescriptorUpdates ++
              [{ sType := VK_STRUCTURE_TYPE_WRITE_DESCRIPTOR_SET,
                 dstSet := h.GetDescriptorSet d.setIndex,
                 dstBinding := d.layoutBinding.binding, dstArrayElement := a,
                 descriptorCount := count, descriptorType := d.layoutBinding.descriptorType,
                 pImageInfo := InfoPtr.heap h.m_descriptorImageInfoHeap.length,
                 pBufferInfo := InfoPtr.null }] },
          calls := [] } := by
  simp only [DescriptorHeapVulkan.GetDescriptorSet] at hset
  cases immediate <;>
  simp [DescriptorHeapVulkan.UpdateDescriptorSetImage,
    DescriptorHeapVulkan.UpdateDescriptorSetWrite, ProcessUpdateInfo, hdev, hnull, hset, hc,
    Nat.pos_iff_ne_zero.mp hc,
    DescriptorHeapVulkan.GetDescriptorSet, resolveWrite, derefInfo, VkWriteDescriptorSet.zero,
    readArray_take]

/-- A buffer update that fails one of its checks issues no call, queues
nothing, and does not return `AMF_OK`. -/
theorem UpdateDescriptorSetBuffer_rejected (h : DescriptorHeapVulkan) (mem : CallerMem)
    (d : DescriptorVulkan) (a count p : Nat) (immediate : Bool)
    (hrej : ¬ ∃ dev, h.m_pVulkanDevice = some dev ∧ dev.hDevice ≠ NULL ∧
      h.GetDescriptorSet d.setIndex ≠ NULL ∧ 0 < count) :
    (h.UpdateDescriptorSetBuffer mem (some d) a count p immediate).res ≠ AMF_OK ∧
    (h.UpdateDescriptorSetBuffer mem (some d) a count p immediate).calls = [] ∧
    (h.UpdateDescriptorSetBuffer mem (some d) a count p immediate).heap.m_pendingDescriptorUpdates
      = h.m_pendingDescriptorUpdates ∧
    (h.UpdateDescriptorSetBuffer mem (some d) a count p immediate).heap.toVulkanContext
      = h.toVulkanContext := by
  simp only [DescriptorHeapVulkan.UpdateDescriptorSetBuffer,
    DescriptorHeapVulkan.UpdateDescriptorSetWrite, ProcessUpdateInfo,
    DescriptorHeapVulkan.GetDescriptorSet] at *
  cases hdev : h.m_pVulkanDevice with
  | none => by_cases hc : count > 0 <;> simp [hc]
  | some dev =>
    by_cases hc : count > 0
    · by_cases hnull : dev.hDevice = NULL
      · simp [hc, hnull]
      · by_cases hset : handleAt h.m_hDescriptorSets d.setIndex = NULL
        · simp [hc, hnull, hset]
        · exact absurd ⟨dev, hdev, hnull, hset, hc⟩ hrej
    · simp [hc]

/-- An image update that fails one of its checks issues no call, queues
nothing, and does not return `AMF_OK`. -/
theorem UpdateDescriptorSetImage_rejected (h : DescriptorHeapVulkan) (mem : CallerMem)
    (d : DescriptorVulkan) (a count p : Nat) (immediate : Bool)
    (hrej : ¬ ∃ dev, h.m_pVulkanDevice = some dev ∧ dev.hDevice ≠ NULL ∧
      h.GetDescriptorSet d.setIndex ≠ NULL ∧ 0 < count) :
    (h.UpdateDescriptorSetImage mem (some d) a count p immediate).res ≠ AMF_OK ∧
    (h.UpdateDescriptorSetImage mem (some d) a count p immediate).calls = [] ∧
    (h.UpdateDescriptorSetImage mem (some d) a count p immediate).heap.m_pendingDescriptorUpdates
      = h.m_pendingDescriptorUpdates ∧
    (h.UpdateDescriptorSetImage mem (some d) a count p immediate).heap.toVulkanContext
      = h.toVulkanContext := by
  simp only [DescriptorHeapVulkan.UpdateDescriptorSetImage,
    DescriptorHeapVulkan.UpdateDescriptorSetWrite, ProcessUpdateInfo,
    DescriptorHeapVulkan.GetDescriptorSet] at *
  cases hdev : h.m_pVulkanDevice with
  | none => by_cases hc : count > 0 <;> simp [hc]
  | some dev =>
    by_cases hc : count > 0
    · by_cases hnull : dev.hDevice = NULL
      · simp [hc, hnull]
      · by_cases hset : handleAt h.m_hDescriptorSets d.setIndex = NULL
        · simp [hc, hnull, hset]
        · exact absurd ⟨dev, hdev, hnull, hset, hc⟩ hrej
    · simp [hc]

/-- A flush with nothing queued issues no call. -/
theorem UpdatePendingDescriptorSets_empty (h : DescriptorHeapVulkan) (mem : CallerMem)
    (hp : h.m_pendingDescriptorUpdates = []) :
    (h.UpdatePendingDescriptorSets mem).calls = [] := by
  unfold DescriptorHeapVulkan.UpdatePendingDescriptorSets
  cases h.m_pVulkanDevice with
  | none => simp
  | some dev => by_cases hnull : dev.hDevice = NULL <;> simp [hnull, hp]

/-- The calls of a deferred buffer update followed by a flush are the calls of
the immediate buffer update, whatever the caller's memory holds at the flush. -/
theorem buffer_deferred_calls (h : DescriptorHeapVulkan) (memQ memF : CallerMem)
    (d : DescriptorVulkan) (a count p : Nat) (hpending : h.m_pendingDescriptorUpdates = []) :
    (h.UpdateDescriptorSetBuffer memQ (some d) a count p false).calls ++
      ((h.UpdateDescriptorSetBuffer memQ (some d) a count p false).heap.UpdatePendingDescriptorSets
        memF).calls =
    (h.UpdateDescriptorSetBuffer memQ (some d) a count p true).calls := by
  by_cases hok : ∃ dev, h.m_pVulkanDevice = some dev ∧ dev.hDevice ≠ NULL ∧
      h.GetDescriptorSet d.setIndex ≠ NULL ∧ 0 < count
  · obtain ⟨dev, hdev, hnull, hset, hc⟩ := hok
    rw [UpdateDescriptorSetBuffer_ok h memQ d a count p false dev hdev hnull hset hc,
      UpdateDescriptorSetBuffer_ok h memQ d a count p true dev hdev hnull hset hc]
    simp [DescriptorHeapVulkan.UpdatePendingDescriptorSets, hdev, hnull, hpending,
      resolveWrite, derefInfo, readArray_take]
  · have hq := UpdateDescriptorSetBuffer_rejected h memQ d a count p false hok
    have hi := UpdateDescriptorSetBuffer_rejected h memQ d a count p true hok
    rw [hq.2.1, hi.2.1, UpdatePendingDescriptorSets_empty _ memF (hq.2.2.1.trans hpending)]
    rfl

/-- The calls of a deferred image update followed by a flush are the calls of
the immediate image update, whatever the caller's memory holds at the flush. -/
theorem image_deferred_calls (h : DescriptorHeapVulkan) (memQ memF : CallerMem)
    (d : DescriptorVulkan) (a count p : Nat) (hpending : h.m_pendingDescriptorUpdates = []) :
    (h.UpdateDescriptorSetImage memQ (some d) a count p false).calls ++
      ((h.UpdateDescriptorSetImage memQ (some d) a count p false).heap.UpdatePendingDescriptorSets
        memF).calls =
    (h.UpdateDescriptorSetImage memQ (some d) a count p true).calls := by
  by_cases hok : ∃ dev, h.m_pVulkanDevice = some dev ∧ dev.hDevice ≠ NULL ∧
      h.GetDescriptorSet d.setIndex ≠ NULL ∧ 0 < count
  · obtain ⟨dev, hdev, hnull, hset, hc⟩ := hok
    rw [UpdateDescriptorSetImage_ok h memQ d a count p false dev hdev hnull hset hc,
      UpdateDescriptorSetImage_ok h memQ d a count p true dev hdev hnull hset hc]
    simp [DescriptorHeapVulkan.UpdatePendingDescriptorSets, hdev, hnull, hpending,
      resolveWrite, derefInfo, readArray_take]
  · have hq := UpdateDescriptorSetImage_rejected h memQ d a count p false hok
    have hi := UpdateDescriptorSetImage_rejected h memQ d a count p true hok
    rw [hq.2.1, hi.2.1, UpdatePendingDescriptorSets_empty _ memF (hq.2.2.1.trans hpending)]
    rfl

/-- The binding that one buffer write of `count` elements leaves at element
`a + j`. -/
theorem gpuRun_buffer_write (g : GpuBindings) (hDevice set binding a count type : Nat)
    (infos : List VkDescriptorBufferInfo) (j : Nat) (r : VkDescriptorBufferInfo)
    (ht : isBufferDescriptorType type = true) (hj : j < count) (hr : infos[j]? = some r) :
    gpuRun g [VkCall.vkUpdateDescriptorSets hDevice
      [{ sType := VK_STRUCTURE_TYPE_WRITE_DESCRIPTOR_SET, dstSet := set, dstBinding := binding,
         dstArrayElement := a, descriptorCount := count, descriptorType := type,
         imageInfos := none, bufferInfos := some infos }]] set binding (a + j) =
      some (BoundResource.buffer r) := by
  have hni : isImageDescriptorType type = false := by
    simp only [isBufferDescriptorType, isImageDescriptorType, decide_eq_true_eq,
      decide_eq_false_iff_not] at ht ⊢
    omega
  simp [gpuRun, gpuStep, applyWrite, ResolvedWrite.element, ht, hni, hj, hr]

/-- The binding that one image write of `count` elements leaves at element
`a + j`. -/
theorem gpuRun_image_write (g : GpuBindings) (hDevice set binding a count type : Nat)
    (infos : List VkDescriptorImageInfo) (j : Nat) (r : VkDescriptorImageInfo)
    (ht : isImageDescriptorType type = true) (hj : j < count) (hr : infos[j]? = some r) :
    gpuRun g [VkCall.vkUpdateDescriptorSets hDevice
      [{ sType := VK_STRUCTURE_TYPE_WRITE_DESCRIPTOR_SET, dstSet := set, dstBinding := binding,
         dstArrayElement := a, descriptorCount := count, descriptorType := type,
         imageInfos := some infos, bufferInfos := none }]] set binding (a + j) =
      some (BoundResource.image r) := by
  simp [gpuRun, gpuStep, applyWrite, ResolvedWrite.element, ht, hj, hr]

/-- C1. Round trip of a deferred update.  On a registry with an empty pending
list, queueing the update `(d, a, infos at p)` with `immediate = false` while
the caller's memory is `memQ`, then flushing with `UpdatePendingDescriptorSets`
after the caller's memory has become an arbitrary `memF`, issues exactly the
Vulkan calls of the same update with `immediate = true`; hence every GPU-visible
binding is the same either way.  When the update is accepted (device present,
descriptor set allocated, `count > 0`), the binding of array element `a + j` is
the info the caller had at `p + j` when the update was queued.  This holds for
buffer infos and for image infos. -/
theorem deferred_update_flush_eq_immediate (h : DescriptorHeapVulkan) (memQ memF : CallerMem)
    (d : DescriptorVulkan) (a count p : Nat) (g : GpuBindings)
    (hpending : h.m_pendingDescriptorUpdates = []) :
    (gpuRun g ((h.UpdateDescriptorSetBuffer memQ (some d) a count p false).calls ++
        ((h.UpdateDescriptorSetBuffer memQ (some d) a count p false).heap.UpdatePendingDescriptorSets
          memF).calls) =
      gpuRun g (h.UpdateDescriptorSetBuffer memQ (some d) a count p true).calls) ∧
    (gpuRun g ((h.UpdateDescriptorSetImage memQ (some d) a count p false).calls ++
        ((h.UpdateDescriptorSetImage memQ (some d) a count p false).heap.UpdatePendingDescriptorSets
          memF).calls) =
      gpuRun g (h.UpdateDescriptorSetImage memQ (some d) a count p true).calls) ∧
    (∀ dev, h.m_pVulkanDevice = some dev → dev.hDevice ≠ NULL →
      h.GetDescriptorSet d.setIndex ≠ NULL → ∀ j, j < count →
      (isBufferDescriptorType d.layoutBinding.descriptorType = true →
        gpuRun g ((h.UpdateDescriptorSetBuffer memQ (some d) a count p false).calls ++
          ((h.UpdateDescriptorSetBuffer memQ (some d) a count p
            false).heap.UpdatePendingDescriptorSets memF).calls)
          (h.GetDescriptorSet d.setIndex) d.layoutBinding.binding (a + j) =
        some (BoundResource.buffer (memQ.buffers (p + j)))) ∧
      (isImageDescriptorType d.layoutBinding.descriptorType = true →
        gpuRun g ((h.UpdateDescriptorSetImage memQ (some d) a count p false).calls ++
          ((h.UpdateDescriptorSetImage memQ (some d) a count p
            false).heap.UpdatePendingDescriptorSets memF).calls)
          (h.GetDescriptorSet d.setIndex) d.layoutBinding.binding (a + j) =
        some (BoundResource.image (memQ.images (p + j))))) := by
  refine ⟨?_, ?_, ?_⟩
  · rw [buffer_deferred_calls h memQ memF d a count p hpending]
  · rw [image_deferred_calls h memQ memF d a count p hpending]
  · intro dev hdev hnull hset j hj
    have hc : 0 < count := by omega
    constructor
    · intro ht
      rw [buffer_deferred_calls h memQ memF d a count p hpending,
        UpdateDescriptorSetBuffer_ok h memQ d a count p true dev hdev hnull hset hc]
      exact gpuRun_buffer_write g _ _ _ _ _ _ _ j _ ht hj (readArray_get _ _ _ _ hj)
    · intro ht
      rw [image_deferred_calls h memQ memF d a count p hpending,
        UpdateDescriptorSetImage_ok h memQ d a count p true dev hdev hnull hset hc]
      exact gpuRun_image_write g _ _ _ _ _ _ _ j _ ht hj (readArray_get _ _ _ _ hj)

/-! ### Registry: registration and finalisation -/

/-- What any defined `RegisterDescriptorSet` call leaves alone, and what a
successful one appends. -/
theorem RegisterDescriptorSet_frame (h : DescriptorHeapVulkan)
    (pp : Option (List (Option DescriptorVulkan))) (count : Nat) (resp : VkResult × Handle)
    (r : RegisterOut) (hr : h.RegisterDescriptorSet pp count resp = some r) :
    r.heap.m_hDescriptorSets = h.m_hDescriptorSets ∧
    r.heap.m_hDescriptorPool = h.m_hDescriptorPool ∧
    r.heap.toVulkanContext = h.toVulkanContext ∧
    r.heap.m_pendingDescriptorUpdates = h.m_pendingDescriptorUpdates ∧
    h.m_hDescriptorSetLayouts.length ≤ r.heap.m_hDescriptorSetLayouts.length ∧
    (r.res = AMF_OK → r.heap.m_hDescriptorSetLayouts = h.m_hDescriptorSetLayouts ++ [resp.2]) := by
  unfold DescriptorHeapVulkan.RegisterDescriptorSet at hr
  split at hr
  · cases hr; simp
  · split at hr
    · cases hr; simp
    · split at hr
      · cases hr; simp
      · split at hr
        · cases hr
        · cases hr; simp
        · split at hr
          · cases hr
          · split at hr <;> cases hr <;> simp

/-- A sequence of registrations never allocates descriptor sets, never touches
the pool, the device pointer or the pending list, and never shrinks the layout
list. -/
theorem registerAll_frame (regs : List RegisterCall) :
    ∀ (h h' : DescriptorHeapVulkan), h.registerAll regs = some h' →
    h'.m_hDescriptorSets = h.m_hDescriptorSets ∧
    h'.m_hDescriptorPool = h.m_hDescriptorPool ∧
    h'.toVulkanContext = h.toVulkanContext ∧
    h'.m_pendingDescriptorUpdates = h.m_pendingDescriptorUpdates ∧
    h.m_hDescriptorSetLayouts.length ≤ h'.m_hDescriptorSetLayouts.length := by
  induction regs with
  | nil =>
    intro h h' hr
    simp only [DescriptorHeapVulkan.registerAll, Option.some.injEq] at hr
    subst hr
    simp
  | cons c cs ih =>
    intro h h' hr
    simp only [DescriptorHeapVulkan.registerAll] at hr
    cases hc : h.RegisterDescriptorSet c.ppDescriptors c.count c.layoutResp with
    | none => simp [hc] at hr
    | some r =>
      simp only [hc] at hr
      have h1 := RegisterDescriptorSet_frame h _ _ _ r hc
      have h2 := ih r.heap h' hr
      refine ⟨h2.1.trans h1.1, h2.2.1.trans h1.2.1, h2.2.2.1.trans h1.2.2.1,
        h2.2.2.2.1.trans h1.2.2.2.1, le_trans h1.2.2.2.2.1 h2.2.2.2.2⟩

/-- A successful `CreateDescriptors` on a registry with at least one layout
leaves the registry with as many descriptor sets as layouts and the device
pointer it had. -/
theorem CreateDescriptors_ok_sets (h : DescriptorHeapVulkan) (poolResp : VkResult × Handle)
    (allocResp : VkResult × List Handle)
    (hok : (h.CreateDescriptors poolResp allocResp).res = AMF_OK)
    (hl : 0 < h.m_hDescriptorSetLayouts.length) :
    (h.CreateDescriptors poolResp allocResp).heap.m_hDescriptorSets.length =
      h.m_hDescriptorSetLayouts.length ∧
    (h.CreateDescriptors poolResp allocResp).heap.toVulkanContext = h.toVulkanContext ∧
    ∃ dev, h.m_pVulkanDevice = some dev ∧ dev.hDevice ≠ NULL := by
  have hl' : h.m_hDescriptorSetLayouts ≠ [] := by
    intro hnil; simp [hnil] at hl
  unfold DescriptorHeapVulkan.CreateDescriptors at hok ⊢
  cases hdev : h.m_pVulkanDevice with
  | none => simp [hdev] at hok
  | some dev =>
    simp only [hdev] at hok ⊢
    by_cases hnull : dev.hDevice = NULL
    · simp [hnull] at hok
    · by_cases hpool : h.m_hDescriptorPool = NULL
      · by_cases hsets : h.m_hDescriptorSets = []
        · by_cases hp : poolResp.1 = VK_SUCCESS
          · by_cases ha : allocResp.1 = VK_SUCCESS
            · simp [hnull, hpool, hsets, hl', hp, ha]
            · simp [hnull, hpool, hsets, hl', hp, ha] at hok
          · simp [hnull, hpool, hsets, hl', hp] at hok
        · simp [hnull, hpool, hsets] at hok
      · simp [hnull, hpool] at hok

/-- `CreateDescriptors` on a registry that already holds descriptor sets. -/
theorem CreateDescriptors_again (h : DescriptorHeapVulkan) (poolResp : VkResult × Handle)
    (allocResp : VkResult × List Handle) (dev : AMFVulkanDevice)
    (hdev : h.m_pVulkanDevice = some dev) (hnull : dev.hDevice ≠ NULL)
    (hs : 0 < h.m_hDescriptorSets.length) :
    h.CreateDescriptors poolResp allocResp =
      { res := AMF_ALREADY_INITIALIZED, heap := h, calls := [] } := by
  have hs' : h.m_hDescriptorSets ≠ [] := by
    intro hnil; simp [hnil] at hs
  unfold DescriptorHeapVulkan.CreateDescriptors
  by_cases hpool : h.m_hDescriptorPool = NULL <;> simp [hdev, hnull, hpool, hs']

/-- C2. On a registry on which a `RegisterDescriptorSet` call succeeded
(followed by any further registration calls) and a first `CreateDescriptors`
succeeded, a second `CreateDescriptors` returns `AMF_ALREADY_INITIALIZED`,
issues no Vulkan call and leaves the whole registry, in particular the pool and
the allocated descriptor sets, unchanged, whatever the driver would answer. -/
theorem second_CreateDescriptors_already_initialized (h0 : DescriptorHeapVulkan)
    (c : RegisterCall) (r : RegisterOut) (more : List RegisterCall) (h1 : DescriptorHeapVulkan)
    (poolResp poolResp2 : VkResult × Handle) (allocResp allocResp2 : VkResult × List Handle)
    (hreg : h0.RegisterDescriptorSet c.ppDescriptors c.count c.layoutResp = some r)
    (hregok : r.res = AMF_OK)
    (hmore : r.heap.registerAll more = some h1)
    (hfin : (h1.CreateDescriptors poolResp allocResp).res = AMF_OK) :
    (h1.CreateDescriptors poolResp allocResp).heap.CreateDescriptors poolResp2 allocResp2 =
      { res := AMF_ALREADY_INITIALIZED, heap := (h1.CreateDescriptors poolResp allocResp).heap,
        calls := [] } := by
  have hr := RegisterDescriptorSet_frame h0 _ _ _ r hreg
  have hlen : 0 < r.heap.m_hDescriptorSetLayouts.length := by
    rw [hr.2.2.2.2.2 hregok]; simp
  have hm := registerAll_frame more r.heap h1 hmore
  have hl1 : 0 < h1.m_hDescriptorSetLayouts.length := lt_of_lt_of_le hlen hm.2.2.2.2
  obtain ⟨hsets, hctx, dev, hdev, hnull⟩ := CreateDescriptors_ok_sets h1 poolResp allocResp hfin hl1
  apply CreateDescriptors_again _ poolResp2 allocResp2 dev _ hnull
  · rw [hsets]; exact hl1
  · have : (h1.CreateDescriptors poolResp allocResp).heap.m_pVulkanDevice = h1.m_pVulkanDevice :=
      congrArg VulkanContext.m_pVulkanDevice hctx
    rw [this, hdev]

/-- A descriptor update on a registry without descriptor sets. -/
theorem update_without_sets (h : DescriptorHeapVulkan) (mem : CallerMem) (d : DescriptorVulkan)
    (a count p : Nat) (immediate : Bool) (hs : h.m_hDescriptorSets = []) (hc : 1 ≤ count) :
    ((h.UpdateDescriptorSetBuffer mem (some d) a count p immediate).res = AMF_NOT_INITIALIZED ∧
      (h.UpdateDescriptorSetBuffer mem (some d) a count p immediate).calls = [] ∧
      (h.UpdateDescriptorSetBuffer mem (some d) a count p immediate).heap.m_pendingDescriptorUpdates
        = h.m_pendingDescriptorUpdates) ∧
    ((h.UpdateDescriptorSetImage mem (some d) a count p immediate).res = AMF_NOT_INITIALIZED ∧
      (h.UpdateDescriptorSetImage mem (some d) a count p immediate).calls = [] ∧
      (h.UpdateDescriptorSetImage mem (some d) a count p immediate).heap.m_pendingDescriptorUpdates
        = h.m_pendingDescriptorUpdates) := by
  have hc' : count > 0 := hc
  simp only [DescriptorHeapVulkan.UpdateDescriptorSetBuffer,
    DescriptorHeapVulkan.UpdateDescriptorSetImage,
    DescriptorHeapVulkan.UpdateDescriptorSetWrite, ProcessUpdateInfo,
    DescriptorHeapVulkan.GetDescriptorSet, handleAt, hs]
  cases hdev : h.m_pVulkanDevice with
  | none => simp [hc']
  | some dev => by_cases hnull : dev.hDevice = NULL <;> simp [hc', hnull]

/-- C3. On an initialised registry on which descriptors have been registered (any
sequence of `RegisterDescriptorSet` calls after initialisation) and
`CreateDescriptors` has not been called, every descriptor update with a non-null
descriptor and `count >= 1`, with buffer infos or image infos, immediate or
deferred, returns `AMF_NOT_INITIALIZED`, issues no Vulkan call and leaves the
pending list as it was (empty). -/
theorem update_before_CreateDescriptors_not_initialized (dev : AMFVulkanDevice)
    (regs : List RegisterCall) (h : DescriptorHeapVulkan) (mem : CallerMem)
    (d : DescriptorVulkan) (a count p : Nat) (immediate : Bool)
    (hreach : (DescriptorHeapVulkan.init (some dev)).registerAll regs = some h)
    (hc : 1 ≤ count) :
    ((h.UpdateDescriptorSetBuffer mem (some d) a count p immediate).res = AMF_NOT_INITIALIZED ∧
      (h.UpdateDescriptorSetBuffer mem (some d) a count p immediate).calls = [] ∧
      (h.UpdateDescriptorSetBuffer mem (some d) a count p immediate).heap.m_pendingDescriptorUpdates
        = []) ∧
    ((h.UpdateDescriptorSetImage mem (some d) a count p immediate).res = AMF_NOT_INITIALIZED ∧
      (h.UpdateDescriptorSetImage mem (some d) a count p immediate).calls = [] ∧
      (h.UpdateDescriptorSetImage mem (some d) a count p immediate).heap.m_pendingDescriptorUpdates
        = []) := by
  have hf := registerAll_frame regs _ h hreach
  have hs : h.m_hDescriptorSets = [] := by rw [hf.1]; rfl
  have hp : h.m_pendingDescriptorUpdates = [] := by rw [hf.2.2.2.1]; rfl
  have hu := update_without_sets h mem d a count p immediate hs hc
  rw [hp] at hu
  exact hu

/-! ### Pipeline: group map and slot lists -/

theorem groupFind_groupStore_same (m : DescriptorSetGroupMap) (g : Nat) (x : DescriptorSetGroup) :
    groupFind (groupStore m g x) g = some x := by
  induction m with
  | nil => simp [groupStore, groupFind]
  | cons e rest ih =>
    obtain ⟨k, v⟩ := e
    by_cases hk : k = g
    · simp [groupStore, groupFind, hk]
    · simp [groupStore, groupFind, hk, ih]

theorem groupFind_groupStore_ne (m : DescriptorSetGroupMap) (g g' : Nat) (x : DescriptorSetGroup)
    (hne : g' ≠ g) : groupFind (groupStore m g x) g' = groupFind m g' := by
  induction m with
  | nil => simp [groupStore, groupFind, Ne.symm hne]
  | cons e rest ih =>
    obtain ⟨k, v⟩ := e
    by_cases hk : k = g
    · subst hk
      simp [groupStore, groupFind, Ne.symm hne]
    · by_cases hk' : k = g'
      · subst hk'
        simp [groupStore, groupFind, hk]
      · simp [groupStore, groupFind, hk, hk', ih]

theorem groupFind_mem (m : DescriptorSetGroupMap) (g : Nat) (x : DescriptorSetGroup)
    (h : groupFind m g = some x) : (g, x) ∈ m := by
  induction m with
  | nil => simp [groupFind] at h
  | cons e rest ih =>
    obtain ⟨k, v⟩ := e
    by_cases hk : k = g
    · simp [groupFind, hk] at h
      simp [hk, h]
    · simp [groupFind, hk] at h
      simp [ih h]

/-- A resize that makes slot `setNum` exist, when it did not, keeps every
existing slot. -/
theorem vectorResize_get_old (v : List Nat) (n value setNum cur s i : Nat)
    (hge : setNum ≥ v.length) (hcur : (vectorResize v n value)[setNum]? = some cur)
    (hs : v[s]? = some i) : (vectorResize v n value)[s]? = some i := by
  unfold vectorResize at hcur ⊢
  by_cases hn : n ≤ v.length
  · simp only [hn, if_true] at hcur
    have : setNum < (v.take n).length := by
      rcases List.getElem?_eq_some_iff.mp hcur with ⟨hlt, _⟩
      exact hlt
    simp at this
    omega
  · simp only [hn, if_false]
    have hlt : s < v.length := by
      rcases List.getElem?_eq_some_iff.mp hs with ⟨hlt, _⟩
      exact hlt
    rw [List.getElem?_append_left hlt]
    exact hs

/-- A resize to `setNum + 1` makes slot `setNum` exist. -/
theorem vectorResize_get_new (v : List Nat) (value setNum : Nat) (hge : setNum ≥ v.length) :
    (vectorResize v (setNum + 1) value)[setNum]? = some value := by
  unfold vectorResize
  have hn : ¬ (setNum + 1 ≤ v.length) := by omega
  simp only [hn, if_false]
  rw [List.getElem?_append_right hge, List.getElem?_replicate]
  have hlt : setNum - v.length < setNum + 1 - v.length := by omega
  simp [hlt]

/-- The slot list a registration works on has slot `setNum`, for every slot
number other than `UINT32_MAX`. -/
theorem register_indices_cases (v : List Nat) (setNum : Nat) (hs : setNum < UINT32_MAX) :
    ∃ cur, (if setNum ≥ v.length then vectorResize v ((setNum + 1) % 2 ^ 32) UINT32_MAX
        else v)[setNum]? = some cur := by
  by_cases hge : setNum ≥ v.length
  · have hmod : (setNum + 1) % 2 ^ 32 = setNum + 1 := by
      apply Nat.mod_eq_of_lt
      simp only [UINT32_MAX] at hs
      omega
    simp only [hge, if_true, hmod]
    exact ⟨UINT32_MAX, vectorResize_get_new v UINT32_MAX setNum hge⟩
  · simp only [hge, if_false]
    have hlt : setNum < v.length := by omega
    exact ⟨v[setNum], by simp [hlt]⟩

/-- The slot list a registration works on keeps every slot of the group. -/
theorem register_indices_keep (v : List Nat) (setNum cur s i : Nat)
    (hcur : (if setNum ≥ v.length then vectorResize v ((setNum + 1) % 2 ^ 32) UINT32_MAX
        else v)[setNum]? = some cur)
    (hs : v[s]? = some i) :
    (if setNum ≥ v.length then vectorResize v ((setNum + 1) % 2 ^ 32) UINT32_MAX
        else v)[s]? = some i := by
  by_cases hge : setNum ≥ v.length
  · simp only [hge, if_true] at hcur ⊢
    exact vectorResize_get_old _ _ _ _ _ _ _ hge hcur hs
  · simp only [hge, if_false]
    exact hs

/-- The loop over the groups never changes a slot that holds a set index. -/
theorem registerGroups_keeps_slot (setIndex setNum g s i : Nat) (hi : i ≠ UINT32_MAX)
    (groups : List Nat) :
    ∀ (m : DescriptorSetGroupMap) (n : Nat) (r : AMF_RESULT × DescriptorSetGroupMap),
      registerGroups setIndex setNum m groups n = some r →
      (groupFind m g).bind (fun x => x.descriptorSetIndices[s]?) = some i →
      (groupFind r.2 g).bind (fun x => x.descriptorSetIndices[s]?) = some i := by
  induction groups with
  | nil =>
    intro m n r hr hslot
    cases n with
    | zero => simp [registerGroups] at hr; subst hr; exact hslot
    | succ n => simp [registerGroups] at hr
  | cons gn gs ih =>
    intro m n r hr hslot
    cases n with
    | zero => simp [registerGroups] at hr; subst hr; exact hslot
    | succ n =>
      simp only [registerGroups] at hr
      generalize hidx : (if setNum ≥ ((groupFind m gn).getD
          DescriptorSetGroup.empty).descriptorSetIndices.length then
          vectorResize ((groupFind m gn).getD DescriptorSetGroup.empty).descriptorSetIndices
            ((setNum + 1) % 2 ^ 32) UINT32_MAX
        else ((groupFind m gn).getD DescriptorSetGroup.empty).descriptorSetIndices) = indices at hr
      cases hcur : indices[setNum]? with
      | none => simp [hcur] at hr
      | some cur =>
        simp only [hcur] at hr
        -- the slot in the list the loop works on
        have hkeep : gn = g → indices[s]? = some i := by
          intro hgn
          subst hgn
          cases hf : groupFind m gn with
          | none => simp [hf] at hslot
          | some x =>
            rw [hf] at hslot hidx
            change x.descriptorSetIndices[s]? = some i at hslot
            simp only [Option.getD_some] at hidx
            rw [← hidx] at hcur ⊢
            exact register_indices_keep _ _ _ _ _ hcur hslot
        by_cases hmax : cur = UINT32_MAX
        · simp only [hmax, ne_eq, not_true_eq_false, if_false] at hr
          apply ih _ _ _ hr
          by_cases hgn : gn = g
          · have hk := hkeep hgn
            subst hgn
            rw [groupFind_groupStore_same]
            show (indices.set setNum setIndex)[s]? = some i
            have hne : setNum ≠ s := by
              intro he
              subst he
              rw [hk] at hcur
              simp only [Option.some.injEq] at hcur
              exact hi (hcur.trans hmax)
            rw [List.getElem?_set_ne hne]
            exact hk
          · rw [groupFind_groupStore_ne _ _ _ _ (Ne.symm hgn)]
            exact hslot
        · simp only [ne_eq, hmax, not_false_eq_true, if_true, Option.some.injEq] at hr
          subst hr
          by_cases hgn : gn = g
          · have hk := hkeep hgn
            subst hgn
            rw [groupFind_groupStore_same]
            exact hk
          · rw [groupFind_groupStore_ne _ _ _ _ (Ne.symm hgn)]
            exact hslot

/-- The loop over the groups stops with `AMF_INVALID_ARG` when one of the groups
it is given already has a set index in slot `setNum`. -/
theorem registerGroups_rejects (setIndex setNum g i : Nat) (hi : i ≠ UINT32_MAX)
    (hs : setNum < UINT32_MAX) (groups : List Nat) :
    ∀ (m : DescriptorSetGroupMap) (n : Nat), g ∈ groups.take n →
      (groupFind m g).bind (fun x => x.descriptorSetIndices[setNum]?) = some i →
      ∃ m', registerGroups setIndex setNum m groups n = some (AMF_INVALID_ARG, m') := by
  induction groups with
  | nil => intro m n hg; simp at hg
  | cons gn gs ih =>
    intro m n hg hslot
    cases n with
    | zero => simp at hg
    | succ n =>
      simp only [registerGroups]
      obtain ⟨cur, hcur⟩ := register_indices_cases
        ((groupFind m gn).getD DescriptorSetGroup.empty).descriptorSetIndices setNum hs
      rw [hcur]
      by_cases hmax : cur = UINT32_MAX
      · have hgn : gn ≠ g := by
          intro he
          subst he
          cases hf : groupFind m gn with
          | none => simp [hf] at hslot
          | some x =>
            rw [hf] at hslot hcur
            change x.descriptorSetIndices[setNum]? = some i at hslot
            simp only [Option.getD_some] at hcur
            have hk := register_indices_keep _ _ _ _ _ hcur hslot
            rw [hk] at hcur
            simp only [Option.some.injEq] at hcur
            exact hi (hcur.trans hmax)
        simp only [hmax, ne_eq, not_true_eq_false, if_false]
        apply ih
        · simp only [List.take_succ_cons, List.mem_cons] at hg
          rcases hg with hg | hg
          · exact absurd hg.symm hgn
          · exact hg
        · rw [groupFind_groupStore_ne _ _ _ _ (Ne.symm hgn)]
          exact hslot
      · simp only [ne_eq, hmax, not_false_eq_true, if_true]
        exact ⟨_, rfl⟩

/-- After a successful loop over the groups, slot `setNum` of each of them holds
`setIndex`. -/
theorem registerGroups_assigns (setIndex setNum g : Nat) (hi : setIndex ≠ UINT32_MAX)
    (groups : List Nat) :
    ∀ (m : DescriptorSetGroupMap) (n : Nat) (m' : DescriptorSetGroupMap), g ∈ groups.take n →
      registerGroups setIndex setNum m groups n = some (AMF_OK, m') →
      (groupFind m' g).bind (fun x => x.descriptorSetIndices[setNum]?) = some setIndex := by
  induction groups with
  | nil => intro m n m' hg; simp at hg
  | cons gn gs ih =>
    intro m n m' hg hr
    cases n with
    | zero => simp at hg
    | succ n =>
      simp only [registerGroups] at hr
      generalize hidx : (if setNum ≥ ((groupFind m gn).getD
          DescriptorSetGroup.empty).descriptorSetIndices.length then
          vectorResize ((groupFind m gn).getD DescriptorSetGroup.empty).descriptorSetIndices
            ((setNum + 1) % 2 ^ 32) UINT32_MAX
        else ((groupFind m gn).getD DescriptorSetGroup.empty).descriptorSetIndices) = indices at hr
      cases hcur : indices[setNum]? with
      | none => simp [hcur] at hr
      | some cur =>
        simp only [hcur] at hr
        by_cases hmax : cur = UINT32_MAX
        · simp only [hmax, ne_eq, not_true_eq_false, if_false] at hr
          simp only [List.take_succ_cons, List.mem_cons] at hg
          by_cases hgn : g = gn
          · subst hgn
            apply registerGroups_keeps_slot setIndex setNum g setNum setIndex hi gs _ n _ hr
            rw [groupFind_groupStore_same]
            show (indices.set setNum setIndex)[setNum]? = some setIndex
            have hlt : setNum < indices.length := by
              rcases List.getElem?_eq_some_iff.mp hcur with ⟨hlt, _⟩
              exact hlt
            simp [hlt]
          · rcases hg with hg | hg
            · exact absurd hg hgn
            · exact ih _ _ _ hg hr
        · simp [hmax] at hr

/-- What any defined pipeline registration leaves alone. -/
theorem Pipeline_RegisterDescriptorSet_frame (p : RenderingPipelineVulkan)
    (heap : DescriptorHeapVulkan) (setIndex setNum : Nat) (pGroups : Option (List Nat))
    (groupCount : Nat) (out : PipelineOut)
    (hr : p.RegisterDescriptorSet heap setIndex setNum pGroups groupCount = some out) :
    out.pipeline.m_hPipeline = p.m_hPipeline ∧
    out.pipeline.m_pDescriptorHeap = p.m_pDescriptorHeap ∧
    ∀ g s i, i ≠ UINT32_MAX → p.slot g s = some i → out.pipeline.slot g s = some i := by
  unfold RenderingPipelineVulkan.RegisterDescriptorSet at hr
  split at hr
  · cases hr; exact ⟨rfl, rfl, fun _ _ _ _ h => h⟩
  · split at hr
    · cases hr; exact ⟨rfl, rfl, fun _ _ _ _ h => h⟩
    · split at hr
      · cases hr; exact ⟨rfl, rfl, fun _ _ _ _ h => h⟩
      · split at hr
        · cases hr
        · dsimp only at hr
          split at hr
          · cases hr; exact ⟨rfl, rfl, fun _ _ _ _ h => h⟩
          · split at hr
            · cases hr
            · rename_i r hrg
              cases hr
              refine ⟨rfl, rfl, ?_⟩
              intro g s i hi hslot
              exact registerGroups_keeps_slot _ _ g s i hi _ _ _ _ hrg hslot

/-- What a successful pipeline registration establishes. -/
theorem Pipeline_RegisterDescriptorSet_ok (p : RenderingPipelineVulkan)
    (heap : DescriptorHeapVulkan) (setIndex setNum : Nat) (pGroups : Option (List Nat))
    (groupCount : Nat) (out : PipelineOut)
    (hr : p.RegisterDescriptorSet heap setIndex setNum pGroups groupCount = some out)
    (hok : out.res = AMF_OK) (hi : setIndex ≠ UINT32_MAX) :
    p.m_hPipeline = NULL ∧ p.m_pDescriptorHeap = true ∧
    ∀ g, g ∈ (pGroups.getD []).take groupCount → out.pipeline.slot g setNum = some setIndex := by
  unfold RenderingPipelineVulkan.RegisterDescriptorSet at hr
  split at hr
  · cases hr; simp at hok
  · rename_i hpipe
    split at hr
    · cases hr; simp at hok
    · split at hr
      · cases hr; simp at hok
      · split at hr
        · cases hr
        · rename_i hheap
          dsimp only at hr
          split at hr
          · cases hr; simp at hok
          · split at hr
            · cases hr
            · rename_i r hrg
              cases hr
              simp only at hok
              refine ⟨by simpa using hpipe, by simpa using hheap, ?_⟩
              intro g hg
              rename_i groups _ _ _
              have hr' : registerGroups setIndex setNum p.m_descriptorSetGroupMap groups
                  groupCount = some (AMF_OK, r.2) := by
                rw [← hok]; exact hrg
              exact registerGroups_assigns setIndex setNum g hi groups _ _ _ hg hr'

/-- A sequence of defined pipeline registrations keeps the pipeline handle, the
registry pointer and every slot that holds a set index. -/
theorem Pipeline_registerAll_frame (calls : List PipelineRegisterCall) :
    ∀ (p p' : RenderingPipelineVulkan), p.registerAll calls = some p' →
      p'.m_hPipeline = p.m_hPipeline ∧ p'.m_pDescriptorHeap = p.m_pDescriptorHeap ∧
      ∀ g s i, i ≠ UINT32_MAX → p.slot g s = some i → p'.slot g s = some i := by
  induction calls with
  | nil =>
    intro p p' hr
    simp only [RenderingPipelineVulkan.registerAll, Option.some.injEq] at hr
    subst hr
    exact ⟨rfl, rfl, fun _ _ _ _ h => h⟩
  | cons c cs ih =>
    intro p p' hr
    simp only [RenderingPipelineVulkan.registerAll] at hr
    cases hc : p.RegisterDescriptorSet c.heap c.setIndex c.setNum c.pGroups c.groupCount with
    | none => simp [hc] at hr
    | some r =>
      simp only [hc] at hr
      have h1 := Pipeline_RegisterDescriptorSet_frame p _ _ _ _ _ r hc
      have h2 := ih r.pipeline p' hr
      exact ⟨h2.1.trans h1.1, h2.2.1.trans h1.2.1,
        fun g s i hi hs => h2.2.2 g s i hi (h1.2.2 g s i hi hs)⟩

/-- C5. On a pipeline that is not yet built, once a `RegisterDescriptorSet` call
has put set index `first.setIndex` into slot `first.setNum` of group `g` (the
call returned `AMF_OK` and `g` is among its groups), then after any further
registration calls every `RegisterDescriptorSet` call with the same slot
number, a set index known to the registry and `g` among its groups returns
`AMF_INVALID_ARG`, and slot `first.setNum` of `g` still holds `first.setIndex`.
Set index and slot number are `amf_uint32` values other than `UINT32_MAX`, the
marker of a free slot. -/
theorem duplicate_slot_registration_invalid_arg (p0 : RenderingPipelineVulkan)
    (first : PipelineRegisterCall) (r1 : PipelineOut) (between : List PipelineRegisterCall)
    (p2 : RenderingPipelineVulkan) (later : PipelineRegisterCall) (g : Nat)
    (hfirst : p0.RegisterDescriptorSet first.heap first.setIndex first.setNum first.pGroups
      first.groupCount = some r1)
    (hok : r1.res = AMF_OK)
    (hg1 : g ∈ (first.pGroups.getD []).take first.groupCount)
    (hidx : first.setIndex < UINT32_MAX) (hnum : first.setNum < UINT32_MAX)
    (hbetween : r1.pipeline.registerAll between = some p2)
    (hsame : later.setNum = first.setNum)
    (hg2 : g ∈ (later.pGroups.getD []).take later.groupCount)
    (hknown : later.heap.GetDescriptorSetLayout later.setIndex ≠ NULL) :
    ∃ out, p2.RegisterDescriptorSet later.heap later.setIndex later.setNum later.pGroups
        later.groupCount = some out ∧
      out.res = AMF_INVALID_ARG ∧
      out.pipeline.slot g first.setNum = some first.setIndex := by
  have hi : first.setIndex ≠ UINT32_MAX := Nat.ne_of_lt hidx
  obtain ⟨hpipe0, hheap0, hassign⟩ :=
    Pipeline_RegisterDescriptorSet_ok p0 _ _ _ _ _ r1 hfirst hok hi
  have hf1 := Pipeline_RegisterDescriptorSet_frame p0 _ _ _ _ _ r1 hfirst
  have hf2 := Pipeline_registerAll_frame between r1.pipeline p2 hbetween
  have hpipe2 : p2.m_hPipeline = NULL := by rw [hf2.1, hf1.1, hpipe0]
  have hheap2 : p2.m_pDescriptorHeap = true := by rw [hf2.2.1, hf1.2.1, hheap0]
  have hslot2 : p2.slot g first.setNum = some first.setIndex :=
    hf2.2.2 g _ _ hi (hassign g hg1)
  cases hpg : later.pGroups with
  | none => simp [hpg] at hg2
  | some groups =>
    rw [hpg] at hg2
    simp only [Option.getD_some] at hg2
    have hcount : later.groupCount > 0 := by
      rcases Nat.eq_zero_or_pos later.groupCount with h0 | h0
      · rw [h0] at hg2; simp at hg2
      · exact h0
    obtain ⟨m', hm'⟩ := registerGroups_rejects later.setIndex first.setNum g first.setIndex hi hnum
      groups p2.m_descriptorSetGroupMap later.groupCount hg2 hslot2
    have hcall : p2.RegisterDescriptorSet later.heap later.setIndex later.setNum (some groups)
        later.groupCount = some
          { res := AMF_INVALID_ARG,
            pipeline := { p2 with
              m_hDescriptorSetLayouts := p2.m_hDescriptorSetLayouts ++
                [later.heap.GetDescriptorSetLayout later.setIndex],
              m_descriptorSetGroupMap := m' },
            calls := [] } := by
      simp [RenderingPipelineVulkan.RegisterDescriptorSet, hpipe2, hcount, hheap2, hknown,
        hsame, hm']
    refine ⟨_, hcall, rfl, ?_⟩
    have hfr := Pipeline_RegisterDescriptorSet_frame p2 _ _ _ _ _ _ hcall
    exact hfr.2.2 g _ _ hi hslot2

/-- A slot list with a free slot does not resolve. -/
theorem resolveGroup_free_slot (heap : DescriptorHeapVulkan) (descriptorCount : Nat)
    (hdc : descriptorCount < 2 ^ 32) (indices : List Nat) :
    ∀ (handles : List Handle), UINT32_MAX ∈ indices →
      (resolveGroup heap descriptorCount indices handles).1 ≠ AMF_OK := by
  induction indices with
  | nil => intro handles hm; simp at hm
  | cons x rest ih =>
    intro handles hm
    simp only [resolveGroup]
    by_cases hx : x < descriptorCount
    · have hne : x ≠ UINT32_MAX := by
        intro he
        simp only [UINT32_MAX] at he
        omega
      have hrest : UINT32_MAX ∈ rest := by
        simp only [List.mem_cons] at hm
        rcases hm with hm | hm
        · exact absurd hm.symm hne
        · exact hm
      by_cases hnull : heap.GetDescriptorSet x = NULL
      · simp [hx, hnull]
      · simp only [hx, not_true_eq_false, if_false, hnull]
        exact ih _ hrest
    · simp [hx]

/-- A group map with a free slot in one of its groups does not resolve. -/
theorem resolveGroups_free_slot (heap : DescriptorHeapVulkan) (descriptorCount : Nat)
    (hdc : descriptorCount < 2 ^ 32) (m : DescriptorSetGroupMap) (groupNum : Nat)
    (group : DescriptorSetGroup) (hg : (groupNum, group) ∈ m)
    (hfree : UINT32_MAX ∈ group.descriptorSetIndices) :
    (resolveGroups heap descriptorCount m).1 ≠ AMF_OK := by
  induction m with
  | nil => simp at hg
  | cons e rest ih =>
    obtain ⟨k, v⟩ := e
    simp only [resolveGroups]
    by_cases hv : (resolveGroup heap descriptorCount v.descriptorSetIndices []).1 = AMF_OK
    · simp only [hv, ne_eq, not_true_eq_false, if_false]
      simp only [List.mem_cons, Prod.mk.injEq] at hg
      rcases hg with hg | hg
      · obtain ⟨_, hgv⟩ := hg
        subst hgv
        exact absurd hv (resolveGroup_free_slot heap descriptorCount hdc _ [] hfree)
      · exact ih hg
    · simp [hv]

/-- C4. On a pipeline in which some registered group has a slot to which no
descriptor set was assigned (the slot holds the marker `UINT32_MAX`),
`CreatePipeline` returns, and returns an error, whatever the shader stages, the
vertex layout, the render pass, the subpass and the driver's answers are. -/
theorem CreatePipeline_fails_on_free_slot (p : RenderingPipelineVulkan) (ord : MapOrder)
    (heap : DescriptorHeapVulkan) (createInfo : PipelineCreateInfo) (hRenderPass : Handle)
    (subpass : Nat) (layoutResp pipelineResp : VkResult × Handle) (groupNum setNum : Nat)
    (group : DescriptorSetGroup)
    (hheap : p.m_pDescriptorHeap = true)
    (hg : (groupNum, group) ∈ p.m_descriptorSetGroupMap)
    (hfree : group.descriptorSetIndices[setNum]? = some UINT32_MAX) :
    ∃ out, p.CreatePipeline ord heap createInfo hRenderPass subpass layoutResp pipelineResp = some out ∧
      out.res ≠ AMF_OK := by
  have hmem : UINT32_MAX ∈ group.descriptorSetIndices := by
    rcases List.getElem?_eq_some_iff.mp hfree with ⟨hlt, he⟩
    rw [← he]
    exact List.getElem_mem hlt
  have hdc : heap.GetDescriptorCount < 2 ^ 32 := by
    unfold DescriptorHeapVulkan.GetDescriptorCount
    exact Nat.mod_lt _ (by norm_num)
  have hres := resolveGroups_free_slot heap heap.GetDescriptorCount hdc
    (ord.iterate p.m_descriptorSetGroupMap) groupNum group
    ((ord.perm p.m_descriptorSetGroupMap).mem_iff.mpr hg) hmem
  unfold RenderingPipelineVulkan.CreatePipeline
  cases hdev : p.m_pVulkanDevice with
  | none => exact ⟨_, rfl, fun h => AMF_RESULT.noConfusion h⟩
  | some dev =>
    show ∃ out, (if dev.hDevice = NULL then _ else _) = some out ∧ out.res ≠ AMF_OK
    by_cases h1 : dev.hDevice = NULL
    · rw [if_pos h1]; exact ⟨_, rfl, fun h => AMF_RESULT.noConfusion h⟩
    rw [if_neg h1]
    by_cases h2 : hRenderPass = NULL
    · rw [if_pos h2]; exact ⟨_, rfl, fun h => AMF_RESULT.noConfusion h⟩
    rw [if_neg h2]
    by_cases h3 : p.m_hRenderPass ≠ NULL
    · rw [if_pos h3]; exact ⟨_, rfl, fun h => AMF_RESULT.noConfusion h⟩
    rw [if_neg h3]
    by_cases h4 : p.m_hPipelineLayout ≠ NULL
    · rw [if_pos h4]; exact ⟨_, rfl, fun h => AMF_RESULT.noConfusion h⟩
    rw [if_neg h4]
    by_cases h5 : p.m_hPipeline ≠ NULL
    · rw [if_pos h5]; exact ⟨_, rfl, fun h => AMF_RESULT.noConfusion h⟩
    rw [if_neg h5]
    by_cases h6 : layoutResp.1 ≠ VK_SUCCESS
    · refine ⟨_, if_pos h6, fun h => AMF_RESULT.noConfusion h⟩
    by_cases h7 : pipelineResp.1 ≠ VK_SUCCESS
    · refine ⟨_, (if_neg h6).trans (if_pos h7), fun h => AMF_RESULT.noConfusion h⟩
    have h8 : ¬ (p.m_pDescriptorHeap = false) := by rw [hheap]; simp
    exact ⟨_, (if_neg h6).trans ((if_neg h7).trans (if_neg h8)), hres⟩

/-! ### Presenter: the render step -/

theorem Pipeline_SetStates_pipeline (p : RenderingPipelineVulkan) (cb : Handle) (g : Nat) :
    (p.SetStates cb g).pipeline = p := by
  unfold RenderingPipelineVulkan.SetStates
  split
  · rfl
  · split
    · rfl
    · split
      · rfl
      · split <;> rfl

theorem StartRendering_frame {W : Type} (env : Env W) (s : VideoPresenterVulkan) (w : W)
    (b : Option Nat) :
    (s.StartRendering env w b).st = s ∧
    ∀ e ∈ (s.StartRendering env w b).trace, e.isRenderEvent = true := by
  unfold VideoPresenterVulkan.StartRendering
  split
  · simp
  · dsimp only
    split
    · simp
    · split
      · simp
      · split
        · simp
        · split <;> simp [Event.isRenderEvent]

theorem SetStates_frame {W : Type} (env : Env W) (s : VideoPresenterVulkan) (w : W) (g : Nat) :
    (s.SetStates env w g).st = s ∧ (s.SetStates env w g).w = w ∧
    ∀ e ∈ (s.SetStates env w g).trace, e.isRenderEvent = true := by
  unfold VideoPresenterVulkan.SetStates
  split
  · simp
  · split
    · simp
    · dsimp only
      split <;> simp [Pipeline_SetStates_pipeline, Event.isRenderEvent]
      rintro e (⟨c, _, rfl⟩ | rfl) <;> rfl

theorem DrawFrame_frame {W : Type} (env : Env W) (s : VideoPresenterVulkan) (w : W)
    (p : Option Nat) :
    (s.DrawFrame env w p).st = s ∧
    ∀ e ∈ (s.DrawFrame env w p).trace, e.isRenderEvent = true := by
  unfold VideoPresenterVulkan.DrawFrame
  split
  · simp
  · dsimp only
    split
    · simp [Event.isRenderEvent]
    · split <;> simp [Event.isRenderEvent]

theorem StopRendering_frame {W : Type} (env : Env W) (s : VideoPresenterVulkan) (w : W) :
    (s.StopRendering env w).st = s ∧
    ∀ e ∈ (s.StopRendering env w).trace, e.isRenderEvent = true := by
  unfold VideoPresenterVulkan.StopRendering
  split
  · simp
  · split
    · simp
    · dsimp only
      split <;> simp [Event.isRenderEvent]

theorem UpdateTextureDescriptorSet_frame {W : Type} (env : Env W) (s : VideoPresenterVulkan)
    (w : W) (p : Option Nat) (r : PresenterOut W)
    (hr : s.UpdateTextureDescriptorSet env w p = some r) :
    s.sameButHeap r.st ∧ r.w = w ∧
    ∀ e ∈ r.trace, e.isRenderEvent = true := by
  unfold VideoPresenterVulkan.sameButHeap
  unfold VideoPresenterVulkan.UpdateTextureDescriptorSet
    VideoPresenterVulkan.UpdateTextureDescriptorSetWith at hr
  split at hr
  · cases hr; simp
  · split at hr
    · cases hr; simp
    · split at hr
      · cases hr; simp
      · split at hr
        · cases hr
        · split at hr
          · cases hr; simp
          · split at hr
            · cases hr; simp
            · dsimp only at hr
              split at hr <;> cases hr <;> simp [Event.isRenderEvent]

theorem all_isRenderEvent_map_vk (calls : List VkCall) :
    (calls.map Event.vk).all Event.isRenderEvent = true := by
  simp [List.all_eq_true, Event.isRenderEvent]

theorem sameButHeap_refl (s : VideoPresenterVulkan) : s.sameButHeap s := by
  unfold VideoPresenterVulkan.sameButHeap
  rfl

theorem sameButHeap_of_eq (s s' : VideoPresenterVulkan) (h : s' = s) : s.sameButHeap s' := by
  subst h
  exact sameButHeap_refl _

theorem sameButHeap_trans (s1 s2 s3 : VideoPresenterVulkan) (h12 : s1.sameButHeap s2)
    (h23 : s2.sameButHeap s3) : s1.sameButHeap s3 := by
  unfold VideoPresenterVulkan.sameButHeap at *
  rw [h23, h12]

theorem sameButHeap_set (s : VideoPresenterVulkan) (h : DescriptorHeapVulkan) :
    s.sameButHeap { s with m_descriptorHeap := h } := by
  unfold VideoPresenterVulkan.sameButHeap
  rfl

/-- A sequence of steps each of which changes nothing of the presenter but the
descriptor registry, and makes render calls only, does the same as a whole. -/
theorem runSteps_frame {W : Type} (env : Env W) (steps : List (Step W))
    (hsteps : ∀ f ∈ steps, ∀ s w r, f s w = some r →
      s.sameButHeap r.st ∧ r.trace.all Event.isRenderEvent = true) :
    ∀ (s : VideoPresenterVulkan) (w : W) (r : PresenterOut W), runSteps env steps s w = some r →
      s.sameButHeap r.st ∧ r.trace.all Event.isRenderEvent = true := by
  induction steps with
  | nil =>
    intro s w r hr
    simp only [runSteps, Option.some.injEq] at hr
    subst hr
    exact ⟨sameButHeap_refl _, rfl⟩
  | cons f fs ih =>
    intro s w r hr
    simp only [runSteps] at hr
    cases hf : f s w with
    | none => simp [hf] at hr
    | some r1 =>
      simp only [hf] at hr
      have h1 := hsteps f (List.mem_cons_self _ _) s w r1 hf
      by_cases hsucc : env.AMFSucceeded r1.res = false
      · rw [if_pos hsucc] at hr
        simp only [Option.some.injEq] at hr
        subst hr
        exact h1
      · rw [if_neg hsucc] at hr
        cases hrest : runSteps env fs r1.st r1.w with
        | none => simp [hrest] at hr
        | some r2 =>
          simp only [hrest, Option.some.injEq] at hr
          subst hr
          have h2 := ih (fun g hg => hsteps g (List.mem_cons_of_mem _ hg)) r1.st r1.w r2 hrest
          refine ⟨sameButHeap_trans _ _ _ h1.1 h2.1, ?_⟩
          show (r1.trace ++ r2.trace).all Event.isRenderEvent = true
          rw [List.all_append, h1.2, h2.2]
          rfl

/-- `BitBltRender` changes nothing of the presenter but the descriptor registry,
and makes render calls only. -/
theorem BitBltRender_frame {W : Type} (env : Env W) (s : VideoPresenterVulkan) (w : W)
    (ps pt : Option Nat) (rv : RenderViewSizeInfo) (r : PresenterOut W)
    (hr : s.BitBltRender env w ps pt rv = some r) :
    s.sameButHeap r.st ∧ r.trace.all Event.isRenderEvent = true := by
  unfold VideoPresenterVulkan.BitBltRender at hr
  split at hr
  · cases hr; exact ⟨sameButHeap_refl _, rfl⟩
  · cases hr; exact ⟨sameButHeap_refl _, rfl⟩
  · split at hr
    · cases hr
    · split at hr
      · cases hr; exact ⟨sameButHeap_refl _, rfl⟩
      · refine runSteps_frame env _ ?_ s w r hr
        intro f hf s' w' r' hr'
        simp only [VideoPresenterVulkan.BitBltRenderSteps, List.mem_cons, List.mem_singleton,
          List.not_mem_nil, or_false] at hf
        rcases hf with rfl | rfl | rfl | rfl | rfl | rfl | rfl | rfl | rfl | rfl
        · simp only [Option.some.injEq] at hr'; subst hr'
          exact ⟨sameButHeap_refl _, rfl⟩
        · have h := UpdateTextureDescriptorSet_frame env s' w' _ r' hr'
          exact ⟨h.1, List.all_eq_true.mpr h.2.2⟩
        · simp only [Option.some.injEq] at hr'; subst hr'
          exact ⟨sameButHeap_set _ _, all_isRenderEvent_map_vk _⟩
        · simp only [Option.some.injEq] at hr'; subst hr'
          exact ⟨sameButHeap_of_eq _ _ (StartRendering_frame env s' w' _).1,
            List.all_eq_true.mpr (StartRendering_frame env s' w' _).2⟩
        · simp only [Option.some.injEq] at hr'; subst hr'
          exact ⟨sameButHeap_refl _, rfl⟩
        · simp only [Option.some.injEq] at hr'; subst hr'
          exact ⟨sameButHeap_refl _, rfl⟩
        · simp only [Option.some.injEq] at hr'; subst hr'
          have h := SetStates_frame env s' w' DSG_PRESENT_SURFACE
          exact ⟨sameButHeap_of_eq _ _ h.1, List.all_eq_true.mpr h.2.2⟩
        · simp only [Option.some.injEq] at hr'; subst hr'
          exact ⟨sameButHeap_of_eq _ _ (DrawFrame_frame env s' w' _).1,
            List.all_eq_true.mpr (DrawFrame_frame env s' w' _).2⟩
        · simp only [Option.some.injEq] at hr'; subst hr'
          exact ⟨sameButHeap_refl _, rfl⟩
        · simp only [Option.some.injEq] at hr'; subst hr'
          have h := StopRendering_frame env s' w'
          exact ⟨sameButHeap_of_eq _ _ h.1, List.all_eq_true.mpr h.2⟩

/-- `RenderSurface` changes nothing of the presenter but the descriptor registry,
and makes render calls only. -/
theorem RenderSurface_frame {W : Type} (env : Env W) (s : VideoPresenterVulkan) (w : W)
    (ps pt : Option Nat) (r : PresenterOut W)
    (hr : s.RenderSurface env w ps pt = some r) :
    s.sameButHeap r.st ∧ r.trace.all Event.isRenderEvent = true := by
  unfold VideoPresenterVulkan.RenderSurface at hr
  split at hr
  · cases hr; exact ⟨sameButHeap_refl _, rfl⟩
  · split at hr
    · cases hr; exact ⟨sameButHeap_refl _, rfl⟩
    · dsimp only at hr
      split at hr
      · cases hr
      · split at hr
        · cases hr; exact ⟨sameButHeap_refl _, rfl⟩
        · split at hr
          · cases hr
          · rename_i b hb
            have hf := BitBltRender_frame env s w _ _ _ b hb
            split at hr
            · cases hr; exact hf
            · cases hr; exact hf

/-! ### Presenter: `Present` -/

/-- C6. On an initialised presenter, `Present` of a non-null frame whose pixel
format differs from the configured input format returns `AMF_INVALID_FORMAT`
and does nothing else: it makes no call at all (no conversion, no back-buffer
lookup, acquire, drop, resize or swapchain present), and leaves the presenter,
in particular the resize flag, and every collaborator unchanged. -/
theorem Present_format_mismatch {W : Type} (env : Env W) (platform : Platform)
    (s : VideoPresenterVulkan) (w : W) (surface : Nat) (dev : AMFVulkanDevice)
    (hinit : s.m_pVulkanDevice = some dev)
    (hformat : env.surfaceGetFormat w surface ≠ s.m_eInputFormat) :
    s.Present env platform w (some surface) =
      some { res := AMF_INVALID_FORMAT, st := s, w := w, trace := [] } := by
  unfold VideoPresenterVulkan.Present
  simp only [hinit]
  rw [if_pos (by simpa [VideoPresenterVulkan.GetInputFormat] using hformat)]

theorem not_isPoolEvent_of_isRenderEvent (l : List Event)
    (h : l.all Event.isRenderEvent = true) : l.all (fun e => !e.isPoolEvent) = true := by
  rw [List.all_eq_true] at h ⊢
  intro e he
  have := h e he
  cases e <;> simp_all [Event.isRenderEvent, Event.isPoolEvent]

theorem ResizeSwapChain_trace {W : Type} (env : Env W) (s : VideoPresenterVulkan) (w : W) :
    (s.ResizeSwapChain env w).trace.all (fun e => !e.isPoolEvent) = true := by
  unfold VideoPresenterVulkan.ResizeSwapChain
  dsimp only
  split <;> simp [Event.isPoolEvent]

/-- The shapes of the block of `Present` that acquires and renders. -/
theorem PresentRender_cases {W : Type} (env : Env W) (platform : Platform)
    (s : VideoPresenterVulkan) (w : W) (surface : Nat) (r : PresenterOut W) (cont : Bool)
    (hok : env.AMFSucceeded AMF_OK = true)
    (h : s.PresentRender env platform w surface = some (r, cont)) :
    ∃ pre : List Event, pre.all (fun e => !e.isPoolEvent) = true ∧
      ((r.trace = pre ∧ cont = false) ∨
       (∃ a buf, r.trace = pre ++ [Event.swapAcquireNextBackBuffer a buf] ∧ cont = false) ∨
       (∃ a buf mid, mid.all (fun e => !e.isPoolEvent) = true ∧
          r.trace = pre ++ [Event.swapAcquireNextBackBuffer a buf] ++ mid ++
            [Event.renderSurface AMF_OK] ∧ cont = true) ∨
       (∃ a buf mid rres d, mid.all (fun e => !e.isPoolEvent) = true ∧ rres ≠ AMF_OK ∧
          r.trace = pre ++ [Event.swapAcquireNextBackBuffer a buf] ++ mid ++
            [Event.renderSurface rres, Event.swapDropBackBuffer buf d] ∧
          r.res = (if env.AMFSucceeded d = true then rres else d) ∧
          cont = (env.AMFSucceeded d && env.AMFSucceeded rres))) := by
  unfold VideoPresenterVulkan.PresentRender at h
  generalize hrz : (if platform = Platform.win32 ∧ s.m_bResizeSwapChain = true then
      s.ResizeSwapChain env w
    else { res := AMF_OK, st := s, w := w, trace := [] } : PresenterOut W) = rz at h
  have hpre : rz.trace.all (fun e => !e.isPoolEvent) = true := by
    rw [← hrz]
    split
    · exact ResizeSwapChain_trace env s w
    · rfl
  refine ⟨rz.trace, hpre, ?_⟩
  dsimp only at h
  split at h
  · simp only [Option.some.injEq, Prod.mk.injEq] at h
    obtain ⟨h1, h2⟩ := h
    subst h1 h2
    left; exact ⟨rfl, rfl⟩
  · split at h
    · simp only [Option.some.injEq, Prod.mk.injEq] at h
      obtain ⟨h1, h2⟩ := h
      subst h1 h2
      right; left; exact ⟨_, _, rfl, rfl⟩
    · split at h
      · cases h
      · rename_i rr hrr
        have hmid := not_isPoolEvent_of_isRenderEvent _ (RenderSurface_frame env _ _ _ _ rr hrr).2
        split at h
        · rename_i hne
          right; right; right
          split at h
          · rename_i hd
            simp only [Option.some.injEq, Prod.mk.injEq] at h
            obtain ⟨h1, h2⟩ := h
            subst h1 h2
            refine ⟨(env.swapAcquireNextBackBuffer rz.w).1, (env.swapAcquireNextBackBuffer rz.w).2.1,
              rr.trace, rr.res, (env.swapDropBackBuffer rr.w
                (env.swapAcquireNextBackBuffer rz.w).2.1).1, hmid, hne, by simp, ?_, ?_⟩
            · simp [hd]
            · simp [hd]
          · rename_i hd
            have hd' : env.AMFSucceeded (env.swapDropBackBuffer rr.w
                (env.swapAcquireNextBackBuffer rz.w).2.1).1 = true := by
              simpa using hd
            split at h
            · rename_i hr
              simp only [Option.some.injEq, Prod.mk.injEq] at h
              obtain ⟨h1, h2⟩ := h
              subst h1 h2
              refine ⟨(env.swapAcquireNextBackBuffer rz.w).1, (env.swapAcquireNextBackBuffer rz.w).2.1,
              rr.trace, rr.res, (env.swapDropBackBuffer rr.w
                (env.swapAcquireNextBackBuffer rz.w).2.1).1, hmid, hne, by simp, ?_, ?_⟩
              · simp [hd']
              · simp [hd', hr]
            · rename_i hr
              have hr' : env.AMFSucceeded rr.res = true := by simpa using hr
              simp only [Option.some.injEq, Prod.mk.injEq] at h
              obtain ⟨h1, h2⟩ := h
              subst h1 h2
              refine ⟨(env.swapAcquireNextBackBuffer rz.w).1, (env.swapAcquireNextBackBuffer rz.w).2.1,
              rr.trace, rr.res, (env.swapDropBackBuffer rr.w
                (env.swapAcquireNextBackBuffer rz.w).2.1).1, hmid, hne, by simp, ?_, ?_⟩
              · simp [hd']
              · simp [hd', hr']
        · rename_i heq
          have heq' : rr.res = AMF_OK := by simpa using heq
          right; right; left
          rw [heq', hok] at h
          simp only [Bool.true_eq_false, if_false, Option.some.injEq, Prod.mk.injEq] at h
          obtain ⟨h1, h2⟩ := h
          subst h1 h2
          exact ⟨(env.swapAcquireNextBackBuffer rz.w).1, (env.swapAcquireNextBackBuffer rz.w).2.1,
            rr.trace, hmid, by simp, rfl⟩

theorem PresentFinish_trace_mem {W : Type} (env : Env W) (platform : Platform)
    (s : VideoPresenterVulkan) (w : W) (surface : Nat) (e : Event)
    (he : e ∈ (s.PresentFinish env platform w surface).trace) :
    (∃ p, e = Event.waitForPTS p) ∨ (∃ v r, e = Event.swapPresent v r) ∨ e = Event.xFlush := by
  unfold VideoPresenterVulkan.PresentFinish at he
  dsimp only at he
  split at he
  · simp only [List.mem_cons, List.mem_singleton, List.not_mem_nil, or_false] at he
    rcases he with rfl | rfl
    · exact Or.inl ⟨_, rfl⟩
    · exact Or.inr (Or.inl ⟨_, _, rfl⟩)
  · have hx : ∀ e', e' ∈ (if platform = Platform.linux then
          (env.xFlush (env.swapPresent (env.waitForPTS w (env.surfaceGetPts w surface))
            s.m_bWaitForVSync).2, [Event.xFlush])
        else ((env.swapPresent (env.waitForPTS w (env.surfaceGetPts w surface))
            s.m_bWaitForVSync).2, ([] : List Event))).2 → e' = Event.xFlush := by
      intro e' he'
      split at he' <;> simp_all
    split at he
    all_goals
      simp only [List.mem_append, List.mem_cons, List.mem_singleton, List.not_mem_nil,
        or_false] at he
      rcases he with (rfl | rfl) | he
      · exact Or.inl ⟨_, rfl⟩
      · exact Or.inr (Or.inl ⟨_, _, rfl⟩)
      · exact Or.inr (Or.inr (hx _ he))

/-- The shapes of a `Present` call: it returns before the acquire-and-render
block, inside it, after it, or without entering it. -/
theorem Present_shape {W : Type} (env : Env W) (platform : Platform)
    (s : VideoPresenterVulkan) (w : W) (pSurface : Option Nat) (out : PresenterOut W)
    (h : s.Present env platform w pSurface = some out) :
    ∃ t2 : List Event, t2.all (fun e => !e.isPoolEvent) = true ∧
      (out.trace = t2 ∨
       (∃ (s2 : VideoPresenterVulkan) (w2 : W) (surface : Nat) (r : PresenterOut W),
          s2.PresentRender env platform w2 surface = some (r, false) ∧
          out.trace = t2 ++ r.trace ∧ out.res = r.res) ∨
       (∃ (s2 : VideoPresenterVulkan) (w2 : W) (surface : Nat) (r : PresenterOut W),
          s2.PresentRender env platform w2 surface = some (r, true) ∧
          out.trace = t2 ++ r.trace ++ (r.st.PresentFinish env platform r.w surface).trace ∧
          out.res = (r.st.PresentFinish env platform r.w surface).res) ∨
       (∃ (s2 : VideoPresenterVulkan) (w2 : W) (surface : Nat),
          out.trace = t2 ++ (s2.PresentFinish env platform w2 surface).trace ∧
          out.res = (s2.PresentFinish env platform w2 surface).res)) := by
  unfold VideoPresenterVulkan.Present at h
  cases hdev : s.m_pVulkanDevice with
  | none =>
    simp -zeta only [hdev] at h
    cases h; exact ⟨[], rfl, Or.inl rfl⟩
  | some dev =>
    cases pSurface with
    | none =>
      simp -zeta only [hdev] at h
      cases h; exact ⟨[], rfl, Or.inl rfl⟩
    | some surface =>
      simp -zeta only [hdev] at h
      split at h
      · cases h; exact ⟨[], rfl, Or.inl rfl⟩
      · dsimp only at h
        generalize env.surfaceConvert w surface s.GetMemoryType = c at h
        by_cases h1 : env.AMFSucceeded c.1 = false
        · rw [if_pos h1] at h
          cases h
          exact ⟨[Event.surfaceConvert surface s.GetMemoryType c.1], rfl, Or.inl rfl⟩
        rw [if_neg h1] at h
        generalize (if platform = Platform.win32 then s.CheckForResize env c.2 false
          else (c.1, s)) = k at h
        by_cases h2 : env.AMFSucceeded k.1 = false
        · rw [if_pos h2] at h
          cases h
          exact ⟨[Event.surfaceConvert surface s.GetMemoryType c.1], rfl, Or.inl rfl⟩
        rw [if_neg h2] at h
        generalize (if k.2.m_bRenderToBackBuffer = true then
            (env.swapGetBackBufferIndex c.2 surface).1 else k.1) = res at h
        generalize ht2 : ([Event.surfaceConvert surface s.GetMemoryType c.1] ++
            if k.2.m_bRenderToBackBuffer = true then [Event.swapGetBackBufferIndex surface res]
            else []) = t2 at h
        have ht2p : t2.all (fun e => !e.isPoolEvent) = true := by
          rw [← ht2]
          split <;> simp [Event.isPoolEvent]
        refine ⟨t2, ht2p, ?_⟩
        by_cases h3 : k.2.m_bRenderToBackBuffer = true ∧ ¬ (res = AMF_OK ∨ res = AMF_NOT_FOUND)
        · rw [if_pos h3] at h
          cases h
          exact Or.inl rfl
        rw [if_neg h3] at h
        by_cases h4 : k.2.m_bRenderToBackBuffer = false ∨ res = AMF_NOT_FOUND
        · rw [if_pos h4] at h
          cases hpr : k.2.PresentRender env platform c.2 surface with
          | none => rw [hpr] at h; cases h
          | some rc =>
            obtain ⟨r, cont⟩ := rc
            rw [hpr] at h
            cases cont with
            | false =>
              simp -zeta only [Option.some.injEq] at h
              subst h
              exact Or.inr (Or.inl ⟨_, _, _, r, hpr, rfl, rfl⟩)
            | true =>
              simp -zeta only [Option.some.injEq] at h
              subst h
              exact Or.inr (Or.inr (Or.inl ⟨_, _, _, r, hpr, rfl, rfl⟩))
        · rw [if_neg h4] at h
          simp -zeta only [Option.some.injEq] at h
          subst h
          exact Or.inr (Or.inr (Or.inr ⟨_, _, _, rfl, rfl⟩))

theorem not_mem_of_not_isPoolEvent (l : List Event) (e : Event)
    (hl : l.all (fun e => !e.isPoolEvent) = true) (he : e.isPoolEvent = true) : e ∉ l := by
  intro hmem
  have := List.all_eq_true.mp hl e hmem
  simp [he] at this

theorem mem_render_failed_trace {α : Type} (e x y z : α) (t pre mid : List α) :
    e ∈ t ++ (pre ++ [x] ++ mid ++ [y, z]) ↔
      e ∈ t ∨ e ∈ pre ∨ e = x ∨ e ∈ mid ∨ e = y ∨ e = z := by
  simp only [List.mem_append, List.mem_cons, List.mem_singleton, List.not_mem_nil, or_false]
  tauto

theorem mem_render_ok_trace {α : Type} (e x y : α) (t pre mid fin : List α) :
    e ∈ t ++ (pre ++ [x] ++ mid ++ [y]) ++ fin ↔
      e ∈ t ∨ e ∈ pre ∨ e = x ∨ e ∈ mid ∨ e = y ∨ e ∈ fin := by
  simp only [List.mem_append, List.mem_cons, List.mem_singleton, List.not_mem_nil, or_false]
  tauto

theorem mem_render_dropped_trace {α : Type} (e x y z : α) (t pre mid fin : List α) :
    e ∈ t ++ (pre ++ [x] ++ mid ++ [y, z]) ++ fin ↔
      e ∈ t ∨ e ∈ pre ∨ e = x ∨ e ∈ mid ∨ e = y ∨ e = z ∨ e ∈ fin := by
  simp only [List.mem_append, List.mem_cons, List.mem_singleton, List.not_mem_nil, or_false]
  tauto

/-- C7 as amended. In every `Present` call in which a back buffer was acquired
and `RenderSurface` then failed, `Present` calls `DropBackBuffer` with exactly
that buffer as its last call before returning, makes no other drop, never calls
the swapchain's present, and returns the error of `RenderSurface` if the drop
succeeded and the error of the drop if the drop failed. -/
theorem Present_drops_buffer_on_render_failure {W : Type} (env : Env W) (platform : Platform)
    (s : VideoPresenterVulkan) (w : W) (pSurface : Option Nat) (out : PresenterOut W)
    (acquireRes renderRes : AMF_RESULT) (buffer : Nat)
    (hok : env.AMFSucceeded AMF_OK = true)
    (hout : s.Present env platform w pSurface = some out)
    (hacq : Event.swapAcquireNextBackBuffer acquireRes (some buffer) ∈ out.trace)
    (hrender : Event.renderSurface renderRes ∈ out.trace)
    (hfail : env.AMFSucceeded renderRes = false) :
    ∃ pre dropRes,
      out.trace = pre ++ [Event.renderSurface renderRes,
        Event.swapDropBackBuffer (some buffer) dropRes] ∧
      (∀ b r, Event.swapDropBackBuffer b r ∉ pre) ∧
      (∀ v r, Event.swapPresent v r ∉ out.trace) ∧
      out.res = (if env.AMFSucceeded dropRes = true then renderRes else dropRes) := by
  have hne : renderRes ≠ AMF_OK := by
    intro he; rw [he, hok] at hfail; cases hfail
  have hfin : ∀ s2 w2 surface, Event.renderSurface renderRes ∉
      (VideoPresenterVulkan.PresentFinish env platform s2 w2 surface).trace := by
    intro s2 w2 surface hm
    rcases PresentFinish_trace_mem env platform s2 w2 surface _ hm with ⟨_, h⟩ | ⟨_, _, h⟩ | h <;>
      cases h
  obtain ⟨t2, ht2, hshape⟩ := Present_shape env platform s w pSurface out hout
  have hm2 : ∀ e, e.isPoolEvent = true → e ∉ t2 := fun e he =>
    not_mem_of_not_isPoolEvent t2 e ht2 he
  rcases hshape with htr | ⟨s2, w2, surface, r, hr, htr, hres⟩ |
      ⟨s2, w2, surface, r, hr, htr, hres⟩ | ⟨s2, w2, surface, htr, hres⟩
  · rw [htr] at hrender
    exact absurd hrender (hm2 _ rfl)
  · obtain ⟨pre, hpre, hcases⟩ := PresentRender_cases env platform s2 w2 surface r false hok hr
    have hmp : ∀ e, e.isPoolEvent = true → e ∉ pre := fun e he =>
      not_mem_of_not_isPoolEvent pre e hpre he
    rcases hcases with ⟨hrt, _⟩ | ⟨a, buf, hrt, _⟩ | ⟨a, buf, mid, hmid, hrt, hc⟩ |
        ⟨a, buf, mid, rres, d, hmid, hrne, hrt, hrres, hc⟩
    · rw [htr, hrt, List.mem_append] at hrender
      rcases hrender with h | h
      · exact absurd h (hm2 _ rfl)
      · exact absurd h (hmp _ rfl)
    · rw [htr, hrt, List.mem_append, List.mem_append, List.mem_singleton] at hrender
      rcases hrender with h | h | h
      · exact absurd h (hm2 _ rfl)
      · exact absurd h (hmp _ rfl)
      · cases h
    · cases hc
    · have hmm : ∀ e, e.isPoolEvent = true → e ∉ mid := fun e he =>
        not_mem_of_not_isPoolEvent mid e hmid he
      rw [htr, hrt, mem_render_failed_trace] at hrender hacq
      have hrr : renderRes = rres := by
        rcases hrender with h | h | h | h | h | h
        · exact absurd h (hm2 _ rfl)
        · exact absurd h (hmp _ rfl)
        · cases h
        · exact absurd h (hmm _ rfl)
        · cases h; rfl
        · cases h
      subst hrr
      have hbuf : buf = some buffer := by
        rcases hacq with h | h | h | h | h | h
        · exact absurd h (hm2 _ rfl)
        · exact absurd h (hmp _ rfl)
        · cases h; rfl
        · exact absurd h (hmm _ rfl)
        · cases h
        · cases h
      subst hbuf
      refine ⟨t2 ++ (pre ++ [Event.swapAcquireNextBackBuffer a (some buffer)] ++ mid), d, ?_, ?_,
        ?_, ?_⟩
      · rw [htr, hrt]; simp
      · intro b x hm
        rw [List.mem_append, List.mem_append, List.mem_append, List.mem_singleton] at hm
        rcases hm with h | (h | h) | h
        · exact absurd h (hm2 _ rfl)
        · exact absurd h (hmp _ rfl)
        · cases h
        · exact absurd h (hmm _ rfl)
      · intro v x hm
        rw [htr, hrt, mem_render_failed_trace] at hm
        rcases hm with h | h | h | h | h | h
        · exact absurd h (hm2 _ rfl)
        · exact absurd h (hmp _ rfl)
        · cases h
        · exact absurd h (hmm _ rfl)
        · cases h
        · cases h
      · rw [hres, hrres]
  · obtain ⟨pre, hpre, hcases⟩ := PresentRender_cases env platform s2 w2 surface r true hok hr
    have hmp : ∀ e, e.isPoolEvent = true → e ∉ pre := fun e he =>
      not_mem_of_not_isPoolEvent pre e hpre he
    exfalso
    rcases hcases with ⟨_, hc⟩ | ⟨a, buf, _, hc⟩ | ⟨a, buf, mid, hmid, hrt, _⟩ |
        ⟨a, buf, mid, rres, d, hmid, hrne, hrt, hrres, hc⟩
    · cases hc
    · cases hc
    · have hmm : ∀ e, e.isPoolEvent = true → e ∉ mid := fun e he =>
        not_mem_of_not_isPoolEvent mid e hmid he
      rw [htr, hrt, mem_render_ok_trace] at hrender
      rcases hrender with h | h | h | h | h | h
      · exact absurd h (hm2 _ rfl)
      · exact absurd h (hmp _ rfl)
      · cases h
      · exact absurd h (hmm _ rfl)
      · cases h; exact hne rfl
      · exact hfin _ _ _ h
    · have hmm : ∀ e, e.isPoolEvent = true → e ∉ mid := fun e he =>
        not_mem_of_not_isPoolEvent mid e hmid he
      have hsr : env.AMFSucceeded rres = true := by
        have := hc.symm
        simp only [Bool.and_eq_true] at this
        exact this.2
      rw [htr, hrt, mem_render_dropped_trace] at hrender
      rcases hrender with h | h | h | h | h | h | h
      · exact absurd h (hm2 _ rfl)
      · exact absurd h (hmp _ rfl)
      · cases h
      · exact absurd h (hmm _ rfl)
      · cases h; rw [hsr] at hfail; cases hfail
      · cases h
      · exact hfin _ _ _ h
  · rw [htr, List.mem_append] at hrender
    rcases hrender with h | h
    · exact absurd h (hm2 _ rfl)
    · exact absurd h (hfin _ _ _)

/-- `CheckForResize(false)` returns `AMF_OK`, changes at most the resize flag,
never clears it, and sets it when the presenter's fullscreen state differs from
the swapchain's. -/
theorem CheckForResize_spec {W : Type} (env : Env W) (s : VideoPresenterVulkan) (w : W) :
    (s.CheckForResize env w false).1 = AMF_OK ∧
    (s.CheckForResize env w false).2 =
      { s with m_bResizeSwapChain := (s.CheckForResize env w false).2.m_bResizeSwapChain } ∧
    (s.m_bResizeSwapChain = true → (s.CheckForResize env w false).2.m_bResizeSwapChain = true) ∧
    (s.m_bFullScreen ≠ env.swapFullscreenEnabled w →
      (s.CheckForResize env w false).2.m_bResizeSwapChain = true) := by
  unfold VideoPresenterVulkan.CheckForResize
  split
  · rename_i h
    exact ⟨rfl, rfl, fun _ => rfl, fun _ => rfl⟩
  · rename_i h
    dsimp only
    split
    · refine ⟨rfl, rfl, fun hf => hf, fun hne => ?_⟩
      exact absurd (Or.inr hne) h
    · exact ⟨rfl, rfl, fun _ => rfl, fun _ => rfl⟩

/-- The two outcomes of `ResizeSwapChain`. -/
theorem ResizeSwapChain_cases {W : Type} (env : Env W) (s : VideoPresenterVulkan) (w : W) :
    ∃ width height fullscreen res,
      (env.AMFSucceeded res = false ∧ (s.ResizeSwapChain env w).res = res ∧
        (s.ResizeSwapChain env w).trace = [Event.swapResize width height fullscreen res]) ∨
      (env.AMFSucceeded res = true ∧ (s.ResizeSwapChain env w).res = AMF_OK ∧
        (s.ResizeSwapChain env w).st.m_bResizeSwapChain = false ∧
        (s.ResizeSwapChain env w).st.m_bWaitForVSync = s.m_bWaitForVSync ∧
        (s.ResizeSwapChain env w).trace =
          [Event.swapResize width height fullscreen res, Event.updateProcessor]) := by
  unfold VideoPresenterVulkan.ResizeSwapChain
  dsimp only
  split
  · rename_i h
    exact ⟨_, _, _, _, Or.inl ⟨h, rfl, rfl⟩⟩
  · rename_i h
    exact ⟨_, _, _, _, Or.inr ⟨by simpa using h, rfl, rfl, rfl, rfl⟩⟩

/-- The outcomes of the end of `Present`. -/
theorem PresentFinish_spec {W : Type} (env : Env W) (platform : Platform)
    (s : VideoPresenterVulkan) (w : W) (surface : Nat) :
    (s.PresentFinish env platform w surface).st = s ∧
    ∃ pts res rest,
      (s.PresentFinish env platform w surface).trace =
        [Event.waitForPTS pts, Event.swapPresent s.m_bWaitForVSync res] ++ rest ∧
      (env.AMFSucceeded res = false → (s.PresentFinish env platform w surface).res = res) ∧
      (env.AMFSucceeded res = true → (s.PresentFinish env platform w surface).res =
        if s.m_bResizeSwapChain = true then AMF_RESOLUTION_UPDATED else AMF_OK) := by
  unfold VideoPresenterVulkan.PresentFinish
  dsimp only
  split
  · rename_i h
    refine ⟨rfl, _, _, [], rfl, fun _ => rfl, fun h' => ?_⟩
    rw [h] at h'; cases h'
  · rename_i h
    split
    · rename_i hflag
      exact ⟨rfl, _, _, _, rfl, fun h' => absurd h' h, fun _ => rfl⟩
    · rename_i hflag
      exact ⟨rfl, _, _, _, rfl, fun h' => absurd h' h, fun _ => rfl⟩

theorem sameButHeap_flag (s s' : VideoPresenterVulkan) (h : s.sameButHeap s') :
    s'.m_bResizeSwapChain = s.m_bResizeSwapChain ∧ s'.m_bWaitForVSync = s.m_bWaitForVSync := by
  unfold VideoPresenterVulkan.sameButHeap at h
  rw [h]
  exact ⟨rfl, rfl⟩

/-- The acquire-and-render block on the `_WIN32` build with the resize flag set,
when every call it makes returns `AMF_OK`. -/
theorem PresentRender_pending_resize {W : Type} (env : Env W) (s : VideoPresenterVulkan) (w : W)
    (surface : Nat) (r : PresenterOut W) (cont : Bool)
    (hok : env.AMFSucceeded AMF_OK = true) (hflag : s.m_bResizeSwapChain = true)
    (h : s.PresentRender env Platform.win32 w surface = some (r, cont))
    (hsteps : ∀ e ∈ r.trace, ∀ x, e.result = some x → x = AMF_OK) :
    cont = true ∧ r.st.m_bResizeSwapChain = false ∧ r.st.m_bWaitForVSync = s.m_bWaitForVSync ∧
    ∃ width height fullscreen buffer rest,
      r.trace = [Event.swapResize width height fullscreen AMF_OK, Event.updateProcessor,
        Event.swapAcquireNextBackBuffer AMF_OK buffer] ++ rest := by
  have hfalse : ∀ x, x = AMF_OK → env.AMFSucceeded x = false → False := by
    intro x hx hf; rw [hx, hok] at hf; cases hf
  unfold VideoPresenterVulkan.PresentRender at h
  rw [if_pos (show Platform.win32 = Platform.win32 ∧ s.m_bResizeSwapChain = true from
    ⟨rfl, hflag⟩)] at h
  obtain ⟨width, height, fullscreen, res, hrz⟩ := ResizeSwapChain_cases env s w
  generalize s.ResizeSwapChain env w = rz at h hrz
  dsimp only at h
  rcases hrz with ⟨hsf, hrres, hrt⟩ | ⟨hss, hrres, hrflag, hrv, hrt⟩
  · exfalso
    rw [hrres, hsf, if_pos rfl] at h
    simp only [Option.some.injEq, Prod.mk.injEq] at h
    obtain ⟨h1, _⟩ := h
    subst h1
    have := hsteps (Event.swapResize width height fullscreen res) (by rw [hrt]; simp) res rfl
    exact hfalse _ this hsf
  · rw [hrres, hok, if_neg (by simp)] at h
    generalize env.swapAcquireNextBackBuffer rz.w = a at h
    by_cases ha : env.AMFSucceeded a.1 = false
    · exfalso
      rw [if_pos ha] at h
      simp only [Option.some.injEq, Prod.mk.injEq] at h
      obtain ⟨h1, _⟩ := h
      subst h1
      have := hsteps (Event.swapAcquireNextBackBuffer a.1 a.2.1) (by simp) a.1 rfl
      exact hfalse _ this ha
    · rw [if_neg ha] at h
      cases hrr : rz.st.RenderSurface env a.2.2 (some surface) a.2.1 with
      | none => rw [hrr] at h; cases h
      | some rr =>
        rw [hrr] at h
        simp -zeta only at h
        have hframe := sameButHeap_flag _ _ (RenderSurface_frame env _ _ _ _ rr hrr).1
        have hrrok : rr.res = AMF_OK → (r.st = rr.st ∧ cont = true ∧
            r.trace = rz.trace ++ [Event.swapAcquireNextBackBuffer a.1 a.2.1] ++ rr.trace ++
              [Event.renderSurface rr.res]) := by
          intro he
          rw [if_neg (by simpa using he), he, hok, if_neg (by simp)] at h
          simp only [Option.some.injEq, Prod.mk.injEq] at h
          obtain ⟨h1, h2⟩ := h
          subst h1 h2
          exact ⟨rfl, rfl, by rw [he]⟩
        have hmarker : Event.renderSurface rr.res ∈ r.trace := by
          by_cases he : rr.res = AMF_OK
          · rw [(hrrok he).2.2]; simp
          · rw [if_pos he] at h
            split at h
            · simp only [Option.some.injEq, Prod.mk.injEq] at h
              obtain ⟨h1, _⟩ := h
              subst h1; simp
            · split at h
              · simp only [Option.some.injEq, Prod.mk.injEq] at h
                obtain ⟨h1, _⟩ := h
                subst h1; simp
              · simp only [Option.some.injEq, Prod.mk.injEq] at h
                obtain ⟨h1, _⟩ := h
                subst h1; simp
        have hres : rr.res = AMF_OK := hsteps _ hmarker rr.res rfl
        obtain ⟨hst, hcont, htrace⟩ := hrrok hres
        have hacq : a.1 = AMF_OK :=
          hsteps (Event.swapAcquireNextBackBuffer a.1 a.2.1) (by rw [htrace]; simp) a.1 rfl
        have hresz : res = AMF_OK :=
          hsteps (Event.swapResize width height fullscreen res) (by rw [htrace, hrt]; simp) res rfl
        refine ⟨hcont, ?_, ?_, width, height, fullscreen, a.2.1, rr.trace ++
          [Event.renderSurface rr.res], ?_⟩
        · rw [hst, hframe.1, hrflag]
        · rw [hst, hframe.2, hrv]
        · rw [htrace, hrt, hacq, hresz]; simp

/-- C8 as amended. On an initialised presenter that does not render into back
buffers and on which a resize is pending (the resize flag is set, or the
presenter's fullscreen state differs from the swapchain's), the `_WIN32` build
of `Present`, given a frame of the configured format and with every call it
makes returning `AMF_OK`, resizes the swapchain before it acquires the back
buffer, which clears the resize flag, and returns plain success `AMF_OK`. -/
theorem Present_pending_resize_returns_ok {W : Type} (env : Env W) (s : VideoPresenterVulkan)
    (w : W) (surface : Nat) (out : PresenterOut W) (dev : AMFVulkanDevice)
    (hok : env.AMFSucceeded AMF_OK = true)
    (hinit : s.m_pVulkanDevice = some dev)
    (hdirect : s.m_bRenderToBackBuffer = false)
    (hformat : env.surfaceGetFormat w surface = s.m_eInputFormat)
    (hpending : s.m_bResizeSwapChain = true ∨
      s.m_bFullScreen ≠
        env.swapFullscreenEnabled (env.surfaceConvert w surface AMF_MEMORY_VULKAN).2)
    (hout : s.Present env Platform.win32 w (some surface) = some out)
    (hsteps : ∀ e ∈ out.trace, ∀ r, e.result = some r → r = AMF_OK) :
    out.res = AMF_OK ∧ out.st.m_bResizeSwapChain = false ∧
    ∃ width height fullscreen buffer rest,
      out.trace = [Event.surfaceConvert surface AMF_MEMORY_VULKAN AMF_OK,
        Event.swapResize width height fullscreen AMF_OK, Event.updateProcessor,
        Event.swapAcquireNextBackBuffer AMF_OK buffer] ++ rest := by
  have hfalse : ∀ x, x = AMF_OK → env.AMFSucceeded x = false → False := by
    intro x hx hf; rw [hx, hok] at hf; cases hf
  unfold VideoPresenterVulkan.Present at hout
  simp -zeta only [hinit] at hout
  rw [if_neg (by simpa [VideoPresenterVulkan.GetInputFormat] using hformat)] at hout
  dsimp only at hout
  change _ ∨ s.m_bFullScreen ≠ env.swapFullscreenEnabled
    (env.surfaceConvert w surface s.GetMemoryType).2 at hpending
  have hmt : s.GetMemoryType = AMF_MEMORY_VULKAN := rfl
  generalize env.surfaceConvert w surface s.GetMemoryType = c at hout hpending
  by_cases h1 : env.AMFSucceeded c.1 = false
  · exfalso
    rw [if_pos h1] at hout
    simp only [Option.some.injEq] at hout
    subst hout
    exact hfalse _ (hsteps (Event.surfaceConvert surface s.GetMemoryType c.1) (by simp) c.1 rfl) h1
  rw [if_neg h1] at hout
  simp -zeta only [if_true] at hout
  obtain ⟨hk1, hk2, hk3, hk4⟩ := CheckForResize_spec env s c.2
  have hkflag : (s.CheckForResize env c.2 false).2.m_bResizeSwapChain = true := by
    rcases hpending with hp | hp
    · exact hk3 hp
    · exact hk4 hp
  have hkd : (s.CheckForResize env c.2 false).2.m_bRenderToBackBuffer = false := by
    rw [hk2]; exact hdirect
  have hkv : (s.CheckForResize env c.2 false).2.m_bWaitForVSync = s.m_bWaitForVSync := by
    rw [hk2]
  generalize s.CheckForResize env c.2 false = k at hout hk1 hkflag hkd hkv
  rw [hk1, hok, if_neg (by simp), hkd] at hout
  simp -zeta only [Bool.false_eq_true, false_and, if_false, true_or, if_true,
    List.append_nil] at hout
  cases hpr : k.2.PresentRender env Platform.win32 c.2 surface with
  | none => rw [hpr] at hout; cases hout
  | some rc =>
    obtain ⟨r, cont⟩ := rc
    rw [hpr] at hout
    cases cont with
    | false =>
      exfalso
      simp -zeta only [Option.some.injEq] at hout
      subst hout
      have := (PresentRender_pending_resize env k.2 c.2 surface r false hok hkflag hpr
        (fun e he x hx => hsteps e (by simp [he]) x hx)).1
      cases this
    | true =>
      simp -zeta only [Option.some.injEq] at hout
      subst hout
      obtain ⟨_, hrflag, hrv, width, height, fullscreen, buffer, rest, hrt⟩ :=
        PresentRender_pending_resize env k.2 c.2 surface r true hok hkflag hpr
          (fun e he x hx => hsteps e (by simp [he]) x hx)
      obtain ⟨hfst, pts, pres, frest, hft, hffail, hfok⟩ :=
        PresentFinish_spec env Platform.win32 r.st r.w surface
      have hpres : pres = AMF_OK :=
        hsteps (Event.swapPresent r.st.m_bWaitForVSync pres) (by simp [hft]) pres rfl
      have hc1 : c.1 = AMF_OK :=
        hsteps (Event.surfaceConvert surface s.GetMemoryType c.1) (by simp) c.1 rfl
      refine ⟨?_, ?_, width, height, fullscreen, buffer,
        rest ++ (r.st.PresentFinish env Platform.win32 r.w surface).trace, ?_⟩
      · show (r.st.PresentFinish env Platform.win32 r.w surface).res = AMF_OK
        rw [hfok (by rw [hpres, hok]), hrflag]
        rfl
      · show (r.st.PresentFinish env Platform.win32 r.w surface).st.m_bResizeSwapChain = false
        rw [hfst, hrflag]
      · show [Event.surfaceConvert surface s.GetMemoryType c.1] ++ r.trace ++
          (r.st.PresentFinish env Platform.win32 r.w surface).trace = _
        rw [hrt, hc1, hmt]
        simp

/-! ### Presenter: back-pressure of `AllocSurface` -/

theorem OnSurfaceDataRelease_tracked {W : Type} (env : Env W) (s : VideoPresenterVulkan) (w : W)
    (x : Nat) (htracked : x ∈ s.m_TrackSurfaces) :
    s.OnSurfaceDataRelease env w (some x) =
      ({ s with m_TrackSurfaces := s.m_TrackSurfaces.erase x },
        (env.swapDropBackBufferSurface (env.surfaceRemoveObserver w x) x).2,
        [Event.surfaceRemoveObserver x, Event.swapDropBackBufferSurface x
          (env.swapDropBackBufferSurface (env.surfaceRemoveObserver w x) x).1]) := by
  unfold VideoPresenterVulkan.OnSurfaceDataRelease
  simp only [htracked, if_true]

theorem waitBuffersReleased_tracked {W : Type} (env : Env W) (tracked : List Nat)
    (htracked : tracked ≠ []) (fuel : Nat) :
    ∀ w, waitBuffersReleased env tracked fuel w = none := by
  induction fuel with
  | zero => intro w; rfl
  | succ n ih =>
    intro w
    have hne : tracked.isEmpty = false := by
      cases tracked with
      | nil => exact absurd rfl htracked
      | cons a l => rfl
    unfold waitBuffersReleased
    rw [if_pos (Or.inr hne), ih]

/-- With a resize pending and a surface still tracked, `AllocSurface` called
with a buffer available does not leave its second waiting loop, however many
iterations it is given. -/
theorem AllocSurface_waits_for_release {W : Type} (env : Env W) (s : VideoPresenterVulkan)
    (w : W) (type : AMF_MEMORY_TYPE) (ppSurface : Option Nat)
    (hback : s.m_bRenderToBackBuffer = true)
    (hresize : s.m_bResizeSwapChain = true)
    (htracked : s.m_TrackSurfaces ≠ [])
    (havail : 0 < env.swapGetBackBuffersAvailable w) (fuel : Nat) :
    s.AllocSurface env fuel w type s.m_eInputFormat ppSurface = none := by
  unfold VideoPresenterVulkan.AllocSurface
  rw [if_neg (by simp [hback]), if_neg (by simp)]
  cases fuel with
  | zero => rfl
  | succ n =>
    have h1 : waitBuffersAvailable env s.m_bFrozen (n + 1) w = some (true, w, []) := by
      unfold waitBuffersAvailable
      rw [if_neg (by omega)]
    rw [h1]
    simp only [hresize, if_true, waitBuffersReleased_tracked env _ htracked]

/-- C9 as amended. With render-to-back-buffer enabled, no buffer available and
the presenter frozen, `AllocSurface` with the configured format returns
`AMF_INPUT_FULL` without sleeping, acquiring or changing the tracking list.
`OnSurfaceDataRelease` of a tracked surface untracks it and drops its back
buffer.  If that leaves a buffer available and no resize is pending, the next
`AllocSurface` acquires a back buffer without sleeping and appends it to the
tracking list.  Each of the three steps carries only its own conditions. -/
theorem AllocSurface_back_pressure {W : Type} (env : Env W) (fuel : Nat)
    (s : VideoPresenterVulkan) (w : W) (type : AMF_MEMORY_TYPE) (ppSurface : Option Nat) (x : Nat)
    (hok : env.AMFSucceeded AMF_OK = true)
    (hback : s.m_bRenderToBackBuffer = true) :
    (s.m_bFrozen = true → env.swapGetBackBuffersAvailable w = 0 →
      s.AllocSurface env (fuel + 1) w type s.m_eInputFormat ppSurface =
        some { res := AMF_INPUT_FULL, st := s, w := w, trace := [], surface := ppSurface }) ∧
    (x ∈ s.m_TrackSurfaces →
      s.OnSurfaceDataRelease env w (some x) =
        ({ s with m_TrackSurfaces := s.m_TrackSurfaces.erase x },
          (env.swapDropBackBufferSurface (env.surfaceRemoveObserver w x) x).2,
          [Event.surfaceRemoveObserver x, Event.swapDropBackBufferSurface x
            (env.swapDropBackBufferSurface (env.surfaceRemoveObserver w x) x).1])) ∧
    ∀ (acquireRes : AMF_RESULT) (y : Nat) (w3 : W),
      x ∈ s.m_TrackSurfaces →
      s.m_bResizeSwapChain = false →
      0 < env.swapGetBackBuffersAvailable (s.OnSurfaceDataRelease env w (some x)).2.1 →
      env.swapAcquireNextBackBufferSurface (s.OnSurfaceDataRelease env w (some x)).2.1 =
        (acquireRes, some y, w3) →
      env.AMFSucceeded acquireRes = true →
      (s.OnSurfaceDataRelease env w (some x)).1.AllocSurface env (fuel + 1)
          (s.OnSurfaceDataRelease env w (some x)).2.1 type s.m_eInputFormat ppSurface =
        some { res := (env.surfaceConvert (env.surfaceAddObserver w3 y) y type).1,
               st := { s with m_TrackSurfaces := s.m_TrackSurfaces.erase x ++ [y] },
               w := (env.surfaceConvert (env.surfaceAddObserver w3 y) y type).2,
               trace := [Event.swapAcquireNextBackBufferSurface acquireRes (some y),
                 Event.surfaceAddObserver y,
                 Event.surfaceConvert y type
                   (env.surfaceConvert (env.surfaceAddObserver w3 y) y type).1],
               surface := some y } := by
  refine ⟨fun hfrozen hfull => ?_,
    fun htracked => OnSurfaceDataRelease_tracked env s w x htracked, ?_⟩
  · unfold VideoPresenterVulkan.AllocSurface
    rw [if_neg (by simp [hback]), if_neg (by simp)]
    have h1 : waitBuffersAvailable env s.m_bFrozen (fuel + 1) w = some (false, w, []) := by
      unfold waitBuffersAvailable
      rw [if_pos hfull, if_pos hfrozen]
    rw [h1]
  · intro acquireRes y w3 htracked hresize havail
    rw [OnSurfaceDataRelease_tracked env s w x htracked] at havail ⊢
    intro hacq hsucc
    dsimp only at havail hacq ⊢
    generalize (env.swapDropBackBufferSurface (env.surfaceRemoveObserver w x) x).2 = w1
      at havail hacq ⊢
    unfold VideoPresenterVulkan.AllocSurface
    rw [if_neg (by simp [hback]), if_neg (by simp)]
    have h1 : waitBuffersAvailable env s.m_bFrozen (fuel + 1) w1 = some (true, w1, []) := by
      unfold waitBuffersAvailable
      rw [if_neg (by omega)]
    rw [h1]
    simp [hresize, hok, hacq, hsucc]

/-! ### Teardown -/

/-- C10. For the descriptor registry, the pipeline and the presenter, a
`Terminate` after a first `Terminate` returns `AMF_OK`, makes no call and
changes no field, given that the shared context's `Terminate` clears the
device handle. -/
theorem Terminate_twice_is_noop {W : Type} (env : Env W) (h : DescriptorHeapVulkan)
    (p : RenderingPipelineVulkan) (s : VideoPresenterVulkan) (w : W)
    (hctx : ∀ c, (env.contextTerminate c).2.m_pVulkanDevice = none) :
    (h.Terminate env.contextTerminate).heap.Terminate env.contextTerminate =
      { res := AMF_OK, heap := (h.Terminate env.contextTerminate).heap, calls := [] } ∧
    (p.Terminate env.contextTerminate).pipeline.Terminate env.contextTerminate =
      { res := AMF_OK, pipeline := (p.Terminate env.contextTerminate).pipeline, calls := [] } ∧
    (s.Terminate env w).st.Terminate env (s.Terminate env w).w =
      { res := AMF_OK, st := (s.Terminate env w).st, w := (s.Terminate env w).w, trace := [] } := by
  refine ⟨?_, ?_, ?_⟩
  · have hnone : (h.Terminate env.contextTerminate).heap.m_pVulkanDevice = none := by
      unfold DescriptorHeapVulkan.Terminate
      cases hdev : h.m_pVulkanDevice with
      | none => exact hdev
      | some dev => exact hctx _
    generalize (h.Terminate env.contextTerminate).heap = h1 at hnone ⊢
    unfold DescriptorHeapVulkan.Terminate
    rw [hnone]
  · have hnone : (p.Terminate env.contextTerminate).pipeline.m_pVulkanDevice = none := by
      unfold RenderingPipelineVulkan.Terminate
      cases hdev : p.m_pVulkanDevice with
      | none => exact hdev
      | some dev => exact hctx _
    generalize (p.Terminate env.contextTerminate).pipeline = p1 at hnone ⊢
    unfold RenderingPipelineVulkan.Terminate
    rw [hnone]
  · have hnone : (s.Terminate env w).st.m_pVulkanDevice = none := by
      unfold VideoPresenterVulkan.Terminate
      cases hdev : s.m_pVulkanDevice with
      | none => exact hdev
      | some dev => exact hctx _
    generalize s.Terminate env w = o at hnone ⊢
    unfold VideoPresenterVulkan.Terminate
    rw [hnone]

/-! ### Presenter: the resize flag -/

/-- C11. `CheckForResize(false)` always returns `AMF_OK`.  It sets the resize
flag when the presenter's fullscreen state differs from the swapchain's, or when
the client area's width and height are both non-zero and the pair differs from
the swapchain's size; in every other case it leaves the presenter, and so the
flag, as it was. -/
theorem CheckForResize_sets_flag_iff {W : Type} (env : Env W) (s : VideoPresenterVulkan)
    (w : W) :
    s.CheckForResize env w false =
      (AMF_OK,
        if s.m_bFullScreen ≠ env.swapFullscreenEnabled w ∨
            ((env.getClientRect w).Width ≠ 0 ∧ (env.getClientRect w).Height ≠ 0 ∧
              ((env.getClientRect w).Width, (env.getClientRect w).Height) ≠
                ((env.swapGetSize w).width, (env.swapGetSize w).height)) then
          { s with m_bResizeSwapChain := true }
        else s) := by
  unfold VideoPresenterVulkan.CheckForResize
  dsimp only
  by_cases hfs : s.m_bFullScreen = env.swapFullscreenEnabled w
  · have hf : ¬ (false = true ∨ s.m_bFullScreen ≠ env.swapFullscreenEnabled w) := by simp [hfs]
    rw [if_neg hf]
    by_cases hl : ((env.getClientRect w).Width = (env.swapGetSize w).width ∧
        (env.getClientRect w).Height = (env.swapGetSize w).height) ∨
        (env.getClientRect w).Width = 0 ∨ (env.getClientRect w).Height = 0
    · rw [if_pos hl, if_neg]
      rintro (h | ⟨hw, hh, hne⟩)
      · exact h hfs
      · rcases hl with ⟨h1, h2⟩ | h | h
        · exact hne (by rw [h1, h2])
        · exact hw h
        · exact hh h
    · rw [if_neg hl, if_pos]
      refine Or.inr ⟨fun h => hl (Or.inr (Or.inl h)), fun h => hl (Or.inr (Or.inr h)), ?_⟩
      intro he
      simp only [Prod.mk.injEq] at he
      exact hl (Or.inl he)
  · rw [if_pos (Or.inr hfs), if_pos (Or.inl hfs)]

theorem clearedOnlyByResize_refl {W : Type} (env : Env W) (s s' : VideoPresenterVulkan)
    (trace : List Event) (h : s'.m_bResizeSwapChain = s.m_bResizeSwapChain) :
    clearedOnlyByResize env s s' trace := by
  intro h1 h2
  rw [h, h1] at h2
  cases h2

theorem clearedOnlyByResize_mono {W : Type} (env : Env W) (s s1 s2 : VideoPresenterVulkan)
    (pre t post : List Event) (h : clearedOnlyByResize env s s1 t)
    (h2 : s2.m_bResizeSwapChain = s1.m_bResizeSwapChain) :
    clearedOnlyByResize env s s2 (pre ++ t ++ post) := by
  intro hs hc
  rw [h2] at hc
  obtain ⟨a, b, c, d, hm, hd⟩ := h hs hc
  exact ⟨a, b, c, d, by simp [hm], hd⟩

/-- `ResizeSwapChain` clears the flag exactly when the swapchain's `Resize`
succeeded; a failed resize leaves the flag as it was. -/
theorem ResizeSwapChain_flag {W : Type} (env : Env W) (s : VideoPresenterVulkan) (w : W) :
    clearedOnlyByResize env s (s.ResizeSwapChain env w).st (s.ResizeSwapChain env w).trace ∧
    (env.AMFSucceeded (env.swapResize w (env.getClientRect w).Width (env.getClientRect w).Height
        s.m_bFullScreen).1 = false →
      (s.ResizeSwapChain env w).st.m_bResizeSwapChain = s.m_bResizeSwapChain ∧
      (s.ResizeSwapChain env w).res = (env.swapResize w (env.getClientRect w).Width
        (env.getClientRect w).Height s.m_bFullScreen).1) ∧
    (env.AMFSucceeded (env.swapResize w (env.getClientRect w).Width (env.getClientRect w).Height
        s.m_bFullScreen).1 = true →
      (s.ResizeSwapChain env w).st.m_bResizeSwapChain = false ∧
      (s.ResizeSwapChain env w).res = AMF_OK) := by
  unfold VideoPresenterVulkan.ResizeSwapChain
  dsimp only
  by_cases hs : env.AMFSucceeded (env.swapResize w (env.getClientRect w).Width
      (env.getClientRect w).Height s.m_bFullScreen).1 = false
  · rw [if_pos hs]
    refine ⟨clearedOnlyByResize_refl env _ _ _ rfl, fun _ => ⟨rfl, rfl⟩, fun h => ?_⟩
    rw [hs] at h; cases h
  · rw [if_neg hs]
    have hs' : env.AMFSucceeded (env.swapResize w (env.getClientRect w).Width
      (env.getClientRect w).Height s.m_bFullScreen).1 = true := by simpa using hs
    refine ⟨fun _ _ => ⟨_, _, _, _, List.mem_cons_self _ _, hs'⟩, fun h => absurd h hs,
      fun _ => ⟨rfl, rfl⟩⟩

/-- `CheckForResize` never clears the flag. -/
theorem CheckForResize_keeps_flag {W : Type} (env : Env W) (s : VideoPresenterVulkan) (w : W)
    (force : Bool) (h : s.m_bResizeSwapChain = true) :
    (s.CheckForResize env w force).2.m_bResizeSwapChain = true := by
  unfold VideoPresenterVulkan.CheckForResize
  dsimp only
  split
  · rfl
  · split
    · exact h
    · rfl

theorem ResizeIfNeeded_flag {W : Type} (env : Env W) (s : VideoPresenterVulkan) (w : W) :
    clearedOnlyByResize env s (s.ResizeIfNeeded env w).1 (s.ResizeIfNeeded env w).2.2 := by
  unfold VideoPresenterVulkan.ResizeIfNeeded
  dsimp only
  intro hs
  have hk := CheckForResize_keeps_flag env s w false hs
  generalize (s.CheckForResize env w false).2 = k at hk ⊢
  rw [if_pos hk]
  split
  · exact (ResizeSwapChain_flag env k w).1 hk
  · intro hc
    rw [hk] at hc; cases hc

theorem PresentRender_flag {W : Type} (env : Env W) (platform : Platform)
    (s : VideoPresenterVulkan) (w : W) (surface : Nat) (r : PresenterOut W) (cont : Bool)
    (h : s.PresentRender env platform w surface = some (r, cont)) :
    clearedOnlyByResize env s r.st r.trace := by
  unfold VideoPresenterVulkan.PresentRender at h
  generalize hrz : (if platform = Platform.win32 ∧ s.m_bResizeSwapChain = true then
      s.ResizeSwapChain env w
    else { res := AMF_OK, st := s, w := w, trace := [] } : PresenterOut W) = rz at h
  have hpre : clearedOnlyByResize env s rz.st rz.trace := by
    rw [← hrz]
    split
    · exact (ResizeSwapChain_flag env s w).1
    · exact clearedOnlyByResize_refl env _ _ _ rfl
  have hmono : ∀ (s2 : VideoPresenterVulkan) (post : List Event),
      s2.m_bResizeSwapChain = rz.st.m_bResizeSwapChain →
      clearedOnlyByResize env s s2 (rz.trace ++ post) := by
    intro s2 post h2
    have := clearedOnlyByResize_mono env s rz.st s2 [] rz.trace post hpre h2
    simpa using this
  dsimp only at h
  split at h
  · simp only [Option.some.injEq, Prod.mk.injEq] at h
    obtain ⟨h1, _⟩ := h
    subst h1
    exact hpre
  · split at h
    · simp only [Option.some.injEq, Prod.mk.injEq] at h
      obtain ⟨h1, _⟩ := h
      subst h1
      exact hmono _ _ rfl
    · split at h
      · cases h
      · rename_i rr hrr
        have hf := (sameButHeap_flag _ _ (RenderSurface_frame env _ _ _ _ rr hrr).1).1
        split at h
        · split at h
          · simp only [Option.some.injEq, Prod.mk.injEq] at h
            obtain ⟨h1, _⟩ := h
            subst h1
            simpa [List.append_assoc] using hmono rr.st _ hf
          · split at h <;>
            · simp only [Option.some.injEq, Prod.mk.injEq] at h
              obtain ⟨h1, _⟩ := h
              subst h1
              simpa [List.append_assoc] using hmono rr.st _ hf
        · split at h <;>
          · simp only [Option.some.injEq, Prod.mk.injEq] at h
            obtain ⟨h1, _⟩ := h
            subst h1
            simpa [List.append_assoc] using hmono rr.st _ hf

theorem PresentFinish_st {W : Type} (env : Env W) (platform : Platform)
    (s : VideoPresenterVulkan) (w : W) (surface : Nat) :
    (s.PresentFinish env platform w surface).st = s := by
  unfold VideoPresenterVulkan.PresentFinish
  dsimp only
  split
  · rfl
  · split <;> rfl

theorem Present_flag {W : Type} (env : Env W) (platform : Platform)
    (s : VideoPresenterVulkan) (w : W) (pSurface : Option Nat) (out : PresenterOut W)
    (h : s.Present env platform w pSurface = some out) :
    clearedOnlyByResize env s out.st out.trace := by
  unfold VideoPresenterVulkan.Present at h
  cases hdev : s.m_pVulkanDevice with
  | none =>
    simp -zeta only [hdev] at h
    cases h; exact clearedOnlyByResize_refl env _ _ _ rfl
  | some dev =>
    cases pSurface with
    | none =>
      simp -zeta only [hdev] at h
      cases h; exact clearedOnlyByResize_refl env _ _ _ rfl
    | some surface =>
      simp -zeta only [hdev] at h
      split at h
      · cases h; exact clearedOnlyByResize_refl env _ _ _ rfl
      · dsimp only at h
        generalize env.surfaceConvert w surface s.GetMemoryType = c at h
        by_cases h1 : env.AMFSucceeded c.1 = false
        · rw [if_pos h1] at h
          cases h
          exact clearedOnlyByResize_refl env _ _ _ rfl
        rw [if_neg h1] at h
        have hk : s.m_bResizeSwapChain = true →
            (if platform = Platform.win32 then s.CheckForResize env c.2 false
              else (c.1, s)).2.m_bResizeSwapChain = true := by
          intro hs
          split
          · exact CheckForResize_keeps_flag env s c.2 false hs
          · exact hs
        generalize (if platform = Platform.win32 then s.CheckForResize env c.2 false
          else (c.1, s)) = k at h hk
        have hkeep : ∀ (s2 : VideoPresenterVulkan) (t : List Event),
            s2.m_bResizeSwapChain = k.2.m_bResizeSwapChain →
            clearedOnlyByResize env s s2 t := by
          intro s2 t h2 hs hc
          rw [h2, hk hs] at hc
          cases hc
        by_cases h2 : env.AMFSucceeded k.1 = false
        · rw [if_pos h2] at h
          cases h
          exact hkeep _ _ rfl
        rw [if_neg h2] at h
        generalize (if k.2.m_bRenderToBackBuffer = true then
            (env.swapGetBackBufferIndex c.2 surface).1 else k.1) = res at h
        generalize ([Event.surfaceConvert surface s.GetMemoryType c.1] ++
            if k.2.m_bRenderToBackBuffer = true then [Event.swapGetBackBufferIndex surface res]
            else []) = t2 at h
        by_cases h3 : k.2.m_bRenderToBackBuffer = true ∧ ¬ (res = AMF_OK ∨ res = AMF_NOT_FOUND)
        · rw [if_pos h3] at h
          cases h
          exact hkeep _ _ rfl
        rw [if_neg h3] at h
        by_cases h4 : k.2.m_bRenderToBackBuffer = false ∨ res = AMF_NOT_FOUND
        · rw [if_pos h4] at h
          cases hpr : k.2.PresentRender env platform c.2 surface with
          | none => rw [hpr] at h; cases h
          | some rc =>
            obtain ⟨r, cont⟩ := rc
            rw [hpr] at h
            have hr := PresentRender_flag env platform k.2 c.2 surface r cont hpr
            have hmono : ∀ (s2 : VideoPresenterVulkan) (post : List Event),
                s2.m_bResizeSwapChain = r.st.m_bResizeSwapChain →
                clearedOnlyByResize env s s2 (t2 ++ r.trace ++ post) := by
              intro s2 post h2 hs hc
              rw [h2] at hc
              obtain ⟨a, b, c', d, hm, hd⟩ := hr (hk hs) hc
              exact ⟨a, b, c', d, by simp [hm], hd⟩
            cases cont with
            | false =>
              simp -zeta only [Option.some.injEq] at h
              subst h
              simpa using hmono r.st [] rfl
            | true =>
              simp -zeta only [Option.some.injEq] at h
              subst h
              exact hmono _ _ (by rw [PresentFinish_st])
        · rw [if_neg h4] at h
          simp -zeta only [Option.some.injEq] at h
          subst h
          exact hkeep _ _ (by rw [PresentFinish_st])

theorem AllocSurface_flag {W : Type} (env : Env W) (fuel : Nat) (s : VideoPresenterVulkan)
    (w : W) (type : AMF_MEMORY_TYPE) (format : AMF_SURFACE_FORMAT) (ppSurface : Option Nat)
    (out : AllocOut W) (h : s.AllocSurface env fuel w type format ppSurface = some out) :
    clearedOnlyByResize env s out.st out.trace := by
  unfold VideoPresenterVulkan.AllocSurface at h
  split at h
  · cases h; exact clearedOnlyByResize_refl env _ _ _ rfl
  · split at h
    · cases h; exact clearedOnlyByResize_refl env _ _ _ rfl
    · split at h
      · cases h
      · cases h; exact clearedOnlyByResize_refl env _ _ _ rfl
      · rename_i w1 t1 _
        dsimp only at h
        generalize hrz : (if s.m_bResizeSwapChain = true then
            match waitBuffersReleased env s.m_TrackSurfaces fuel w1 with
            | none => none
            | some (w2, t2) =>
              some { s.ResizeSwapChain env w2 with
                trace := t1 ++ t2 ++ (s.ResizeSwapChain env w2).trace }
          else some { res := AMF_OK, st := s, w := w1, trace := t1 } :
            Option (PresenterOut W)) = rz at h
        cases rz with
        | none => cases h
        | some r =>
          have hr : clearedOnlyByResize env s r.st r.trace := by
            split at hrz
            · split at hrz
              · cases hrz
              · rename_i w2 t2 _
                simp only [Option.some.injEq] at hrz
                subst hrz
                exact clearedOnlyByResize_mono env s _ _ (t1 ++ t2) _ []
                  (ResizeSwapChain_flag env s w2).1 rfl |> fun x => by simpa using x
            · simp only [Option.some.injEq] at hrz
              subst hrz
              exact clearedOnlyByResize_refl env _ _ _ rfl
          have hmono : ∀ (s2 : VideoPresenterVulkan) (post : List Event),
              s2.m_bResizeSwapChain = r.st.m_bResizeSwapChain →
              clearedOnlyByResize env s s2 (r.trace ++ post) := by
            intro s2 post h2
            simpa using clearedOnlyByResize_mono env s r.st s2 [] r.trace post hr h2
          dsimp only at h
          split at h
          · cases h; exact hr
          · split at h
            · cases h; exact hmono _ _ rfl
            · split at h
              · cases h
              · cases h
                simpa [List.append_assoc] using hmono
                  { r.st with m_TrackSurfaces := r.st.m_TrackSurfaces ++ [_] } _ rfl

theorem OnSurfaceDataRelease_flag {W : Type} (env : Env W) (s : VideoPresenterVulkan) (w : W)
    (pSurface : Option Nat) :
    (s.OnSurfaceDataRelease env w pSurface).1.m_bResizeSwapChain = s.m_bResizeSwapChain := by
  unfold VideoPresenterVulkan.OnSurfaceDataRelease
  split
  · rfl
  · split <;> rfl

/-- `CheckForResize(false)` changes nothing when the fullscreen states agree and
the client area has the swapchain's size. -/
theorem CheckForResize_same_geometry {W : Type} (env : Env W) (s : VideoPresenterVulkan)
    (w : W) (hfs : s.m_bFullScreen = env.swapFullscreenEnabled w)
    (hwidth : (env.getClientRect w).Width = (env.swapGetSize w).width)
    (hheight : (env.getClientRect w).Height = (env.swapGetSize w).height) :
    (s.CheckForResize env w false).2 = s := by
  unfold VideoPresenterVulkan.CheckForResize
  dsimp only
  rw [if_neg (by simp [hfs]), if_pos (Or.inl ⟨hwidth, hheight⟩)]

/-- C12. The resize flag goes from set to clear only through a swapchain
`Resize` that succeeded: `ResizeSwapChain` clears it only then and a failed
resize leaves it as it was; `CheckForResize` never clears it;
`ResizeIfNeeded`, `AllocSurface` and `Present` (on every build) end with the
flag clear after starting with it set only if among their calls is a successful
swapchain `Resize`; `OnSurfaceDataRelease` does not change it.  After a
successful resize, a `CheckForResize(false)` made while the client area is the
one resized to, the swapchain reports that size and the swapchain's fullscreen
state is the presenter's, leaves the flag clear. -/
theorem resize_flag_cleared_only_by_successful_resize {W : Type} (env : Env W)
    (platform : Platform) (fuel : Nat) (s : VideoPresenterVulkan) (w : W)
    (pSurface ppSurface : Option Nat) (type : AMF_MEMORY_TYPE) (format : AMF_SURFACE_FORMAT)
    (force : Bool) :
    clearedOnlyByResize env s (s.ResizeSwapChain env w).st (s.ResizeSwapChain env w).trace ∧
    (env.AMFSucceeded (env.swapResize w (env.getClientRect w).Width (env.getClientRect w).Height
        s.m_bFullScreen).1 = false →
      (s.ResizeSwapChain env w).st.m_bResizeSwapChain = s.m_bResizeSwapChain) ∧
    (s.m_bResizeSwapChain = true → (s.CheckForResize env w force).2.m_bResizeSwapChain = true) ∧
    clearedOnlyByResize env s (s.ResizeIfNeeded env w).1 (s.ResizeIfNeeded env w).2.2 ∧
    (∀ out, s.AllocSurface env fuel w type format ppSurface = some out →
      clearedOnlyByResize env s out.st out.trace) ∧
    (∀ out, s.Present env platform w pSurface = some out →
      clearedOnlyByResize env s out.st out.trace) ∧
    (s.OnSurfaceDataRelease env w pSurface).1.m_bResizeSwapChain = s.m_bResizeSwapChain ∧
    (env.AMFSucceeded (env.swapResize w (env.getClientRect w).Width (env.getClientRect w).Height
        s.m_bFullScreen).1 = true →
      (s.ResizeSwapChain env w).st.m_bResizeSwapChain = false ∧
      ∀ w2, env.getClientRect w2 = env.getClientRect w →
        env.swapGetSize w2 =
          { width := (env.getClientRect w).Width, height := (env.getClientRect w).Height } →
        env.swapFullscreenEnabled w2 = s.m_bFullScreen →
        ((s.ResizeSwapChain env w).st.CheckForResize env w2 false).2.m_bResizeSwapChain
          = false) := by
  refine ⟨(ResizeSwapChain_flag env s w).1, fun h => ((ResizeSwapChain_flag env s w).2.1 h).1,
    CheckForResize_keeps_flag env s w force, ResizeIfNeeded_flag env s w,
    fun out h => AllocSurface_flag env fuel s w type format ppSurface out h,
    fun out h => Present_flag env platform s w pSurface out h,
    OnSurfaceDataRelease_flag env s w pSurface, fun hs => ?_⟩
  have hclear := ((ResizeSwapChain_flag env s w).2.2 hs).1
  refine ⟨hclear, fun w2 hrect hsize hfs => ?_⟩
  have hfull : (s.ResizeSwapChain env w).st.m_bFullScreen = s.m_bFullScreen := by
    unfold VideoPresenterVulkan.ResizeSwapChain
    dsimp only
    split <;> rfl
  rw [CheckForResize_same_geometry env _ w2 (by rw [hfull, hfs]) (by rw [hrect, hsize])
    (by rw [hrect, hsize])]
  exact hclear

/-! ### Registry: what a registration records -/

theorem checkDescriptorPointers_true (ds : List (Option DescriptorVulkan)) :
    ∀ (count : Nat), checkDescriptorPointers ds count = some true →
      ∀ i, i < count → ∃ d, ds[i]? = some (some d) := by
  induction ds with
  | nil =>
    intro count h i hi
    cases count with
    | zero => omega
    | succ n => simp [checkDescriptorPointers] at h
  | cons x xs ih =>
    intro count h i hi
    cases count with
    | zero => omega
    | succ n =>
      cases x with
      | none => simp [checkDescriptorPointers] at h
      | some d =>
        simp only [checkDescriptorPointers] at h
        cases i with
        | zero => exact ⟨d, by simp⟩
        | succ j =>
          obtain ⟨d', hd'⟩ := ih n h j (by omega)
          exact ⟨d', by simpa using hd'⟩

theorem collectBindings_get (ds : List (Option DescriptorVulkan)) :
    ∀ (count : Nat), checkDescriptorPointers ds count = some true →
      (collectBindings ds count).length = count ∧
      ∀ i d, ds[i]? = some (some d) → i < count →
        (collectBindings ds count)[i]? = some d.layoutBinding := by
  induction ds with
  | nil =>
    intro count h
    cases count with
    | zero => exact ⟨rfl, fun i d _ hi => by omega⟩
    | succ n => simp [checkDescriptorPointers] at h
  | cons x xs ih =>
    intro count h
    cases count with
    | zero => exact ⟨by simp [collectBindings], fun i d _ hi => by omega⟩
    | succ n =>
      cases x with
      | none => simp [checkDescriptorPointers] at h
      | some d0 =>
        simp only [checkDescriptorPointers] at h
        obtain ⟨hl, hg⟩ := ih n h
        refine ⟨by simp [collectBindings, hl], fun i d hd hi => ?_⟩
        cases i with
        | zero =>
          simp only [List.getElem?_cons_zero, Option.some.injEq] at hd
          subst hd
          simp [collectBindings]
        | succ j =>
          simp only [List.getElem?_cons_succ] at hd
          simpa [collectBindings] using hg j d hd (by omega)

theorem assignSetIndex_get (setIndex : Nat) (ds : List (Option DescriptorVulkan)) :
    ∀ (count : Nat),
      (assignSetIndex setIndex ds count).length = min ds.length (max count ds.length) ∧
      (∀ i d, ds[i]? = some (some d) → i < count →
        (assignSetIndex setIndex ds count)[i]? = some (some { d with setIndex := setIndex })) ∧
      (∀ i, count ≤ i → (assignSetIndex setIndex ds count)[i]? = ds[i]?) := by
  induction ds with
  | nil =>
    intro count
    cases count with
    | zero => simp [assignSetIndex]
    | succ n => simp [assignSetIndex]
  | cons x xs ih =>
    intro count
    cases count with
    | zero => simp [assignSetIndex]
    | succ n =>
      obtain ⟨hl, hg, hk⟩ := ih n
      refine ⟨by simp [assignSetIndex, hl], fun i d hd hi => ?_, fun i hi => ?_⟩
      · cases i with
        | zero =>
          simp only [List.getElem?_cons_zero, Option.some.injEq] at hd
          subst hd
          simp [assignSetIndex]
        | succ j =>
          simp only [List.getElem?_cons_succ] at hd
          simpa [assignSetIndex] using hg j d hd (by omega)
      · cases i with
        | zero => omega
        | succ j => simpa [assignSetIndex] using hk j (by omega)

/-- What a successful `RegisterDescriptorSet` call has checked and done. -/
theorem RegisterDescriptorSet_ok (h : DescriptorHeapVulkan)
    (pp : Option (List (Option DescriptorVulkan))) (count : Nat) (resp : VkResult × Handle)
    (r : RegisterOut) (hr : h.RegisterDescriptorSet pp count resp = some r)
    (hok : r.res = AMF_OK) :
    ∃ ds dev, pp = some ds ∧ 0 < count ∧ checkDescriptorPointers ds count = some true ∧
      h.m_hDescriptorPool = NULL ∧ h.m_pVulkanDevice = some dev ∧
      r.heap = { h with
        m_descriptorPoolSizes := h.m_descriptorPoolSizes ++
          (collectBindings ds count).map (fun b =>
            { type := b.descriptorType, descriptorCount := b.descriptorCount })
        m_hDescriptorSetLayouts := h.m_hDescriptorSetLayouts ++ [resp.2] } ∧
      r.descriptors = assignSetIndex (h.m_hDescriptorSetLayouts.length % 2 ^ 32) ds count ∧
      r.calls = [VkCall.vkCreateDescriptorSetLayout dev.hDevice (collectBindings ds count)] := by
  unfold DescriptorHeapVulkan.RegisterDescriptorSet at hr
  split at hr
  · cases hr; cases hok
  · rename_i hpool
    split at hr
    · cases hr; cases hok
    · rename_i ds
      split at hr
      · cases hr; cases hok
      · rename_i hcount
        split at hr
        · cases hr
        · cases hr; cases hok
        · rename_i hchk
          split at hr
          · cases hr
          · rename_i dev hdev
            split at hr
            · cases hr; cases hok
            · cases hr
              exact ⟨ds, dev, rfl, by omega, hchk, by simpa using hpool, hdev, rfl, rfl, rfl⟩

/-- The postcondition of a successful `RegisterDescriptorSet` on a registry
holding fewer than `2 ^ 32` layouts. -/
theorem RegisterDescriptorSet_ok_spec (h : DescriptorHeapVulkan)
    (pp : Option (List (Option DescriptorVulkan))) (count : Nat) (resp : VkResult × Handle)
    (r : RegisterOut) (hr : h.RegisterDescriptorSet pp count resp = some r)
    (hok : r.res = AMF_OK) (hn : h.m_hDescriptorSetLayouts.length < 2 ^ 32) :
    ∃ ds, pp = some ds ∧ 0 < count ∧
      r.heap.m_hDescriptorSetLayouts = h.m_hDescriptorSetLayouts ++ [resp.2] ∧
      r.heap.m_descriptorPoolSizes.length = h.m_descriptorPoolSizes.length + count ∧
      r.heap.m_descriptorPoolSizes.take h.m_descriptorPoolSizes.length =
        h.m_descriptorPoolSizes ∧
      ∀ i, i < count → ∃ d, ds[i]? = some (some d) ∧
        r.descriptors[i]? =
          some (some { d with setIndex := h.m_hDescriptorSetLayouts.length }) ∧
        r.heap.m_descriptorPoolSizes[h.m_descriptorPoolSizes.length + i]? =
          some { type := d.layoutBinding.descriptorType,
                 descriptorCount := d.layoutBinding.descriptorCount } := by
  obtain ⟨ds, dev, hpp, hcount, hchk, _, _, hheap, hdesc, _⟩ :=
    RegisterDescriptorSet_ok h pp count resp r hr hok
  obtain ⟨hbl, hbg⟩ := collectBindings_get ds count hchk
  refine ⟨ds, hpp, hcount, by rw [hheap], by rw [hheap]; simp [hbl], by rw [hheap]; simp, ?_⟩
  intro i hi
  obtain ⟨d, hd⟩ := checkDescriptorPointers_true ds count hchk i hi
  refine ⟨d, hd, ?_, ?_⟩
  · rw [hdesc, Nat.mod_eq_of_lt hn]
    exact (assignSetIndex_get _ ds count).2.1 i d hd hi
  · rw [hheap]
    simp only
    rw [List.getElem?_append_right (le_add_right (le_refl _))]
    simp [hbg i d hd hi]

/-- In a run of successful registrations on a registry holding `n` layouts, the
`j`-th registration (counted from 0) assigns set index `n + j`. -/
theorem registerRun_set_index (calls : List RegisterCall) :
    ∀ (h : DescriptorHeapVulkan) (outs : List RegisterOut),
      h.registerRun calls = some outs → (∀ o ∈ outs, o.res = AMF_OK) →
      h.m_hDescriptorSetLayouts.length + calls.length ≤ 2 ^ 32 →
      ∀ j c o, calls[j]? = some c → outs[j]? = some o →
        o.heap.m_hDescriptorSetLayouts.length = h.m_hDescriptorSetLayouts.length + j + 1 ∧
        ∀ i, i < c.count → ∃ d, o.descriptors[i]? = some (some d) ∧
          d.setIndex = h.m_hDescriptorSetLayouts.length + j := by
  induction calls with
  | nil => intro h outs _ _ _ j c o hc; simp at hc
  | cons c0 cs ih =>
    intro h outs hrun hall hlen j c o hc ho
    simp only [DescriptorHeapVulkan.registerRun] at hrun
    cases hr0 : h.RegisterDescriptorSet c0.ppDescriptors c0.count c0.layoutResp with
    | none => simp [hr0] at hrun
    | some r0 =>
      simp only [hr0] at hrun
      cases hrs : r0.heap.registerRun cs with
      | none => simp [hrs] at hrun
      | some rs =>
        simp only [hrs, Option.some.injEq] at hrun
        subst hrun
        simp only [List.length_cons] at hlen
        have hok0 : r0.res = AMF_OK := hall r0 (List.mem_cons_self _ _)
        obtain ⟨ds, _, _, hlay, _, _, hdesc⟩ :=
          RegisterDescriptorSet_ok_spec h _ _ _ r0 hr0 hok0 (by omega)
        cases j with
        | zero =>
          simp only [List.getElem?_cons_zero, Option.some.injEq] at hc ho
          subst hc ho
          refine ⟨by rw [hlay]; simp, fun i hi => ?_⟩
          obtain ⟨d, _, hd, _⟩ := hdesc i hi
          exact ⟨_, hd, rfl⟩
        | succ k =>
          simp only [List.getElem?_cons_succ] at hc ho
          have hl1 : r0.heap.m_hDescriptorSetLayouts.length =
              h.m_hDescriptorSetLayouts.length + 1 := by rw [hlay]; simp
          have := ih r0.heap rs hrs (fun o ho => hall o (List.mem_cons_of_mem _ ho))
            (by omega) k c o hc ho
          rw [hl1] at this
          refine ⟨by omega, fun i hi => ?_⟩
          obtain ⟨d, hd, hidx⟩ := this.2 i hi
          exact ⟨d, hd, by omega⟩

/-- C13 as amended. A successful `RegisterDescriptorSet` of `count >= 1`
descriptors on a registry holding `n < 2 ^ 32` layouts appends one layout,
gives each of the `count` descriptors set index `n` and appends exactly `count`
pool-size entries, the `i`-th with the descriptor type and descriptor count of
the `i`-th binding.  So in a run of registrations on a fresh registry that all
succeed, the `m`-th registration assigns set index `m - 1`. -/
theorem Register_assigns_next_set_index (h : DescriptorHeapVulkan)
    (pp : Option (List (Option DescriptorVulkan))) (count : Nat) (resp : VkResult × Handle)
    (r : RegisterOut) (dev : AMFVulkanDevice) (calls : List RegisterCall)
    (outs : List RegisterOut)
    (hr : h.RegisterDescriptorSet pp count resp = some r) (hok : r.res = AMF_OK)
    (hn : h.m_hDescriptorSetLayouts.length < 2 ^ 32)
    (hrun : (DescriptorHeapVulkan.init (some dev)).registerRun calls = some outs)
    (hall : ∀ o ∈ outs, o.res = AMF_OK) (hlen : calls.length ≤ 2 ^ 32) :
    (∃ ds, pp = some ds ∧ 0 < count ∧
      r.heap.m_hDescriptorSetLayouts = h.m_hDescriptorSetLayouts ++ [resp.2] ∧
      r.heap.m_descriptorPoolSizes.length = h.m_descriptorPoolSizes.length + count ∧
      r.heap.m_descriptorPoolSizes.take h.m_descriptorPoolSizes.length =
        h.m_descriptorPoolSizes ∧
      ∀ i, i < count → ∃ d, ds[i]? = some (some d) ∧
        r.descriptors[i]? =
          some (some { d with setIndex := h.m_hDescriptorSetLayouts.length }) ∧
        r.heap.m_descriptorPoolSizes[h.m_descriptorPoolSizes.length + i]? =
          some { type := d.layoutBinding.descriptorType,
                 descriptorCount := d.layoutBinding.descriptorCount }) ∧
    (∀ (j : Nat) (c : RegisterCall) (o : RegisterOut), calls[j]? = some c → outs[j]? = some o →
      ∀ i, i < c.count → ∃ d : DescriptorVulkan, o.descriptors[i]? = some (some d) ∧ d.setIndex = j) := by
  refine ⟨RegisterDescriptorSet_ok_spec h pp count resp r hr hok hn, ?_⟩
  intro j c o hc ho i hi
  have := (registerRun_set_index calls _ outs hrun hall
    (by simpa [DescriptorHeapVulkan.init] using hlen) j c o hc ho).2 i hi
  simpa [DescriptorHeapVulkan.init] using this

/-- The pool sizes after any defined `RegisterDescriptorSet` call on a registry
without a pool: those before, followed by one entry per binding of the call. -/
theorem RegisterDescriptorSet_poolSizes (h : DescriptorHeapVulkan) (c : RegisterCall)
    (r : RegisterOut) (hpool : h.m_hDescriptorPool = NULL)
    (hr : h.RegisterDescriptorSet c.ppDescriptors c.count c.layoutResp = some r) :
    r.heap.m_descriptorPoolSizes = h.m_descriptorPoolSizes ++ c.bindings.map poolSizeOf := by
  unfold DescriptorHeapVulkan.RegisterDescriptorSet at hr
  unfold RegisterCall.bindings
  rw [if_neg (by simp [hpool])] at hr
  cases hpp : c.ppDescriptors with
  | none =>
    simp only [hpp] at hr ⊢
    cases hr
    simp
  | some ds =>
    simp only [hpp] at hr ⊢
    by_cases hcount : c.count > 0
    · rw [if_neg (not_not.mpr hcount)] at hr
      cases hchk : checkDescriptorPointers ds c.count with
      | none => simp [hchk] at hr
      | some b =>
        cases b with
        | false =>
          simp only [hchk] at hr
          cases hr
          simp
        | true =>
          simp only [hchk] at hr
          rw [if_pos ⟨hcount, rfl⟩]
          cases hdev : h.m_pVulkanDevice with
          | none => simp [hdev] at hr
          | some dev =>
            simp only [hdev] at hr
            split at hr <;> cases hr <;> rfl
    · rw [if_pos hcount] at hr
      cases hr
      rw [if_neg (fun hc => hcount hc.1)]
      simp

theorem registerAll_poolSizes (regs : List RegisterCall) :
    ∀ (h h' : DescriptorHeapVulkan), h.m_hDescriptorPool = NULL →
      h.registerAll regs = some h' →
      h'.m_descriptorPoolSizes =
        h.m_descriptorPoolSizes ++ (registeredBindings regs).map poolSizeOf := by
  induction regs with
  | nil =>
    intro h h' _ hr
    simp only [DescriptorHeapVulkan.registerAll, Option.some.injEq] at hr
    subst hr
    simp [registeredBindings]
  | cons c cs ih =>
    intro h h' hpool hr
    simp only [DescriptorHeapVulkan.registerAll] at hr
    cases hc : h.RegisterDescriptorSet c.ppDescriptors c.count c.layoutResp with
    | none => simp [hc] at hr
    | some r =>
      simp only [hc] at hr
      have h1 := RegisterDescriptorSet_poolSizes h c r hpool hc
      have hp1 : r.heap.m_hDescriptorPool = NULL :=
        (RegisterDescriptorSet_frame h _ _ _ r hc).2.1.trans hpool
      rw [ih r.heap h' hp1 hr, h1]
      simp [registeredBindings]

/-- What a successful `CreateDescriptors` on a registry with at least one layout
has checked and done. -/
theorem CreateDescriptors_ok (h : DescriptorHeapVulkan) (poolResp : VkResult × Handle)
    (allocResp : VkResult × List Handle)
    (hok : (h.CreateDescriptors poolResp allocResp).res = AMF_OK)
    (hl : 0 < h.m_hDescriptorSetLayouts.length) :
    ∃ dev, h.m_pVulkanDevice = some dev ∧ dev.hDevice ≠ NULL ∧ h.m_hDescriptorPool = NULL ∧
      h.m_hDescriptorSets = [] ∧
      h.CreateDescriptors poolResp allocResp =
        { res := AMF_OK,
          heap := { h with
            m_hDescriptorPool := poolResp.2
            m_hDescriptorSets := (List.range h.m_hDescriptorSetLayouts.length).map
              (fun i => if i < h.m_hDescriptorSetLayouts.length % 2 ^ 32 then
                allocResp.2.getD i NULL else NULL) },
          calls := [VkCall.vkCreateDescriptorPool dev.hDevice h.m_descriptorPoolSizes
              (h.m_hDescriptorSetLayouts.length % 2 ^ 32)
              VK_DESCRIPTOR_POOL_CREATE_FREE_DESCRIPTOR_SET_BIT,
            VkCall.vkAllocateDescriptorSets dev.hDevice poolResp.2
              (h.m_hDescriptorSetLayouts.take (h.m_hDescriptorSetLayouts.length % 2 ^ 32))] } := by
  have hl' : h.m_hDescriptorSetLayouts ≠ [] := by
    intro hnil; simp [hnil] at hl
  unfold DescriptorHeapVulkan.CreateDescriptors at hok ⊢
  cases hdev : h.m_pVulkanDevice with
  | none => simp [hdev] at hok
  | some dev =>
    simp only [hdev] at hok ⊢
    by_cases hnull : dev.hDevice = NULL
    · simp [hnull] at hok
    · by_cases hpool : h.m_hDescriptorPool = NULL
      · by_cases hsets : h.m_hDescriptorSets = []
        · by_cases hp : poolResp.1 = VK_SUCCESS
          · by_cases ha : allocResp.1 = VK_SUCCESS
            · exact ⟨dev, rfl, hnull, hpool, hsets, by simp [hnull, hpool, hsets, hl', hp, ha]⟩
            · simp [hnull, hpool, hsets, hl', hp, ha] at hok
          · simp [hnull, hpool, hsets, hl', hp] at hok
        · simp [hnull, hpool, hsets] at hok
      · simp [hnull, hpool] at hok

/-- C14. On a registry reached from a fresh one by registration calls and
holding `n` layouts, `1 <= n < 2 ^ 32`, a successful `CreateDescriptors` issues
exactly two Vulkan calls: the creation of one pool with `maxSets = n` and the
pool sizes accumulated by the registrations (one per binding of every
registration call that got past argument validation, with the binding's
descriptor count), and the allocation of `n` descriptor sets from the `n`
layouts in order.  Afterwards `GetDescriptorCount() = n` and `GetDescriptorSet(i)`
is the `i`-th handle the driver stored, for every `i < n`; it is non-null, the
driver having stored `n` valid handles. -/
theorem CreateDescriptors_pool_and_sets (dev : AMFVulkanDevice) (regs : List RegisterCall)
    (h : DescriptorHeapVulkan) (poolResp : VkResult × Handle)
    (allocResp : VkResult × List Handle)
    (hreach : (DescriptorHeapVulkan.init (some dev)).registerAll regs = some h)
    (hl : 0 < h.m_hDescriptorSetLayouts.length)
    (hn : h.m_hDescriptorSetLayouts.length < 2 ^ 32)
    (hok : (h.CreateDescriptors poolResp allocResp).res = AMF_OK)
    (hdriver : ∀ i, i < h.m_hDescriptorSetLayouts.length →
      ∃ x, allocResp.2[i]? = some x ∧ x ≠ NULL) :
    (h.CreateDescriptors poolResp allocResp).calls =
      [VkCall.vkCreateDescriptorPool dev.hDevice ((registeredBindings regs).map poolSizeOf)
          h.m_hDescriptorSetLayouts.length VK_DESCRIPTOR_POOL_CREATE_FREE_DESCRIPTOR_SET_BIT,
        VkCall.vkAllocateDescriptorSets dev.hDevice poolResp.2 h.m_hDescriptorSetLayouts] ∧
    (((registeredBindings regs).map poolSizeOf).map (fun p => p.descriptorCount)).sum =
      ((registeredBindings regs).map (fun b => b.descriptorCount)).sum ∧
    (h.CreateDescriptors poolResp allocResp).heap.m_hDescriptorPool = poolResp.2 ∧
    (h.CreateDescriptors poolResp allocResp).heap.GetDescriptorCount =
      h.m_hDescriptorSetLayouts.length ∧
    ∀ i, i < h.m_hDescriptorSetLayouts.length →
      (h.CreateDescriptors poolResp allocResp).heap.GetDescriptorSet i =
        allocResp.2.getD i NULL ∧
      (h.CreateDescriptors poolResp allocResp).heap.GetDescriptorSet i ≠ NULL := by
  obtain ⟨dev', hdev, _, _, _, heq⟩ := CreateDescriptors_ok h poolResp allocResp hok hl
  have hf := registerAll_frame regs _ h hreach
  have hdev0 : h.m_pVulkanDevice = some dev := congrArg VulkanContext.m_pVulkanDevice hf.2.2.1
  rw [hdev0] at hdev
  cases hdev
  have hps : h.m_descriptorPoolSizes = (registeredBindings regs).map poolSizeOf := by
    rw [registerAll_poolSizes regs _ h rfl hreach]
    rfl
  rw [Nat.mod_eq_of_lt hn, List.take_length, hps] at heq
  rw [heq]
  refine ⟨rfl, ?_, rfl, ?_, ?_⟩
  · simp [poolSizeOf, Function.comp_def]
  · unfold DescriptorHeapVulkan.GetDescriptorCount
    simp only [List.length_map, List.length_range]
    exact Nat.mod_eq_of_lt hn
  · intro i hi
    obtain ⟨x, hx, hxn⟩ := hdriver i hi
    have hget : ∀ hp : DescriptorHeapVulkan,
        hp.m_hDescriptorSets = (List.range h.m_hDescriptorSetLayouts.length).map
          (fun i => if i < h.m_hDescriptorSetLayouts.length then
            allocResp.2.getD i NULL else NULL) →
        hp.GetDescriptorSet i = allocResp.2.getD i NULL := by
      intro hp hs
      simp [DescriptorHeapVulkan.GetDescriptorSet, handleAt, hs, hi, List.getD_eq_getElem?_getD]
    refine ⟨hget _ rfl, ?_⟩
    rw [hget _ rfl]
    simpa [List.getD_eq_getElem?_getD, hx] using hxn

/-- `RegisterDescriptorSet` on a registry that has a pool. -/
theorem RegisterDescriptorSet_with_pool (h : DescriptorHeapVulkan)
    (pp : Option (List (Option DescriptorVulkan))) (count : Nat) (resp : VkResult × Handle)
    (hpool : h.m_hDescriptorPool ≠ NULL) :
    h.RegisterDescriptorSet pp count resp =
      some { res := AMF_FAIL, heap := h, descriptors := pp.getD [], calls := [] } := by
  unfold DescriptorHeapVulkan.RegisterDescriptorSet
  rw [if_pos hpool]

theorem registerAll_with_pool (regs : List RegisterCall) (h : DescriptorHeapVulkan)
    (hpool : h.m_hDescriptorPool ≠ NULL) : h.registerAll regs = some h := by
  induction regs with
  | nil => rfl
  | cons c cs ih =>
    simp only [DescriptorHeapVulkan.registerAll,
      RegisterDescriptorSet_with_pool h _ _ _ hpool]
    exact ih

/-- C15 as amended. On a registry with at least one registered layout on which
`CreateDescriptors` has returned `AMF_OK`, the driver having stored a non-null
pool handle, every `RegisterDescriptorSet` call returns `AMF_FAIL`, issues no
Vulkan call and leaves the registry (layout list, pool sizes) and the
descriptors as they were, however many such calls are made. -/
theorem Register_after_CreateDescriptors_fails (h : DescriptorHeapVulkan)
    (poolResp : VkResult × Handle) (allocResp : VkResult × List Handle)
    (pp : Option (List (Option DescriptorVulkan))) (count : Nat) (resp : VkResult × Handle)
    (regs : List RegisterCall)
    (hl : 0 < h.m_hDescriptorSetLayouts.length)
    (hok : (h.CreateDescriptors poolResp allocResp).res = AMF_OK)
    (hdriver : poolResp.2 ≠ NULL) :
    (h.CreateDescriptors poolResp allocResp).heap.RegisterDescriptorSet pp count resp =
      some { res := AMF_FAIL, heap := (h.CreateDescriptors poolResp allocResp).heap,
             descriptors := pp.getD [], calls := [] } ∧
    (h.CreateDescriptors poolResp allocResp).heap.registerAll regs =
      some (h.CreateDescriptors poolResp allocResp).heap := by
  obtain ⟨dev, _, _, _, _, heq⟩ := CreateDescriptors_ok h poolResp allocResp hok hl
  have hpool : (h.CreateDescriptors poolResp allocResp).heap.m_hDescriptorPool ≠ NULL := by
    rw [heq]; exact hdriver
  exact ⟨RegisterDescriptorSet_with_pool _ pp count resp hpool,
    registerAll_with_pool regs _ hpool⟩

/-! ### Registry and presenter: rejected registrations -/

theorem checkDescriptorPointers_false (ds : List (Option DescriptorVulkan)) :
    ∀ (count i : Nat), i < count → ds[i]? = some none →
      checkDescriptorPointers ds count = some false := by
  induction ds with
  | nil => intro count i _ h; simp at h
  | cons x xs ih =>
    intro count i hi h
    cases count with
    | zero => omega
    | succ n =>
      cases x with
      | none => rfl
      | some d =>
        cases i with
        | zero => simp at h
        | succ j =>
          simp only [List.getElem?_cons_succ] at h
          simpa [checkDescriptorPointers] using ih n j (by omega) h

/-- `RegisterDescriptorSet` on a registry without a pool, given a null array, a
count of 0 or a null descriptor among the first `count`. -/
theorem RegisterDescriptorSet_invalid (h : DescriptorHeapVulkan)
    (ds : List (Option DescriptorVulkan)) (count i : Nat) (resp : VkResult × Handle)
    (hpool : h.m_hDescriptorPool = NULL) :
    h.RegisterDescriptorSet none count resp =
      some { res := AMF_INVALID_ARG, heap := h, descriptors := [], calls := [] } ∧
    h.RegisterDescriptorSet (some ds) 0 resp =
      some { res := AMF_INVALID_ARG, heap := h, descriptors := ds, calls := [] } ∧
    (i < count → ds[i]? = some none →
      h.RegisterDescriptorSet (some ds) count resp =
        some { res := AMF_INVALID_POINTER, heap := h, descriptors := ds, calls := [] }) := by
  unfold DescriptorHeapVulkan.RegisterDescriptorSet
  rw [if_neg (by simp [hpool]), if_neg (by simp [hpool]), if_neg (by simp [hpool])]
  refine ⟨rfl, by simp, fun hi hnull => ?_⟩
  have hc : ¬ ¬ (count > 0) := by omega
  simp only [if_neg hc, checkDescriptorPointers_false ds count i hi hnull]

/-- `RegisterDescriptorSet` in every state of the registry, given a null
array, a count of 0 or a null descriptor among the first `count`: the call
returns, the result is `AMF_FAIL` with a pool and the invalid-argument code
without one, and the registry and the descriptors are as they were. -/
theorem RegisterDescriptorSet_rejected (h : DescriptorHeapVulkan)
    (ds : List (Option DescriptorVulkan)) (count i : Nat) (resp : VkResult × Handle) :
    h.RegisterDescriptorSet none count resp =
      some { res := if h.m_hDescriptorPool = NULL then AMF_INVALID_ARG else AMF_FAIL,
             heap := h, descriptors := [], calls := [] } ∧
    h.RegisterDescriptorSet (some ds) 0 resp =
      some { res := if h.m_hDescriptorPool = NULL then AMF_INVALID_ARG else AMF_FAIL,
             heap := h, descriptors := ds, calls := [] } ∧
    (i < count → ds[i]? = some none →
      h.RegisterDescriptorSet (some ds) count resp =
        some { res := if h.m_hDescriptorPool = NULL then AMF_INVALID_POINTER else AMF_FAIL,
               heap := h, descriptors := ds, calls := [] }) := by
  by_cases hpool : h.m_hDescriptorPool = NULL
  · obtain ⟨h1, h2, h3⟩ := RegisterDescriptorSet_invalid h ds count i resp hpool
    rw [if_pos hpool, if_pos hpool]
    exact ⟨h1, h2, h3⟩
  · rw [if_neg hpool, if_neg hpool]
    exact ⟨RegisterDescriptorSet_with_pool h none count resp hpool,
      RegisterDescriptorSet_with_pool h (some ds) 0 resp hpool,
      fun _ _ => RegisterDescriptorSet_with_pool h (some ds) count resp hpool⟩

/-- C16 as amended. In every state of the registry and of the presenter, a
registration with a null descriptor array, with `count = 0` or with a null
descriptor among the first `count` returns a result other than `AMF_OK`, issues
no Vulkan call and leaves the registry (layout list, pool sizes), the
presenter, the pipelines and every descriptor as they were.  The registry's
`RegisterDescriptorSet` returns `AMF_INVALID_ARG` for the first two and
`AMF_INVALID_POINTER` for the third when it has no pool, and `AMF_FAIL` for all
three when it has one.  The presenter's `RegisterDescriptorSet` returns
`AMF_INVALID_ARG` for the first two in every state; for the third it passes on
the registry's result, `AMF_INVALID_POINTER` without a pool and `AMF_FAIL` with
one, `AMF_RETURN_IF_FAILED` being taken to reject these two codes. -/
theorem Register_rejects_invalid_arguments {W : Type} (env : Env W) (h : DescriptorHeapVulkan)
    (s : VideoPresenterVulkan) (pipes : List RenderingPipelineVulkan)
    (ds : List (Option DescriptorVulkan)) (count i : Nat) (resp : VkResult × Handle)
    (pPipelineBindings : Option (List PipelineGroupBindingInfo)) (piplineBindingCount : Nat) :
    (∃ res, h.RegisterDescriptorSet none count resp =
        some { res := res, heap := h, descriptors := [], calls := [] } ∧
      res ≠ AMF_OK ∧ (h.m_hDescriptorPool = NULL → res = AMF_INVALID_ARG) ∧
      (h.m_hDescriptorPool ≠ NULL → res = AMF_FAIL)) ∧
    (∃ res, h.RegisterDescriptorSet (some ds) 0 resp =
        some { res := res, heap := h, descriptors := ds, calls := [] } ∧
      res ≠ AMF_OK ∧ (h.m_hDescriptorPool = NULL → res = AMF_INVALID_ARG) ∧
      (h.m_hDescriptorPool ≠ NULL → res = AMF_FAIL)) ∧
    (i < count → ds[i]? = some none →
      ∃ res, h.RegisterDescriptorSet (some ds) count resp =
        some { res := res, heap := h, descriptors := ds, calls := [] } ∧
      res ≠ AMF_OK ∧ (h.m_hDescriptorPool = NULL → res = AMF_INVALID_POINTER) ∧
      (h.m_hDescriptorPool ≠ NULL → res = AMF_FAIL)) ∧
    s.RegisterDescriptorSet env pipes none count pPipelineBindings piplineBindingCount resp =
      some { res := AMF_INVALID_ARG, st := s, pipelines := pipes, descriptors := [],
             calls := [] } ∧
    s.RegisterDescriptorSet env pipes (some ds) 0 pPipelineBindings piplineBindingCount resp =
      some { res := AMF_INVALID_ARG, st := s, pipelines := pipes, descriptors := ds,
             calls := [] } ∧
    (env.AMFSucceeded AMF_INVALID_POINTER = false → env.AMFSucceeded AMF_FAIL = false →
      i < count → ds[i]? = some none →
      ∃ res, s.RegisterDescriptorSet env pipes (some ds) count pPipelineBindings
          piplineBindingCount resp =
        some { res := res, st := s, pipelines := pipes, descriptors := ds, calls := [] } ∧
      res ≠ AMF_OK ∧ (s.m_descriptorHeap.m_hDescriptorPool = NULL → res = AMF_INVALID_POINTER) ∧
      (s.m_descriptorHeap.m_hDescriptorPool ≠ NULL → res = AMF_FAIL)) := by
  obtain ⟨h1, h2, h3⟩ := RegisterDescriptorSet_rejected h ds count i resp
  refine ⟨⟨_, h1, ?_, fun hp => if_pos hp, fun hp => if_neg hp⟩,
    ⟨_, h2, ?_, fun hp => if_pos hp, fun hp => if_neg hp⟩,
    fun hi hnull => ⟨_, h3 hi hnull, ?_, fun hp => if_pos hp, fun hp => if_neg hp⟩,
    rfl, ?_, ?_⟩
  · split <;> decide
  · split <;> decide
  · split <;> decide
  · unfold VideoPresenterVulkan.RegisterDescriptorSet
    simp
  · intro hfailed1 hfailed2 hi hnull
    have hc : ¬ ¬ (count > 0) := by omega
    have hreg := (RegisterDescriptorSet_rejected s.m_descriptorHeap ds count i resp).2.2 hi hnull
    have hrejected : env.AMFSucceeded
        (if s.m_descriptorHeap.m_hDescriptorPool = NULL then AMF_INVALID_POINTER
          else AMF_FAIL) = false := by
      split
      · exact hfailed1
      · exact hfailed2
    refine ⟨if s.m_descriptorHeap.m_hDescriptorPool = NULL then AMF_INVALID_POINTER
      else AMF_FAIL, ?_, ?_, fun hp => if_pos hp, fun hp => if_neg hp⟩
    · unfold VideoPresenterVulkan.RegisterDescriptorSet
      simp only [if_neg hc, hreg, hrejected, if_true]
    · split <;> decide

/-! ### Registry: immediate updates, flush and teardown -/

/-- C17, the code at the failing input. An immediate update of the
view-projection descriptor on the finalised example registry issues its one
descriptor write and queues nothing, and it also appends a copy of the caller's
buffer info to `m_descriptorBufferInfoHeap`; the write the driver gets reads
that copy. -/
theorem immediate_update_copies_infos :
    exFinalizedHeap.m_descriptorBufferInfoHeap = [] ∧
    exFinalizedHeap.UpdateDescriptorSetBuffer exMemQueued (some exViewProjectionDescriptor)
        0 1 40 true =
      { res := AMF_OK,
        heap := { exFinalizedHeap with
          m_descriptorBufferInfoHeap := [[{ buffer := 100, offset := 0, range := 128 }]] },
        calls := [VkCall.vkUpdateDescriptorSets 7
          [{ sType := 35, dstSet := 11, dstBinding := 0, dstArrayElement := 0,
             descriptorCount := 1, descriptorType := 6, imageInfos := none,
             bufferInfos := some [{ buffer := 100, offset := 0, range := 128 }] }]] } :=
  ⟨rfl, rfl⟩

/-- C18 as amended. On an initialised registry `UpdatePendingDescriptorSets`
returns `AMF_OK`.  With at least one write queued it issues one
`vkUpdateDescriptorSets` call with all queued writes in the order of the pending
list, and afterwards the pending list and both info heaps are empty; with
nothing queued it issues no call and leaves the registry as it is.  A successful
deferred update puts its write at the end of the pending list. -/
theorem UpdatePendingDescriptorSets_flushes (h : DescriptorHeapVulkan) (mem : CallerMem)
    (dev : AMFVulkanDevice) (hdev : h.m_pVulkanDevice = some dev) (hnull : dev.hDevice ≠ NULL) :
    (h.m_pendingDescriptorUpdates ≠ [] →
      h.UpdatePendingDescriptorSets mem =
        { res := AMF_OK,
          heap := { h with m_pendingDescriptorUpdates := [], m_descriptorBufferInfoHeap := [],
                           m_descriptorImageInfoHeap := [] },
          calls := [VkCall.vkUpdateDescriptorSets dev.hDevice
            (h.m_pendingDescriptorUpdates.map (resolveWrite h mem))] }) ∧
    (h.m_pendingDescriptorUpdates = [] →
      h.UpdatePendingDescriptorSets mem = { res := AMF_OK, heap := h, calls := [] }) ∧
    (∀ (d : DescriptorVulkan) (arrayIndex count : Nat) (writeInfo : VkWriteDescriptorSet),
      (h.UpdateDescriptorSetWrite mem (some d) arrayIndex count writeInfo false).res = AMF_OK →
      (h.UpdateDescriptorSetWrite mem (some d) arrayIndex count writeInfo
          false).heap.m_pendingDescriptorUpdates =
        h.m_pendingDescriptorUpdates ++
          [(h.UpdateDescriptorSetWrite mem (some d) arrayIndex count writeInfo
            false).writeInfo]) := by
  refine ⟨fun hne => ?_, fun he => ?_, fun d a count w hok => ?_⟩
  · unfold DescriptorHeapVulkan.UpdatePendingDescriptorSets
    simp [hdev, hnull, hne]
  · unfold DescriptorHeapVulkan.UpdatePendingDescriptorSets
    simp [hdev, hnull, he]
  · unfold DescriptorHeapVulkan.UpdateDescriptorSetWrite at hok ⊢
    simp only [hdev, if_neg hnull] at hok ⊢
    by_cases hset : h.GetDescriptorSet d.setIndex = NULL
    · simp [hset] at hok
    · simp [hset]

/-! ### Pipeline: registration after the build -/

/-- What a successful `CreatePipeline` has checked and done. -/
theorem CreatePipeline_ok (p : RenderingPipelineVulkan) (ord : MapOrder)
    (heap : DescriptorHeapVulkan)
    (createInfo : PipelineCreateInfo) (hRenderPass : Handle) (subpass : Nat)
    (layoutResp pipelineResp : VkResult × Handle) (out : CreatePipelineOut)
    (h : p.CreatePipeline ord heap createInfo hRenderPass subpass layoutResp pipelineResp = some out)
    (hok : out.res = AMF_OK) :
    ∃ dev, p.m_pVulkanDevice = some dev ∧ dev.hDevice ≠ NULL ∧ hRenderPass ≠ NULL ∧
      p.m_hRenderPass = NULL ∧ p.m_hPipelineLayout = NULL ∧ p.m_hPipeline = NULL ∧
      layoutResp.1 = VK_SUCCESS ∧ pipelineResp.1 = VK_SUCCESS ∧ p.m_pDescriptorHeap = true ∧
      (resolveGroups heap heap.GetDescriptorCount
        (ord.iterate p.m_descriptorSetGroupMap)).1 = AMF_OK ∧
      out.pipeline = { p with
        m_hRenderPass := hRenderPass
        m_hPipelineLayout := layoutResp.2
        m_hPipeline := pipelineResp.2
        m_descriptorSetGroupMap :=
          (resolveGroups heap heap.GetDescriptorCount
            (ord.iterate p.m_descriptorSetGroupMap)).2 } := by
  unfold RenderingPipelineVulkan.CreatePipeline at h
  cases hdev : p.m_pVulkanDevice with
  | none =>
    rw [hdev] at h
    simp only [Option.some.injEq] at h
    rw [← h] at hok
    exact AMF_RESULT.noConfusion hok
  | some dev =>
    rw [hdev] at h
    have hbad : ∀ (r : AMF_RESULT) (q : RenderingPipelineVulkan) (c : List VkCall)
        (ci : PipelineCreateInfo), r ≠ AMF_OK →
        some ({ res := r, pipeline := q, calls := c, createInfo := ci } : CreatePipelineOut) =
          some out → False := by
      intro r q c ci hr he
      simp only [Option.some.injEq] at he
      rw [← he] at hok
      exact hr hok
    change (if dev.hDevice = NULL then _ else _) = some out at h
    by_cases h1 : dev.hDevice = NULL
    · rw [if_pos h1] at h; exact (hbad _ _ _ _ (fun x => AMF_RESULT.noConfusion x) h).elim
    rw [if_neg h1] at h
    by_cases h2 : hRenderPass = NULL
    · rw [if_pos h2] at h; exact (hbad _ _ _ _ (fun x => AMF_RESULT.noConfusion x) h).elim
    rw [if_neg h2] at h
    by_cases h3 : p.m_hRenderPass ≠ NULL
    · rw [if_pos h3] at h; exact (hbad _ _ _ _ (fun x => AMF_RESULT.noConfusion x) h).elim
    rw [if_neg h3] at h
    by_cases h4 : p.m_hPipelineLayout ≠ NULL
    · rw [if_pos h4] at h; exact (hbad _ _ _ _ (fun x => AMF_RESULT.noConfusion x) h).elim
    rw [if_neg h4] at h
    by_cases h5 : p.m_hPipeline ≠ NULL
    · rw [if_pos h5] at h; exact (hbad _ _ _ _ (fun x => AMF_RESULT.noConfusion x) h).elim
    rw [if_neg h5] at h
    by_cases h6 : layoutResp.1 ≠ VK_SUCCESS
    · exact (hbad _ _ _ _ (fun x => AMF_RESULT.noConfusion x) ((if_pos h6).symm.trans h)).elim
    by_cases h7 : pipelineResp.1 ≠ VK_SUCCESS
    · exact (hbad _ _ _ _ (fun x => AMF_RESULT.noConfusion x)
        (((if_neg h6).trans (if_pos h7)).symm.trans h)).elim
    by_cases h8 : p.m_pDescriptorHeap = false
    · have := ((if_neg h6).trans ((if_neg h7).trans (if_pos h8))).symm.trans h
      cases this
    have h9 := ((if_neg h6).trans ((if_neg h7).trans (if_neg h8))).symm.trans h
    simp only [Option.some.injEq] at h9
    subst h9
    exact ⟨dev, rfl, h1, h2, not_not.mp h3, not_not.mp h4, not_not.mp h5, not_not.mp h6,
      not_not.mp h7, by simpa using h8, hok, rfl⟩

/-- `RegisterDescriptorSet` on a pipeline that has a pipeline handle. -/
theorem Pipeline_RegisterDescriptorSet_built (p : RenderingPipelineVulkan)
    (heap : DescriptorHeapVulkan) (setIndex setNum : Nat) (pGroups : Option (List Nat))
    (groupCount : Nat) (hbuilt : p.m_hPipeline ≠ NULL) :
    p.RegisterDescriptorSet heap setIndex setNum pGroups groupCount =
      some { res := AMF_FAIL, pipeline := p, calls := [] } := by
  unfold RenderingPipelineVulkan.RegisterDescriptorSet
  rw [if_pos hbuilt]

theorem Pipeline_registerAll_built (calls : List PipelineRegisterCall)
    (p : RenderingPipelineVulkan) (hbuilt : p.m_hPipeline ≠ NULL) :
    p.registerAll calls = some p := by
  induction calls with
  | nil => rfl
  | cons c cs ih =>
    simp only [RenderingPipelineVulkan.registerAll,
      Pipeline_RegisterDescriptorSet_built p _ _ _ _ _ hbuilt]
    exact ih

/-- C20. On a pipeline whose `CreatePipeline` has returned `AMF_OK`, the driver
having stored a non-null pipeline handle, every `RegisterDescriptorSet` call
returns `AMF_FAIL`, issues no Vulkan call and leaves the pipeline, in
particular its group map (slot lists and resolved handles) and its list of
descriptor-set layouts, as it was, however many such calls are made. -/
theorem Register_after_CreatePipeline_fails (p : RenderingPipelineVulkan) (ord : MapOrder)
    (heap heap2 : DescriptorHeapVulkan) (createInfo : PipelineCreateInfo) (hRenderPass : Handle)
    (subpass : Nat) (layoutResp pipelineResp : VkResult × Handle) (out : CreatePipelineOut)
    (setIndex setNum : Nat) (pGroups : Option (List Nat)) (groupCount : Nat)
    (calls : List PipelineRegisterCall)
    (h : p.CreatePipeline ord heap createInfo hRenderPass subpass layoutResp pipelineResp = some out)
    (hok : out.res = AMF_OK) (hdriver : pipelineResp.2 ≠ NULL) :
    out.pipeline.RegisterDescriptorSet heap2 setIndex setNum pGroups groupCount =
      some { res := AMF_FAIL, pipeline := out.pipeline, calls := [] } ∧
    out.pipeline.registerAll calls = some out.pipeline := by
  obtain ⟨dev, _, _, _, _, _, _, _, _, _, _, hp⟩ :=
    CreatePipeline_ok p ord heap createInfo hRenderPass subpass layoutResp pipelineResp out h hok
  have hbuilt : out.pipeline.m_hPipeline ≠ NULL := by
    rw [hp]; exact hdriver
  exact ⟨Pipeline_RegisterDescriptorSet_built _ heap2 setIndex setNum pGroups groupCount hbuilt,
    Pipeline_registerAll_built calls _ hbuilt⟩

/-! ### Pipeline: binding and the resolved handle arrays -/

/-- C22. `RenderingPipelineVulkan::SetStates` with a non-null command buffer:
for a group that is not in the group map it returns `AMF_INVALID_ARG`; for a
registered group it returns `AMF_NOT_INITIALIZED` when the pipeline handle or
the pipeline-layout handle is null, and `AMF_OK` otherwise.  A failing call
records no command and leaves the pipeline, its group map included, as it was;
a successful call records `vkCmdBindPipeline` and then one
`vkCmdBindDescriptorSets` of the group's resolved handle array starting at set
0, and leaves the pipeline as it was. -/
theorem SetStates_binds_registered_group (p : RenderingPipelineVulkan)
    (hCommandBuffer : Handle) (groupNum : Nat) (hcb : hCommandBuffer ≠ NULL) :
    (groupFind p.m_descriptorSetGroupMap groupNum = none →
      p.SetStates hCommandBuffer groupNum =
        { res := AMF_INVALID_ARG, pipeline := p, calls := [] }) ∧
    (∀ group, groupFind p.m_descriptorSetGroupMap groupNum = some group →
      (p.m_hPipeline = NULL ∨ p.m_hPipelineLayout = NULL) →
      p.SetStates hCommandBuffer groupNum =
        { res := AMF_NOT_INITIALIZED, pipeline := p, calls := [] }) ∧
    (∀ group, groupFind p.m_descriptorSetGroupMap groupNum = some group →
      p.m_hPipeline ≠ NULL → p.m_hPipelineLayout ≠ NULL →
      group.descriptorSetHandles.length < 2 ^ 32 →
      p.SetStates hCommandBuffer groupNum =
        { res := AMF_OK, pipeline := p,
          calls := [VkCall.vkCmdBindPipeline hCommandBuffer p.m_hPipeline,
            VkCall.vkCmdBindDescriptorSets hCommandBuffer p.m_hPipelineLayout 0
              group.descriptorSetHandles] }) := by
  unfold RenderingPipelineVulkan.SetStates
  rw [if_neg hcb]
  refine ⟨fun hnone => by rw [hnone], fun group hg hnull => ?_, fun group hg hp hl hlen => ?_⟩
  · rw [hg]
    rcases hnull with h | h
    · simp only [if_pos h]
    · by_cases hp : p.m_hPipeline = NULL
      · simp only [if_pos hp]
      · simp only [if_neg hp, if_pos h]
  · rw [hg]
    simp only [if_neg hp, if_neg hl, Nat.mod_eq_of_lt hlen, List.take_length]

theorem resolveGroup_ok (heap : DescriptorHeapVulkan) (descriptorCount : Nat)
    (indices : List Nat) :
    ∀ (handles : List Handle),
      (resolveGroup heap descriptorCount indices handles).1 = AMF_OK →
      (resolveGroup heap descriptorCount indices handles).2 =
        handles ++ indices.map heap.GetDescriptorSet ∧
      ∀ i ∈ indices, i < descriptorCount ∧ heap.GetDescriptorSet i ≠ NULL := by
  induction indices with
  | nil => intro handles _; simp [resolveGroup]
  | cons x xs ih =>
    intro handles h
    unfold resolveGroup at h ⊢
    by_cases hx : x < descriptorCount
    · rw [if_neg (not_not.mpr hx)] at h ⊢
      by_cases hnull : heap.GetDescriptorSet x = NULL
      · simp only [hnull, if_true] at h
        exact AMF_RESULT.noConfusion h
      · simp only [if_neg hnull] at h ⊢
        obtain ⟨h1, h2⟩ := ih _ h
        refine ⟨by rw [h1]; simp, ?_⟩
        intro i hi
        rcases List.mem_cons.mp hi with rfl | hi
        · exact ⟨hx, hnull⟩
        · exact h2 i hi
    · rw [if_pos hx] at h
      exact AMF_RESULT.noConfusion h

theorem resolveGroups_ok (heap : DescriptorHeapVulkan) (descriptorCount : Nat)
    (m : DescriptorSetGroupMap) :
    (resolveGroups heap descriptorCount m).1 = AMF_OK →
    (resolveGroups heap descriptorCount m).2 = m.map (fun e => (e.1, e.2.resolved heap)) ∧
    ∀ e ∈ m, ∀ i ∈ e.2.descriptorSetIndices,
      i < descriptorCount ∧ heap.GetDescriptorSet i ≠ NULL := by
  induction m with
  | nil => intro _; simp [resolveGroups]
  | cons e rest ih =>
    obtain ⟨groupNum, group⟩ := e
    intro h
    unfold resolveGroups at h ⊢
    dsimp only at h ⊢
    by_cases h1 : (resolveGroup heap descriptorCount group.descriptorSetIndices []).1 = AMF_OK
    · rw [if_neg (not_not.mpr h1)] at h ⊢
      dsimp only at h ⊢
      obtain ⟨hr1, hr2⟩ := resolveGroup_ok heap descriptorCount _ [] h1
      obtain ⟨ih1, ih2⟩ := ih h
      refine ⟨by rw [ih1, hr1]; simp [DescriptorSetGroup.resolved], ?_⟩
      intro e he
      rcases List.mem_cons.mp he with rfl | he
      · exact hr2
      · exact ih2 e he
    · rw [if_pos h1] at h
      exact absurd h h1

theorem groupFind_map_resolved (heap : DescriptorHeapVulkan) (m : DescriptorSetGroupMap)
    (g : Nat) :
    groupFind (m.map (fun e => (e.1, e.2.resolved heap))) g =
      (groupFind m g).map (fun x => x.resolved heap) := by
  induction m with
  | nil => rfl
  | cons e rest ih =>
    obtain ⟨k, v⟩ := e
    simp only [List.map_cons, groupFind]
    split
    · rfl
    · exact ih

/-- In a map whose keys are distinct, a lookup finds the entry of the key. -/
theorem groupFind_of_mem_nodup (m : DescriptorSetGroupMap)
    (hnd : (m.map Prod.fst).Nodup) (k : Nat) (v : DescriptorSetGroup) (h : (k, v) ∈ m) :
    groupFind m k = some v := by
  induction m with
  | nil => simp at h
  | cons e rest ih =>
    obtain ⟨k', v'⟩ := e
    simp only [List.map_cons, List.nodup_cons] at hnd
    simp only [List.mem_cons, Prod.mk.injEq] at h
    rcases h with ⟨hk, hv⟩ | h
    · simp [groupFind, hk, hv]
    · have hne : k' ≠ k := by
        intro he
        apply hnd.1
        rw [he]
        exact List.mem_map.mpr ⟨(k, v), h, rfl⟩
      simp only [groupFind, if_neg hne]
      exact ih hnd.2 h

/-- What the resolved form of a group is, slot by slot. -/
theorem resolved_slots (heap : DescriptorHeapVulkan) (before : DescriptorSetGroup) :
    (before.resolved heap).descriptorSetIndices = before.descriptorSetIndices ∧
    (before.resolved heap).descriptorSetHandles.length =
      (before.resolved heap).descriptorSetIndices.length ∧
    ∀ (s i : Nat), (before.resolved heap).descriptorSetIndices[s]? = some i →
      (before.resolved heap).descriptorSetHandles[s]? = some (heap.GetDescriptorSet i) := by
  refine ⟨rfl, by simp [DescriptorSetGroup.resolved], fun s i hs => ?_⟩
  simp only [DescriptorSetGroup.resolved] at hs ⊢
  rw [List.getElem?_map, hs]
  rfl

/-- C25. After a successful `CreatePipeline`, whatever the order in which the
build visits the group map: every group that was registered is still in the map,
with the slot list it had, and with a resolved handle array of the same length
whose `s`-th entry is the registry's `GetDescriptorSet(i)` for the set index `i`
in slot `s`, every such `i` being below `GetDescriptorCount()`; the map holds no
other group; and a lookup of a registered group finds the group so resolved. -/
theorem CreatePipeline_resolves_groups (p : RenderingPipelineVulkan) (ord : MapOrder)
    (heap : DescriptorHeapVulkan) (createInfo : PipelineCreateInfo) (hRenderPass : Handle)
    (subpass : Nat) (layoutResp pipelineResp : VkResult × Handle) (out : CreatePipelineOut)
    (h : p.CreatePipeline ord heap createInfo hRenderPass subpass layoutResp pipelineResp = some out)
    (hok : out.res = AMF_OK) :
    (∀ (groupNum : Nat) (before : DescriptorSetGroup),
      (groupNum, before) ∈ p.m_descriptorSetGroupMap →
      ∃ group, (groupNum, group) ∈ out.pipeline.m_descriptorSetGroupMap ∧
        group.descriptorSetIndices = before.descriptorSetIndices ∧
        group.descriptorSetHandles.length = group.descriptorSetIndices.length ∧
        ∀ (s i : Nat), group.descriptorSetIndices[s]? = some i →
          group.descriptorSetHandles[s]? = some (heap.GetDescriptorSet i) ∧
          i < heap.GetDescriptorCount) ∧
    (∀ (groupNum : Nat) (group : DescriptorSetGroup),
      (groupNum, group) ∈ out.pipeline.m_descriptorSetGroupMap →
      ∃ before, (groupNum, before) ∈ p.m_descriptorSetGroupMap ∧
        group.descriptorSetIndices = before.descriptorSetIndices ∧
        group.descriptorSetHandles.length = group.descriptorSetIndices.length ∧
        ∀ (s i : Nat), group.descriptorSetIndices[s]? = some i →
          group.descriptorSetHandles[s]? = some (heap.GetDescriptorSet i) ∧
          i < heap.GetDescriptorCount) ∧
    ((p.m_descriptorSetGroupMap.map Prod.fst).Nodup →
      ∀ (groupNum : Nat) (before : DescriptorSetGroup),
        groupFind p.m_descriptorSetGroupMap groupNum = some before →
        ∃ group, groupFind out.pipeline.m_descriptorSetGroupMap groupNum = some group ∧
          group.descriptorSetIndices = before.descriptorSetIndices ∧
          group.descriptorSetHandles.length = group.descriptorSetIndices.length ∧
          ∀ (s i : Nat), group.descriptorSetIndices[s]? = some i →
            group.descriptorSetHandles[s]? = some (heap.GetDescriptorSet i) ∧
            i < heap.GetDescriptorCount) := by
  obtain ⟨dev, _, _, _, _, _, _, _, _, _, hres, hp⟩ :=
    CreatePipeline_ok p ord heap createInfo hRenderPass subpass layoutResp pipelineResp out h hok
  obtain ⟨hmap, hall⟩ := resolveGroups_ok heap heap.GetDescriptorCount _ hres
  have hout : out.pipeline.m_descriptorSetGroupMap =
      (ord.iterate p.m_descriptorSetGroupMap).map (fun e => (e.1, e.2.resolved heap)) := by
    rw [hp]
    exact hmap
  have hslots : ∀ (groupNum : Nat) (before : DescriptorSetGroup),
      (groupNum, before) ∈ p.m_descriptorSetGroupMap →
      (before.resolved heap).descriptorSetIndices = before.descriptorSetIndices ∧
      (before.resolved heap).descriptorSetHandles.length =
        (before.resolved heap).descriptorSetIndices.length ∧
      ∀ (s i : Nat), (before.resolved heap).descriptorSetIndices[s]? = some i →
        (before.resolved heap).descriptorSetHandles[s]? = some (heap.GetDescriptorSet i) ∧
        i < heap.GetDescriptorCount := by
    intro groupNum before hb
    obtain ⟨r1, r2, r3⟩ := resolved_slots heap before
    refine ⟨r1, r2, fun s i hs => ⟨r3 s i hs, ?_⟩⟩
    have hmem : i ∈ before.descriptorSetIndices := by
      rw [r1] at hs
      rcases List.getElem?_eq_some_iff.mp hs with ⟨hlt, he⟩
      rw [← he]
      exact List.getElem_mem hlt
    exact (hall (groupNum, before)
      ((ord.perm p.m_descriptorSetGroupMap).mem_iff.mpr hb) i hmem).1
  have hin : ∀ (groupNum : Nat) (before : DescriptorSetGroup),
      (groupNum, before) ∈ p.m_descriptorSetGroupMap →
      (groupNum, before.resolved heap) ∈ out.pipeline.m_descriptorSetGroupMap := by
    intro groupNum before hb
    rw [hout]
    exact List.mem_map.mpr ⟨(groupNum, before),
      (ord.perm p.m_descriptorSetGroupMap).mem_iff.mpr hb, rfl⟩
  refine ⟨fun groupNum before hb => ⟨_, hin groupNum before hb, hslots groupNum before hb⟩,
    fun groupNum group hg => ?_, fun hnd groupNum before hb => ?_⟩
  · rw [hout] at hg
    obtain ⟨e, he, heq⟩ := List.mem_map.mp hg
    obtain ⟨k, before⟩ := e
    simp only [Prod.mk.injEq] at heq
    obtain ⟨hk, hgroup⟩ := heq
    subst hk
    subst hgroup
    have hb := (ord.perm p.m_descriptorSetGroupMap).mem_iff.mp he
    exact ⟨before, hb, hslots k before hb⟩
  · have hb' := groupFind_mem _ _ _ hb
    have hnd' : (out.pipeline.m_descriptorSetGroupMap.map Prod.fst).Nodup := by
      rw [hout, List.map_map]
      have hperm : ((ord.iterate p.m_descriptorSetGroupMap).map Prod.fst).Perm
          (p.m_descriptorSetGroupMap.map Prod.fst) :=
        (ord.perm p.m_descriptorSetGroupMap).map Prod.fst
      exact hperm.nodup_iff.mpr hnd
    exact ⟨_, groupFind_of_mem_nodup _ hnd' groupNum _ (hin groupNum before hb'),
      hslots groupNum before hb'⟩

/-! ### Pipeline: failing registrations and failing builds -/

theorem registerGroups_result (setIndex setNum : Nat) (groups : List Nat) :
    ∀ (m : DescriptorSetGroupMap) (n : Nat) (r : AMF_RESULT × DescriptorSetGroupMap),
      registerGroups setIndex setNum m groups n = some r →
      r.1 = AMF_OK ∨ r.1 = AMF_INVALID_ARG := by
  induction groups with
  | nil =>
    intro m n r h
    cases n with
    | zero => simp only [registerGroups, Option.some.injEq] at h; subst h; exact Or.inl rfl
    | succ k => simp [registerGroups] at h
  | cons g gs ih =>
    intro m n r h
    cases n with
    | zero => simp only [registerGroups, Option.some.injEq] at h; subst h; exact Or.inl rfl
    | succ k =>
      simp only [registerGroups] at h
      split at h
      · cases h
      · split at h
        · simp only [Option.some.injEq] at h; subst h; exact Or.inr rfl
        · exact ih _ _ _ h

/-- A slot that a resize has just made holds the free marker. -/
theorem vectorResize_new_is_value (v : List Nat) (n value setNum cur : Nat)
    (hge : setNum ≥ v.length) (hcur : (vectorResize v n value)[setNum]? = some cur) :
    cur = value := by
  unfold vectorResize at hcur
  by_cases hn : n ≤ v.length
  · simp only [hn, if_true] at hcur
    have hlt : setNum < (v.take n).length := (List.getElem?_eq_some_iff.mp hcur).1
    simp at hlt
    omega
  · simp only [hn, if_false] at hcur
    rw [List.getElem?_append_right hge, List.getElem?_replicate] at hcur
    split at hcur
    · exact (Option.some.inj hcur).symm
    · cases hcur

/-- A loop over the groups that stops with `AMF_INVALID_ARG` has stopped at a
group of the list whose slot is occupied.  The groups in front of it exist and
hold `setIndex` in the slot; every other group, the occupied one included, is as
it was. -/
theorem registerGroups_fails (setIndex setNum : Nat) (groups : List Nat) :
    ∀ (m : DescriptorSetGroupMap) (n : Nat) (m' : DescriptorSetGroupMap),
      registerGroups setIndex setNum m groups n = some (AMF_INVALID_ARG, m') →
      ∃ (pre : List Nat) (g : Nat) (post : List Nat), groups.take n = pre ++ g :: post ∧
        (∃ cur, (groupFind m' g).bind (fun x => x.descriptorSetIndices[setNum]?) = some cur ∧
          cur ≠ UINT32_MAX) ∧
        (∀ k ∈ pre,
          (groupFind m' k).bind (fun x => x.descriptorSetIndices[setNum]?) = some setIndex) ∧
        (∀ k, k ∉ pre → groupFind m' k = groupFind m k) := by
  induction groups with
  | nil =>
    intro m n m' hr
    cases n with
    | zero => simp [registerGroups] at hr
    | succ n => simp [registerGroups] at hr
  | cons gn gs ih =>
    intro m n m' hr
    cases n with
    | zero => simp [registerGroups] at hr
    | succ n =>
      simp only [registerGroups] at hr
      generalize hidx : (if setNum ≥ ((groupFind m gn).getD
          DescriptorSetGroup.empty).descriptorSetIndices.length then
          vectorResize ((groupFind m gn).getD DescriptorSetGroup.empty).descriptorSetIndices
            ((setNum + 1) % 2 ^ 32) UINT32_MAX
        else ((groupFind m gn).getD DescriptorSetGroup.empty).descriptorSetIndices) = indices at hr
      cases hcur : indices[setNum]? with
      | none => simp [hcur] at hr
      | some cur =>
        simp only [hcur] at hr
        by_cases hmax : cur = UINT32_MAX
        · simp only [hmax, ne_eq, not_true_eq_false, if_false] at hr
          obtain ⟨pre, g, post, htake, hocc, hpre, hrest⟩ := ih _ _ _ hr
          refine ⟨gn :: pre, g, post, by simp [List.take_succ_cons, htake], hocc, ?_, ?_⟩
          · intro k hk
            by_cases hkp : k ∈ pre
            · exact hpre k hkp
            · have hkgn : k = gn := by
                rcases List.mem_cons.mp hk with h | h
                · exact h
                · exact absurd h hkp
              subst hkgn
              rw [hrest k hkp, groupFind_groupStore_same]
              have hlt : setNum < indices.length := (List.getElem?_eq_some_iff.mp hcur).1
              simp [hlt]
          · intro k hk
            have hkgn : k ≠ gn := fun he => hk (by rw [he]; exact List.mem_cons_self _ _)
            have hkp : k ∉ pre := fun hp => hk (List.mem_cons_of_mem _ hp)
            rw [hrest k hkp, groupFind_groupStore_ne _ _ _ _ hkgn]
        · simp only [ne_eq, hmax, not_false_eq_true, if_true, Option.some.injEq,
            Prod.mk.injEq, true_and] at hr
          -- the occupied slot was there before: a slot made by the resize is free
          have hlen : ¬ (setNum ≥ ((groupFind m gn).getD
              DescriptorSetGroup.empty).descriptorSetIndices.length) := by
            intro hge
            rw [if_pos hge] at hidx
            rw [← hidx] at hcur
            exact hmax (vectorResize_new_is_value _ _ _ _ _ hge hcur)
          rw [if_neg hlen] at hidx
          cases hf : groupFind m gn with
          | none =>
            rw [hf] at hlen
            simp [DescriptorSetGroup.empty] at hlen
          | some x =>
            rw [hf] at hidx
            simp only [Option.getD_some] at hidx
            have hsame : groupFind m' gn = some x := by
              rw [← hr, groupFind_groupStore_same, hf, Option.getD_some, ← hidx]
            refine ⟨[], gn, gs.take n, by simp [List.take_succ_cons], ⟨cur, ?_, hmax⟩,
              fun k hk => absurd hk (List.not_mem_nil k), fun k _ => ?_⟩
            · rw [hsame]
              show x.descriptorSetIndices[setNum]? = some cur
              rw [hidx]
              exact hcur
            · by_cases hk : k = gn
              · rw [hk, hsame, hf]
              · rw [← hr, groupFind_groupStore_ne _ _ _ _ hk]

/-- C28 as amended. A `RegisterDescriptorSet` call on a pipeline with a non-null,
non-empty group list that returns an error returns `AMF_FAIL` (pipeline already
built), `AMF_UNEXPECTED` (the registry has no layout for the set index) or
`AMF_INVALID_ARG` (a slot is occupied).  In the first two cases the pipeline,
its group map and layout list included, is the same after the call as before
it.  In the third the layout of the set has been appended to the layout list,
and the call has stopped at a group of the list whose slot is occupied: every
group in front of it in the list exists and holds the set index in the slot,
and every other group, the occupied one included, is as it was. -/
theorem failing_Register_keeps_pipeline_unless_slot_occupied (p : RenderingPipelineVulkan)
    (heap : DescriptorHeapVulkan) (setIndex setNum : Nat) (groups : List Nat)
    (groupCount : Nat) (out : PipelineOut)
    (hcount : 0 < groupCount)
    (hr : p.RegisterDescriptorSet heap setIndex setNum (some groups) groupCount = some out)
    (hfail : out.res ≠ AMF_OK) :
    (out.res = AMF_FAIL ∨ out.res = AMF_UNEXPECTED ∨ out.res = AMF_INVALID_ARG) ∧
    (out.res = AMF_FAIL ∨ out.res = AMF_UNEXPECTED → out.pipeline = p) ∧
    (out.res = AMF_INVALID_ARG →
      out.pipeline.m_hDescriptorSetLayouts =
        p.m_hDescriptorSetLayouts ++ [heap.GetDescriptorSetLayout setIndex] ∧
      ∃ (pre : List Nat) (g : Nat) (post : List Nat),
        groups.take groupCount = pre ++ g :: post ∧
        (∃ cur, out.pipeline.slot g setNum = some cur ∧ cur ≠ UINT32_MAX) ∧
        (∀ k ∈ pre, out.pipeline.slot k setNum = some setIndex) ∧
        (∀ k, k ∉ pre →
          groupFind out.pipeline.m_descriptorSetGroupMap k =
            groupFind p.m_descriptorSetGroupMap k)) := by
  unfold RenderingPipelineVulkan.RegisterDescriptorSet at hr
  by_cases hb : p.m_hPipeline ≠ NULL
  · rw [if_pos hb] at hr
    cases hr
    exact ⟨Or.inl rfl, fun _ => rfl, fun h => AMF_RESULT.noConfusion h⟩
  rw [if_neg hb] at hr
  dsimp only at hr
  rw [if_neg (not_not.mpr hcount)] at hr
  by_cases hh : p.m_pDescriptorHeap = false
  · rw [if_pos hh] at hr; cases hr
  rw [if_neg hh] at hr
  by_cases hl : heap.GetDescriptorSetLayout setIndex = NULL
  · rw [if_pos hl] at hr
    cases hr
    exact ⟨Or.inr (Or.inl rfl), fun _ => rfl, fun h => AMF_RESULT.noConfusion h⟩
  rw [if_neg hl] at hr
  cases hrg : registerGroups setIndex setNum p.m_descriptorSetGroupMap groups groupCount with
  | none => rw [hrg] at hr; cases hr
  | some r =>
    rw [hrg] at hr
    cases hr
    rcases registerGroups_result _ _ _ _ _ _ hrg with h | h
    · exact absurd h hfail
    · refine ⟨Or.inr (Or.inr h), fun h' => ?_, fun _ => ⟨rfl, ?_⟩⟩
      · rcases h' with h' | h'
        · exact absurd (h.symm.trans h') (fun x => AMF_RESULT.noConfusion x)
        · exact absurd (h.symm.trans h') (fun x => AMF_RESULT.noConfusion x)
      · obtain ⟨r1, r2⟩ := r
        simp only at h
        subst h
        exact registerGroups_fails setIndex setNum groups _ _ _ hrg

/-- `CreatePipeline` on a pipeline whose render-pass field is set. -/
theorem CreatePipeline_with_render_pass (p : RenderingPipelineVulkan) (ord : MapOrder)
    (heap : DescriptorHeapVulkan) (createInfo : PipelineCreateInfo) (hRenderPass : Handle)
    (subpass : Nat) (layoutResp pipelineResp : VkResult × Handle) (dev : AMFVulkanDevice)
    (hdev : p.m_pVulkanDevice = some dev) (hnull : dev.hDevice ≠ NULL)
    (hpass : hRenderPass ≠ NULL) (hset : p.m_hRenderPass ≠ NULL) :
    p.CreatePipeline ord heap createInfo hRenderPass subpass layoutResp pipelineResp =
      some { res := AMF_ALREADY_INITIALIZED, pipeline := p, calls := [],
             createInfo := createInfo } := by
  unfold RenderingPipelineVulkan.CreatePipeline
  rw [hdev]
  change (if dev.hDevice = NULL then _ else _) = _
  rw [if_neg hnull, if_neg hpass, if_pos hset]

/-- A lookup succeeds exactly for the keys of the map. -/
theorem groupFind_isSome_iff (m : DescriptorSetGroupMap) (k : Nat) :
    (groupFind m k).isSome = true ↔ k ∈ m.map Prod.fst := by
  induction m with
  | nil => simp [groupFind]
  | cons e rest ih =>
    obtain ⟨k', v⟩ := e
    by_cases hk : k' = k
    · simp [groupFind, hk]
    · simp only [groupFind, if_neg hk, List.map_cons, List.mem_cons]
      rw [ih]
      constructor
      · exact Or.inr
      · rintro (h | h)
        · exact absurd h.symm hk
        · exact h

/-- The loop of `CreatePipeline` over the groups keeps the keys of the map,
whether it succeeds or not. -/
theorem resolveGroups_keys (heap : DescriptorHeapVulkan) (descriptorCount : Nat)
    (m : DescriptorSetGroupMap) :
    (resolveGroups heap descriptorCount m).2.map Prod.fst = m.map Prod.fst := by
  induction m with
  | nil => rfl
  | cons e rest ih =>
    obtain ⟨k, v⟩ := e
    unfold resolveGroups
    dsimp only
    split
    · rfl
    · simp only [List.map_cons, ih]

/-- The loop of `CreatePipeline` over the groups returns `AMF_OK`,
`AMF_OUT_OF_RANGE` or `AMF_UNEXPECTED`. -/
theorem resolveGroups_result (heap : DescriptorHeapVulkan) (descriptorCount : Nat)
    (m : DescriptorSetGroupMap) :
    (resolveGroups heap descriptorCount m).1 = AMF_OK ∨
    (resolveGroups heap descriptorCount m).1 = AMF_OUT_OF_RANGE ∨
    (resolveGroups heap descriptorCount m).1 = AMF_UNEXPECTED := by
  have hgroup : ∀ (indices : List Nat) (handles : List Handle),
      (resolveGroup heap descriptorCount indices handles).1 = AMF_OK ∨
      (resolveGroup heap descriptorCount indices handles).1 = AMF_OUT_OF_RANGE ∨
      (resolveGroup heap descriptorCount indices handles).1 = AMF_UNEXPECTED := by
    intro indices
    induction indices with
    | nil => intro handles; exact Or.inl rfl
    | cons x xs ih =>
      intro handles
      unfold resolveGroup
      split
      · exact Or.inr (Or.inl rfl)
      · dsimp only
        split
        · exact Or.inr (Or.inr rfl)
        · exact ih _
  induction m with
  | nil => exact Or.inl rfl
  | cons e rest ih =>
    obtain ⟨k, v⟩ := e
    unfold resolveGroups
    dsimp only
    split
    · exact hgroup _ _
    · exact ih

/-- A pipeline registration leaves the device pointer and the three handles of
the build as they are. -/
theorem Pipeline_RegisterDescriptorSet_handles (p : RenderingPipelineVulkan)
    (heap : DescriptorHeapVulkan) (setIndex setNum : Nat) (pGroups : Option (List Nat))
    (groupCount : Nat) (out : PipelineOut)
    (hr : p.RegisterDescriptorSet heap setIndex setNum pGroups groupCount = some out) :
    out.pipeline.toVulkanContext = p.toVulkanContext ∧
    out.pipeline.m_hRenderPass = p.m_hRenderPass := by
  unfold RenderingPipelineVulkan.RegisterDescriptorSet at hr
  split at hr
  · cases hr; exact ⟨rfl, rfl⟩
  · split at hr
    · cases hr; exact ⟨rfl, rfl⟩
    · split at hr
      · cases hr; exact ⟨rfl, rfl⟩
      · split at hr
        · cases hr
        · dsimp only at hr
          split at hr
          · cases hr; exact ⟨rfl, rfl⟩
          · split at hr
            · cases hr
            · cases hr; exact ⟨rfl, rfl⟩

/-- `CreatePipeline` on a pipeline whose render-pass field is set changes
nothing, whatever render pass it is given. -/
theorem CreatePipeline_locked (p : RenderingPipelineVulkan) (ord : MapOrder)
    (heap : DescriptorHeapVulkan) (createInfo : PipelineCreateInfo) (hRenderPass : Handle)
    (subpass : Nat) (layoutResp pipelineResp : VkResult × Handle) (dev : AMFVulkanDevice)
    (hdev : p.m_pVulkanDevice = some dev) (hnull : dev.hDevice ≠ NULL)
    (hset : p.m_hRenderPass ≠ NULL) :
    ∃ out, p.CreatePipeline ord heap createInfo hRenderPass subpass layoutResp pipelineResp =
      some out ∧ out.pipeline = p := by
  unfold RenderingPipelineVulkan.CreatePipeline
  rw [hdev]
  change ∃ out, (if dev.hDevice = NULL then _ else _) = some out ∧ _
  rw [if_neg hnull]
  by_cases hpass : hRenderPass = NULL
  · rw [if_pos hpass]; exact ⟨_, rfl, rfl⟩
  · rw [if_neg hpass, if_pos hset]; exact ⟨_, rfl, rfl⟩

/-- Registrations, binds and builds keep a pipeline locked: its device and its
non-null render-pass field stay. -/
theorem runOps_locked (dev : AMFVulkanDevice) (hnull : dev.hDevice ≠ NULL)
    (ops : List PipelineOp) :
    ∀ (p q : RenderingPipelineVulkan), p.m_pVulkanDevice = some dev → p.m_hRenderPass ≠ NULL →
      p.runOps ops = some q → q.m_pVulkanDevice = some dev ∧ q.m_hRenderPass = p.m_hRenderPass := by
  induction ops with
  | nil =>
    intro p q hdev _ hrun
    simp only [RenderingPipelineVulkan.runOps, Option.some.injEq] at hrun
    subst hrun
    exact ⟨hdev, rfl⟩
  | cons op ops ih =>
    intro p q hdev hset hrun
    unfold RenderingPipelineVulkan.runOps at hrun
    cases hstep : p.step op with
    | none => simp [hstep] at hrun
    | some p1 =>
      simp only [hstep] at hrun
      have hp1 : p1.m_pVulkanDevice = some dev ∧ p1.m_hRenderPass = p.m_hRenderPass := by
        cases op with
        | register c =>
          simp only [RenderingPipelineVulkan.step, Option.map_eq_some'] at hstep
          obtain ⟨r, hr, rfl⟩ := hstep
          obtain ⟨hctx, hrp⟩ := Pipeline_RegisterDescriptorSet_handles p _ _ _ _ _ r hr
          exact ⟨by rw [← hdev]; exact congrArg VulkanContext.m_pVulkanDevice hctx, hrp⟩
        | setStates cb groupNum =>
          simp only [RenderingPipelineVulkan.step, Option.some.injEq] at hstep
          rw [Pipeline_SetStates_pipeline] at hstep
          subst hstep
          exact ⟨hdev, rfl⟩
        | createPipeline ord heap createInfo hRenderPass subpass layoutResp pipelineResp =>
          simp only [RenderingPipelineVulkan.step, Option.map_eq_some'] at hstep
          obtain ⟨r, hr, rfl⟩ := hstep
          obtain ⟨o, ho, hop⟩ := CreatePipeline_locked p ord heap createInfo hRenderPass subpass
            layoutResp pipelineResp dev hdev hnull hset
          rw [ho] at hr
          cases hr
          rw [hop]
          exact ⟨hdev, rfl⟩
      obtain ⟨hq1, hq2⟩ := ih p1 q hp1.1 (by rw [hp1.2]; exact hset) hrun
      exact ⟨hq1, hq2.trans hp1.2⟩

/-- A bind of a registered group on a pipeline with both handles. -/
theorem Pipeline_SetStates_ok (p : RenderingPipelineVulkan) (hCommandBuffer : Handle)
    (groupNum : Nat) (group : DescriptorSetGroup) (hcb : hCommandBuffer ≠ NULL)
    (hg : groupFind p.m_descriptorSetGroupMap groupNum = some group)
    (hp : p.m_hPipeline ≠ NULL) (hl : p.m_hPipelineLayout ≠ NULL) :
    p.SetStates hCommandBuffer groupNum =
      { res := AMF_OK, pipeline := p,
        calls := [VkCall.vkCmdBindPipeline hCommandBuffer p.m_hPipeline,
          VkCall.vkCmdBindDescriptorSets hCommandBuffer p.m_hPipelineLayout 0
            (group.descriptorSetHandles.take (group.descriptorSetHandles.length % 2 ^ 32))] } := by
  unfold RenderingPipelineVulkan.SetStates
  rw [if_neg hcb, hg]
  simp only [if_neg hp, if_neg hl]

/-- A build on a pipeline on which `Terminate` has run is not rejected as
already initialised. -/
theorem CreatePipeline_after_Terminate
    (ctxTerminate : VulkanContext → AMF_RESULT × VulkanContext) (p : RenderingPipelineVulkan)
    (dev : AMFVulkanDevice) (hdev : p.m_pVulkanDevice = some dev) :
    (p.Terminate ctxTerminate).pipeline.m_hRenderPass = NULL ∧
    (p.Terminate ctxTerminate).pipeline.m_hPipelineLayout = NULL ∧
    (p.Terminate ctxTerminate).pipeline.m_hPipeline = NULL ∧
    ∀ (ord : MapOrder) (heap : DescriptorHeapVulkan) (createInfo : PipelineCreateInfo)
      (hRenderPass : Handle) (subpass : Nat) (layoutResp pipelineResp : VkResult × Handle)
      (out : CreatePipelineOut),
      (p.Terminate ctxTerminate).pipeline.CreatePipeline ord heap createInfo hRenderPass subpass
        layoutResp pipelineResp = some out →
      out.res ≠ AMF_ALREADY_INITIALIZED := by
  have ht : (p.Terminate ctxTerminate).pipeline =
      { toVulkanContext := (ctxTerminate p.toVulkanContext).2,
        m_pDescriptorHeap := p.m_pDescriptorHeap,
        m_hRenderPass := NULL, m_hPipeline := NULL, m_hPipelineLayout := NULL,
        m_descriptorSetGroupMap := [], m_hDescriptorSetLayouts := [] } := by
    unfold RenderingPipelineVulkan.Terminate
    rw [hdev]
  rw [ht]
  refine ⟨rfl, rfl, rfl, ?_⟩
  intro ord heap createInfo hRenderPass subpass layoutResp pipelineResp out h
  unfold RenderingPipelineVulkan.CreatePipeline at h
  dsimp only at h
  cases hd : (ctxTerminate p.toVulkanContext).2.m_pVulkanDevice with
  | none =>
    rw [hd] at h
    cases h
    exact fun x => AMF_RESULT.noConfusion x
  | some dev2 =>
    rw [hd] at h
    change (if dev2.hDevice = NULL then _ else _) = some out at h
    by_cases h1 : dev2.hDevice = NULL
    · rw [if_pos h1] at h; cases h; exact fun x => AMF_RESULT.noConfusion x
    rw [if_neg h1] at h
    by_cases h2 : hRenderPass = NULL
    · rw [if_pos h2] at h; cases h; exact fun x => AMF_RESULT.noConfusion x
    rw [if_neg h2, if_neg (by simp), if_neg (by simp), if_neg (by simp)] at h
    by_cases h6 : layoutResp.1 ≠ VK_SUCCESS
    · have h' := (if_pos h6).symm.trans h
      cases h'
      exact fun x => AMF_RESULT.noConfusion x
    by_cases h7 : pipelineResp.1 ≠ VK_SUCCESS
    · have h' := ((if_neg h6).trans (if_pos h7)).symm.trans h
      cases h'
      exact fun x => AMF_RESULT.noConfusion x
    by_cases h8 : p.m_pDescriptorHeap = false
    · have h' := ((if_neg h6).trans ((if_neg h7).trans (if_pos h8))).symm.trans h
      cases h'
    have h' := ((if_neg h6).trans ((if_neg h7).trans (if_neg h8))).symm.trans h
    simp only [Option.some.injEq] at h'
    subst h'
    dsimp only
    rcases resolveGroups_result heap heap.GetDescriptorCount (ord.iterate []) with hr | hr | hr
    · rw [hr]; exact fun x => AMF_RESULT.noConfusion x
    · rw [hr]; exact fun x => AMF_RESULT.noConfusion x
    · rw [hr]; exact fun x => AMF_RESULT.noConfusion x

/-- C29 as amended. A `CreatePipeline` call that returns an error either was
rejected by its entry checks, and then it made no Vulkan call and left the
pipeline as it was, or it failed later (in the creation of the layout or of the
pipeline, or while resolving the groups).  In the second case the render-pass
field holds the non-null render pass it was given, the layout handle is the one
the driver stored, and the pipeline handle is the one the driver stored if the
layout was created and null otherwise.  After any registrations, binds and
builds that follow, a build with a non-null render pass returns
`AMF_ALREADY_INITIALIZED` and changes nothing; `Terminate` resets the three
fields, and a build after it is not rejected as already initialised.  When the
failure was in the resolution of the groups, the driver having stored non-null
handles, a bind of any registered group with a non-null command buffer returns
`AMF_OK` and records the bind of the stored pipeline. -/
theorem failing_CreatePipeline_keeps_render_pass (p : RenderingPipelineVulkan) (ord : MapOrder)
    (heap : DescriptorHeapVulkan) (createInfo : PipelineCreateInfo) (hRenderPass : Handle)
    (subpass : Nat) (layoutResp pipelineResp : VkResult × Handle) (out : CreatePipelineOut)
    (h : p.CreatePipeline ord heap createInfo hRenderPass subpass layoutResp pipelineResp = some out)
    (hfail : out.res ≠ AMF_OK) :
    (out.calls = [] ∧ out.pipeline = p ∧
      (out.res = AMF_NOT_INITIALIZED ∨ out.res = AMF_ALREADY_INITIALIZED)) ∨
    (out.calls ≠ [] ∧ hRenderPass ≠ NULL ∧ out.pipeline.m_hRenderPass = hRenderPass ∧
      out.pipeline.m_hPipelineLayout = layoutResp.2 ∧
      out.pipeline.m_hPipeline = (if layoutResp.1 = VK_SUCCESS then pipelineResp.2 else NULL) ∧
      (∀ (ops : List PipelineOp) (q : RenderingPipelineVulkan),
        out.pipeline.runOps ops = some q →
        ∀ (ord2 : MapOrder) (heap2 : DescriptorHeapVulkan) (createInfo2 : PipelineCreateInfo)
          (hRenderPass2 : Handle) (subpass2 : Nat) (layoutResp2 pipelineResp2 : VkResult × Handle),
          hRenderPass2 ≠ NULL →
          q.CreatePipeline ord2 heap2 createInfo2 hRenderPass2 subpass2 layoutResp2
              pipelineResp2 =
            some { res := AMF_ALREADY_INITIALIZED, pipeline := q, calls := [],
                   createInfo := createInfo2 }) ∧
      (∀ (ctxTerminate : VulkanContext → AMF_RESULT × VulkanContext),
        (out.pipeline.Terminate ctxTerminate).pipeline.m_hRenderPass = NULL ∧
        (out.pipeline.Terminate ctxTerminate).pipeline.m_hPipelineLayout = NULL ∧
        (out.pipeline.Terminate ctxTerminate).pipeline.m_hPipeline = NULL ∧
        ∀ (ord2 : MapOrder) (heap2 : DescriptorHeapVulkan) (createInfo2 : PipelineCreateInfo)
          (hRenderPass2 : Handle) (subpass2 : Nat) (layoutResp2 pipelineResp2 : VkResult × Handle)
          (out2 : CreatePipelineOut),
          (out.pipeline.Terminate ctxTerminate).pipeline.CreatePipeline ord2 heap2 createInfo2
            hRenderPass2 subpass2 layoutResp2 pipelineResp2 = some out2 →
          out2.res ≠ AMF_ALREADY_INITIALIZED) ∧
      (layoutResp.1 = VK_SUCCESS → pipelineResp.1 = VK_SUCCESS →
        (out.res = AMF_OUT_OF_RANGE ∨ out.res = AMF_UNEXPECTED) ∧
        (layoutResp.2 ≠ NULL → pipelineResp.2 ≠ NULL →
          ∀ (hCommandBuffer : Handle) (groupNum : Nat), hCommandBuffer ≠ NULL →
            (groupFind p.m_descriptorSetGroupMap groupNum).isSome = true →
            (out.pipeline.SetStates hCommandBuffer groupNum).res = AMF_OK ∧
            (out.pipeline.SetStates hCommandBuffer groupNum).calls.head? =
              some (VkCall.vkCmdBindPipeline hCommandBuffer pipelineResp.2)))) := by
  unfold RenderingPipelineVulkan.CreatePipeline at h
  cases hdev : p.m_pVulkanDevice with
  | none =>
    rw [hdev] at h
    cases h
    exact Or.inl ⟨rfl, rfl, Or.inl rfl⟩
  | some dev =>
    rw [hdev] at h
    change (if dev.hDevice = NULL then _ else _) = some out at h
    by_cases h1 : dev.hDevice = NULL
    · rw [if_pos h1] at h; cases h; exact Or.inl ⟨rfl, rfl, Or.inl rfl⟩
    rw [if_neg h1] at h
    by_cases h2 : hRenderPass = NULL
    · rw [if_pos h2] at h; cases h; exact Or.inl ⟨rfl, rfl, Or.inl rfl⟩
    rw [if_neg h2] at h
    by_cases h3 : p.m_hRenderPass ≠ NULL
    · rw [if_pos h3] at h; cases h; exact Or.inl ⟨rfl, rfl, Or.inr rfl⟩
    rw [if_neg h3] at h
    by_cases h4 : p.m_hPipelineLayout ≠ NULL
    · rw [if_pos h4] at h; cases h; exact Or.inl ⟨rfl, rfl, Or.inr rfl⟩
    rw [if_neg h4] at h
    by_cases h5 : p.m_hPipeline ≠ NULL
    · rw [if_pos h5] at h; cases h; exact Or.inl ⟨rfl, rfl, Or.inr rfl⟩
    rw [if_neg h5] at h
    have hlocked : ∀ (q0 : RenderingPipelineVulkan), q0.m_pVulkanDevice = some dev →
        q0.m_hRenderPass = hRenderPass →
        ∀ (ops : List PipelineOp) (q : RenderingPipelineVulkan), q0.runOps ops = some q →
        ∀ (ord2 : MapOrder) (heap2 : DescriptorHeapVulkan) (createInfo2 : PipelineCreateInfo)
          (hRenderPass2 : Handle) (subpass2 : Nat) (layoutResp2 pipelineResp2 : VkResult × Handle),
          hRenderPass2 ≠ NULL →
          q.CreatePipeline ord2 heap2 createInfo2 hRenderPass2 subpass2 layoutResp2 pipelineResp2 =
            some { res := AMF_ALREADY_INITIALIZED, pipeline := q, calls := [],
                   createInfo := createInfo2 } := by
      intro q0 hq0 hrp ops q hrun ord2 heap2 ci2 rp2 sub2 lr2 pr2 hrp2
      have hset0 : q0.m_hRenderPass ≠ NULL := by rw [hrp]; exact h2
      obtain ⟨hqdev, hqrp⟩ := runOps_locked dev h1 ops q0 q hq0 hset0 hrun
      exact CreatePipeline_with_render_pass q ord2 heap2 ci2 rp2 sub2 lr2 pr2 dev hqdev h1 hrp2
        (by rw [hqrp]; exact hset0)
    right
    by_cases h6 : layoutResp.1 ≠ VK_SUCCESS
    · have h' := (if_pos h6).symm.trans h
      simp only [Option.some.injEq] at h'
      subst h'
      exact ⟨by simp, h2, rfl, rfl, by rw [if_neg h6]; exact not_not.mp h5,
        hlocked _ hdev rfl, fun ctx => CreatePipeline_after_Terminate ctx _ dev hdev,
        fun hl => absurd hl h6⟩
    by_cases h7 : pipelineResp.1 ≠ VK_SUCCESS
    · have h' := ((if_neg h6).trans (if_pos h7)).symm.trans h
      simp only [Option.some.injEq] at h'
      subst h'
      exact ⟨by simp, h2, rfl, rfl, by rw [if_pos (not_not.mp h6)],
        hlocked _ hdev rfl, fun ctx => CreatePipeline_after_Terminate ctx _ dev hdev,
        fun _ hp => absurd hp h7⟩
    by_cases h8 : p.m_pDescriptorHeap = false
    · have h' := ((if_neg h6).trans ((if_neg h7).trans (if_pos h8))).symm.trans h
      cases h'
    have h' := ((if_neg h6).trans ((if_neg h7).trans (if_neg h8))).symm.trans h
    simp only [Option.some.injEq] at h'
    subst h'
    refine ⟨by simp, h2, rfl, rfl, by rw [if_pos (not_not.mp h6)],
      hlocked _ hdev rfl, fun ctx => CreatePipeline_after_Terminate ctx _ dev hdev,
      fun _ _ => ⟨?_, fun hl hp cb groupNum hcb hreg => ?_⟩⟩
    · rcases resolveGroups_result heap heap.GetDescriptorCount
        (ord.iterate p.m_descriptorSetGroupMap) with hr | hr | hr
      · exact absurd hr hfail
      · exact Or.inl hr
      · exact Or.inr hr
    · have hkey : groupNum ∈ (resolveGroups heap heap.GetDescriptorCount
          (ord.iterate p.m_descriptorSetGroupMap)).2.map Prod.fst := by
        rw [resolveGroups_keys]
        exact ((ord.perm p.m_descriptorSetGroupMap).map Prod.fst).mem_iff.mpr
          ((groupFind_isSome_iff _ _).mp hreg)
      have hsome := (groupFind_isSome_iff _ _).mpr hkey
      obtain ⟨group, hgroup⟩ := Option.isSome_iff_exists.mp hsome
      rw [Pipeline_SetStates_ok _ cb groupNum group hcb hgroup hp hl]
      exact ⟨rfl, rfl⟩

/-! ### Pipeline: the layouts handed to the pipeline layout -/

/-- Every `RegisterDescriptorSet` call that gets to the group loop appends the
layout of its set to the pipeline's layout list. -/
theorem Pipeline_RegisterDescriptorSet_layouts (p : RenderingPipelineVulkan)
    (heap : DescriptorHeapVulkan) (setIndex setNum : Nat) (pGroups : Option (List Nat))
    (groupCount : Nat) (out : PipelineOut)
    (hr : p.RegisterDescriptorSet heap setIndex setNum pGroups groupCount = some out)
    (hok : out.res = AMF_OK) :
    out.pipeline.m_hDescriptorSetLayouts =
      p.m_hDescriptorSetLayouts ++ [heap.GetDescriptorSetLayout setIndex] ∧
    out.pipeline.toVulkanContext = p.toVulkanContext := by
  unfold RenderingPipelineVulkan.RegisterDescriptorSet at hr
  by_cases hb : p.m_hPipeline ≠ NULL
  · rw [if_pos hb] at hr; cases hr; exact AMF_RESULT.noConfusion hok
  rw [if_neg hb] at hr
  cases pGroups with
  | none => cases hr; exact AMF_RESULT.noConfusion hok
  | some groups =>
    dsimp only at hr
    by_cases hc : ¬ (groupCount > 0)
    · rw [if_pos hc] at hr; cases hr; exact AMF_RESULT.noConfusion hok
    rw [if_neg hc] at hr
    by_cases hh : p.m_pDescriptorHeap = false
    · rw [if_pos hh] at hr; cases hr
    rw [if_neg hh] at hr
    by_cases hl : heap.GetDescriptorSetLayout setIndex = NULL
    · rw [if_pos hl] at hr; cases hr; exact AMF_RESULT.noConfusion hok
    rw [if_neg hl] at hr
    cases hrg : registerGroups setIndex setNum p.m_descriptorSetGroupMap groups groupCount with
    | none => rw [hrg] at hr; cases hr
    | some r => rw [hrg] at hr; cases hr; exact ⟨rfl, rfl⟩

theorem registerAllOk_layouts (calls : List PipelineRegisterCall) :
    ∀ (p p' : RenderingPipelineVulkan), p.registerAllOk calls = some p' →
      p'.m_hDescriptorSetLayouts =
        p.m_hDescriptorSetLayouts ++
          calls.map (fun c => c.heap.GetDescriptorSetLayout c.setIndex) ∧
      p'.toVulkanContext = p.toVulkanContext := by
  induction calls with
  | nil =>
    intro p p' h
    simp only [RenderingPipelineVulkan.registerAllOk, Option.some.injEq] at h
    subst h
    simp
  | cons c cs ih =>
    intro p p' h
    simp only [RenderingPipelineVulkan.registerAllOk] at h
    cases hr : p.RegisterDescriptorSet c.heap c.setIndex c.setNum c.pGroups c.groupCount with
    | none => simp [hr] at h
    | some r =>
      simp only [hr] at h
      by_cases hok : r.res = AMF_OK
      · rw [if_pos hok] at h
        obtain ⟨h1, h2⟩ := Pipeline_RegisterDescriptorSet_layouts p _ _ _ _ _ r hr hok
        obtain ⟨h3, h4⟩ := ih r.pipeline p' h
        exact ⟨by rw [h3, h1]; simp, h4.trans h2⟩
      · rw [if_neg hok] at h; cases h

/-- The first Vulkan call of a `CreatePipeline` that makes one is the creation
of the pipeline layout from the pipeline's layout list. -/
theorem CreatePipeline_first_call (p : RenderingPipelineVulkan) (ord : MapOrder)
    (heap : DescriptorHeapVulkan)
    (createInfo : PipelineCreateInfo) (hRenderPass : Handle) (subpass : Nat)
    (layoutResp pipelineResp : VkResult × Handle) (out : CreatePipelineOut)
    (h : p.CreatePipeline ord heap createInfo hRenderPass subpass layoutResp pipelineResp = some out)
    (hcalls : out.calls ≠ []) :
    ∃ dev, p.m_pVulkanDevice = some dev ∧
      out.calls.head? = some (VkCall.vkCreatePipelineLayout dev.hDevice
        (p.m_hDescriptorSetLayouts.take (p.m_hDescriptorSetLayouts.length % 2 ^ 32))) := by
  unfold RenderingPipelineVulkan.CreatePipeline at h
  cases hdev : p.m_pVulkanDevice with
  | none => rw [hdev] at h; cases h; exact absurd rfl hcalls
  | some dev =>
    rw [hdev] at h
    change (if dev.hDevice = NULL then _ else _) = some out at h
    by_cases h1 : dev.hDevice = NULL
    · rw [if_pos h1] at h; cases h; exact absurd rfl hcalls
    rw [if_neg h1] at h
    by_cases h2 : hRenderPass = NULL
    · rw [if_pos h2] at h; cases h; exact absurd rfl hcalls
    rw [if_neg h2] at h
    by_cases h3 : p.m_hRenderPass ≠ NULL
    · rw [if_pos h3] at h; cases h; exact absurd rfl hcalls
    rw [if_neg h3] at h
    by_cases h4 : p.m_hPipelineLayout ≠ NULL
    · rw [if_pos h4] at h; cases h; exact absurd rfl hcalls
    rw [if_neg h4] at h
    by_cases h5 : p.m_hPipeline ≠ NULL
    · rw [if_pos h5] at h; cases h; exact absurd rfl hcalls
    rw [if_neg h5] at h
    refine ⟨dev, rfl, ?_⟩
    by_cases h6 : layoutResp.1 ≠ VK_SUCCESS
    · have h' := (if_pos h6).symm.trans h
      simp only [Option.some.injEq] at h'
      subst h'
      rfl
    by_cases h7 : pipelineResp.1 ≠ VK_SUCCESS
    · have h' := ((if_neg h6).trans (if_pos h7)).symm.trans h
      simp only [Option.some.injEq] at h'
      subst h'
      rfl
    by_cases h8 : p.m_pDescriptorHeap = false
    · have h' := ((if_neg h6).trans ((if_neg h7).trans (if_pos h8))).symm.trans h
      cases h'
    have h' := ((if_neg h6).trans ((if_neg h7).trans (if_neg h8))).symm.trans h
    simp only [Option.some.injEq] at h'
    subst h'
    rfl

/-- C21 as amended. After a sequence of pipeline registrations that all succeed,
the pipeline's list of descriptor-set layouts holds, after the entries it had
before, one entry per registration call in the order of the calls: the layout
of the set that call registered.  A `CreatePipeline` that gets to its Vulkan
calls creates the pipeline layout from exactly this list. -/
theorem pipeline_layouts_in_call_order (p p' : RenderingPipelineVulkan) (ord : MapOrder)
    (calls : List PipelineRegisterCall) (heap : DescriptorHeapVulkan)
    (createInfo : PipelineCreateInfo) (hRenderPass : Handle) (subpass : Nat)
    (layoutResp pipelineResp : VkResult × Handle) (out : CreatePipelineOut)
    (hreg : p.registerAllOk calls = some p')
    (hlen : p'.m_hDescriptorSetLayouts.length < 2 ^ 32)
    (h : p'.CreatePipeline ord heap createInfo hRenderPass subpass layoutResp pipelineResp =
      some out)
    (hcalls : out.calls ≠ []) :
    p'.m_hDescriptorSetLayouts =
      p.m_hDescriptorSetLayouts ++
        calls.map (fun c => c.heap.GetDescriptorSetLayout c.setIndex) ∧
    ∃ dev, p.m_pVulkanDevice = some dev ∧
      out.calls.head? = some (VkCall.vkCreatePipelineLayout dev.hDevice
        (p.m_hDescriptorSetLayouts ++
          calls.map (fun c => c.heap.GetDescriptorSetLayout c.setIndex))) := by
  obtain ⟨hl, hctx⟩ := registerAllOk_layouts calls p p' hreg
  obtain ⟨dev, hdev, hhead⟩ :=
    CreatePipeline_first_call p' ord heap createInfo hRenderPass subpass layoutResp pipelineResp
      out h hcalls
  refine ⟨hl, dev, ?_, ?_⟩
  · rw [← hdev]
    exact (congrArg VulkanContext.m_pVulkanDevice hctx).symm
  · rw [hhead, Nat.mod_eq_of_lt hlen, List.take_length, hl]

/-! ### Registry: the pool sizes and the layouts -/

/-- The layout list after a defined `RegisterDescriptorSet` call on a registry
without a pool: unchanged when the call has no bindings to register, one longer
otherwise. -/
theorem RegisterDescriptorSet_layouts (h : DescriptorHeapVulkan) (c : RegisterCall)
    (r : RegisterOut) (hpool : h.m_hDescriptorPool = NULL)
    (hr : h.RegisterDescriptorSet c.ppDescriptors c.count c.layoutResp = some r) :
    (c.bindings = [] ∧ r.heap.m_hDescriptorSetLayouts = h.m_hDescriptorSetLayouts) ∨
    r.heap.m_hDescriptorSetLayouts = h.m_hDescriptorSetLayouts ++ [c.layoutResp.2] := by
  unfold DescriptorHeapVulkan.RegisterDescriptorSet at hr
  unfold RegisterCall.bindings
  rw [if_neg (by simp [hpool])] at hr
  cases hpp : c.ppDescriptors with
  | none =>
    simp only [hpp] at hr ⊢
    cases hr
    exact Or.inl ⟨by simp, rfl⟩
  | some ds =>
    simp only [hpp] at hr ⊢
    by_cases hcount : c.count > 0
    · rw [if_neg (not_not.mpr hcount)] at hr
      cases hchk : checkDescriptorPointers ds c.count with
      | none => simp [hchk] at hr
      | some b =>
        cases b with
        | false =>
          simp only [hchk] at hr
          cases hr
          exact Or.inl ⟨by simp, rfl⟩
        | true =>
          simp only [hchk] at hr
          cases hdev : h.m_pVulkanDevice with
          | none => simp [hdev] at hr
          | some dev =>
            simp only [hdev] at hr
            split at hr <;> cases hr <;> exact Or.inr rfl
    · rw [if_pos hcount] at hr
      cases hr
      exact Or.inl ⟨by rw [if_neg (fun hc => hcount hc.1)], rfl⟩

/-- `CreateDescriptors`, the updates and the flush leave the pool sizes and the
layout list as they are. -/
theorem registry_step_frame (ctxTerminate : VulkanContext → AMF_RESULT × VulkanContext)
    (h h1 : DescriptorHeapVulkan) (op : RegistryOp) (hstep : h.step ctxTerminate op = some h1)
    (hreg : ∀ c, op ≠ RegistryOp.register c) (hterm : op ≠ RegistryOp.terminate) :
    h1.m_descriptorPoolSizes = h.m_descriptorPoolSizes ∧
    h1.m_hDescriptorSetLayouts = h.m_hDescriptorSetLayouts := by
  cases op with
  | register c => exact absurd rfl (hreg c)
  | terminate => exact absurd rfl hterm
  | finalize poolResp allocResp =>
    simp only [DescriptorHeapVulkan.step, Option.some.injEq] at hstep
    subst hstep
    unfold DescriptorHeapVulkan.CreateDescriptors
    split
    · exact ⟨rfl, rfl⟩
    · dsimp only
      repeat' split
      all_goals exact ⟨rfl, rfl⟩
  | updateWrite mem d a count w immediate =>
    simp only [DescriptorHeapVulkan.step, Option.some.injEq] at hstep
    subst hstep
    unfold DescriptorHeapVulkan.UpdateDescriptorSetWrite
    repeat' (first | split | dsimp only)
    all_goals exact ⟨rfl, rfl⟩
  | updateBuffer mem d a count p immediate =>
    simp only [DescriptorHeapVulkan.step, Option.some.injEq] at hstep
    subst hstep
    unfold DescriptorHeapVulkan.UpdateDescriptorSetBuffer
      DescriptorHeapVulkan.UpdateDescriptorSetWrite
    repeat' (first | split | dsimp only)
    all_goals exact ⟨rfl, rfl⟩
  | updateImage mem d a count p immediate =>
    simp only [DescriptorHeapVulkan.step, Option.some.injEq] at hstep
    subst hstep
    unfold DescriptorHeapVulkan.UpdateDescriptorSetImage
      DescriptorHeapVulkan.UpdateDescriptorSetWrite
    repeat' (first | split | dsimp only)
    all_goals exact ⟨rfl, rfl⟩
  | flush mem =>
    simp only [DescriptorHeapVulkan.step, Option.some.injEq] at hstep
    subst hstep
    unfold DescriptorHeapVulkan.UpdatePendingDescriptorSets
    repeat' (first | split | dsimp only)
    all_goals exact ⟨rfl, rfl⟩

/-- One call keeps the registry invariant. -/
theorem registry_step_tallied (ctxTerminate : VulkanContext → AMF_RESULT × VulkanContext)
    (h h1 : DescriptorHeapVulkan) (t : RegisterTally) (op : RegistryOp)
    (hinv : h.poolSizesTallied t) (hstep : h.step ctxTerminate op = some h1) :
    h1.poolSizesTallied (t.step h op) := by
  by_cases hreg : ∃ c, op = RegistryOp.register c
  · obtain ⟨c, rfl⟩ := hreg
    simp only [DescriptorHeapVulkan.step, Option.map_eq_some'] at hstep
    obtain ⟨r, hr, rfl⟩ := hstep
    by_cases hpool : h.m_hDescriptorPool = NULL
    · have hps := RegisterDescriptorSet_poolSizes h c r hpool hr
      have hl := RegisterDescriptorSet_layouts h c r hpool hr
      unfold DescriptorHeapVulkan.poolSizesTallied RegisterTally.step
      dsimp only
      rw [if_pos hpool]
      refine ⟨by rw [hps, hinv.1, List.map_append], fun hempty => ?_⟩
      rcases hl with ⟨hb, hl⟩ | hl
      · rw [hps, hb, List.map_nil, List.append_nil]
        exact hinv.2 (hl ▸ hempty)
      · rw [hl] at hempty
        simp at hempty
    · rw [RegisterDescriptorSet_with_pool h c.ppDescriptors c.count c.layoutResp hpool] at hr
      cases hr
      unfold RegisterTally.step
      dsimp only
      rw [if_neg hpool]
      exact hinv
  · by_cases hterm : op = RegistryOp.terminate
    · subst hterm
      simp only [DescriptorHeapVulkan.step, Option.some.injEq] at hstep
      subst hstep
      unfold DescriptorHeapVulkan.Terminate RegisterTally.step
      cases hdev : h.m_pVulkanDevice with
      | none => simpa [hdev] using hinv
      | some dev => exact ⟨rfl, fun _ => rfl⟩
    · have hf := registry_step_frame ctxTerminate h h1 op hstep
        (fun c hc => hreg ⟨c, hc⟩) hterm
      have ht : t.step h op = t := by
        cases op with
        | register c => exact absurd ⟨c, rfl⟩ hreg
        | terminate => exact absurd rfl hterm
        | _ => rfl
      rw [ht]
      unfold DescriptorHeapVulkan.poolSizesTallied
      rw [hf.1, hf.2]
      exact hinv

/-- A sequence of calls keeps the registry invariant. -/
theorem registry_runOps_tallied (ctxTerminate : VulkanContext → AMF_RESULT × VulkanContext)
    (ops : List RegistryOp) :
    ∀ (h h1 : DescriptorHeapVulkan) (t t1 : RegisterTally), h.poolSizesTallied t →
      h.runOps ctxTerminate t ops = some (h1, t1) → h1.poolSizesTallied t1 := by
  induction ops with
  | nil =>
    intro h h1 t t1 hinv hrun
    simp only [DescriptorHeapVulkan.runOps, Option.some.injEq, Prod.mk.injEq] at hrun
    rw [← hrun.1, ← hrun.2]
    exact hinv
  | cons op ops ih =>
    intro h h1 t t1 hinv hrun
    unfold DescriptorHeapVulkan.runOps at hrun
    cases hstep : h.step ctxTerminate op with
    | none => simp [hstep] at hrun
    | some h2 =>
      simp only [hstep] at hrun
      exact ih h2 h1 _ t1 (registry_step_tallied ctxTerminate h h2 t op hinv hstep) hrun

/-- `CreateDescriptors` returns `AMF_UNEXPECTED` only on a registry with pool
sizes and no layout. -/
theorem CreateDescriptors_unexpected (h : DescriptorHeapVulkan) (poolResp : VkResult × Handle)
    (allocResp : VkResult × List Handle)
    (hres : (h.CreateDescriptors poolResp allocResp).res = AMF_UNEXPECTED) :
    h.m_hDescriptorSetLayouts = [] ∧ h.m_descriptorPoolSizes ≠ [] := by
  unfold DescriptorHeapVulkan.CreateDescriptors at hres
  split at hres
  · exact AMF_RESULT.noConfusion hres
  · dsimp only at hres
    split at hres
    · exact AMF_RESULT.noConfusion hres
    · split at hres
      · exact AMF_RESULT.noConfusion hres
      · split at hres
        · exact AMF_RESULT.noConfusion hres
        · split at hres
          · rename_i hl
            split at hres
            · rename_i hp
              exact ⟨List.length_eq_zero.mp hl, fun hc => hp (by rw [hc]; rfl)⟩
            · exact AMF_RESULT.noConfusion hres
          · split at hres
            · exact AMF_RESULT.noConfusion hres
            · split at hres <;> exact AMF_RESULT.noConfusion hres

/-- C27, as amended: in every state reached from a freshly initialised
registry by a sequence of `RegisterDescriptorSet`, `CreateDescriptors`, update,
flush and `Terminate` calls, whatever they return, the pool-size list is
non-empty only if the layout list is non-empty; it has one entry for each
binding passed to the `RegisterDescriptorSet` calls that got past validation
since the registry was last emptied by `Terminate`; and `CreateDescriptors`
does not return `AMF_UNEXPECTED`. -/
theorem registry_pool_sizes_follow_registrations
    (ctxTerminate : VulkanContext → AMF_RESULT × VulkanContext) (dev : AMFVulkanDevice)
    (ops : List RegistryOp) (h : DescriptorHeapVulkan) (t : RegisterTally)
    (hrun : (DescriptorHeapVulkan.init (some dev)).runOps ctxTerminate
      { total := [], sinceTerminate := [] } ops = some (h, t)) :
    (h.m_descriptorPoolSizes ≠ [] → h.m_hDescriptorSetLayouts ≠ []) ∧
    h.m_descriptorPoolSizes = t.sinceTerminate.map poolSizeOf ∧
    h.m_descriptorPoolSizes.length = t.sinceTerminate.length ∧
    ∀ (poolResp : VkResult × Handle) (allocResp : VkResult × List Handle),
      (h.CreateDescriptors poolResp allocResp).res ≠ AMF_UNEXPECTED := by
  have hinv := registry_runOps_tallied ctxTerminate ops (DescriptorHeapVulkan.init (some dev)) h
    { total := [], sinceTerminate := [] } t ⟨rfl, fun _ => rfl⟩ hrun
  refine ⟨fun hp hl => hp (hinv.2 hl), hinv.1, by rw [hinv.1, List.length_map], ?_⟩
  intro poolResp allocResp hres
  have hu := CreateDescriptors_unexpected h poolResp allocResp hres
  exact hu.2 (hinv.2 hu.1)

/-! ### CreateBufferForDescriptor -/

/-- C24. `CreateBufferForDescriptor` does not leak the buffer it creates.  A
call rejected by argument validation (null descriptor, descriptor count 0, a
descriptor that is not a uniform buffer, binding size 0, or a binding range
that the range check refuses) makes no call at all, so no buffer is created,
and leaves the presenter, with the registry's pending updates, and the buffer
as they were.  In a call that passes validation and whose buffer was created,
when the descriptor update fails the buffer is destroyed as the last effect of
the call, after the creation, and the call returns the update's error. -/
theorem CreateBufferForDescriptor_destroys_buffer_on_failed_update {W : Type} (env : InitEnv W)
    (s : VideoPresenterVulkan) (w : W) (pDescriptor : Option DescriptorVulkan)
    (pData bufferSize bindingOffset bindingSize arrayIndex : Nat) (buffer : AMFVulkanBuffer)
    (hok : env.AMFSucceeded AMF_OK = true) :
    ((pDescriptor = none ∨
      (∃ d : DescriptorVulkan, pDescriptor = some d ∧
        (d.layoutBinding.descriptorCount = 0 ∨
         (d.layoutBinding.descriptorType ≠ VK_DESCRIPTOR_TYPE_UNIFORM_BUFFER ∧
          d.layoutBinding.descriptorType ≠ VK_DESCRIPTOR_TYPE_UNIFORM_BUFFER_DYNAMIC))) ∨
      bindingSize = 0 ∨ ¬ ((bindingSize + bindingOffset) % 2 ^ 64 ≤ bufferSize)) →
      ((s.CreateBufferForDescriptor env w pDescriptor pData bufferSize bindingOffset bindingSize
          arrayIndex buffer).res = AMF_INVALID_ARG ∨
       (s.CreateBufferForDescriptor env w pDescriptor pData bufferSize bindingOffset bindingSize
          arrayIndex buffer).res = AMF_OUT_OF_RANGE) ∧
      (s.CreateBufferForDescriptor env w pDescriptor pData bufferSize bindingOffset bindingSize
          arrayIndex buffer).trace = [] ∧
      (s.CreateBufferForDescriptor env w pDescriptor pData bufferSize bindingOffset bindingSize
          arrayIndex buffer).st = s ∧
      (s.CreateBufferForDescriptor env w pDescriptor pData bufferSize bindingOffset bindingSize
          arrayIndex buffer).buffer = buffer ∧
      (s.CreateBufferForDescriptor env w pDescriptor pData bufferSize bindingOffset bindingSize
          arrayIndex buffer).w = w) ∧
    (∀ d : DescriptorVulkan, pDescriptor = some d →
      0 < d.layoutBinding.descriptorCount →
      (d.layoutBinding.descriptorType = VK_DESCRIPTOR_TYPE_UNIFORM_BUFFER ∨
       d.layoutBinding.descriptorType = VK_DESCRIPTOR_TYPE_UNIFORM_BUFFER_DYNAMIC) →
      0 < bindingSize → (bindingSize + bindingOffset) % 2 ^ 64 ≤ bufferSize →
      ∀ (m : AMF_RESULT × AMFVulkanBuffer × W),
        env.makeBuffer w pData bufferSize VK_BUFFER_USAGE_UNIFORM_BUFFER_BIT
          (VK_MEMORY_PROPERTY_HOST_VISIBLE_BIT ||| VK_MEMORY_PROPERTY_HOST_COHERENT_BIT)
          buffer = m →
        env.AMFSucceeded m.1 = true →
      ∀ (r : HeapOut),
        s.m_descriptorHeap.UpdateDescriptorSetBuffer
          { env.staleStack with
            buffers := fun _ => { buffer := m.2.1.hBuffer, offset := bindingOffset,
                                  range := bindingSize } }
          (some d) arrayIndex 1 0 false = r →
        env.AMFSucceeded r.res = false →
        (s.CreateBufferForDescriptor env w pDescriptor pData bufferSize bindingOffset bindingSize
          arrayIndex buffer) =
          { res := r.res, st := { s with m_descriptorHeap := r.heap },
            buffer := (env.destroyBuffer m.2.2 m.2.1).2.1,
            w := (env.destroyBuffer m.2.2 m.2.1).2.2,
            trace := [Event.makeBuffer bufferSize VK_BUFFER_USAGE_UNIFORM_BUFFER_BIT
                (VK_MEMORY_PROPERTY_HOST_VISIBLE_BIT ||| VK_MEMORY_PROPERTY_HOST_COHERENT_BIT)
                m.1 m.2.1] ++ r.calls.map Event.vk ++
              [Event.destroyBuffer m.2.1 (env.destroyBuffer m.2.2 m.2.1).1] }) := by
  constructor
  · intro hrej
    unfold VideoPresenterVulkan.CreateBufferForDescriptor
    cases pDescriptor with
    | none => exact ⟨Or.inl rfl, rfl, rfl, rfl, rfl⟩
    | some d =>
      dsimp only
      by_cases h1 : d.layoutBinding.descriptorCount > 0
      · rw [if_neg (not_not.mpr h1)]
        by_cases h2 : d.layoutBinding.descriptorType = VK_DESCRIPTOR_TYPE_UNIFORM_BUFFER ∨
            d.layoutBinding.descriptorType = VK_DESCRIPTOR_TYPE_UNIFORM_BUFFER_DYNAMIC
        · rw [if_neg (not_not.mpr h2)]
          by_cases h3 : bindingSize > 0
          · rw [if_neg (not_not.mpr h3)]
            by_cases h4 : (bindingSize + bindingOffset) % 2 ^ 64 ≤ bufferSize
            · exfalso
              rcases hrej with hn | ⟨d', hd', hc | ht⟩ | hz | hr
              · cases hn
              · cases hd'
                omega
              · cases hd'
                rcases h2 with h2 | h2
                · exact ht.1 h2
                · exact ht.2 h2
              · omega
              · exact hr h4
            · rw [if_pos h4]
              exact ⟨Or.inr rfl, rfl, rfl, rfl, rfl⟩
          · rw [if_pos h3]
            exact ⟨Or.inl rfl, rfl, rfl, rfl, rfl⟩
        · rw [if_pos h2]
          exact ⟨Or.inl rfl, rfl, rfl, rfl, rfl⟩
      · rw [if_pos h1]
        exact ⟨Or.inl rfl, rfl, rfl, rfl, rfl⟩
  · intro d hd h1 h2 h3 h4 m hm hmok r hr hrfail
    subst hd
    have hne : r.res ≠ AMF_OK := fun hc => by
      rw [hc, hok] at hrfail
      exact Bool.noConfusion hrfail
    unfold VideoPresenterVulkan.CreateBufferForDescriptor
    dsimp only
    rw [if_neg (not_not.mpr h1), if_neg (not_not.mpr h2), if_neg (not_not.mpr h3),
      if_neg (not_not.mpr h4), hm, hr]
    rw [if_neg (by rw [hmok]; exact Bool.noConfusion), if_pos hrfail, if_pos hne]

/-- C30, the code at the failing input. With a buffer of 16 bytes, binding
offset 2 and binding size `2 ^ 64 - 1`, all three `amf_size` values, the sum
wraps to 1 and the range check passes although offset plus size exceeds the
buffer size: the call creates the 16-byte buffer, queues a descriptor write
whose range is `2 ^ 64 - 1` at offset 2, and returns `AMF_OK`. -/
theorem CreateBufferForDescriptor_range_check_wraps :
    16 < 2 ^ 64 ∧ 2 < 2 ^ 64 ∧ 2 ^ 64 - 1 < 2 ^ 64 ∧ ¬ (2 + (2 ^ 64 - 1) ≤ 16) ∧
    (exPresenterNoBuffers.CreateBufferForDescriptor exInitEnv exWorld
      (some exViewProjectionDescriptor) 70 16 2 (2 ^ 64 - 1) 0
      exPresenterNoBuffers.m_viewProjectionBuffer).res = AMF_OK ∧
    (exPresenterNoBuffers.CreateBufferForDescriptor exInitEnv exWorld
      (some exViewProjectionDescriptor) 70 16 2 (2 ^ 64 - 1) 0
      exPresenterNoBuffers.m_viewProjectionBuffer).trace =
      [Event.makeBuffer 16 VK_BUFFER_USAGE_UNIFORM_BUFFER_BIT 6 AMF_OK
        { hBuffer := 71, hMemory := 72, iSize := 16 }] ∧
    (exPresenterNoBuffers.CreateBufferForDescriptor exInitEnv exWorld
      (some exViewProjectionDescriptor) 70 16 2 (2 ^ 64 - 1) 0
      exPresenterNoBuffers.m_viewProjectionBuffer).st.m_descriptorHeap.m_descriptorBufferInfoHeap =
      [[{ buffer := 71, offset := 2, range := 18446744073709551615 }]] ∧
    ((exPresenterNoBuffers.CreateBufferForDescriptor exInitEnv exWorld
      (some exViewProjectionDescriptor) 70 16 2 (2 ^ 64 - 1) 0
      exPresenterNoBuffers.m_viewProjectionBuffer).st.m_descriptorHeap.m_pendingDescriptorUpdates.map
        (fun x => x.dstSet)) = [11] :=
  ⟨by decide, by decide, by decide, by decide, rfl, rfl, rfl, rfl⟩

/-! ### The render step -/

/-- The first statement of a sequence decides: a rejected result is the result
of the sequence; after an accepted one the rest of the sequence runs on the
state left behind. -/
theorem runSteps_cons_inv {W : Type} (env : Env W) (f : Step W) (fs : List (Step W))
    (s : VideoPresenterVulkan) (w : W) (out : PresenterOut W)
    (h : runSteps env (f :: fs) s w = some out) :
    ∃ r, f s w = some r ∧
      ((env.AMFSucceeded r.res = false ∧ out = r) ∨
       (env.AMFSucceeded r.res = true ∧ ∃ r', runSteps env fs r.st r.w = some r' ∧
          out = { r' with trace := r.trace ++ r'.trace })) := by
  unfold runSteps at h
  cases hf : f s w with
  | none => simp [hf] at h
  | some r =>
    simp only [hf] at h
    refine ⟨r, rfl, ?_⟩
    by_cases hacc : env.AMFSucceeded r.res = false
    · rw [if_pos hacc] at h
      exact Or.inl ⟨hacc, (Option.some.inj h).symm⟩
    · rw [if_neg hacc] at h
      cases hrest : runSteps env fs r.st r.w with
      | none => simp [hrest] at h
      | some r' =>
        simp only [hrest] at h
        exact Or.inr ⟨by simpa using hacc, r', rfl, (Option.some.inj h).symm⟩

/-- A sequence of statements stops at the first rejected result: when the
statements `pre` all pass and the next statement `f` fails, the sequence returns
the outcome of `f`, with the calls made so far, whatever follows `f`. -/
theorem runSteps_stops_at_failure {W : Type} (env : Env W) (pre : List (Step W)) :
    ∀ (f : Step W) (post : List (Step W)) (s : VideoPresenterVulkan) (w : W)
      (r0 r : PresenterOut W),
      runSteps env pre s w = some r0 → env.AMFSucceeded r0.res = true →
      f r0.st r0.w = some r → env.AMFSucceeded r.res = false →
      runSteps env (pre ++ f :: post) s w = some { r with trace := r0.trace ++ r.trace } := by
  induction pre with
  | nil =>
    intro f post s w r0 r h0 _ hf hrej
    simp only [runSteps, Option.some.injEq] at h0
    subst h0
    simp only [List.nil_append, runSteps, hf, hrej, if_true, List.nil_append]
  | cons g pre ih =>
    intro f post s w r0 r h0 hacc0 hf hrej
    obtain ⟨rg, hg, hcase⟩ := runSteps_cons_inv env g pre s w r0 h0
    rcases hcase with ⟨hgrej, h0eq⟩ | ⟨hgacc, r', hrest, h0eq⟩
    · rw [h0eq, hgrej] at hacc0
      exact Bool.noConfusion hacc0
    · subst h0eq
      have := ih f post rg.st rg.w r' r hrest hacc0 hf hrej
      have hstep : runSteps env (g :: (pre ++ f :: post)) s w =
          some { r with trace := rg.trace ++ (r'.trace ++ r.trace) } := by
        rw [runSteps]
        simp only [hg, hgacc, this]
        simp
      rw [List.cons_append, hstep, List.append_assoc]

/-- A texture update that the caller accepts has queued one write for the
sampler descriptor behind the writes already pending, and made no call. -/
theorem UpdateTextureDescriptorSet_accepted {W : Type} (env : Env W) (s : VideoPresenterVulkan)
    (w : W) (surface : Nat) (r : PresenterOut W)
    (hrej : ∀ x, x ≠ AMF_OK → env.AMFSucceeded x = false)
    (hr : s.UpdateTextureDescriptorSet env w (some surface) = some r)
    (hacc : env.AMFSucceeded r.res = true) :
    ∃ (q : DescriptorHeapVulkan) (texWrite : VkWriteDescriptorSet),
      r = { res := AMF_OK, st := { s with m_descriptorHeap := q }, w := w, trace := [] } ∧
      q.m_pVulkanDevice = s.m_descriptorHeap.m_pVulkanDevice ∧
      q.m_pendingDescriptorUpdates = s.m_descriptorHeap.m_pendingDescriptorUpdates ++ [texWrite] ∧
      texWrite.dstSet = s.m_descriptorHeap.GetDescriptorSet s.m_samplerDescriptor.setIndex ∧
      texWrite.dstBinding = s.m_samplerDescriptor.layoutBinding.binding ∧
      texWrite.dstArrayElement = 0 ∧ texWrite.descriptorCount = 1 := by
  have hne : ∀ x, env.AMFSucceeded x = true → x = AMF_OK := by
    intro x hx
    by_contra hc
    rw [hrej x hc] at hx
    exact Bool.noConfusion hx
  have hbad : ∀ x, x ≠ AMF_OK → (r.res = x) → False := fun x hx hrx => hx (hrx ▸ hne _ hacc)
  have hok : env.AMFSucceeded AMF_OK = true := by
    have := hne _ hacc
    rw [this] at hacc
    exact hacc
  unfold VideoPresenterVulkan.UpdateTextureDescriptorSet
    VideoPresenterVulkan.UpdateTextureDescriptorSetWith at hr
  rw [if_neg (by simp)] at hr
  by_cases hs : s.m_hSampler = NULL
  · rw [if_pos hs] at hr
    cases hr
    exact (hbad AMF_INVALID_ARG (fun h => AMF_RESULT.noConfusion h) rfl).elim
  · rw [if_neg hs] at hr
    dsimp only at hr
    cases hp : env.surfaceGetPackedPlane w surface with
    | none => simp [hp] at hr
    | some plane =>
      simp only [hp] at hr
      cases hv : env.planeGetNative w plane with
      | none =>
        simp only [hv] at hr
        cases hr
        exact (hbad AMF_INVALID_ARG (fun h => AMF_RESULT.noConfusion h) rfl).elim
      | some view =>
        simp only [hv] at hr
        by_cases hview : view.hView = NULL
        · rw [if_pos hview] at hr
          cases hr
          exact (hbad AMF_INVALID_ARG (fun h => AMF_RESULT.noConfusion h) rfl).elim
        · rw [if_neg hview] at hr
          by_cases hgood : ∃ dev, s.m_descriptorHeap.m_pVulkanDevice = some dev ∧
              dev.hDevice ≠ NULL ∧
              s.m_descriptorHeap.GetDescriptorSet s.m_samplerDescriptor.setIndex ≠ NULL ∧ 0 < 1
          · obtain ⟨dev, hdev, hnull, hset, hc⟩ := hgood
            rw [UpdateDescriptorSetImage_ok s.m_descriptorHeap _ s.m_samplerDescriptor 0 1 0 false
              dev hdev hnull hset hc] at hr
            simp only [Bool.false_eq_true, if_false] at hr
            rw [if_neg (by rw [hok]; exact Bool.noConfusion)] at hr
            exact ⟨_, _, (Option.some.inj hr).symm, rfl, rfl, rfl, rfl, rfl, rfl⟩
          · have hr2 := UpdateDescriptorSetImage_rejected s.m_descriptorHeap
              { env.staleStack with
                images := fun _ => { sampler := s.m_hSampler, imageView := view.hView,
                                     imageLayout := VK_IMAGE_LAYOUT_SHADER_READ_ONLY_OPTIMAL } }
              s.m_samplerDescriptor 0 1 0 false hgood
            rw [if_pos (hrej _ hr2.1)] at hr
            cases hr
            exact (hr2.1 (hne _ hacc)).elim

/-- The texture update makes no call: the write is queued. -/
theorem UpdateTextureDescriptorSet_trace {W : Type} (env : Env W) (s : VideoPresenterVulkan)
    (w : W) (p : Option Nat) (r : PresenterOut W)
    (hr : s.UpdateTextureDescriptorSet env w p = some r) : r.trace = [] := by
  have hcalls : ∀ (mem : CallerMem),
      (s.m_descriptorHeap.UpdateDescriptorSetImage mem (some s.m_samplerDescriptor)
        0 1 0 false).calls = [] := by
    intro mem
    by_cases hgood : ∃ dev, s.m_descriptorHeap.m_pVulkanDevice = some dev ∧
        dev.hDevice ≠ NULL ∧
        s.m_descriptorHeap.GetDescriptorSet s.m_samplerDescriptor.setIndex ≠ NULL ∧ 0 < 1
    · obtain ⟨dev, hdev, hnull, hset, hc⟩ := hgood
      rw [UpdateDescriptorSetImage_ok s.m_descriptorHeap mem s.m_samplerDescriptor 0 1 0 false
        dev hdev hnull hset hc]
      rfl
    · exact (UpdateDescriptorSetImage_rejected s.m_descriptorHeap mem s.m_samplerDescriptor
        0 1 0 false hgood).2.1
  unfold VideoPresenterVulkan.UpdateTextureDescriptorSet
    VideoPresenterVulkan.UpdateTextureDescriptorSetWith at hr
  split at hr
  · cases hr; rfl
  · split at hr
    · cases hr; rfl
    · split at hr
      · cases hr; rfl
      · split at hr
        · cases hr
        · split at hr
          · cases hr; rfl
          · split at hr
            · cases hr; rfl
            · dsimp only at hr
              split at hr <;> cases hr <;> simp only [hcalls, List.map_nil]

/-- A flush records no draw. -/
theorem UpdatePendingDescriptorSets_no_draw (h : DescriptorHeapVulkan) (mem : CallerMem) :
    ((h.UpdatePendingDescriptorSets mem).calls.map Event.vk).any Event.isDraw = false := by
  unfold DescriptorHeapVulkan.UpdatePendingDescriptorSets
  split
  · rfl
  · split
    · rfl
    · split <;> simp [Event.isDraw]

/-- A flush with a non-empty queue that returns `AMF_OK` has passed the queue to
the driver in one call and emptied it. -/
theorem UpdatePendingDescriptorSets_returns_ok (h : DescriptorHeapVulkan) (mem : CallerMem)
    (hres : (h.UpdatePendingDescriptorSets mem).res = AMF_OK)
    (hp : h.m_pendingDescriptorUpdates ≠ []) :
    ∃ dev, h.m_pVulkanDevice = some dev ∧ dev.hDevice ≠ NULL ∧
      h.UpdatePendingDescriptorSets mem =
        { res := AMF_OK,
          heap := { h with m_pendingDescriptorUpdates := [], m_descriptorBufferInfoHeap := [],
                           m_descriptorImageInfoHeap := [] },
          calls := [VkCall.vkUpdateDescriptorSets dev.hDevice
            (h.m_pendingDescriptorUpdates.map (resolveWrite h mem))] } := by
  unfold DescriptorHeapVulkan.UpdatePendingDescriptorSets at hres ⊢
  cases hdev : h.m_pVulkanDevice with
  | none => simp [hdev] at hres
  | some dev =>
    simp only [hdev] at hres ⊢
    by_cases hnull : dev.hDevice = NULL
    · simp [hnull] at hres
    · refine ⟨dev, rfl, hnull, ?_⟩
      rw [if_neg hnull, if_neg (by simpa using hp)]

/-- `StartRendering` records no draw. -/
theorem StartRendering_no_draw {W : Type} (env : Env W) (s : VideoPresenterVulkan) (w : W)
    (b : Option Nat) : (s.StartRendering env w b).trace.any Event.isDraw = false := by
  unfold VideoPresenterVulkan.StartRendering
  split
  · rfl
  · dsimp only
    split
    · rfl
    · split
      · rfl
      · split
        · rfl
        · split <;> simp [Event.isDraw]

/-- A `StartRendering` that returns `AMF_OK` has started the recording and
recorded viewport, scissor and the begin of the render pass, in this order. -/
theorem StartRendering_accepted {W : Type} (env : Env W) (s : VideoPresenterVulkan) (w : W)
    (buffer : Nat) (hrej : ∀ x, x ≠ AMF_OK → env.AMFSucceeded x = false)
    (hacc : env.AMFSucceeded (s.StartRendering env w (some buffer)).res = true) :
    s.StartRendering env w (some buffer) =
      { res := AMF_OK, st := s, w := (env.cmdStartRecording w).2,
        trace := [Event.cmdStartRecording AMF_OK,
          Event.vk (VkCall.vkCmdSetViewport (env.cmdGetBuffer (env.cmdStartRecording w).2)
            (env.renderTarget w buffer).iWidth (env.renderTarget w buffer).iHeight),
          Event.vk (VkCall.vkCmdSetScissor (env.cmdGetBuffer (env.cmdStartRecording w).2)
            (env.renderTarget w buffer).iWidth (env.renderTarget w buffer).iHeight),
          Event.vk (VkCall.vkCmdBeginRenderPass (env.cmdGetBuffer (env.cmdStartRecording w).2)
            (env.swapGetRenderPass (env.cmdStartRecording w).2)
            (env.renderTarget w buffer).m_hFrameBuffer
            (env.renderTarget w buffer).iWidth (env.renderTarget w buffer).iHeight)] } := by
  have hne : ∀ x, env.AMFSucceeded x = true → x = AMF_OK := by
    intro x hx
    by_contra hc
    rw [hrej x hc] at hx
    exact Bool.noConfusion hx
  have hbad : ∀ x, x ≠ AMF_OK → env.AMFSucceeded x = true → False := fun x hx hax => hx (hne x hax)
  unfold VideoPresenterVulkan.StartRendering at hacc ⊢
  dsimp only at hacc ⊢
  by_cases h1 : (env.renderTarget w buffer).m_hFrameBuffer = NULL
  · rw [if_pos h1] at hacc
    exact (hbad _ (fun h => AMF_RESULT.noConfusion h) hacc).elim
  · rw [if_neg h1] at hacc ⊢
    by_cases h2 : env.cmdGetBuffer w = NULL
    · rw [if_pos h2] at hacc
      exact (hbad _ (fun h => AMF_RESULT.noConfusion h) hacc).elim
    · rw [if_neg h2] at hacc ⊢
      by_cases h3 : env.swapGetRenderPass w = NULL
      · rw [if_pos h3] at hacc
        exact (hbad _ (fun h => AMF_RESULT.noConfusion h) hacc).elim
      · rw [if_neg h3] at hacc ⊢
        by_cases h4 : env.AMFSucceeded (env.cmdStartRecording w).1 = false
        · rw [if_pos h4] at hacc
          rw [h4] at hacc
          exact Bool.noConfusion hacc
        · rw [if_neg h4]
          rw [hne (env.cmdStartRecording w).1 (by simpa using h4)]

/-- The pipeline's `SetStates` records no draw. -/
theorem Pipeline_SetStates_no_draw (p : RenderingPipelineVulkan) (cb : Handle) (g : Nat) :
    ((p.SetStates cb g).calls.map Event.vk).any Event.isDraw = false := by
  unfold RenderingPipelineVulkan.SetStates
  split
  · rfl
  · split
    · rfl
    · split
      · rfl
      · split
        · rfl
        · simp [Event.isDraw]

/-- `SetStates` records no draw. -/
theorem SetStates_no_draw {W : Type} (env : Env W) (s : VideoPresenterVulkan) (w : W)
    (g : Nat) : (s.SetStates env w g).trace.any Event.isDraw = false := by
  have hp := Pipeline_SetStates_no_draw s.m_pipeline (env.cmdGetBuffer w) g
  unfold VideoPresenterVulkan.SetStates
  split
  · rfl
  · split
    · rfl
    · dsimp only
      split
      · exact hp
      · rw [List.any_append, hp]
        rfl

/-- A `SetStates` that returns `AMF_OK` has bound the pipeline, the descriptor
sets of the group and the vertex buffer, in this order, and changed nothing. -/
theorem SetStates_accepted {W : Type} (env : Env W) (s : VideoPresenterVulkan) (w : W)
    (g : Nat) (hrej : ∀ x, x ≠ AMF_OK → env.AMFSucceeded x = false)
    (hacc : env.AMFSucceeded (s.SetStates env w g).res = true) :
    ∃ group, groupFind s.m_pipeline.m_descriptorSetGroupMap g = some group ∧
      s.SetStates env w g =
        { res := AMF_OK, st := s, w := w,
          trace := [Event.vk (VkCall.vkCmdBindPipeline (env.cmdGetBuffer w) s.m_pipeline.m_hPipeline),
            Event.vk (VkCall.vkCmdBindDescriptorSets (env.cmdGetBuffer w)
              s.m_pipeline.m_hPipelineLayout 0
              (group.descriptorSetHandles.take (group.descriptorSetHandles.length % 2 ^ 32))),
            Event.vk (VkCall.vkCmdBindVertexBuffers (env.cmdGetBuffer w)
              [s.m_VertexBuffer.hBuffer])] } := by
  have hne : ∀ x, env.AMFSucceeded x = true → x = AMF_OK := by
    intro x hx
    by_contra hc
    rw [hrej x hc] at hx
    exact Bool.noConfusion hx
  have hbad : ∀ x, x ≠ AMF_OK → env.AMFSucceeded x = true → False := fun x hx hax => hx (hne x hax)
  have hok : env.AMFSucceeded AMF_OK = true := by
    have h := hne _ hacc
    rw [h] at hacc
    exact hacc
  unfold VideoPresenterVulkan.SetStates at hacc ⊢
  by_cases h1 : env.cmdGetBuffer w = NULL
  · rw [if_pos h1] at hacc
    exact (hbad _ (fun h => AMF_RESULT.noConfusion h) hacc).elim
  · rw [if_neg h1] at hacc ⊢
    by_cases h2 : s.m_VertexBuffer.hBuffer = NULL
    · rw [if_pos h2] at hacc
      exact (hbad _ (fun h => AMF_RESULT.noConfusion h) hacc).elim
    · rw [if_neg h2] at hacc ⊢
      dsimp only at hacc ⊢
      have hres : (s.m_pipeline.SetStates (env.cmdGetBuffer w) g).res = AMF_OK := by
        by_cases h3 : env.AMFSucceeded (s.m_pipeline.SetStates (env.cmdGetBuffer w) g).res = false
        · rw [if_pos h3] at hacc
          rw [h3] at hacc
          exact Bool.noConfusion hacc
        · exact hne _ (by simpa using h3)
      rw [if_neg (by rw [hres, hok]; exact Bool.noConfusion)]
      unfold RenderingPipelineVulkan.SetStates at hres ⊢
      rw [if_neg h1] at hres ⊢
      cases hg : groupFind s.m_pipeline.m_descriptorSetGroupMap g with
      | none => simp [hg] at hres
      | some group =>
        simp only [hg] at hres ⊢
        by_cases h5 : s.m_pipeline.m_hPipeline = NULL
        · simp [h5] at hres
        · by_cases h6 : s.m_pipeline.m_hPipelineLayout = NULL
          · simp [h5, h6] at hres
          · exact ⟨group, rfl, by simp [h5, h6]⟩

/-- A `DrawFrame` that records the draw has transitioned the source surface,
synchronised it and recorded the draw, in this order, and returns `AMF_OK`. -/
theorem DrawFrame_draw {W : Type} (env : Env W) (s : VideoPresenterVulkan) (w : W)
    (p : Option Nat) (hrej : ∀ x, x ≠ AMF_OK → env.AMFSucceeded x = false)
    (hdraw : (s.DrawFrame env w p).trace.any Event.isDraw = true) :
    ∃ src, p = some src ∧
      s.DrawFrame env w p =
        { res := AMF_OK, st := s,
          w := (env.cmdSyncResource
            (env.transitionSurface w src VK_IMAGE_LAYOUT_SHADER_READ_ONLY_OPTIMAL).2
            (SyncRef.vulkanSurface src) VK_PIPELINE_STAGE_COLOR_ATTACHMENT_OUTPUT_BIT).2,
          trace := [Event.transitionSurface src VK_IMAGE_LAYOUT_SHADER_READ_ONLY_OPTIMAL AMF_OK,
            Event.cmdSyncResource (SyncRef.vulkanSurface src)
              VK_PIPELINE_STAGE_COLOR_ATTACHMENT_OUTPUT_BIT AMF_OK,
            Event.vk (VkCall.vkCmdDraw (env.cmdGetBuffer (env.cmdSyncResource
                (env.transitionSurface w src VK_IMAGE_LAYOUT_SHADER_READ_ONLY_OPTIMAL).2
                (SyncRef.vulkanSurface src) VK_PIPELINE_STAGE_COLOR_ATTACHMENT_OUTPUT_BIT).2)
              ((s.m_VertexBuffer.iSize / sizeofVertex) % 2 ^ 32))] } := by
  have hne : ∀ x, env.AMFSucceeded x = true → x = AMF_OK := by
    intro x hx
    by_contra hc
    rw [hrej x hc] at hx
    exact Bool.noConfusion hx
  unfold VideoPresenterVulkan.DrawFrame at hdraw ⊢
  cases p with
  | none => simp at hdraw
  | some src =>
    refine ⟨src, rfl, ?_⟩
    dsimp only at hdraw ⊢
    by_cases h1 : env.AMFSucceeded
        (env.transitionSurface w src VK_IMAGE_LAYOUT_SHADER_READ_ONLY_OPTIMAL).1 = false
    · rw [if_pos h1] at hdraw
      simp [Event.isDraw] at hdraw
    · rw [if_neg h1] at hdraw ⊢
      by_cases h2 : env.AMFSucceeded (env.cmdSyncResource
          (env.transitionSurface w src VK_IMAGE_LAYOUT_SHADER_READ_ONLY_OPTIMAL).2
          (SyncRef.vulkanSurface src) VK_PIPELINE_STAGE_COLOR_ATTACHMENT_OUTPUT_BIT).1 = false
      · rw [if_pos h2] at hdraw
        simp [Event.isDraw] at hdraw
      · rw [if_neg h2]
        rw [hne (env.transitionSurface w src VK_IMAGE_LAYOUT_SHADER_READ_ONLY_OPTIMAL).1
          (by simpa using h1)]
        rw [hne (env.cmdSyncResource
          (env.transitionSurface w src VK_IMAGE_LAYOUT_SHADER_READ_ONLY_OPTIMAL).2
          (SyncRef.vulkanSurface src) VK_PIPELINE_STAGE_COLOR_ATTACHMENT_OUTPUT_BIT).1
          (by simpa using h2)]

/-- What `StopRendering` does.  Without a command buffer or without a queue it
returns `AMF_NOT_INITIALIZED` and makes no call; otherwise it ends the render
pass, submits the command buffer and returns the result of the submission. -/
theorem StopRendering_cases {W : Type} (env : Env W) (s : VideoPresenterVulkan) (w : W)
    (hrej : ∀ x, x ≠ AMF_OK → env.AMFSucceeded x = false) :
    ((env.cmdGetBuffer w = NULL ∨ env.swapGetQueue w = NULL) →
      s.StopRendering env w = { res := AMF_NOT_INITIALIZED, st := s, w := w, trace := [] }) ∧
    (env.cmdGetBuffer w ≠ NULL → env.swapGetQueue w ≠ NULL →
      s.StopRendering env w =
        { res := (env.cmdExecute w (env.swapGetQueue w)).1, st := s,
          w := (env.cmdExecute w (env.swapGetQueue w)).2,
          trace := [Event.vk (VkCall.vkCmdEndRenderPass (env.cmdGetBuffer w)),
            Event.cmdExecute (env.swapGetQueue w) (env.cmdExecute w (env.swapGetQueue w)).1] }) := by
  constructor
  · intro hnull
    unfold VideoPresenterVulkan.StopRendering
    by_cases hcb : env.cmdGetBuffer w = NULL
    · rw [if_pos hcb]
    · rw [if_neg hcb]
      rcases hnull with h | h
      · exact absurd h hcb
      · rw [if_pos h]
  · intro hcb hq
    unfold VideoPresenterVulkan.StopRendering
    rw [if_neg hcb, if_neg hq]
    dsimp only
    by_cases hx : env.AMFSucceeded (env.cmdExecute w (env.swapGetQueue w)).1 = false
    · rw [if_pos hx]
    · rw [if_neg hx]
      have hne : (env.cmdExecute w (env.swapGetQueue w)).1 = AMF_OK := by
        by_contra hc
        exact hx (hrej _ hc)
      rw [hne]

/-- The last two statements of `BitBltRender`, the overlay hook and
`StopRendering`, leave the presenter as it is.  Without a command buffer or a
queue they make no call and return `AMF_NOT_INITIALIZED`; otherwise they record
the end of the render pass and the submission, and return the result of the
submission. -/
theorem BitBltRender_tail {W : Type} (env : Env W) (surface : Nat) (s : VideoPresenterVulkan)
    (w : W) (o : PresenterOut W)
    (hrej : ∀ x, x ≠ AMF_OK → env.AMFSucceeded x = false)
    (hok : env.AMFSucceeded AMF_OK = true)
    (h : runSteps env
      [fun s w => some { res := s.DrawOverlay (some surface), st := s, w := w, trace := [] },
       fun s w => some (s.StopRendering env w)] s w = some o) :
    o.st = s ∧
    ((env.cmdGetBuffer w = NULL ∨ env.swapGetQueue w = NULL) →
      o.trace = [] ∧ o.res = AMF_NOT_INITIALIZED ∧ o.w = w) ∧
    (env.cmdGetBuffer w ≠ NULL → env.swapGetQueue w ≠ NULL →
      o.trace = [Event.vk (VkCall.vkCmdEndRenderPass (env.cmdGetBuffer w)),
        Event.cmdExecute (env.swapGetQueue w) (env.cmdExecute w (env.swapGetQueue w)).1] ∧
      o.res = (env.cmdExecute w (env.swapGetQueue w)).1 ∧
      o.w = (env.cmdExecute w (env.swapGetQueue w)).2) := by
  have hne : ∀ x, env.AMFSucceeded x = true → x = AMF_OK := by
    intro x hx
    by_contra hc
    rw [hrej x hc] at hx
    exact Bool.noConfusion hx
  obtain ⟨r9, h9, hc9⟩ := runSteps_cons_inv env _ _ s w o h
  have h9' := (Option.some.inj h9).symm
  subst h9'
  rcases hc9 with ⟨hrej9, _⟩ | ⟨_, o9, hrest9, ho⟩
  · have : env.AMFSucceeded AMF_OK = false := hrej9
    rw [hok] at this
    exact Bool.noConfusion this
  · obtain ⟨r10, h10, hc10⟩ := runSteps_cons_inv env _ _ _ _ o9 hrest9
    have h10' := (Option.some.inj h10).symm
    subst h10'
    obtain ⟨hstop1, hstop2⟩ := StopRendering_cases env s w hrej
    have ho9 : o9.st = (s.StopRendering env w).st ∧ o9.w = (s.StopRendering env w).w ∧
        o9.trace = (s.StopRendering env w).trace ∧ o9.res = (s.StopRendering env w).res := by
      rcases hc10 with ⟨_, ho9⟩ | ⟨hacc10, o10, hrest10, ho9⟩
      · subst ho9
        exact ⟨rfl, rfl, rfl, rfl⟩
      · simp only [runSteps, Option.some.injEq] at hrest10
        subst hrest10
        subst ho9
        exact ⟨rfl, rfl, by simp, (hne _ hacc10).symm⟩
    subst ho
    obtain ⟨e1, e2, e3, e4⟩ := ho9
    refine ⟨?_, fun hnull => ?_, fun hcb hq => ?_⟩
    · show o9.st = s
      rw [e1]
      by_cases hn : env.cmdGetBuffer w = NULL ∨ env.swapGetQueue w = NULL
      · rw [hstop1 hn]
      · rw [hstop2 (fun hc => hn (Or.inl hc)) (fun hc => hn (Or.inr hc))]
    · show [] ++ o9.trace = [] ∧ o9.res = AMF_NOT_INITIALIZED ∧ o9.w = w
      rw [e2, e3, e4, hstop1 hnull]
      exact ⟨rfl, rfl, rfl⟩
    · show [] ++ o9.trace = _ ∧ o9.res = _ ∧ o9.w = _
      rw [e2, e3, e4, hstop2 hcb hq]
      exact ⟨rfl, rfl, rfl⟩

/-- The overlay hook and `StopRendering` record no draw. -/
theorem BitBltRender_tail_no_draw {W : Type} (env : Env W) (surface : Nat)
    (s : VideoPresenterVulkan) (w : W) (o : PresenterOut W)
    (hrej : ∀ x, x ≠ AMF_OK → env.AMFSucceeded x = false)
    (hok : env.AMFSucceeded AMF_OK = true)
    (h : runSteps env
      [fun s w => some { res := s.DrawOverlay (some surface), st := s, w := w, trace := [] },
       fun s w => some (s.StopRendering env w)] s w = some o) :
    o.trace.any Event.isDraw = false := by
  obtain ⟨_, htnull, htrun⟩ := BitBltRender_tail env surface s w o hrej hok h
  by_cases hn : env.cmdGetBuffer w = NULL ∨ env.swapGetQueue w = NULL
  · rw [(htnull hn).1]
    rfl
  · rw [(htrun (fun hc => hn (Or.inl hc)) (fun hc => hn (Or.inr hc))).1]
    simp [Event.isDraw]

/-- A render step that returns `AMF_OK` has ended the render pass and submitted
the command buffer: the only other outcome of `StopRendering` is
`AMF_NOT_INITIALIZED`. -/
theorem BitBltRender_stop_of_ok {W : Type} (env : Env W) (w ow : W) (stop : List Event)
    (res : AMF_RESULT)
    (hnull : (env.cmdGetBuffer w = NULL ∨ env.swapGetQueue w = NULL) →
      stop = [] ∧ res = AMF_NOT_INITIALIZED ∧ ow = w)
    (hrun : env.cmdGetBuffer w ≠ NULL → env.swapGetQueue w ≠ NULL →
      stop = [Event.vk (VkCall.vkCmdEndRenderPass (env.cmdGetBuffer w)),
        Event.cmdExecute (env.swapGetQueue w) (env.cmdExecute w (env.swapGetQueue w)).1] ∧
      res = (env.cmdExecute w (env.swapGetQueue w)).1 ∧
      ow = (env.cmdExecute w (env.swapGetQueue w)).2)
    (hres : res = AMF_OK) :
    stop = [Event.vk (VkCall.vkCmdEndRenderPass (env.cmdGetBuffer w)),
      Event.cmdExecute (env.swapGetQueue w) AMF_OK] := by
  by_cases hn : env.cmdGetBuffer w = NULL ∨ env.swapGetQueue w = NULL
  · have hbad := (hnull hn).2.1
    rw [hres] at hbad
    exact AMF_RESULT.noConfusion hbad
  · obtain ⟨ht, hr, _⟩ := hrun (fun hc => hn (Or.inl hc)) (fun hc => hn (Or.inr hc))
    rw [ht, ← hr, hres]

/-- Events in front of the draw that are no draw can be skipped. -/
theorem any_draw_append (t1 t2 : List Event) (h1 : t1.any Event.isDraw = false)
    (h : (t1 ++ t2).any Event.isDraw = true) : t2.any Event.isDraw = true := by
  rw [List.any_append, h1] at h
  simpa using h

set_option maxHeartbeats 800000 in
/-- C26. In every execution of `BitBltRender` that records the draw, the calls
are, in this order: the render-view resize; the flush of the pending descriptor
writes, the last of which is the write for the source texture that the call has
just queued; the start of the recording with viewport, scissor and the begin of
the render pass; the synchronisation of the render target; the binding of the
pipeline, of the descriptor sets of the group `DSG_PRESENT_SURFACE` and of the
vertex buffer; the transition and the synchronisation of the source surface; the
draw; and then the end of the render pass and the submission of the command
buffer, whose result the call returns.  The frame is not ended only when
`StopRendering` finds no command buffer or no queue after the draw: then
nothing follows the draw and the call returns `AMF_NOT_INITIALIZED`.  A call
that returns `AMF_OK` has ended the render pass and submitted.  The background
and overlay hooks of this class do nothing.  The registry's pending list is
empty after the flush and stays empty, so it is empty when the draw is
recorded.  A statement that fails ends the sequence: the call returns that
statement's outcome with the calls made so far.  `AMF_RETURN_IF_FAILED` is
taken to reject every result but `AMF_OK`. -/
theorem BitBltRender_effects_in_order {W : Type} (env : Env W) (s : VideoPresenterVulkan)
    (w : W) (surface buffer : Nat) (renderView : RenderViewSizeInfo) (out : PresenterOut W)
    (hrej : ∀ x, x ≠ AMF_OK → env.AMFSucceeded x = false)
    (hok : env.AMFSucceeded AMF_OK = true)
    (h : s.BitBltRender env w (some surface) (some buffer) renderView = some out) :
    (out.trace.any Event.isDraw = true →
      ∃ (dev : AMFVulkanDevice) (queued : DescriptorHeapVulkan) (texWrite : VkWriteDescriptorSet)
        (group : DescriptorSetGroup) (plane : Nat) (srcView : AMFVulkanView) (src : Nat)
        (w1 w2 w3 w4 wDraw : W) (stop : List Event),
        env.surfaceGetPackedPlane w surface = some plane ∧
        env.planeGetNative w plane = some srcView ∧ srcView.pSurface = some src ∧
        w1 = (env.resizeRenderView w renderView).2 ∧
        w2 = (env.cmdStartRecording w1).2 ∧
        w3 = (env.cmdSyncResource w2 (SyncRef.renderTarget buffer)
          VK_PIPELINE_STAGE_COLOR_ATTACHMENT_OUTPUT_BIT).2 ∧
        w4 = (env.transitionSurface w3 src VK_IMAGE_LAYOUT_SHADER_READ_ONLY_OPTIMAL).2 ∧
        wDraw = (env.cmdSyncResource w4 (SyncRef.vulkanSurface src)
          VK_PIPELINE_STAGE_COLOR_ATTACHMENT_OUTPUT_BIT).2 ∧
        s.m_descriptorHeap.m_pVulkanDevice = some dev ∧
        queued.m_pendingDescriptorUpdates =
          s.m_descriptorHeap.m_pendingDescriptorUpdates ++ [texWrite] ∧
        texWrite.dstSet = s.m_descriptorHeap.GetDescriptorSet s.m_samplerDescriptor.setIndex ∧
        texWrite.dstBinding = s.m_samplerDescriptor.layoutBinding.binding ∧
        groupFind s.m_pipeline.m_descriptorSetGroupMap DSG_PRESENT_SURFACE = some group ∧
        out.trace =
          [Event.resizeRenderView AMF_OK,
           Event.vk (VkCall.vkUpdateDescriptorSets dev.hDevice
             (queued.m_pendingDescriptorUpdates.map (resolveWrite queued env.staleStack))),
           Event.cmdStartRecording AMF_OK,
           Event.vk (VkCall.vkCmdSetViewport (env.cmdGetBuffer w2)
             (env.renderTarget w1 buffer).iWidth (env.renderTarget w1 buffer).iHeight),
           Event.vk (VkCall.vkCmdSetScissor (env.cmdGetBuffer w2)
             (env.renderTarget w1 buffer).iWidth (env.renderTarget w1 buffer).iHeight),
           Event.vk (VkCall.vkCmdBeginRenderPass (env.cmdGetBuffer w2)
             (env.swapGetRenderPass w2) (env.renderTarget w1 buffer).m_hFrameBuffer
             (env.renderTarget w1 buffer).iWidth (env.renderTarget w1 buffer).iHeight),
           Event.cmdSyncResource (SyncRef.renderTarget buffer)
             VK_PIPELINE_STAGE_COLOR_ATTACHMENT_OUTPUT_BIT AMF_OK,
           Event.vk (VkCall.vkCmdBindPipeline (env.cmdGetBuffer w3) s.m_pipeline.m_hPipeline),
           Event.vk (VkCall.vkCmdBindDescriptorSets (env.cmdGetBuffer w3)
             s.m_pipeline.m_hPipelineLayout 0
             (group.descriptorSetHandles.take (group.descriptorSetHandles.length % 2 ^ 32))),
           Event.vk (VkCall.vkCmdBindVertexBuffers (env.cmdGetBuffer w3)
             [s.m_VertexBuffer.hBuffer]),
           Event.transitionSurface src VK_IMAGE_LAYOUT_SHADER_READ_ONLY_OPTIMAL AMF_OK,
           Event.cmdSyncResource (SyncRef.vulkanSurface src)
             VK_PIPELINE_STAGE_COLOR_ATTACHMENT_OUTPUT_BIT AMF_OK,
           Event.vk (VkCall.vkCmdDraw (env.cmdGetBuffer wDraw)
             ((s.m_VertexBuffer.iSize / sizeofVertex) % 2 ^ 32))]
          ++ stop ∧
        ((env.cmdGetBuffer wDraw = NULL ∨ env.swapGetQueue wDraw = NULL) →
          stop = [] ∧ out.res = AMF_NOT_INITIALIZED ∧ out.w = wDraw) ∧
        (env.cmdGetBuffer wDraw ≠ NULL → env.swapGetQueue wDraw ≠ NULL →
          stop = [Event.vk (VkCall.vkCmdEndRenderPass (env.cmdGetBuffer wDraw)),
            Event.cmdExecute (env.swapGetQueue wDraw)
              (env.cmdExecute wDraw (env.swapGetQueue wDraw)).1] ∧
          out.res = (env.cmdExecute wDraw (env.swapGetQueue wDraw)).1 ∧
          out.w = (env.cmdExecute wDraw (env.swapGetQueue wDraw)).2) ∧
        (out.res = AMF_OK →
          stop = [Event.vk (VkCall.vkCmdEndRenderPass (env.cmdGetBuffer wDraw)),
            Event.cmdExecute (env.swapGetQueue wDraw) AMF_OK]) ∧
        out.st.m_descriptorHeap.m_pendingDescriptorUpdates = [] ∧
        out.st.m_descriptorHeap.m_pendingDescriptorUpdates =
          (queued.UpdatePendingDescriptorSets env.staleStack).heap.m_pendingDescriptorUpdates) ∧
    (∀ (plane : Nat) (srcView : AMFVulkanView) (pre : List (Step W)) (f : Step W)
      (post : List (Step W)) (r0 r : PresenterOut W),
      env.surfaceGetPackedPlane w surface = some plane →
      env.planeGetNative w plane = some srcView →
      VideoPresenterVulkan.BitBltRenderSteps env surface buffer srcView renderView =
        pre ++ f :: post →
      runSteps env pre s w = some r0 → env.AMFSucceeded r0.res = true →
      f r0.st r0.w = some r → env.AMFSucceeded r.res = false →
      out = { r with trace := r0.trace ++ r.trace }) := by
  have hne : ∀ x, env.AMFSucceeded x = true → x = AMF_OK := by
    intro x hx
    by_contra hc
    rw [hrej x hc] at hx
    exact Bool.noConfusion hx
  unfold VideoPresenterVulkan.BitBltRender at h
  dsimp only at h
  cases hp : env.surfaceGetPackedPlane w surface with
  | none => simp [hp] at h
  | some plane =>
    simp only [hp] at h
    cases hv : env.planeGetNative w plane with
    | none =>
      simp only [hv] at h
      cases h
      refine ⟨fun hdraw => by simp at hdraw, ?_⟩
      intro plane' srcView' pre f post r0 r hp' hv'
      cases hp'
      rw [hv] at hv'
      cases hv'
    | some srcView =>
      simp only [hv] at h
      constructor
      · intro hdraw
        unfold VideoPresenterVulkan.BitBltRenderSteps at h
        -- ResizeRenderView
        obtain ⟨r1, h1, hc1⟩ := runSteps_cons_inv env _ _ s w out h
        have h1' := (Option.some.inj h1).symm
        subst h1'
        rcases hc1 with ⟨_, ho⟩ | ⟨hacc1, o1, hrest1, ho⟩
        · subst ho
          simp [Event.isDraw] at hdraw
        subst ho
        have hd1 := any_draw_append _ _ (by simp [Event.isDraw]) hdraw
        have hres1 := hne _ hacc1
        dsimp only at hres1 hrest1 hd1
        -- UpdateTextureDescriptorSet
        obtain ⟨r2, h2, hc2⟩ := runSteps_cons_inv env _ _ _ _ o1 hrest1
        have ht2 := UpdateTextureDescriptorSet_trace env _ _ _ r2 h2
        rcases hc2 with ⟨_, ho⟩ | ⟨hacc2, o2, hrest2, ho⟩
        · subst ho
          rw [ht2] at hd1
          simp at hd1
        subst ho
        obtain ⟨q, tex, hr2, hqdev, hqpend, htexset, htexbinding, _, _⟩ :=
          UpdateTextureDescriptorSet_accepted env s _ surface r2 hrej h2 hacc2
        subst hr2
        have hd2 := any_draw_append _ _ (by rfl) hd1
        dsimp only at hrest2 hd2
        -- UpdatePendingDescriptorSets
        obtain ⟨r3, h3, hc3⟩ := runSteps_cons_inv env _ _ _ _ o2 hrest2
        have h3' := (Option.some.inj h3).symm
        subst h3'
        rcases hc3 with ⟨_, ho⟩ | ⟨hacc3, o3, hrest3, ho⟩
        · subst ho
          rw [UpdatePendingDescriptorSets_no_draw] at hd2
          exact Bool.noConfusion hd2
        subst ho
        have hd3 := any_draw_append _ _ (UpdatePendingDescriptorSets_no_draw _ _) hd2
        obtain ⟨dev, hdev, _, hflush⟩ := UpdatePendingDescriptorSets_returns_ok q env.staleStack
          (hne _ hacc3) (by rw [hqpend]; simp)
        dsimp only at hrest3 hd3
        rw [hflush] at hrest3
        dsimp only at hrest3
        -- StartRendering
        obtain ⟨r4, h4, hc4⟩ := runSteps_cons_inv env _ _ _ _ o3 hrest3
        have h4' := (Option.some.inj h4).symm
        subst h4'
        rcases hc4 with ⟨_, ho⟩ | ⟨hacc4, o4, hrest4, ho⟩
        · subst ho
          rw [StartRendering_no_draw] at hd3
          exact Bool.noConfusion hd3
        subst ho
        have hd4 := any_draw_append _ _ (StartRendering_no_draw _ _ _ _) hd3
        have hstart := StartRendering_accepted env _ _ buffer hrej hacc4
        rw [hstart] at hrest4
        dsimp only at hrest4 hd4
        -- SyncResource of the render target
        obtain ⟨r5, h5, hc5⟩ := runSteps_cons_inv env _ _ _ _ o4 hrest4
        have h5' := (Option.some.inj h5).symm
        subst h5'
        rcases hc5 with ⟨_, ho⟩ | ⟨hacc5, o5, hrest5, ho⟩
        · subst ho
          simp [Event.isDraw] at hd4
        subst ho
        have hd5 := any_draw_append _ _ (by simp [Event.isDraw]) hd4
        have hres5 := hne _ hacc5
        dsimp only at hres5 hrest5 hd5
        -- DrawBackground
        obtain ⟨r6, h6, hc6⟩ := runSteps_cons_inv env _ _ _ _ o5 hrest5
        have h6' := (Option.some.inj h6).symm
        subst h6'
        rcases hc6 with ⟨_, ho⟩ | ⟨_, o6, hrest6, ho⟩
        · subst ho
          simp at hd5
        subst ho
        have hd6 := any_draw_append _ _ (by rfl) hd5
        dsimp only at hrest6 hd6
        -- SetStates
        obtain ⟨r7, h7, hc7⟩ := runSteps_cons_inv env _ _ _ _ o6 hrest6
        have h7' := (Option.some.inj h7).symm
        subst h7'
        rcases hc7 with ⟨_, ho⟩ | ⟨hacc7, o7, hrest7, ho⟩
        · subst ho
          rw [SetStates_no_draw] at hd6
          exact Bool.noConfusion hd6
        subst ho
        have hd7 := any_draw_append _ _ (SetStates_no_draw _ _ _ _) hd6
        obtain ⟨group, hgroup, hset⟩ := SetStates_accepted env _ _ _ hrej hacc7
        rw [hset] at hrest7
        dsimp only at hrest7 hd7
        -- DrawFrame
        obtain ⟨r8, h8, hc8⟩ := runSteps_cons_inv env _ _ _ _ o7 hrest7
        have h8' := (Option.some.inj h8).symm
        subst h8'
        rcases hc8 with ⟨hrej8, ho⟩ | ⟨_, o8, hrest8, ho⟩
        · subst ho
          obtain ⟨src, _, hframe⟩ := DrawFrame_draw env _ _ _ hrej hd7
          rw [hframe, hok] at hrej8
          exact Bool.noConfusion hrej8
        subst ho
        -- DrawOverlay and StopRendering
        have hnodraw := BitBltRender_tail_no_draw env surface _ _ o8 hrej hok hrest8
        have hdrawn : ∀ (st8 : VideoPresenterVulkan) (w8 : W),
            ((st8.DrawFrame env w8 srcView.pSurface).trace ++ o8.trace).any Event.isDraw = true →
            (st8.DrawFrame env w8 srcView.pSurface).trace.any Event.isDraw = true := by
          intro st8 w8 hany
          rw [List.any_append, hnodraw] at hany
          simpa using hany
        obtain ⟨src, hsrc, hframe⟩ := DrawFrame_draw env _ _ _ hrej (hdrawn _ _ hd7)
        rw [hframe] at hrest8
        have htail := BitBltRender_tail env surface _ _ o8 hrej hok hrest8
        obtain ⟨htst, htnull, htrun⟩ := htail
        refine ⟨dev, q, tex, group, plane, srcView, src, _, _, _, _, _, o8.trace,
          rfl, hv, hsrc, rfl, rfl, rfl, rfl, rfl, hqdev ▸ hdev, hqpend, htexset, htexbinding,
          hgroup, ?_, htnull, htrun, ?_, ?_, ?_⟩
        · simp only [hflush, hstart, hset, hframe, hres1, hres5, List.map_cons,
            List.map_nil, List.cons_append, List.nil_append, List.append_nil]
        · intro hres
          exact BitBltRender_stop_of_ok env _ _ o8.trace o8.res htnull htrun hres
        · show o8.st.m_descriptorHeap.m_pendingDescriptorUpdates = []
          rw [htst]
        · show o8.st.m_descriptorHeap.m_pendingDescriptorUpdates = _
          rw [htst, hflush]
      · intro plane' srcView' pre f post r0 r hp' hv' hsplit h0 hacc0 hf hfrej
        cases hp'
        rw [hv] at hv'
        cases hv'
        rw [hsplit, runSteps_stops_at_failure env pre f post s w r0 r h0 hacc0 hf hfrej] at h
        exact (Option.some.inj h).symm

/-- C23, the code at the failing input. `VulkanContext::Init` fails with
`AMF_FAIL` on the pipeline, so the step `m_pipeline.Init` fails; `Init` goes on.
On a presenter that was initialised and terminated before, it registers the
descriptor set, creates the descriptor pool and the descriptor sets, loads both
shaders, and returns `AMF_NOT_INITIALIZED`, the error of the pipeline build, not
`AMF_FAIL`.  On a presenter fresh from its constructor the registration that
follows dereferences the pipeline's null `m_pDescriptorHeap`. -/
theorem Init_goes_on_after_failed_pipeline_init :
    ((exPresenter.Terminate exEnv exWorld).st.Init exInitEnvPipelineFails exWorld 1920 1080
      exInitResponses).map (fun o => (o.res, o.trace)) =
      some (AMF_NOT_INITIALIZED,
        [Event.presenterInit 1920 1080 AMF_OK,
         Event.swapInit 1920 1080 AMF_SURFACE_BGRA AMF_OK,
         Event.contextInit ContextObject.presenter AMF_OK,
         Event.contextInit ContextObject.registry AMF_OK,
         Event.contextInit ContextObject.pipeline AMF_FAIL,
         Event.vk (VkCall.vkCreateDescriptorSetLayout 7
           [{ binding := 0, descriptorType := 6, descriptorCount := 1, stageFlags := 1 },
            { binding := 1, descriptorType := 1, descriptorCount := 1, stageFlags := 16 }]),
         Event.vk (VkCall.vkCreateDescriptorPool 7
           [{ type := 6, descriptorCount := 1 }, { type := 1, descriptorCount := 1 }] 1 1),
         Event.vk (VkCall.vkAllocateDescriptorSets 7 5 [21]),
         Event.readFile "quad.vert.spv" true,
         Event.vk (VkCall.vkCreateShaderModule 7 [1, 2, 3]),
         Event.readFile "quad.frag.spv" true,
         Event.vk (VkCall.vkCreateShaderModule 7 [4, 5]),
         Event.vk (VkCall.vkDestroyShaderModule 7 41),
         Event.vk (VkCall.vkDestroyShaderModule 7 42)]) ∧
    exPresenterNew.Init exInitEnvPipelineFails exWorld 1920 1080 exInitResponses = none :=
  ⟨rfl, rfl⟩

/-- Witness for C1: on the finalized example registry a buffer update queued
while the caller holds the info, and flushed after the caller has zeroed it,
binds the original info. -/
theorem deferred_update_flush_eq_immediate_witness :
    exFinalizedHeap.m_pendingDescriptorUpdates = [] ∧
    gpuRun exNoBindings
      ((exFinalizedHeap.UpdateDescriptorSetBuffer exMemQueued (some exViewProjectionDescriptor)
          0 1 40 false).calls ++
        ((exFinalizedHeap.UpdateDescriptorSetBuffer exMemQueued (some exViewProjectionDescriptor)
          0 1 40 false).heap.UpdatePendingDescriptorSets exMemOverwritten).calls) 11 0 0 =
      some (BoundResource.buffer { buffer := 100, offset := 0, range := 128 }) :=
  ⟨rfl,
    ((deferred_update_flush_eq_immediate exFinalizedHeap exMemQueued exMemOverwritten
      exViewProjectionDescriptor 0 1 40 exNoBindings rfl).2.2 exDevice rfl (by decide)
      (by decide) 0 (by decide)).1 (by decide)⟩

/-- Witness for C2: the example registration followed by two finalisations. -/
theorem second_CreateDescriptors_already_initialized_witness :
    (exFinalizedHeap.CreateDescriptors (VK_SUCCESS, 6) (VK_SUCCESS, [12])) =
      { res := AMF_ALREADY_INITIALIZED, heap := exFinalizedHeap, calls := [] } :=
  second_CreateDescriptors_already_initialized (DescriptorHeapVulkan.init (some exDevice))
    exRegisterCall
    { res := AMF_OK, heap := exRegisteredHeap,
      descriptors := [some exViewProjectionDescriptor, some exSamplerDescriptor],
      calls := [VkCall.vkCreateDescriptorSetLayout 7
        [exViewProjectionDescriptor.layoutBinding, exSamplerDescriptor.layoutBinding]] }
    [] exRegisteredHeap (VK_SUCCESS, 5) (VK_SUCCESS, 6) (VK_SUCCESS, [11]) (VK_SUCCESS, [12])
    (by decide) rfl rfl (by decide)

/-- Witness for C3: an immediate image update on the example registry before
`CreateDescriptors`. -/
theorem update_before_CreateDescriptors_not_initialized_witness :
    (exRegisteredHeap.UpdateDescriptorSetImage exMemQueued (some exSamplerDescriptor)
      0 1 40 true).res = AMF_NOT_INITIALIZED :=
  (update_before_CreateDescriptors_not_initialized exDevice [exRegisterCall] exRegisteredHeap
    exMemQueued exSamplerDescriptor 0 1 40 true (by decide) (by decide)).2.1

/-- Witness for C4: building the example pipeline whose group 0 has no set in
slot 0 fails. -/
theorem CreatePipeline_fails_on_free_slot_witness :
    ∃ out, exPipelineFreeSlot.CreatePipeline exMapOrder exFinalizedHeap exCreateInfo 9 0 (VK_SUCCESS, 31)
        (VK_SUCCESS, 32) = some out ∧ out.res ≠ AMF_OK :=
  CreatePipeline_fails_on_free_slot exPipelineFreeSlot exMapOrder exFinalizedHeap exCreateInfo 9 0
    (VK_SUCCESS, 31) (VK_SUCCESS, 32) 0 0
    { descriptorSetIndices := [UINT32_MAX, 0], descriptorSetHandles := [] }
    rfl (by simp [exPipelineFreeSlot]) rfl

/-- Witness for C5: registering a second set into slot 0 of group 0 of the
example pipeline. -/
theorem duplicate_slot_registration_invalid_arg_witness :
    ∃ out, exPipelineRegistered.RegisterDescriptorSet exRegisteredHeap 0 0 (some [0]) 1 =
        some out ∧ out.res = AMF_INVALID_ARG ∧ out.pipeline.slot 0 0 = some 0 :=
  duplicate_slot_registration_invalid_arg exPipeline exPipelineRegisterCall
    { res := AMF_OK, pipeline := exPipelineRegistered, calls := [] } [] exPipelineRegistered
    exPipelineRegisterCall 0 (by decide) rfl (by decide) (by decide) (by decide) rfl rfl
    (by decide) (by decide)

/-- Witness for C6: the example presenter, configured for BGRA, given surface
99, which is RGBA. -/
theorem Present_format_mismatch_witness :
    exEnv.surfaceGetFormat exWorld 99 ≠ exPresenter.m_eInputFormat ∧
    exPresenter.Present exEnv Platform.win32 exWorld (some 99) =
      some { res := AMF_INVALID_FORMAT, st := exPresenter, w := exWorld, trace := [] } :=
  ⟨by decide,
    Present_format_mismatch exEnv Platform.win32 exPresenter exWorld 99 exDevice rfl (by decide)⟩

/-- Counterexample to C7 as stated: the render step fails with `AMF_FAIL` after
back buffer 1 was acquired, the drop of that buffer fails with
`AMF_INVALID_ARG`, and `Present` returns the drop's error, not the render
step's; the buffer stays acquired. -/
theorem Present_render_failure_returns_drop_error :
    exPresenter.Present exEnv Platform.linux exWorldDropFails (some 50) =
      some { res := AMF_INVALID_ARG, st := exPresenter,
             w := { exWorldDropFails with acquired := [1] }, trace := exDropFailsTrace } ∧
    Event.swapAcquireNextBackBuffer AMF_OK (some 1) ∈ exDropFailsTrace ∧
    Event.renderSurface AMF_FAIL ∈ exDropFailsTrace ∧
    AMF_INVALID_ARG ≠ AMF_FAIL :=
  ⟨rfl, by decide, by decide, by decide⟩

/-- Witness for C7 as amended: the same call; the drop follows the failed
render step and its error is the result. -/
theorem Present_drops_buffer_on_render_failure_witness :
    exPresenter.Present exEnv Platform.linux exWorldDropFails (some 50) = some exDropFailsOut ∧
    ∃ pre dropRes,
      exDropFailsOut.trace = pre ++ [Event.renderSurface AMF_FAIL,
        Event.swapDropBackBuffer (some 1) dropRes] ∧
      (∀ b r, Event.swapDropBackBuffer b r ∉ pre) ∧
      (∀ v r, Event.swapPresent v r ∉ exDropFailsOut.trace) ∧
      exDropFailsOut.res = (if exEnv.AMFSucceeded dropRes = true then AMF_FAIL else dropRes) :=
  ⟨rfl,
    Present_drops_buffer_on_render_failure exEnv Platform.linux exPresenter exWorldDropFails
      (some 50) exDropFailsOut AMF_OK AMF_FAIL 1 rfl rfl (by decide) (by decide) rfl⟩

/-- Counterexample to C8 as stated: a fullscreen toggle is pending on the
example presenter and every step succeeds.  The `_WIN32` build resizes the
swapchain before it acquires the back buffer and returns `AMF_OK`; the other
builds do not resize at all and return `AMF_OK`.  Neither returns
`AMF_RESOLUTION_UPDATED`. -/
theorem Present_pending_toggle_returns_ok :
    exPresenterTogglePending.m_bFullScreen ≠ exEnv.swapFullscreenEnabled exWorld ∧
    exPresenterTogglePending.Present exEnv Platform.win32 exWorld (some 50) =
      some { res := AMF_OK, st := exPresenterTogglePending,
             w := { exWorld with fullscreen := true }, trace := exToggleTrace } ∧
    exPresenterTogglePending.Present exEnv Platform.linux exWorld (some 50) =
      some { res := AMF_OK, st := exPresenterTogglePending, w := exWorld,
             trace := [Event.surfaceConvert 50 AMF_MEMORY_VULKAN AMF_OK,
               Event.swapAcquireNextBackBuffer AMF_OK (some 1)] ++ exRenderTrace ++
               [Event.waitForPTS 1000, Event.swapPresent false AMF_OK, Event.xFlush] } ∧
    AMF_OK ≠ AMF_RESOLUTION_UPDATED :=
  ⟨by decide, rfl, rfl, by decide⟩

/-- Witness for C8 as amended: the example presenter with the fullscreen toggle
pending, on the `_WIN32` build. -/
theorem Present_pending_resize_returns_ok_witness :
    exPresenterTogglePending.Present exEnv Platform.win32 exWorld (some 50) = some exToggleOut ∧
    exToggleOut.res = AMF_OK ∧ exToggleOut.st.m_bResizeSwapChain = false ∧
    ∃ width height fullscreen buffer rest,
      exToggleOut.trace = [Event.surfaceConvert 50 AMF_MEMORY_VULKAN AMF_OK,
        Event.swapResize width height fullscreen AMF_OK, Event.updateProcessor,
        Event.swapAcquireNextBackBuffer AMF_OK buffer] ++ rest :=
  ⟨rfl,
    Present_pending_resize_returns_ok exEnv exPresenterTogglePending exWorld 50 exToggleOut
      exDevice rfl rfl rfl rfl (Or.inr (by decide)) rfl
      (fun e he r hr => by
        have hall : ∀ e ∈ exToggleTrace, e.result = none ∨ e.result = some AMF_OK := by decide
        rcases hall e he with h | h
        · rw [h] at hr; cases hr
        · rw [h] at hr; cases hr; rfl)⟩

/-- Counterexample to C9 as stated: both back buffers are handed out, the
presenter is frozen and a resize is pending.  `AllocSurface` returns
`AMF_INPUT_FULL`; the release of surface 1 untracks it and makes a buffer
available; the next `AllocSurface` then waits for surface 2 to be released and
has acquired nothing after any number of iterations of that wait. -/
theorem AllocSurface_pending_resize_blocks :
    exPresenterFrozenResize.AllocSurface exEnv 1 exWorldFull AMF_MEMORY_VULKAN AMF_SURFACE_BGRA
        none =
      some { res := AMF_INPUT_FULL, st := exPresenterFrozenResize, w := exWorldFull, trace := [],
             surface := none } ∧
    exPresenterFrozenResize.OnSurfaceDataRelease exEnv exWorldFull (some 1) =
      ({ exPresenterFrozenResize with m_TrackSurfaces := [2] },
        { exWorldFull with acquired := [2] },
        [Event.surfaceRemoveObserver 1, Event.swapDropBackBufferSurface 1 AMF_OK]) ∧
    exEnv.swapGetBackBuffersAvailable { exWorldFull with acquired := [2] } = 1 ∧
    ∀ fuel,
      VideoPresenterVulkan.AllocSurface exEnv fuel
        { exPresenterFrozenResize with m_TrackSurfaces := [2] }
        { exWorldFull with acquired := [2] } AMF_MEMORY_VULKAN AMF_SURFACE_BGRA none = none :=
  ⟨rfl, rfl, rfl, fun fuel =>
    AllocSurface_waits_for_release exEnv { exPresenterFrozenResize with m_TrackSurfaces := [2] }
      { exWorldFull with acquired := [2] } AMF_MEMORY_VULKAN none rfl rfl (by decide) (by decide)
      fuel⟩

/-- Witness for C9 as amended: the same pool with no resize pending; after the
release of surface 1 the next `AllocSurface` acquires back buffer 1 again and
tracks it after surface 2. -/
theorem AllocSurface_back_pressure_witness :
    exPresenterFrozen.AllocSurface exEnv 1 exWorldFull AMF_MEMORY_VULKAN
        exPresenterFrozen.m_eInputFormat none =
      some { res := AMF_INPUT_FULL, st := exPresenterFrozen, w := exWorldFull, trace := [],
             surface := none } ∧
    (exPresenterFrozen.OnSurfaceDataRelease exEnv exWorldFull (some 1)).1.AllocSurface exEnv 1
        (exPresenterFrozen.OnSurfaceDataRelease exEnv exWorldFull (some 1)).2.1 AMF_MEMORY_VULKAN
        exPresenterFrozen.m_eInputFormat none =
      some { res := AMF_OK,
             st := { exPresenterFrozen with m_TrackSurfaces := [2, 1] },
             w := { exWorldFull with acquired := [2, 1] },
             trace := [Event.swapAcquireNextBackBufferSurface AMF_OK (some 1),
               Event.surfaceAddObserver 1, Event.surfaceConvert 1 AMF_MEMORY_VULKAN AMF_OK],
             surface := some 1 } :=
  ⟨(AllocSurface_back_pressure exEnv 0 exPresenterFrozen exWorldFull AMF_MEMORY_VULKAN none 1
      rfl rfl).1 rfl rfl,
   (AllocSurface_back_pressure exEnv 0 exPresenterFrozen exWorldFull AMF_MEMORY_VULKAN none 1
      rfl rfl).2.2 AMF_OK 1 { exWorldFull with acquired := [2, 1] } (by decide) rfl (by decide)
      rfl rfl⟩

/-- Witness for C10: the example registry, pipeline and presenter, whose
context's `Terminate` clears the device handle. -/
theorem Terminate_twice_is_noop_witness :
    (exFinalizedHeap.Terminate exEnv.contextTerminate).heap.Terminate exEnv.contextTerminate =
      { res := AMF_OK, heap := (exFinalizedHeap.Terminate exEnv.contextTerminate).heap,
        calls := [] } ∧
    (exPipelineBuilt.Terminate exEnv.contextTerminate).pipeline.Terminate exEnv.contextTerminate =
      { res := AMF_OK, pipeline := (exPipelineBuilt.Terminate exEnv.contextTerminate).pipeline,
        calls := [] } ∧
    (exPresenter.Terminate exEnv exWorld).st.Terminate exEnv (exPresenter.Terminate exEnv exWorld).w =
      { res := AMF_OK, st := (exPresenter.Terminate exEnv exWorld).st,
        w := (exPresenter.Terminate exEnv exWorld).w, trace := [] } :=
  Terminate_twice_is_noop exEnv exFinalizedHeap exPipelineBuilt exPresenter exWorld (fun _ => rfl)

/-- Witness for C12: the example presenter with the flag set resizes the example
swapchain to the new 1280 x 720 client area; the flag is clear afterwards and a
resize check on the resized swapchain leaves it clear. -/
theorem resize_flag_cleared_only_by_successful_resize_witness :
    (exPresenterResizePending.ResizeSwapChain exEnv exWorldWindowResized).trace =
      [Event.swapResize 1280 720 false AMF_OK, Event.updateProcessor] ∧
    (exPresenterResizePending.ResizeSwapChain exEnv exWorldWindowResized).st.m_bResizeSwapChain
      = false ∧
    ((exPresenterResizePending.ResizeSwapChain exEnv exWorldWindowResized).st.CheckForResize exEnv
      (exPresenterResizePending.ResizeSwapChain exEnv exWorldWindowResized).w
      false).2.m_bResizeSwapChain = false :=
  ⟨rfl,
    ((resize_flag_cleared_only_by_successful_resize exEnv Platform.linux 1
      exPresenterResizePending exWorldWindowResized none none AMF_MEMORY_VULKAN AMF_SURFACE_BGRA
      false).2.2.2.2.2.2.2 rfl).1,
    ((resize_flag_cleared_only_by_successful_resize exEnv Platform.linux 1
      exPresenterResizePending exWorldWindowResized none none AMF_MEMORY_VULKAN AMF_SURFACE_BGRA
      false).2.2.2.2.2.2.2 rfl).2 _ rfl rfl rfl⟩

/-- Counterexample to C13 as stated: on a fresh registry a registration fails in
the driver's layout creation, after the layout list had grown; the registration
after it is the first successful one and assigns set index 1, not 0. -/
theorem first_successful_Register_assigns_index_one :
    (DescriptorHeapVulkan.init (some exDevice)).registerRun
        [exRegisterCallFails, exRegisterCallSampler] =
      some [exRegisterFailedOut, exRegisterSecondOut] ∧
    exRegisterFailedOut.res = AMF_VULKAN_FAILED ∧
    exRegisterSecondOut.res = AMF_OK ∧
    exRegisterSecondOut.descriptors = [some { exSamplerDescriptor with setIndex := 1 }] :=
  ⟨rfl, rfl, rfl, rfl⟩

/-- Witness for C13 as amended: the two example registrations on a fresh
registry; the second assigns set index 1. -/
theorem Register_assigns_next_set_index_witness :
    (DescriptorHeapVulkan.init (some exDevice)).registerRun
        [exRegisterCall, exRegisterCallSampler] = some exRegisterRunOuts ∧
    ∀ (j : Nat) (c : RegisterCall) (o : RegisterOut),
      [exRegisterCall, exRegisterCallSampler][j]? = some c →
      exRegisterRunOuts[j]? = some o →
      ∀ i, i < c.count → ∃ d : DescriptorVulkan, o.descriptors[i]? = some (some d) ∧ d.setIndex = j :=
  ⟨rfl,
    (Register_assigns_next_set_index exRegisteredHeap exRegisterCallSampler.ppDescriptors 1
      (VK_SUCCESS, 22) (exRegisterRunOuts.getD 1 exRegisterFailedOut) exDevice
      [exRegisterCall, exRegisterCallSampler] exRegisterRunOuts
      rfl rfl (by decide) rfl (by decide) (by decide)).2⟩

/-- Witness for C14: the example registry, one layout of two bindings, finalised
with pool handle 5 and set handle 11. -/
theorem CreateDescriptors_pool_and_sets_witness :
    (exRegisteredHeap.CreateDescriptors (VK_SUCCESS, 5) (VK_SUCCESS, [11])).calls =
      [VkCall.vkCreateDescriptorPool 7
          [{ type := 6, descriptorCount := 1 }, { type := 1, descriptorCount := 1 }] 1
          VK_DESCRIPTOR_POOL_CREATE_FREE_DESCRIPTOR_SET_BIT,
        VkCall.vkAllocateDescriptorSets 7 5 [21]] ∧
    (exRegisteredHeap.CreateDescriptors (VK_SUCCESS, 5) (VK_SUCCESS, [11])).heap.GetDescriptorCount
      = 1 ∧
    (exRegisteredHeap.CreateDescriptors (VK_SUCCESS, 5) (VK_SUCCESS, [11])).heap.GetDescriptorSet 0
      = 11 :=
  ⟨(CreateDescriptors_pool_and_sets exDevice [exRegisterCall] exRegisteredHeap (VK_SUCCESS, 5)
      (VK_SUCCESS, [11]) rfl (by decide) (by decide) rfl
      (fun i hi => ⟨11, by rw [Nat.lt_one_iff.mp hi]; rfl, by decide⟩)).1,
   (CreateDescriptors_pool_and_sets exDevice [exRegisterCall] exRegisteredHeap (VK_SUCCESS, 5)
      (VK_SUCCESS, [11]) rfl (by decide) (by decide) rfl
      (fun i hi => ⟨11, by rw [Nat.lt_one_iff.mp hi]; rfl, by decide⟩)).2.2.2.1,
   ((CreateDescriptors_pool_and_sets exDevice [exRegisterCall] exRegisteredHeap (VK_SUCCESS, 5)
      (VK_SUCCESS, [11]) rfl (by decide) (by decide) rfl
      (fun i hi => ⟨11, by rw [Nat.lt_one_iff.mp hi]; rfl, by decide⟩)).2.2.2.2 0
      (by decide)).1⟩

/-- Counterexample to C15 as stated: `CreateDescriptors` on a registry on which
nothing was registered returns `AMF_OK` without creating a pool, and the
registration after it succeeds. -/
theorem Register_after_empty_CreateDescriptors_succeeds :
    (DescriptorHeapVulkan.init (some exDevice)).CreateDescriptors (VK_SUCCESS, 5)
        (VK_SUCCESS, []) =
      { res := AMF_OK, heap := DescriptorHeapVulkan.init (some exDevice), calls := [] } ∧
    (DescriptorHeapVulkan.init (some exDevice)).RegisterDescriptorSet
        exRegisterCall.ppDescriptors exRegisterCall.count exRegisterCall.layoutResp =
      some { res := AMF_OK, heap := exRegisteredHeap,
             descriptors := [some exViewProjectionDescriptor, some exSamplerDescriptor],
             calls := [VkCall.vkCreateDescriptorSetLayout 7
               [exViewProjectionDescriptor.layoutBinding, exSamplerDescriptor.layoutBinding]] } :=
  ⟨rfl, rfl⟩

/-- Witness for C15 as amended: a registration on the finalised example
registry. -/
theorem Register_after_CreateDescriptors_fails_witness :
    (exRegisteredHeap.CreateDescriptors (VK_SUCCESS, 5) (VK_SUCCESS, [11])).heap = exFinalizedHeap ∧
    exFinalizedHeap.RegisterDescriptorSet exRegisterCallSampler.ppDescriptors 1
        (VK_SUCCESS, 22) =
      some { res := AMF_FAIL, heap := exFinalizedHeap,
             descriptors := [some exSamplerDescriptor], calls := [] } :=
  ⟨rfl,
    (Register_after_CreateDescriptors_fails exRegisteredHeap (VK_SUCCESS, 5) (VK_SUCCESS, [11])
      exRegisterCallSampler.ppDescriptors 1 (VK_SUCCESS, 22) [] (by decide) rfl (by decide)).1⟩

/-- Counterexample to C16 as stated: on the finalised example registry, and on
the example presenter that owns it, a registration with `count = 0` or with a
null descriptor returns `AMF_FAIL`, which is not an invalid-argument error. -/
theorem Register_invalid_on_finalized_returns_fail :
    exFinalizedHeap.RegisterDescriptorSet (some [some exSamplerDescriptor]) 0 (VK_SUCCESS, 22) =
      some { res := AMF_FAIL, heap := exFinalizedHeap,
             descriptors := [some exSamplerDescriptor], calls := [] } ∧
    exFinalizedHeap.RegisterDescriptorSet (some [none]) 1 (VK_SUCCESS, 22) =
      some { res := AMF_FAIL, heap := exFinalizedHeap, descriptors := [none], calls := [] } ∧
    exPresenter.RegisterDescriptorSet exEnv [] (some [none]) 1 none 0 (VK_SUCCESS, 22) =
      some { res := AMF_FAIL, st := exPresenter, pipelines := [], descriptors := [none],
             calls := [] } ∧
    AMF_FAIL ≠ AMF_INVALID_ARG ∧ AMF_FAIL ≠ AMF_INVALID_POINTER :=
  ⟨rfl, rfl, rfl, by decide, by decide⟩

/-- Witness for C16 as amended: the example registry and presenter before
`CreateDescriptors`, given the sampler descriptor followed by a null pointer,
return `AMF_INVALID_POINTER`; the finalised example registry and the presenter
that owns it return `AMF_FAIL` for the same list.  Nothing is changed in either
case. -/
theorem Register_rejects_invalid_arguments_witness :
    (∃ res, exRegisteredHeap.RegisterDescriptorSet (some [some exSamplerDescriptor, none]) 2
        (VK_SUCCESS, 22) =
        some { res := res, heap := exRegisteredHeap,
               descriptors := [some exSamplerDescriptor, none], calls := [] } ∧
      res = AMF_INVALID_POINTER) ∧
    (∃ res, exPresenterRegistering.RegisterDescriptorSet exEnv []
        (some [some exSamplerDescriptor, none]) 2 none 0 (VK_SUCCESS, 22) =
        some { res := res, st := exPresenterRegistering, pipelines := [],
               descriptors := [some exSamplerDescriptor, none], calls := [] } ∧
      res = AMF_INVALID_POINTER) ∧
    (∃ res, exFinalizedHeap.RegisterDescriptorSet (some [some exSamplerDescriptor, none]) 2
        (VK_SUCCESS, 22) =
        some { res := res, heap := exFinalizedHeap,
               descriptors := [some exSamplerDescriptor, none], calls := [] } ∧
      res = AMF_FAIL) ∧
    (∃ res, exPresenter.RegisterDescriptorSet exEnv []
        (some [some exSamplerDescriptor, none]) 2 none 0 (VK_SUCCESS, 22) =
        some { res := res, st := exPresenter, pipelines := [],
               descriptors := [some exSamplerDescriptor, none], calls := [] } ∧
      res = AMF_FAIL) := by
  have hbefore := Register_rejects_invalid_arguments exEnv exRegisteredHeap
    exPresenterRegistering [] [some exSamplerDescriptor, none] 2 1 (VK_SUCCESS, 22) none 0
  have hafter := Register_rejects_invalid_arguments exEnv exFinalizedHeap
    exPresenter [] [some exSamplerDescriptor, none] 2 1 (VK_SUCCESS, 22) none 0
  obtain ⟨r1, e1, _, c1, _⟩ := hbefore.2.2.1 (by decide) rfl
  obtain ⟨r2, e2, _, c2, _⟩ := hbefore.2.2.2.2.2 rfl rfl (by decide) rfl
  obtain ⟨r3, e3, _, _, c3⟩ := hafter.2.2.1 (by decide) rfl
  obtain ⟨r4, e4, _, _, c4⟩ := hafter.2.2.2.2.2 rfl rfl (by decide) rfl
  exact ⟨⟨r1, e1, c1 rfl⟩, ⟨r2, e2, c2 rfl⟩, ⟨r3, e3, c3 (by decide)⟩, ⟨r4, e4, c4 (by decide)⟩⟩

/-- Counterexample to C18 as stated: a deferred update made before
`CreateDescriptors` fails after its buffer info has been copied; the flush that
follows returns `AMF_OK` at once, the pending list being empty, and the copy is
still in the info heap afterwards. -/
theorem flush_with_nothing_queued_keeps_copies :
    exRegisteredHeap.UpdateDescriptorSetBuffer exMemQueued (some exViewProjectionDescriptor)
        0 1 40 false =
      { res := AMF_NOT_INITIALIZED, heap := exHeapOrphanCopy, calls := [] } ∧
    exHeapOrphanCopy.UpdatePendingDescriptorSets exMemQueued =
      { res := AMF_OK, heap := exHeapOrphanCopy, calls := [] } ∧
    exHeapOrphanCopy.m_descriptorBufferInfoHeap ≠ [] :=
  ⟨rfl, rfl, by decide⟩

/-- Witness for C18 as amended: one deferred update on the finalised example
registry, then the flush. -/
theorem UpdatePendingDescriptorSets_flushes_witness :
    ((exFinalizedHeap.UpdateDescriptorSetBuffer exMemQueued (some exViewProjectionDescriptor)
        0 1 40 false).heap.UpdatePendingDescriptorSets exMemOverwritten) =
      { res := AMF_OK, heap := exFinalizedHeap,
        calls := [VkCall.vkUpdateDescriptorSets 7
          [{ sType := 35, dstSet := 11, dstBinding := 0, dstArrayElement := 0,
             descriptorCount := 1, descriptorType := 6, imageInfos := none,
             bufferInfos := some [{ buffer := 100, offset := 0, range := 128 }] }]] } :=
  (UpdatePendingDescriptorSets_flushes
    (exFinalizedHeap.UpdateDescriptorSetBuffer exMemQueued (some exViewProjectionDescriptor)
      0 1 40 false).heap exMemOverwritten exDevice rfl (by decide)).1 (by decide)

/-- C19, the code at the failing input. `Terminate` on a registry with two
allocated descriptor sets frees one descriptor set, the first, then destroys
the pool, then the two layouts; afterwards the registry is empty. -/
theorem Terminate_frees_one_descriptor_set :
    exTwoSetHeap.Terminate exEnv.contextTerminate =
      { res := AMF_OK,
        heap := DescriptorHeapVulkan.init none,
        calls := [VkCall.vkFreeDescriptorSets 7 5 1 [11], VkCall.vkDestroyDescriptorPool 7 5,
          VkCall.vkDestroyDescriptorSetLayout 7 21, VkCall.vkDestroyDescriptorSetLayout 7 22] } :=
  rfl

/-- Witness for C20: the example pipeline built over the finalised example
registry; a registration into the free slot 1 of group 0 is refused. -/
theorem Register_after_CreatePipeline_fails_witness :
    (exPipelineRegistered.CreatePipeline exMapOrder exFinalizedHeap exCreateInfo 9 0 (VK_SUCCESS, 31)
      (VK_SUCCESS, 32)).map (fun o => (o.res, o.pipeline)) = some (AMF_OK, exPipelineBuilt) ∧
    exPipelineBuilt.RegisterDescriptorSet exFinalizedHeap 0 1 (some [0]) 1 =
      some { res := AMF_FAIL, pipeline := exPipelineBuilt, calls := [] } :=
  ⟨rfl,
    (Register_after_CreatePipeline_fails exPipelineRegistered exMapOrder exFinalizedHeap exFinalizedHeap
      exCreateInfo 9 0 (VK_SUCCESS, 31) (VK_SUCCESS, 32)
      ((exPipelineRegistered.CreatePipeline exMapOrder exFinalizedHeap exCreateInfo 9 0 (VK_SUCCESS, 31)
        (VK_SUCCESS, 32)).get rfl)
      0 1 (some [0]) 1 [] (Option.some_get _).symm rfl (by decide)).1⟩

/-- Witness for C22: binding group 0 of the built example pipeline on command
buffer 6. -/
theorem SetStates_binds_registered_group_witness :
    exPipelineBuilt.SetStates 6 0 =
      { res := AMF_OK, pipeline := exPipelineBuilt,
        calls := [VkCall.vkCmdBindPipeline 6 32, VkCall.vkCmdBindDescriptorSets 6 31 0 [11]] } ∧
    exPipelineBuilt.SetStates 6 1 =
      { res := AMF_INVALID_ARG, pipeline := exPipelineBuilt, calls := [] } :=
  ⟨(SetStates_binds_registered_group exPipelineBuilt 6 0 (by decide)).2.2
      { descriptorSetIndices := [0], descriptorSetHandles := [11] } rfl (by decide) (by decide)
      (by decide),
   (SetStates_binds_registered_group exPipelineBuilt 6 1 (by decide)).1 rfl⟩

/-- Witness for C25: the pipeline with the groups 0 and 1, built over the
registry with two descriptor sets.  The build visits group 1 first; afterwards
group 0 holds set handle 11 for set index 0 and group 1 holds set handle 12 for
set index 1, and a lookup of group 1 finds it resolved. -/
theorem CreatePipeline_resolves_groups_witness :
    (exPipelineTwoGroups.CreatePipeline exMapOrder exTwoSetHeap exCreateInfo 9 0 (VK_SUCCESS, 31)
      (VK_SUCCESS, 32)).map
        (fun o => (o.res, groupFind o.pipeline.m_descriptorSetGroupMap 0,
          groupFind o.pipeline.m_descriptorSetGroupMap 1)) =
      some (AMF_OK, some { descriptorSetIndices := [0], descriptorSetHandles := [11] },
        some { descriptorSetIndices := [1], descriptorSetHandles := [12] }) ∧
    ∃ group, groupFind
        ((exPipelineTwoGroups.CreatePipeline exMapOrder exTwoSetHeap exCreateInfo 9 0
          (VK_SUCCESS, 31) (VK_SUCCESS, 32)).get rfl).pipeline.m_descriptorSetGroupMap 1 =
          some group ∧
      group.descriptorSetIndices = [1] ∧
      group.descriptorSetHandles.length = group.descriptorSetIndices.length ∧
      ∀ (s i : Nat), group.descriptorSetIndices[s]? = some i →
        group.descriptorSetHandles[s]? = some (exTwoSetHeap.GetDescriptorSet i) ∧
        i < exTwoSetHeap.GetDescriptorCount :=
  ⟨rfl,
    (CreatePipeline_resolves_groups exPipelineTwoGroups exMapOrder exTwoSetHeap exCreateInfo 9 0
      (VK_SUCCESS, 31) (VK_SUCCESS, 32)
      ((exPipelineTwoGroups.CreatePipeline exMapOrder exTwoSetHeap exCreateInfo 9 0
        (VK_SUCCESS, 31) (VK_SUCCESS, 32)).get rfl)
      (Option.some_get _).symm rfl).2.2 (by decide) 1
      { descriptorSetIndices := [1], descriptorSetHandles := [] } rfl⟩

/-- Counterexample to C28 as stated: on the example pipeline, whose slot 0 of
group 0 holds set 0 and which has no group 1, a registration of set 0 into slot
0 of groups 1 and 0 returns `AMF_INVALID_ARG` at group 0, after it has appended
the layout and has created group 1 with the set in its slot 0. -/
theorem failing_Register_changes_pipeline :
    (exPipelineRegistered.RegisterDescriptorSet exRegisteredHeap 0 0 (some [1, 0]) 2).map
        (fun o => (o.res, o.pipeline.m_hDescriptorSetLayouts,
          groupFind o.pipeline.m_descriptorSetGroupMap 1,
          groupFind o.pipeline.m_descriptorSetGroupMap 0)) =
      some (AMF_INVALID_ARG, [21, 21],
        some { descriptorSetIndices := [0], descriptorSetHandles := [] },
        some { descriptorSetIndices := [0], descriptorSetHandles := [] }) ∧
    groupFind exPipelineRegistered.m_descriptorSetGroupMap 1 = none ∧
    groupFind exPipelineRegistered.m_descriptorSetGroupMap 0 =
      some { descriptorSetIndices := [0], descriptorSetHandles := [] } ∧
    exPipelineRegistered.m_hDescriptorSetLayouts = [21] :=
  ⟨rfl, rfl, rfl, rfl⟩

/-- Witness for C28 as amended: the registration of set 0 into slot 0 of the
groups 1 and 0 on the example pipeline fails at group 0, in front of which stands
group 1; a registration of set 5, for which the example registry has no layout,
leaves the example pipeline as it was. -/
theorem failing_Register_keeps_pipeline_unless_slot_occupied_witness :
    (∃ (pre : List Nat) (g : Nat) (post : List Nat),
      [1, 0].take 2 = pre ++ g :: post ∧
      (∃ cur, ((exPipelineRegistered.RegisterDescriptorSet exRegisteredHeap 0 0
          (some [1, 0]) 2).get rfl).pipeline.slot g 0 = some cur ∧ cur ≠ UINT32_MAX) ∧
      (∀ k ∈ pre, ((exPipelineRegistered.RegisterDescriptorSet exRegisteredHeap 0 0
          (some [1, 0]) 2).get rfl).pipeline.slot k 0 = some 0) ∧
      (∀ k, k ∉ pre →
        groupFind ((exPipelineRegistered.RegisterDescriptorSet exRegisteredHeap 0 0
          (some [1, 0]) 2).get rfl).pipeline.m_descriptorSetGroupMap k =
          groupFind exPipelineRegistered.m_descriptorSetGroupMap k)) ∧
    exPipelineRegistered.RegisterDescriptorSet exRegisteredHeap 5 1 (some [0]) 1 =
      some { res := AMF_UNEXPECTED, pipeline := exPipelineRegistered, calls := [] } :=
  ⟨((failing_Register_keeps_pipeline_unless_slot_occupied exPipelineRegistered exRegisteredHeap
      0 0 [1, 0] 2
      ((exPipelineRegistered.RegisterDescriptorSet exRegisteredHeap 0 0 (some [1, 0]) 2).get rfl)
      (by decide) (Option.some_get _).symm (by decide)).2.2 rfl).2,
    rfl⟩

/-- Counterexample to C29 as stated: the build of the example pipeline whose
slot 0 of group 0 is free fails with `AMF_OUT_OF_RANGE` while resolving the
groups; afterwards the render pass, the pipeline layout and the pipeline handle
are set, a bind of group 0 succeeds, and a second build is rejected with
`AMF_ALREADY_INITIALIZED`. -/
theorem failing_CreatePipeline_leaves_handles_set :
    (exPipelineFreeSlot.CreatePipeline exMapOrder exFinalizedHeap exCreateInfo 9 0 (VK_SUCCESS, 31)
      (VK_SUCCESS, 32)).map (fun o => (o.res, o.pipeline)) =
      some (AMF_OUT_OF_RANGE,
        { exPipelineFreeSlot with m_hRenderPass := 9, m_hPipelineLayout := 31,
                                  m_hPipeline := 32 }) ∧
    ({ exPipelineFreeSlot with m_hRenderPass := 9, m_hPipelineLayout := 31,
                               m_hPipeline := 32 } : RenderingPipelineVulkan).SetStates 6 0 =
      { res := AMF_OK,
        pipeline := { exPipelineFreeSlot with m_hRenderPass := 9, m_hPipelineLayout := 31,
                                              m_hPipeline := 32 },
        calls := [VkCall.vkCmdBindPipeline 6 32, VkCall.vkCmdBindDescriptorSets 6 31 0 []] } ∧
    (({ exPipelineFreeSlot with m_hRenderPass := 9, m_hPipelineLayout := 31,
                                m_hPipeline := 32 } : RenderingPipelineVulkan).CreatePipeline exMapOrder
      exFinalizedHeap exCreateInfo 9 0 (VK_SUCCESS, 33) (VK_SUCCESS, 34)).map (fun o => o.res) =
      some AMF_ALREADY_INITIALIZED :=
  ⟨rfl, rfl, rfl⟩

/-- Witness for C29 as amended: the build of the example pipeline in which the
driver fails to create the pipeline layout. -/
theorem failing_CreatePipeline_keeps_render_pass_witness :
    (exPipelineRegistered.CreatePipeline exMapOrder exFinalizedHeap exCreateInfo 9 0 (-1, NULL)
      (VK_SUCCESS, 32)).map (fun o => (o.res, o.pipeline)) =
      some (AMF_VULKAN_FAILED, { exPipelineRegistered with m_hRenderPass := 9 }) ∧
    ((exPipelineRegistered.CreatePipeline exMapOrder exFinalizedHeap exCreateInfo 9 0 (-1, NULL)
        (VK_SUCCESS, 32)).get (by decide)).pipeline.m_hRenderPass = 9 :=
  ⟨rfl,
    ((failing_CreatePipeline_keeps_render_pass exPipelineRegistered exMapOrder exFinalizedHeap exCreateInfo
      9 0 (-1, NULL) (VK_SUCCESS, 32)
      ((exPipelineRegistered.CreatePipeline exMapOrder exFinalizedHeap exCreateInfo 9 0 (-1, NULL)
        (VK_SUCCESS, 32)).get (by decide))
      (Option.some_get _).symm (by decide)).resolve_left (by decide)).2.2.1⟩

/-- Counterexample to C21 as stated: after the successful registrations of set 1
and then set 0 the layout list is `[22, 21]`, in call order and not in
ascending set-index order, and `CreatePipeline` creates the pipeline layout
from it; after two successful registrations of set 0 the layout list holds its
layout twice. -/
theorem pipeline_layouts_neither_sorted_nor_distinct :
    (exPipeline.registerAllOk exPipelineCallsDescending).map
        (fun q => q.m_hDescriptorSetLayouts) = some [22, 21] ∧
    ((exPipeline.registerAllOk exPipelineCallsDescending).bind
        (fun q => q.CreatePipeline exMapOrder exTwoSetHeap exCreateInfo 9 0 (VK_SUCCESS, 31)
          (VK_SUCCESS, 32))).map (fun o => (o.res, o.calls.head?)) =
      some (AMF_OK, some (VkCall.vkCreatePipelineLayout 7 [22, 21])) ∧
    (exPipeline.registerAllOk exPipelineCallsRepeated).map
        (fun q => q.m_hDescriptorSetLayouts) = some [21, 21] :=
  ⟨rfl, rfl, rfl⟩

/-- Witness for C21 as amended: the registrations of set 1 and then set 0, and
the build that follows. -/
theorem pipeline_layouts_in_call_order_witness :
    ((exPipeline.registerAllOk exPipelineCallsDescending).get rfl).m_hDescriptorSetLayouts =
      [] ++ [22, 21] :=
  (pipeline_layouts_in_call_order exPipeline
    ((exPipeline.registerAllOk exPipelineCallsDescending).get rfl) exMapOrder
    exPipelineCallsDescending
    exTwoSetHeap exCreateInfo 9 0 (VK_SUCCESS, 31) (VK_SUCCESS, 32)
    ((((exPipeline.registerAllOk exPipelineCallsDescending).get rfl).CreatePipeline exMapOrder exTwoSetHeap
      exCreateInfo 9 0 (VK_SUCCESS, 31) (VK_SUCCESS, 32)).get rfl)
    (Option.some_get _).symm (by decide) (Option.some_get _).symm (by decide)).1

/-- Counterexample for C27: after a registration of two bindings and a
`Terminate`, two bindings were passed to calls that got past validation, and
there is no pool-size entry. -/
theorem Terminate_drops_pool_sizes_of_earlier_calls :
    ∃ (h : DescriptorHeapVulkan) (t : RegisterTally),
      (DescriptorHeapVulkan.init (some exDevice)).runOps exEnv.contextTerminate
        { total := [], sinceTerminate := [] } exOpsRegisterTerminate = some (h, t) ∧
      t.total.length = 2 ∧ h.m_descriptorPoolSizes.length = 0 :=
  ⟨_, _, rfl, rfl, rfl⟩

/-- Witness for C27: the invariant at the end of `exOpsRegisterFinalize`. -/
theorem registry_pool_sizes_follow_registrations_witness :
    ∃ (h : DescriptorHeapVulkan) (t : RegisterTally),
      (DescriptorHeapVulkan.init (some exDevice)).runOps exEnv.contextTerminate
        { total := [], sinceTerminate := [] } exOpsRegisterFinalize = some (h, t) ∧
      t.sinceTerminate.length = 2 ∧ h.m_hDescriptorPool = 5 ∧
      ((h.m_descriptorPoolSizes ≠ [] → h.m_hDescriptorSetLayouts ≠ []) ∧
       h.m_descriptorPoolSizes = t.sinceTerminate.map poolSizeOf ∧
       h.m_descriptorPoolSizes.length = t.sinceTerminate.length ∧
       ∀ (poolResp : VkResult × Handle) (allocResp : VkResult × List Handle),
         (h.CreateDescriptors poolResp allocResp).res ≠ AMF_UNEXPECTED) :=
  ⟨_, _, rfl, rfl, rfl,
    registry_pool_sizes_follow_registrations exEnv.contextTerminate exDevice
      exOpsRegisterFinalize _ _ rfl⟩

/-- Witness for C24: on a registry whose descriptor sets are not allocated yet
the update fails with `AMF_NOT_INITIALIZED`; the buffer just created is
destroyed and that error is returned.  A call with binding size 0 does
nothing. -/
theorem CreateBufferForDescriptor_destroys_buffer_on_failed_update_witness :
    exInitEnv.AMFSucceeded AMF_OK = true ∧
    ((exPresenterNotFinalized.CreateBufferForDescriptor exInitEnv exWorld
        (some exViewProjectionDescriptor) 70 128 0 128 0
        exPresenterNotFinalized.m_viewProjectionBuffer).res = AMF_NOT_INITIALIZED ∧
     (exPresenterNotFinalized.CreateBufferForDescriptor exInitEnv exWorld
        (some exViewProjectionDescriptor) 70 128 0 128 0
        exPresenterNotFinalized.m_viewProjectionBuffer).trace =
        [Event.makeBuffer 128 16 6 AMF_OK { hBuffer := 71, hMemory := 72, iSize := 128 },
         Event.destroyBuffer { hBuffer := 71, hMemory := 72, iSize := 128 } AMF_OK] ∧
     (exPresenterNotFinalized.CreateBufferForDescriptor exInitEnv exWorld
        (some exViewProjectionDescriptor) 70 128 0 128 0
        exPresenterNotFinalized.m_viewProjectionBuffer).buffer =
        { hBuffer := NULL, hMemory := NULL, iSize := 0 }) ∧
    (exPresenterNotFinalized.CreateBufferForDescriptor exInitEnv exWorld
        (some exViewProjectionDescriptor) 70 128 0 0 0
        exPresenterNotFinalized.m_viewProjectionBuffer).trace = [] := by
  refine ⟨rfl, ?_, ?_⟩
  · rw [(CreateBufferForDescriptor_destroys_buffer_on_failed_update exInitEnv
      exPresenterNotFinalized exWorld (some exViewProjectionDescriptor) 70 128 0 128 0
      exPresenterNotFinalized.m_viewProjectionBuffer rfl).2 exViewProjectionDescriptor rfl
      (by decide) (by decide) (by decide) (by decide) _ rfl rfl _ rfl rfl]
    exact ⟨rfl, rfl, rfl⟩
  · exact ((CreateBufferForDescriptor_destroys_buffer_on_failed_update exInitEnv
      exPresenterNotFinalized exWorld (some exViewProjectionDescriptor) 70 128 0 0 0
      exPresenterNotFinalized.m_viewProjectionBuffer rfl).1 (Or.inr (Or.inr (Or.inl rfl)))).2.1

/-- Witness for C26: the render step of the example presenter on surface 50
into back buffer 1 records the draw; its fifteen calls are in the order of the
theorem and the pending list is empty afterwards. -/
theorem BitBltRender_effects_in_order_witness :
    ∃ out : PresenterOut PoolWorld,
      exPresenter.BitBltRender exEnv exWorld (some 50) (some 1) [] = some out ∧
      out.trace.any Event.isDraw = true ∧ out.trace ++ [Event.renderSurface AMF_OK] = exRenderTrace ∧
      out.st.m_descriptorHeap.m_pendingDescriptorUpdates = [] := by
  refine ⟨(exPresenter.BitBltRender exEnv exWorld (some 50) (some 1) []).get rfl,
    (Option.some_get _).symm, rfl, rfl, ?_⟩
  obtain ⟨_, _, _, _, _, _, _, _, _, _, _, _, _, _, _, _, _, _, _, _, _, _, _, _, _, _, _, _, _,
      _, hpending, _⟩ :=
    (BitBltRender_effects_in_order exEnv exPresenter exWorld 50 1 []
      ((exPresenter.BitBltRender exEnv exWorld (some 50) (some 1) []).get rfl)
      (fun x hx => decide_eq_false hx) rfl (Option.some_get _).symm).1 rfl
  exact hpending

end AMF
